import Mathlib

/-!
Verification development for the elliptic-curve cryptography core of the `pals`
repository: finite-field arithmetic (`finite_field.rs`), the elliptic-curve group
law and scalar multiplication (`elliptic_curve.rs`, `ecc.rs`), the secp256k1
instantiation with SEC encoding (`secp256k1.rs`), ECDSA (`ecdsa.rs`) and the
Provisions zero-knowledge layer (`provisions/*.rs`).

Rust `BigInt` values are embedded as `Int`; `mod_floor` with a positive modulus
is `Int.emod` (`%`); Rust's truncating `BigInt` division is `Int.tdiv`.
Fallible operations (Rust panics) are embedded as `Option`/`Except` results.
Loops are embedded as fuel-driven structural recursions whose fuel is derived
from the input, so that every definition is executable by the kernel.
-/

set_option maxRecDepth 8000000
set_option maxHeartbeats 40000000

namespace Pals

/-- Loop of `extended_euclidean_algorithm` in `finite_field.rs`: while `r != 0`,
compute `quotient = old_r / r` (truncating division, as for Rust `BigInt`) and
update each of the three pairs by `old -= quotient * cur; swap(old, cur)`.
The initial values mirror the source: `(old_s, s) = (1, 0)` and, as written
there (nonstandard but faithful), `(old_t, t) = (1, 0)`. -/
def eeaAux : Nat → Int → Int → Int → Int → Int → Int → Int × Int × Int
  | 0, old_r, _, old_s, _, old_t, _ => (old_r, old_s, old_t)
  | fuel+1, old_r, r, old_s, s, old_t, t =>
    if r = 0 then (old_r, old_s, old_t)
    else
      let q := Int.tdiv old_r r
      eeaAux fuel r (old_r - q * r) s (old_s - q * s) t (old_t - q * t)

/-- The function `extended_euclidean_algorithm(a, b)` of `finite_field.rs`,
returning `(gcd, x, y)`. Fuel `b.toNat + 1` bounds the Euclidean remainder
sequence, which starts at `r = b` and strictly decreases while nonnegative. -/
def extended_euclidean_algorithm (a b : Int) : Int × Int × Int :=
  eeaAux (b.toNat + 1) a b 1 0 1 0

/-- Binary modular exponentiation loop (accumulator form). Models
`num-bigint`'s `modpow`, which `FieldElement::pow` delegates to. -/
def powModAux : Nat → Nat → Nat → Nat → Nat → Nat
  | 0, _, _, acc, _ => acc
  | fuel+1, b, e, acc, m =>
    if e = 0 then acc
    else
      powModAux fuel (b * b % m) (e / 2) (if e % 2 = 1 then acc * b % m else acc) m

/-- Modular exponentiation `b ^ e % m`, models `BigInt::modpow` for
nonnegative base and exponent. -/
def powModNat (b e m : Nat) : Nat :=
  powModAux (e + 1) (b % m) e (1 % m) m

/-- The struct `FieldElement` of `finite_field.rs`: a value together with the
modulus `p` of its field. Rust's derived `PartialEq` compares both fields. -/
structure FieldElement where
  value : Int
  p : Int
deriving DecidableEq, Repr

namespace FieldElement

/-- The constructor `FieldElement::new`: the value is reduced with `mod_floor`. -/
def new (value p : Int) : FieldElement :=
  ⟨value % p, p⟩

/-- The method `FieldElement::inverse`. It runs the extended Euclidean
algorithm on `(value, p)`; the source panics (here: `none`) if the sanity
check `(value*x + p*y) mod p == gcd` fails or if `gcd != 1`. -/
def inverse (a : FieldElement) : Option FieldElement :=
  let r := extended_euclidean_algorithm a.value a.p
  if (a.value * r.2.1 + a.p * r.2.2) % a.p ≠ r.1 then none
  else if r.1 ≠ 1 then none
  else some (new r.2.1 a.p)

/-- The method `FieldElement::is_even` (`value & 1 == 0`; values are
nonnegative by the reduction invariant, so this is `value % 2 == 0`). -/
def is_even (a : FieldElement) : Bool :=
  a.value % 2 = 0

/-- The method `FieldElement::pow`, which is `value.modpow(n, p)` followed by
`FieldElement::new`. Exponent and base are nonnegative in every use site. -/
def pow (a : FieldElement) (n : Int) : FieldElement :=
  new (Int.ofNat (powModNat a.value.toNat n.toNat a.p.toNat)) a.p

/-- The method `FieldElement::sqrt`: `pow((p + 1) / 4)` (valid when
`p % 4 = 3`). -/
def sqrt (a : FieldElement) : FieldElement :=
  a.pow ((a.p + 1) / 4)

/-- The `Add` impls for `FieldElement`: `(self.value + rhs.value).mod_floor(rhs.p)`,
with the result living in `rhs`'s field. -/
def add (a b : FieldElement) : FieldElement :=
  ⟨(a.value + b.value) % b.p, b.p⟩

/-- The `Sub` impls for `FieldElement`: `(self.value - rhs.value).mod_floor(rhs.p)`. -/
def sub (a b : FieldElement) : FieldElement :=
  ⟨(a.value - b.value) % b.p, b.p⟩

/-- The `Neg` impl for `FieldElement`: `(-value).mod_floor(p)`. -/
def neg (a : FieldElement) : FieldElement :=
  ⟨(-a.value) % a.p, a.p⟩

/-- The `Mul` impls between two `FieldElement`s:
`(self.value * rhs.value).mod_floor(rhs.p)`. -/
def mul (a b : FieldElement) : FieldElement :=
  ⟨(a.value * b.value) % b.p, b.p⟩

/-- The `Mul<BigInt>` impls: `(self.value * rhs).mod_floor(self.p)`. -/
def mulInt (a : FieldElement) (n : Int) : FieldElement :=
  ⟨(a.value * n) % a.p, a.p⟩

/-- The `Div` impl: `self * rhs.inverse()`; `none` when the inverse panics. -/
def div (a b : FieldElement) : Option FieldElement :=
  b.inverse.map fun bi => a.mul bi

end FieldElement

/-- Decidable equality for `Except` results (needed to evaluate decoder
outputs by `decide`). -/
instance {e a : Type} [DecidableEq e] [DecidableEq a] : DecidableEq (Except e a) := fun x y =>
  match x, y with
  | .ok u, .ok v =>
    if h : u = v then isTrue (by rw [h]) else isFalse (by intro hh; cases hh; exact h rfl)
  | .error u, .error v =>
    if h : u = v then isTrue (by rw [h]) else isFalse (by intro hh; cases hh; exact h rfl)
  | .ok _, .error _ => isFalse (by intro hh; cases hh)
  | .error _, .ok _ => isFalse (by intro hh; cases hh)

/-- The enum `Point` of `elliptic_curve.rs`. -/
inductive Point where
  | infinity
  | coordinate (x y : FieldElement)
deriving DecidableEq, Repr

namespace Point

/-- The method `Point::inverse`: negate the `y` coordinate. -/
def inverse : Point → Point
  | .infinity => .infinity
  | .coordinate x y => .coordinate x y.neg

/-- The method `Point::is_infinity`. -/
def is_infinity (p : Point) : Bool :=
  p = infinity

end Point

/-- The struct `FiniteCurve` of `elliptic_curve.rs`: coefficients `a`, `b` as
field elements, together with the field (represented by its modulus `p`). -/
structure FiniteCurve where
  a : FieldElement
  b : FieldElement
  p : Int
deriving DecidableEq, Repr

/-- The constructor `FiniteCurve::new`. -/
def FiniteCurve.new (a b p : Int) : FiniteCurve :=
  ⟨FieldElement.new a p, FieldElement.new b p, p⟩

/-- The method `FiniteCurve::field_elem`. -/
def FiniteCurve.field_elem (c : FiniteCurve) (n : Int) : FieldElement :=
  FieldElement.new n c.p

/-- The method `FiniteCurve::point`: builds a coordinate point from raw
integers without verifying the curve equation (the source carries a
`TODO: Verify point on curve`). -/
def FiniteCurve.point (c : FiniteCurve) (x y : Int) : Point :=
  Point.coordinate (c.field_elem x) (c.field_elem y)

/-- The method `Point::add` of `elliptic_curve.rs` (its body is textually
identical to `FiniteCurve::add`). Notable faithful details: the doubling
branch is guarded by `x_p == x_q && y_p == y_p` (the second conjunct is a
source typo and always true), and the final `y` is computed from the second
operand as `y_r = y_q + m * (x_r - x_q)`, returning `(x_r, -y_r)`.
`none` models a panic inside a field inversion. -/
def Point.add (p q : Point) (c : FiniteCurve) : Option Point :=
  if p = q.inverse then some .infinity
  else
    match p, q with
    | .infinity, _ => some q
    | _, .infinity => some p
    | .coordinate x_p y_p, .coordinate x_q y_q =>
      let mo : Option FieldElement :=
        if x_p = x_q ∧ y_p = y_p then
          ((x_p.mul x_p).mulInt 3 |>.add c.a).div (y_p.mulInt 2)
        else
          (y_p.sub y_q).div (x_p.sub x_q)
      match mo with
      | none => none
      | some m =>
        let x_r := ((m.mul m).sub x_p).sub x_q
        let y_r := y_q.add (m.mul (x_r.sub x_q))
        some (.coordinate x_r y_r.neg)

/-- The method `FiniteCurve::add`, whose body is textually identical to
`Point::add` with `self` as the curve. -/
def FiniteCurve.add (c : FiniteCurve) (p q : Point) : Option Point :=
  Point.add p q c

/-- Loop of `Point::mul` (double-and-add): while `coeff > 0`, if the low bit
is set then `result = result.add(&current)`, then always
`current = current.add(&current)` and `coeff >>= 1`. -/
def pmulAux (c : FiniteCurve) : Nat → Int → Point → Point → Option Point
  | 0, _, _, result => some result
  | fuel+1, coeff, current, result =>
    if coeff > 0 then
      match (if coeff % 2 ≠ 0 then Point.add result current c else some result) with
      | none => none
      | some result' =>
        match Point.add current current c with
        | none => none
        | some current' => pmulAux c fuel (coeff / 2) current' result'
    else some result

/-- The method `Point::mul`: the coefficient is first reduced with
`mod_floor` by the prime of the curve's coordinate field (this is how the
source handles negative scalars), then the double-and-add loop runs. -/
def Point.mul (p : Point) (n : Int) (c : FiniteCurve) : Option Point :=
  pmulAux c ((n % c.p).toNat + 1) (n % c.p) p .infinity

/-- Loop of `FiniteCurve::mul`: while `coeff > 0`, if `coeff % 2 != 0` then
`result = self.add(&current, &result)` (current first), then
`current = self.add(&current, &current)` and `coeff >>= 1`. -/
def fcmulAux (c : FiniteCurve) : Nat → Int → Point → Point → Option Point
  | 0, _, _, result => some result
  | fuel+1, coeff, current, result =>
    if coeff > 0 then
      match (if coeff % 2 ≠ 0 then c.add current result else some result) with
      | none => none
      | some result' =>
        match c.add current current with
        | none => none
        | some current' => fcmulAux c fuel (coeff / 2) current' result'
    else some result

/-- The method `FiniteCurve::mul`: panics (`none`) on a negative scalar and
performs no modular reduction of the scalar. -/
def FiniteCurve.mul (c : FiniteCurve) (p : Point) (n : Int) : Option Point :=
  if n < 0 then none
  else fcmulAux c (n.toNat + 1) n p .infinity

/-- The method `FiniteCurve::is_valid_point`: evaluate the curve equation
`y^2 == x^3 + a*x + b`; `Infinity` is not a valid point. -/
def FiniteCurve.is_valid_point (c : FiniteCurve) (p : Point) : Bool :=
  match p with
  | .infinity => false
  | .coordinate x y =>
    y.pow 2 = ((x.pow 3).add (c.a.mul x)).add c.b

/-- The method `FiniteCurve::solve_y`: compute `sqrt(x^3 + a*x + b)` (the
cube is an integer power reduced on entry into the field) and select the
even or odd root according to the flag. -/
def FiniteCurve.solve_y (c : FiniteCurve) (x : Int) (is_even : Bool) : FieldElement :=
  let x_3 := c.field_elem (x ^ 3)
  let rhs := (x_3.add (c.a.mulInt x)).add c.b
  let y := rhs.sqrt
  let even_beta := if y.is_even then y else c.field_elem (c.p - y.value)
  let odd_beta := if y.is_even then c.field_elem (c.p - y.value) else y
  if is_even then even_beta else odd_beta

/-- The function `naive_mul` of `ecc.rs` (`Curve::naive_mul`): `n`-fold
repeated addition `r = self.add(r, p)` starting from `Infinity`. The generic
slope/intersection formulas of `ecc.rs`'s `Curve::<T>::add` are textually
identical to `FiniteCurve::add`, so it is instantiated here at the
field-element point type. -/
def naive_mul (c : FiniteCurve) (p : Point) : Nat → Option Point
  | 0 => some .infinity
  | k+1 =>
    match naive_mul c p k with
    | none => none
    | some r => c.add r p

/-- Big-endian 32-byte encoding of a (nonnegative, below `2^256`) integer.
Modelled from the spec: the two-argument `bigint_to_bytes32_be` called by
`elliptic_curve.rs` is not in the `src` snapshot (`util.rs` has an older
one-argument version); the spec fixes the format as `x` as a 32-byte
big-endian value. -/
def bytes32BE (v : Int) : List Nat :=
  (List.range 32).map fun i => v.toNat / 256 ^ (31 - i) % 256

/-- Big-endian interpretation of bytes as an integer
(`BigInt::from_bytes_be(Sign::Plus, bytes)`). -/
def bytesToInt (l : List Nat) : Int :=
  l.foldl (fun (acc : Int) (d : Nat) => acc * 256 + (d : Int)) 0

/-- The method `as_sec` of `impl Sec for Point`: `none` models the panic on
`Infinity`; otherwise `0x04 || x || y` with 32-byte big-endian coordinates. -/
def Point.as_sec : Point → Option (List Nat)
  | .infinity => none
  | .coordinate x y => some (4 :: (bytes32BE x.value ++ bytes32BE y.value))

/-- The method `as_sec_compressed`: `0x02` when `y` is even, `0x03` when odd,
followed by the 32-byte big-endian `x`. -/
def Point.as_sec_compressed : Point → Option (List Nat)
  | .infinity => none
  | .coordinate x y =>
    some ((if y.is_even then 2 else 3) :: bytes32BE x.value)

/-- The method `from_sec`: dispatch on the first byte. Prefixes 2 and 3
recover `y` by `solve_y` from all remaining bytes; prefix 4 requires at
least 65 bytes and reads two 32-byte coordinates; other prefixes are an
encoding error. The decoded coordinates are passed to `FiniteCurve::point`,
which does not validate the curve equation. The outer `Option` models the
Rust panic of indexing `bytes[0]` on empty input. -/
def Point.from_sec (bytes : List Nat) (c : FiniteCurve) : Option (Except String Point) :=
  match bytes with
  | [] => none
  | b0 :: rest =>
    match b0 with
    | 2 =>
      let x := bytesToInt rest
      some (.ok (c.point x (c.solve_y x true).value))
    | 3 =>
      let x := bytesToInt rest
      some (.ok (c.point x (c.solve_y x false).value))
    | 4 =>
      if bytes.length < 65 then some (.error "Not enough bytes. Expected at least 65")
      else
        let x := bytesToInt (rest.take 32)
        let y := bytesToInt ((rest.drop 32).take 32)
        some (.ok (c.point x y))
    | b => some (.error ("Invalid " ++ "pre" ++ "fix: " ++ toString b))

/-- The constant `Secp256k1::p()`. -/
def secp_pI : Int := 0xfffffffffffffffffffffffffffffffffffffffffffffffffffffffefffffc2f

/-- The constant `Secp256k1::n()`. -/
def secp_nI : Int := 0xfffffffffffffffffffffffffffffffebaaedce6af48a03bbfd25e8cd0364141

/-- The generator x-coordinate from `Secp256k1::new`. -/
def secp_gx : Int := 0x79be667ef9dcbbac55a06295ce870b07029bfcdb2dce28d959f2815b16f81798

/-- The generator y-coordinate from `Secp256k1::new`. -/
def secp_gy : Int := 0x483ada7726a3c4655da4fbfc0e1108a8fd17b448a68554199c47d08ffb10d4b8

/-- The struct `Secp256k1` of `secp256k1.rs`: the finite curve, the base
point `g`, and the subgroup field (represented by its modulus `n`). -/
structure Secp256k1 where
  curve : FiniteCurve
  g : Point
  subgroup_p : Int
deriving DecidableEq, Repr

namespace Secp256k1

/-- The constructor `Secp256k1::new` with the fixed curve constants. -/
def new : Secp256k1 :=
  { curve := FiniteCurve.new 0 7 secp_pI
    g := (FiniteCurve.new 0 7 secp_pI).point secp_gx secp_gy
    subgroup_p := secp_nI }

/-- The method `Secp256k1::pubkey`: `self.curve.mul(&self.g, private_key)`
(this is `FiniteCurve::mul`, present in the `src` snapshot). -/
def pubkey (c : Secp256k1) (private_key : Int) : Option Point :=
  c.curve.mul c.g private_key

/-- The method `Secp256k1::field_elem`. -/
def field_elem (c : Secp256k1) (n : Int) : FieldElement :=
  c.curve.field_elem n

/-- The method `Secp256k1::subgroup_field_elem`. -/
def subgroup_field_elem (c : Secp256k1) (n : Int) : FieldElement :=
  FieldElement.new n c.subgroup_p

/-- Modelled from the spec: `Secp256k1::mul` is called by the Provisions
layer but missing from the `src` snapshot. The spec and the in-source
`Mul` operator implementation for secp256k1 points route point-by-scalar
multiplication through `Point::mul` on the secp256k1 curve (which reduces
the scalar with `mod_floor` by the field prime). -/
def mul (c : Secp256k1) (p : Point) (n : Int) : Option Point :=
  Point.mul p n c.curve

/-- Modelled from the spec: `Secp256k1::mul_g(scalar)` is declared by the
spec as a convenience for `mul(G, scalar)`; it is missing from the `src`
snapshot. -/
def mul_g (c : Secp256k1) (n : Int) : Option Point :=
  c.mul c.g n

/-- Modelled from the spec: `Secp256k1::add` is called by the Provisions
layer but missing from the `src` snapshot. The in-source `Add` operator
implementation for secp256k1 points routes through `Point::add` on the
secp256k1 curve. -/
def add (c : Secp256k1) (p q : Point) : Option Point :=
  Point.add p q c.curve

/-- Modelled from the spec: `Secp256k1::order()` is called by the
Provisions layer but missing from the `src` snapshot; the spec names `n`
as the subgroup order. -/
def order : Int := secp_nI

/-- The method `Secp256k1::is_valid_point`. -/
def is_valid_point (c : Secp256k1) (p : Point) : Bool :=
  c.curve.is_valid_point p

/-- The method `Secp256k1::hash_onto_curve`, parametrized by the already
hashed value. Modelled from the spec in one respect: `util::sha256_bigint`
is missing from the `src` snapshot, so the SHA-256 output (interpreted as a
big-endian integer) is taken as the argument `hval`. The body mirrors the
source: `x = field_elem(hval)`, `rhs = x.pow(2) * (a + x) + b`,
`y = rhs.sqrt()`, and a final on-curve assertion that panics (`none`) if the
square root does not exist. -/
def hash_onto_curve_hashed (c : Secp256k1) (hval : Int) : Option Point :=
  let x := c.field_elem hval
  let rhs := ((x.pow 2).mul (c.curve.a.add x)).add c.curve.b
  let y := rhs.sqrt
  let ec_point := c.curve.point x.value y.value
  if c.is_valid_point ec_point then some ec_point else none

end Secp256k1

/-- The struct `Sig` of `ecdsa.rs`. -/
structure Sig where
  z : FieldElement
  r : FieldElement
  s : FieldElement
deriving DecidableEq, Repr

/-- The struct `Signer` of `ecdsa.rs`. -/
structure Signer where
  curve : Secp256k1

namespace Signer

/-- The constructor `Signer::new`. -/
def new : Signer := ⟨Secp256k1.new⟩

/-- The method `Signer::elem`: an element of the subgroup field. -/
def elem (s : Signer) (n : Int) : FieldElement :=
  s.curve.subgroup_field_elem n

/-- The method `Signer::compute_r`: panics (`none`) if the point is
`Infinity` or if `x mod n` is zero. -/
def compute_r (sg : Signer) (p : Point) : Option FieldElement :=
  match p with
  | .infinity => none
  | .coordinate x _ =>
    let r := sg.elem x.value
    if r.value = 0 then none else some r

/-- The method `Signer::sign`: `R = k*G`, `r = R.x mod n`,
`s = k⁻¹ * (z + r * privkey) mod n`; panics (`none`) when `r = 0`, when `k`
has no inverse modulo `n`, or when `s = 0`. -/
def sign (sg : Signer) (z k privkey : Int) : Option Sig :=
  match sg.curve.mul_g k with
  | none => none
  | some p =>
    match sg.compute_r p with
    | none => none
    | some r =>
      let ke := sg.elem k
      let ze := sg.elem z
      let pe := sg.elem privkey
      match ke.inverse with
      | none => none
      | some ki =>
        let sv := ki.mul (ze.add (r.mul pe))
        if sv.value = 0 then none else some ⟨ze, r, sv⟩

/-- The method `Signer::verify`: `u1 = s⁻¹*z`, `u2 = s⁻¹*r`,
`P = u1*G + u2*pubkey`, valid iff `r == P.x mod n`; `none` models the panics
(inverse failure, `P = Infinity`, or `P.x mod n = 0` inside `compute_r`). -/
def verify (sg : Signer) (sig : Sig) (pubkey : Point) : Option Bool :=
  match sig.s.inverse with
  | none => none
  | some s_inv =>
    let u_1 := s_inv.mul sig.z
    let u_2 := s_inv.mul sig.r
    match sg.curve.mul_g u_1.value with
    | none => none
    | some p1 =>
      match Point.mul pubkey u_2.value sg.curve.curve with
      | none => none
      | some p2 =>
        match Point.add p1 p2 sg.curve.curve with
        | none => none
        | some p =>
          match sg.compute_r p with
          | none => none
          | some computed_r => some (sig.r = computed_r)

end Signer

/-- The struct `PedersenCommitment` of `provisions/binary_commitment.rs`. -/
structure PedersenCommitment where
  g : Point
  h : Point
  l : Point
deriving DecidableEq, Repr

/-- The associated function `PedersenCommitment::create_commitment`:
`l = g * value + h * blinding_factor` using the secp256k1 point operators
(`Point::mul` and `Point::add`); `none` models a panic inside the point
addition. -/
def PedersenCommitment.create_commitment (g h : Point) (c : Secp256k1)
    (value blinding_factor : Int) : Option PedersenCommitment :=
  let g_base := Point.mul g value c.curve
  let h_base := Point.mul h blinding_factor c.curve
  match g_base, h_base with
  | some gb, some hb =>
    match Point.add gb hb c.curve with
    | none => none
    | some l => some ⟨g, h, l⟩
  | _, _ => none

/-- The struct `ProvisionsCurve` of `provisions/proof_of_assets.rs`. -/
structure ProvisionsCurve where
  curve : Secp256k1
  h : Point
deriving DecidableEq, Repr

/-- The constant `provisions_sha256` hard-coded in `ProvisionsCurve::new`
(the source comments describe it as the SHA-256 hash of the string
"Provisions"). -/
def provisions_sha256 : Int :=
  0x7982ad72bd36e6f2a1b65cc0f14a1610c7822a6d1efff818ab95a3ba1793847f

namespace ProvisionsCurve

/-- The constructor `ProvisionsCurve::new`: the second generator is
`h = curve.mul_g(provisions_sha256)` — a scalar multiple of `G` by the
hard-coded constant (the source notes in a TODO that this breaks the
zero-knowledge property). -/
def new : Option ProvisionsCurve :=
  (Secp256k1.new.mul_g provisions_sha256).map fun h => ⟨Secp256k1.new, h⟩

/-- The method `ProvisionsCurve::mul`. -/
def mul (c : ProvisionsCurve) (p : Point) (n : Int) : Option Point :=
  c.curve.mul p n

/-- The method `ProvisionsCurve::mul_g`. -/
def mul_g (c : ProvisionsCurve) (n : Int) : Option Point :=
  c.curve.mul_g n

/-- The method `ProvisionsCurve::mul_h`. -/
def mul_h (c : ProvisionsCurve) (n : Int) : Option Point :=
  c.curve.mul c.h n

/-- The method `ProvisionsCurve::add`. -/
def add (c : ProvisionsCurve) (p q : Point) : Option Point :=
  c.curve.add p q

/-- The method `ProvisionsCurve::sub`: add the inverse. -/
def sub (c : ProvisionsCurve) (p q : Point) : Option Point :=
  c.curve.add p q.inverse

/-- The method `ProvisionsCurve::pubkey`. -/
def pubkey (c : ProvisionsCurve) (private_key : Int) : Option Point :=
  c.mul_g private_key

/-- The method `ProvisionsCurve::g`. -/
def g (c : ProvisionsCurve) : Point :=
  c.curve.g

end ProvisionsCurve

/-- The struct `PublicKey` of `provisions/proof_of_assets.rs`. -/
structure PublicKey where
  private_key : Option Int
  public_key : Point
  balance : Int

namespace PublicKey

/-- The method `PublicKey::y`. -/
def y (pk : PublicKey) : Point := pk.public_key

/-- The method `PublicKey::s`: 1 when the private key is known, else 0. -/
def s (pk : PublicKey) : Int :=
  match pk.private_key with
  | some _ => 1
  | none => 0

/-- The method `PublicKey::b`: `g^balance`. -/
def b (pk : PublicKey) (curve : ProvisionsCurve) : Option Point :=
  curve.mul_g pk.balance

/-- The method `PublicKey::x_hat`. -/
def x_hat (pk : PublicKey) : Int :=
  match pk.private_key with
  | some privk => privk
  | none => 0

/-- The method `PublicKey::commitment_with_v`: `p = b^s * h^v`. -/
def commitment_with_v (pk : PublicKey) (curve : ProvisionsCurve) (v : Int) :
    Option (Point × Int) :=
  match pk.b curve with
  | none => none
  | some bp =>
    match curve.mul bp pk.s, curve.mul_h v with
    | some bs, some hv =>
      (curve.add bs hv).map fun p => (p, v)
    | _, _ => none

/-- The method `PublicKey::l` with the random blinding `t` passed as an
argument: `l = y^s * h^t`. -/
def l (pk : PublicKey) (curve : ProvisionsCurve) (t : Int) :
    Option (Point × Int) :=
  match curve.mul pk.y pk.s, curve.mul_h t with
  | some ys, some ht =>
    (curve.add ys ht).map fun lp => (lp, t)
  | _, _ => none

end PublicKey

/-- The struct `ProverPublicKeyProof`. -/
structure ProverPublicKeyProof where
  y : Point
  b : Point
  p : Point
  v : Int
  l : Point
  t : Int
  s : Int
  x_hat : Int

/-- The struct `VerifierPublicKeyProof`. -/
structure VerifierPublicKeyProof where
  y : Point
  b : Point
  p : Point
  l : Point

/-- The struct `ProofOfAssets` (the public-key list plays no role in the
verified operations). -/
structure ProofOfAssets where
  curve : ProvisionsCurve

namespace ProofOfAssets

/-- The method `ProofOfAssets::gen_pk_proof` with the random blinding
factors `v` and `t` passed as arguments. -/
def gen_pk_proof (poa : ProofOfAssets) (pk : PublicKey) (v t : Int) :
    Option (ProverPublicKeyProof × VerifierPublicKeyProof) :=
  match pk.b poa.curve with
  | none => none
  | some b =>
    match pk.commitment_with_v poa.curve v with
    | none => none
    | some (p, v) =>
      match pk.l poa.curve t with
      | none => none
      | some (l, t) =>
        some (⟨pk.y, b, p, v, l, t, pk.s, pk.x_hat⟩, ⟨pk.y, b, p, l⟩)

/-- The three verification equalities computed by
`ProofOfAssets::verify_pk_proof` (with the prover's random `u_1..u_4` and
the verifier's challenge `c` passed as arguments): the booleans
`p1 = (b^r_s * h^r_v == p^c * a_1)`, `p2 = (y^r_s * h^r_t == l^c * a_2)`,
`p3 = (g^r_x_hat * h^r_t == l^c * a_3)`, in the source's order of
computation. `none` models a panic inside a point operation. -/
def pk_proof_checks (poa : ProofOfAssets) (prover_proof : ProverPublicKeyProof)
    (verifier_proof : VerifierPublicKeyProof) (u_1 u_2 u_3 u_4 c : Int) :
    Option (Bool × Bool × Bool) :=
  let curve := poa.curve
  match curve.mul prover_proof.b u_1, curve.mul_h u_2 with
  | some bu, some hu2 =>
    match curve.add bu hu2 with
    | none => none
    | some a_1 =>
      match curve.mul prover_proof.y u_1, curve.mul_h u_3 with
      | some yu, some hu3 =>
        match curve.add yu hu3 with
        | none => none
        | some a_2 =>
          match curve.mul_g u_4, curve.mul_h u_3 with
          | some gu, some hu3' =>
            match curve.add gu hu3' with
            | none => none
            | some a_3 =>
              let r_s := u_1 + c * prover_proof.s
              let r_v := u_2 + c * prover_proof.v
              let r_t := u_3 + c * prover_proof.t
              let r_x_hat := u_4 + c * prover_proof.x_hat
              match curve.mul verifier_proof.b r_s, curve.mul_h r_v with
              | some br, some hr =>
                match curve.add br hr, curve.mul verifier_proof.p c with
                | some bh, some pc =>
                  match curve.add pc a_1 with
                  | none => none
                  | some pa1 =>
                    match curve.mul verifier_proof.y r_s, curve.mul_h r_t with
                    | some yr, some hrt =>
                      match curve.add yr hrt, curve.mul verifier_proof.l c with
                      | some yh, some lc =>
                        match curve.add lc a_2 with
                        | none => none
                        | some la2 =>
                          match curve.mul_g r_x_hat, curve.mul_h r_t with
                          | some gr, some hrt' =>
                            match curve.add gr hrt', curve.mul verifier_proof.l c with
                            | some gh, some lc' =>
                              match curve.add lc' a_3 with
                              | none => none
                              | some la3 =>
                                some (bh = pa1, yh = la2, gh = la3)
                            | _, _ => none
                          | _, _ => none
                      | _, _ => none
                    | _, _ => none
                | _, _ => none
              | _, _ => none
          | _, _ => none
      | _, _ => none
  | _, _ => none

/-- The method `ProofOfAssets::verify_pk_proof`: compute the three equation
booleans, then return `Ok(())` if all hold, and otherwise the first failing
part's named error, via the source's nested conditionals. -/
def verify_pk_proof (poa : ProofOfAssets) (prover_proof : ProverPublicKeyProof)
    (verifier_proof : VerifierPublicKeyProof) (u_1 u_2 u_3 u_4 c : Int) :
    Option (Except String Unit) :=
  (poa.pk_proof_checks prover_proof verifier_proof u_1 u_2 u_3 u_4 c).map
    fun (p1, p2, p3) =>
      if p1 then
        if p2 then
          if p3 then .ok ()
          else .error "Unable to verify proof part 3"
        else .error "Unable to verify proof part 2"
      else .error "Unable to verify proof part 1"

/-- The method `ProofOfAssets::verify_binary_commitment` (the final version
in `proof_of_assets.rs`), with the prover's random `u_0`, `u_1`, `c_f` and
the verifier's challenge `c` passed as arguments. The branch on
`has_privkey = (x == 1)` computes the simulated/real commitments and
responses exactly as the source does (only the `has_privkey` branch reduces
its scalars by `Secp256k1::order()`), then checks
`h^r_0 == a_0 * l^(c - c_1)` and `h^r_1 == a_1 * (l - g)^c_1`. -/
def verify_binary_commitment (poa : ProofOfAssets)
    (prover_proof : ProverPublicKeyProof) (verifier_proof : VerifierPublicKeyProof)
    (u_0 u_1 c_f c : Int) : Option (Except String Unit) :=
  let curve := poa.curve
  let x := prover_proof.s
  let yb := prover_proof.t
  let has_privkey := x = 1
  let q := Secp256k1.order
  let branch : Option (Point × Point × Int × Int × Int) :=
    if has_privkey then
      match curve.mul_h u_0, curve.mul_g c_f with
      | some h0, some gcf =>
        match curve.sub h0 gcf with
        | none => none
        | some a_0 =>
          match curve.mul_h u_1 with
          | none => none
          | some a_1 =>
            some (a_0, a_1, (c - c_f) % q, (u_0 - c_f * yb) % q,
              (u_1 + (c - c_f) * yb) % q)
      | _, _ => none
    else
      match curve.mul_h u_0 with
      | none => none
      | some a_0 =>
        match curve.mul_h u_1, curve.mul_g c_f with
        | some h1, some gcf =>
          match curve.add h1 gcf with
          | none => none
          | some a_1 =>
            some (a_0, a_1, c_f, u_0 + (c - c_f) * yb, u_1 + c_f * yb)
        | _, _ => none
  match branch with
  | none => none
  | some (a_0, a_1, c_1, r_0, r_1) =>
    let l := verifier_proof.l
    match curve.mul_h r_0, curve.mul l (c - c_1) with
    | some lhs1, some lc =>
      match curve.add a_0 lc with
      | none => none
      | some rhs1 =>
        match curve.mul_h r_1, curve.sub l curve.g with
        | some lhs2, some lg =>
          match curve.mul lg c_1 with
          | none => none
          | some lgc =>
            match curve.add a_1 lgc with
            | none => none
            | some rhs2 =>
              let p1 := lhs1 = rhs1
              let p2 := lhs2 = rhs2
              some (if p1 then
                      if p2 then .ok ()
                      else .error "Unable to verify proof part 2"
                    else .error "Unable to verify proof part 1")
        | _, _ => none
    | _, _ => none

end ProofOfAssets


/-! ## Bridge to the Mathlib Weierstrass-curve group -/

/-- The curve modulus as a natural number. -/
def FiniteCurve.pN (c : FiniteCurve) : Nat := c.p.toNat

/-- The Mathlib affine Weierstrass curve carried by an embedded curve:
`y^2 = x^3 + a*x + b` over `ZMod p`. -/
def FiniteCurve.toW (c : FiniteCurve) : WeierstrassCurve.Affine (ZMod c.pN) :=
  { a₁ := 0, a₂ := 0, a₃ := 0, a₄ := (c.a.value : ZMod c.pN), a₆ := (c.b.value : ZMod c.pN) }

/-- Well-formedness of a field element for modulus `P`: it carries `P` and its
value is reduced. This is the representation invariant of the Rust code. -/
def FieldElement.wf (a : FieldElement) (P : Int) : Prop :=
  a.p = P ∧ 0 ≤ a.value ∧ a.value < P

instance (a : FieldElement) (P : Int) : Decidable (a.wf P) := by
  unfold FieldElement.wf; infer_instance

/-- Well-formedness of a point: both coordinates well-formed (or infinity). -/
def Point.wf : Point → Int → Prop
  | .infinity, _ => True
  | .coordinate x y, P => x.wf P ∧ y.wf P

instance (P : Point) (v : Int) : Decidable (P.wf v) := by
  cases P
  · exact isTrue trivial
  · unfold Point.wf; infer_instance

/-- The point lies on `c.toW` and is nonsingular there (infinity allowed). -/
def Point.onW (c : FiniteCurve) : Point → Prop
  | .infinity => True
  | .coordinate x y => (c.toW).Nonsingular (x.value : ZMod c.pN) (y.value : ZMod c.pN)

/-- Interpretation of an embedded point as a Mathlib nonsingular point. -/
def Point.toM (c : FiniteCurve) : (P : Point) → P.onW c → (c.toW).Point
  | .infinity, _ => .zero
  | .coordinate _ _, h => .some h

/-! ## Helper lemmas -/

/-- The shape of a successful `FieldElement::inverse`: the result is
`FieldElement::new x p` for the Bezout coefficient `x`. -/
theorem FieldElement.inverse_eq_some {a r : FieldElement} (h : a.inverse = some r) :
    r = FieldElement.new (extended_euclidean_algorithm a.value a.p).2.1 a.p := by
  unfold FieldElement.inverse at h
  dsimp only at h
  split_ifs at h
  exact (Option.some.inj h).symm

/-- The first component of `eeaAux` is the gcd of the starting pair, for
nonnegative inputs and sufficient fuel. -/
theorem eeaAux_fst (fuel : Nat) :
    ∀ (old_r r s1 s2 t1 t2 : Int), 0 ≤ old_r → 0 ≤ r → r.toNat < fuel →
      (eeaAux fuel old_r r s1 s2 t1 t2).1 = ↑(Nat.gcd old_r.toNat r.toNat) := by
  induction fuel with
  | zero => intro _ _ _ _ _ _ _ _ h; omega
  | succ fuel ih =>
    intro old_r r s1 s2 t1 t2 h1 h2 hf
    unfold eeaAux
    by_cases hr : r = 0
    · subst hr
      simp [Int.natAbs_of_nonneg h1, Int.toNat_of_nonneg h1]
    · rw [if_neg hr]
      have hrpos : 0 < r := lt_of_le_of_ne h2 (Ne.symm hr)
      have htd : Int.tdiv old_r r = old_r / r := Int.tdiv_eq_ediv h1 h2
      have hrem : old_r - Int.tdiv old_r r * r = old_r % r := by
        rw [htd, Int.emod_def old_r r]
        ring
      dsimp only
      rw [hrem]
      have hm0 : 0 ≤ old_r % r := Int.emod_nonneg _ (ne_of_gt hrpos)
      have hmlt : old_r % r < r := Int.emod_lt_of_pos _ hrpos
      have hfuel' : (old_r % r).toNat < fuel := by omega
      rw [ih r (old_r % r) s2 (s1 - Int.tdiv old_r r * s2) t2 (t1 - Int.tdiv old_r r * t2)
        h2 hm0 hfuel']
      have hcast : (old_r % r).toNat = old_r.toNat % r.toNat := by
        have e1 : old_r % r = (↑(old_r.toNat % r.toNat) : Int) := by
          push_cast
          rw [Int.toNat_of_nonneg h1, Int.toNat_of_nonneg h2]
        rw [e1, Int.toNat_natCast]
      rw [hcast, Nat.gcd_comm r.toNat (old_r.toNat % r.toNat),
        ← Nat.gcd_rec r.toNat old_r.toNat, Nat.gcd_comm r.toNat old_r.toNat]

/-- Bezout-style invariant of the `s` component of `eeaAux`, modulo `M`:
if `a * old_s ≡ old_r` and `a * s ≡ r` then this equivalence persists to the
final `(gcd, x)` pair. -/
theorem eeaAux_bezout (M a : Int) (fuel : Nat) :
    ∀ (old_r r s1 s2 t1 t2 : Int),
      a * s1 ≡ old_r [ZMOD M] → a * s2 ≡ r [ZMOD M] →
      a * (eeaAux fuel old_r r s1 s2 t1 t2).2.1 ≡ (eeaAux fuel old_r r s1 s2 t1 t2).1 [ZMOD M] := by
  induction fuel with
  | zero => intro old_r r s1 s2 t1 t2 h1 _; exact h1
  | succ fuel ih =>
    intro old_r r s1 s2 t1 t2 h1 h2
    unfold eeaAux
    by_cases hr : r = 0
    · rw [if_pos hr]; exact h1
    · rw [if_neg hr]
      refine ih r (old_r - Int.tdiv old_r r * r) s2 (s1 - Int.tdiv old_r r * s2) t2
        (t1 - Int.tdiv old_r r * t2) h2 ?_
      have : a * (s1 - Int.tdiv old_r r * s2) =
          a * s1 - Int.tdiv old_r r * (a * s2) := by ring
      rw [this]
      exact h1.sub (h2.mul_left (Int.tdiv old_r r))

/-- `extended_euclidean_algorithm a b` returns the gcd in its first
component (for nonnegative inputs). -/
theorem eea_fst (a b : Int) (ha : 0 ≤ a) (hb : 0 ≤ b) :
    (extended_euclidean_algorithm a b).1 = ↑(Nat.gcd a.toNat b.toNat) :=
  eeaAux_fst (b.toNat + 1) a b 1 0 1 0 ha hb (by omega)

/-- The Bezout coefficient `x` of `extended_euclidean_algorithm a b`
satisfies `a * x ≡ gcd [ZMOD b]`. -/
theorem eea_bezout (a b : Int) :
    a * (extended_euclidean_algorithm a b).2.1 ≡ (extended_euclidean_algorithm a b).1 [ZMOD b] := by
  refine eeaAux_bezout b a (b.toNat + 1) a b 1 0 1 0 ?_ ?_
  · simp [Int.ModEq]
  · simp [Int.ModEq, Int.emod_emod_of_dvd]

/-- For a reduced element of a field with modulus `p > 1` whose value is
coprime to `p`, `FieldElement::inverse` succeeds, stays in the field, and
yields a genuine multiplicative inverse modulo `p`. -/
theorem inverse_some_of_coprime (a : FieldElement) (hp : 1 < a.p) (h0 : 0 ≤ a.value)
    (hc : Nat.gcd a.value.toNat a.p.toNat = 1) :
    ∃ r, a.inverse = some r ∧ (a.value * r.value) % a.p = 1 % a.p ∧ r.p = a.p ∧
      0 ≤ r.value ∧ r.value < a.p := by
  have hppos : (0 : Int) < a.p := by omega
  have hpne : a.p ≠ 0 := by omega
  have hg : (extended_euclidean_algorithm a.value a.p).1 = 1 := by
    rw [eea_fst a.value a.p h0 (le_of_lt hppos), hc]
    rfl
  have hbez := eea_bezout a.value a.p
  rw [hg] at hbez
  have hvx : (a.value * (extended_euclidean_algorithm a.value a.p).2.1) % a.p = 1 % a.p := hbez
  have hone : (1 : Int) % a.p = 1 := Int.emod_eq_of_lt (by omega) (by omega)
  refine ⟨FieldElement.new (extended_euclidean_algorithm a.value a.p).2.1 a.p, ?_, ?_, rfl,
    Int.emod_nonneg _ hpne, Int.emod_lt_of_pos _ hppos⟩
  · unfold FieldElement.inverse
    dsimp only
    rw [if_neg, if_neg]
    · rw [hg]; simp
    · rw [hg]
      have : (a.value * (extended_euclidean_algorithm a.value a.p).2.1 +
          a.p * (extended_euclidean_algorithm a.value a.p).2.2) % a.p =
          (a.value * (extended_euclidean_algorithm a.value a.p).2.1) % a.p := by
        rw [Int.add_mul_emod_self_left]
      rw [this, hvx, hone]
      simp
  · show (a.value * ((extended_euclidean_algorithm a.value a.p).2.1 % a.p)) % a.p = 1 % a.p
    rw [Int.mul_emod, Int.emod_emod_of_dvd _ dvd_rfl, ← Int.mul_emod]
    exact hvx

/-- Correctness of the binary modular exponentiation loop. -/
theorem powModAux_correct (fuel : Nat) :
    ∀ (b e acc m : Nat), 0 < m → acc < m → e < fuel →
      powModAux fuel b e acc m = acc * b ^ e % m := by
  induction fuel with
  | zero => intro _ e _ _ _ _ h; omega
  | succ fuel ih =>
    intro b e acc m hm hacc hf
    unfold powModAux
    by_cases he : e = 0
    · subst he
      simp [Nat.mod_eq_of_lt hacc]
    · rw [if_neg he]
      have he2 : e / 2 < fuel := by omega
      have hacc' : (if e % 2 = 1 then acc * b % m else acc) < m := by
        split <;> [exact Nat.mod_lt _ hm; exact hacc]
      rw [ih (b * b % m) (e / 2) _ m hm hacc' he2]
      by_cases hodd : e % 2 = 1
      · rw [if_pos hodd]
        have hmeq : acc * b % m * (b * b % m) ^ (e / 2) ≡
            acc * b * (b * b) ^ (e / 2) [MOD m] :=
          Nat.ModEq.mul (Nat.mod_modEq _ m) ((Nat.mod_modEq (b * b) m).pow _)
        rw [Nat.ModEq] at hmeq
        rw [hmeq]
        have hrw : e = 2 * (e / 2) + 1 := by omega
        conv_rhs => rw [hrw, pow_succ, pow_mul]
        rw [← pow_two b]
        ring_nf
      · rw [if_neg hodd]
        have hmeq : acc * (b * b % m) ^ (e / 2) ≡
            acc * (b * b) ^ (e / 2) [MOD m] :=
          Nat.ModEq.mul (Nat.ModEq.refl acc) ((Nat.mod_modEq (b * b) m).pow _)
        rw [Nat.ModEq] at hmeq
        rw [hmeq]
        have hrw : e = 2 * (e / 2) := by omega
        conv_rhs => rw [hrw, pow_mul]
        rw [← pow_two b]

/-- `powModNat b e m = b ^ e % m` for a positive modulus. -/
theorem powModNat_correct (b e m : Nat) (hm : 0 < m) :
    powModNat b e m = b ^ e % m := by
  unfold powModNat
  rw [powModAux_correct (e + 1) (b % m) e (1 % m) m hm (Nat.mod_lt _ hm) (by omega)]
  rw [Nat.mod_mul_mod, one_mul, ← Nat.pow_mod]

/-- Lucas primality from an explicit certificate: a generator `g` together
with a full prime factorization `l` of `n - 1`, with the two power conditions
checked by the executable `powModNat`. -/
theorem prime_of_lucas_cert (n g : Nat) (l : List Nat)
    (hn : 2 ≤ n)
    (hprod : l.prod = n - 1)
    (hl : ∀ q ∈ l, q.Prime)
    (hg : powModNat g (n - 1) n = 1)
    (hq : ∀ q ∈ l, powModNat g ((n - 1) / q) n ≠ 1) :
    n.Prime := by
  have hn0 : 0 < n := by omega
  haveI : NeZero n := ⟨by omega⟩
  haveI : Fact (1 < n) := ⟨by omega⟩
  have hcast : ∀ e : Nat, ((g : ZMod n)) ^ e = ((powModNat g e n : Nat) : ZMod n) := by
    intro e
    rw [powModNat_correct g e n hn0, ZMod.natCast_mod, Nat.cast_pow]
  apply lucas_primality n (g : ZMod n)
  · rw [hcast, hg, Nat.cast_one]
  · intro q hqp hdvd
    have hql : q ∈ l := by
      have : q ∣ l.prod := hprod ▸ hdvd
      rcases (Nat.Prime.prime hqp).dvd_prod_iff.mp this with ⟨a, hal, hqa⟩
      rwa [(Nat.prime_dvd_prime_iff_eq hqp (hl a hal)).mp hqa]
    intro heq
    rw [hcast] at heq
    have hlt : powModNat g ((n - 1) / q) n < n := by
      rw [powModNat_correct _ _ _ hn0]
      exact Nat.mod_lt _ hn0
    have hval : (((powModNat g ((n - 1) / q) n : Nat) : ZMod n)).val =
        ((1 : ZMod n)).val := by rw [heq]
    rw [ZMod.val_cast_of_lt hlt, ZMod.val_one n] at hval
    exact hq q hql hval

/-- Pratt/Lucas certificate: 16699 is prime (generator 3). -/
theorem prime_cert_16699 : Nat.Prime 16699 := by
  refine prime_of_lucas_cert 16699 3 [2, 3, 11, 11, 23] (by norm_num) (by decide) ?_ (by decide) ?_
  · intro q hql
    fin_cases hql
    · norm_num
    · norm_num
    · norm_num
    · norm_num
    · norm_num
  · intro q hql
    fin_cases hql <;> decide

/-- Pratt/Lucas certificate: 28181 is prime (generator 2). -/
theorem prime_cert_28181 : Nat.Prime 28181 := by
  refine prime_of_lucas_cert 28181 2 [2, 2, 5, 1409] (by norm_num) (by decide) ?_ (by decide) ?_
  · intro q hql
    fin_cases hql
    · norm_num
    · norm_num
    · norm_num
    · norm_num
  · intro q hql
    fin_cases hql <;> decide

/-- Pratt/Lucas certificate: 85831 is prime (generator 3). -/
theorem prime_cert_85831 : Nat.Prime 85831 := by
  refine prime_of_lucas_cert 85831 3 [2, 3, 5, 2861] (by norm_num) (by decide) ?_ (by decide) ?_
  · intro q hql
    fin_cases hql
    · norm_num
    · norm_num
    · norm_num
    · norm_num
  · intro q hql
    fin_cases hql <;> decide

/-- Pratt/Lucas certificate: 120233 is prime (generator 3). -/
theorem prime_cert_120233 : Nat.Prime 120233 := by
  refine prime_of_lucas_cert 120233 3 [2, 2, 2, 7, 19, 113] (by norm_num) (by decide) ?_ (by decide) ?_
  · intro q hql
    fin_cases hql
    · norm_num
    · norm_num
    · norm_num
    · norm_num
    · norm_num
    · norm_num
  · intro q hql
    fin_cases hql <;> decide

/-- Pratt/Lucas certificate: 305873 is prime (generator 3). -/
theorem prime_cert_305873 : Nat.Prime 305873 := by
  refine prime_of_lucas_cert 305873 3 [2, 2, 2, 2, 7, 2731] (by norm_num) (by decide) ?_ (by decide) ?_
  · intro q hql
    fin_cases hql
    · norm_num
    · norm_num
    · norm_num
    · norm_num
    · norm_num
    · norm_num
  · intro q hql
    fin_cases hql <;> decide

/-- Pratt/Lucas certificate: 1627771 is prime (generator 3). -/
theorem prime_cert_1627771 : Nat.Prime 1627771 := by
  refine prime_of_lucas_cert 1627771 3 [2, 3, 5, 29, 1871] (by norm_num) (by decide) ?_ (by decide) ?_
  · intro q hql
    fin_cases hql
    · norm_num
    · norm_num
    · norm_num
    · norm_num
    · norm_num
  · intro q hql
    fin_cases hql <;> decide

/-- Pratt/Lucas certificate: 4681609 is prime (generator 23). -/
theorem prime_cert_4681609 : Nat.Prime 4681609 := by
  refine prime_of_lucas_cert 4681609 23 [2, 2, 2, 3, 97, 2011] (by norm_num) (by decide) ?_ (by decide) ?_
  · intro q hql
    fin_cases hql
    · norm_num
    · norm_num
    · norm_num
    · norm_num
    · norm_num
    · norm_num
  · intro q hql
    fin_cases hql <;> decide

/-- Pratt/Lucas certificate: 44706919 is prime (generator 6). -/
theorem prime_cert_44706919 : Nat.Prime 44706919 := by
  refine prime_of_lucas_cert 44706919 6 [2, 3, 797, 9349] (by norm_num) (by decide) ?_ (by decide) ?_
  · intro q hql
    fin_cases hql
    · norm_num
    · norm_num
    · norm_num
    · norm_num
  · intro q hql
    fin_cases hql <;> decide

/-- Pratt/Lucas certificate: 545358713 is prime (generator 5). -/
theorem prime_cert_545358713 : Nat.Prime 545358713 := by
  refine prime_of_lucas_cert 545358713 5 [2, 2, 2, 41, 59, 28181] (by norm_num) (by decide) ?_ (by decide) ?_
  · intro q hql
    fin_cases hql
    · norm_num
    · norm_num
    · norm_num
    · norm_num
    · norm_num
    · exact prime_cert_28181
  · intro q hql
    fin_cases hql <;> decide

/-- Pratt/Lucas certificate: 297159362677 is prime (generator 2). -/
theorem prime_cert_297159362677 : Nat.Prime 297159362677 := by
  refine prime_of_lucas_cert 297159362677 2 [2, 2, 3, 3, 11, 461, 1627771] (by norm_num) (by decide) ?_ (by decide) ?_
  · intro q hql
    fin_cases hql
    · norm_num
    · norm_num
    · norm_num
    · norm_num
    · norm_num
    · norm_num
    · exact prime_cert_1627771
  · intro q hql
    fin_cases hql <;> decide

/-- Pratt/Lucas certificate: 107361793816595537 is prime (generator 3). -/
theorem prime_cert_107361793816595537 : Nat.Prime 107361793816595537 := by
  refine prime_of_lucas_cert 107361793816595537 3 [2, 2, 2, 2, 16699, 85831, 4681609] (by norm_num) (by decide) ?_ (by decide) ?_
  · intro q hql
    fin_cases hql
    · norm_num
    · norm_num
    · norm_num
    · norm_num
    · exact prime_cert_16699
    · exact prime_cert_85831
    · exact prime_cert_4681609
  · intro q hql
    fin_cases hql <;> decide

/-- Pratt/Lucas certificate: 174723607534414371449 is prime (generator 3). -/
theorem prime_cert_174723607534414371449 : Nat.Prime 174723607534414371449 := by
  refine prime_of_lucas_cert 174723607534414371449 3 [2, 2, 2, 17, 59, 4051, 120233, 44706919] (by norm_num) (by decide) ?_ (by decide) ?_
  · intro q hql
    fin_cases hql
    · norm_num
    · norm_num
    · norm_num
    · norm_num
    · norm_num
    · norm_num
    · exact prime_cert_120233
    · exact prime_cert_44706919
  · intro q hql
    fin_cases hql <;> decide

/-- Pratt/Lucas certificate: 29047611873442575647497758179 is prime (generator 2). -/
theorem prime_cert_29047611873442575647497758179 : Nat.Prime 29047611873442575647497758179 := by
  refine prime_of_lucas_cert 29047611873442575647497758179 2 [2, 293, 305873, 545358713, 297159362677] (by norm_num) (by decide) ?_ (by decide) ?_
  · intro q hql
    fin_cases hql
    · norm_num
    · norm_num
    · exact prime_cert_305873
    · exact prime_cert_545358713
    · exact prime_cert_297159362677
  · intro q hql
    fin_cases hql <;> decide

/-- Pratt/Lucas certificate: 341948486974166000522343609283189 is prime (generator 2). -/
theorem prime_cert_341948486974166000522343609283189 : Nat.Prime 341948486974166000522343609283189 := by
  refine prime_of_lucas_cert 341948486974166000522343609283189 2 [2, 2, 3, 3, 3, 109, 29047611873442575647497758179] (by norm_num) (by decide) ?_ (by decide) ?_
  · intro q hql
    fin_cases hql
    · norm_num
    · norm_num
    · norm_num
    · norm_num
    · norm_num
    · norm_num
    · exact prime_cert_29047611873442575647497758179
  · intro q hql
    fin_cases hql <;> decide

/-- Pratt/Lucas certificate: 115792089237316195423570985008687907852837564279074904382605163141518161494337 is prime (generator 7). -/
theorem secp_n_prime : Nat.Prime 115792089237316195423570985008687907852837564279074904382605163141518161494337 := by
  refine prime_of_lucas_cert 115792089237316195423570985008687907852837564279074904382605163141518161494337 7 [2, 2, 2, 2, 2, 2, 3, 149, 631, 107361793816595537, 174723607534414371449, 341948486974166000522343609283189] (by norm_num) (by decide) ?_ (by decide) ?_
  · intro q hql
    fin_cases hql
    · norm_num
    · norm_num
    · norm_num
    · norm_num
    · norm_num
    · norm_num
    · norm_num
    · norm_num
    · norm_num
    · exact prime_cert_107361793816595537
    · exact prime_cert_174723607534414371449
    · exact prime_cert_341948486974166000522343609283189
  · intro q hql
    fin_cases hql <;> decide


/-- Pratt/Lucas certificate: 13441 is prime (generator 11). -/
theorem prime_cert_13441 : Nat.Prime 13441 := by
  refine prime_of_lucas_cert 13441 11 [2, 2, 2, 2, 2, 2, 2, 3, 5, 7] (by norm_num) (by decide) ?_ (by decide) ?_
  · intro q hql
    fin_cases hql
    · norm_num
    · norm_num
    · norm_num
    · norm_num
    · norm_num
    · norm_num
    · norm_num
    · norm_num
    · norm_num
    · norm_num
  · intro q hql
    fin_cases hql <;> decide

/-- Pratt/Lucas certificate: 20113 is prime (generator 10). -/
theorem prime_cert_20113 : Nat.Prime 20113 := by
  refine prime_of_lucas_cert 20113 10 [2, 2, 2, 2, 3, 419] (by norm_num) (by decide) ?_ (by decide) ?_
  · intro q hql
    fin_cases hql
    · norm_num
    · norm_num
    · norm_num
    · norm_num
    · norm_num
    · norm_num
  · intro q hql
    fin_cases hql <;> decide

/-- Pratt/Lucas certificate: 24809 is prime (generator 6). -/
theorem prime_cert_24809 : Nat.Prime 24809 := by
  refine prime_of_lucas_cert 24809 6 [2, 2, 2, 7, 443] (by norm_num) (by decide) ?_ (by decide) ?_
  · intro q hql
    fin_cases hql
    · norm_num
    · norm_num
    · norm_num
    · norm_num
    · norm_num
  · intro q hql
    fin_cases hql <;> decide

/-- Pratt/Lucas certificate: 41201 is prime (generator 3). -/
theorem prime_cert_41201 : Nat.Prime 41201 := by
  refine prime_of_lucas_cert 41201 3 [2, 2, 2, 2, 5, 5, 103] (by norm_num) (by decide) ?_ (by decide) ?_
  · intro q hql
    fin_cases hql
    · norm_num
    · norm_num
    · norm_num
    · norm_num
    · norm_num
    · norm_num
    · norm_num
  · intro q hql
    fin_cases hql <;> decide

/-- Pratt/Lucas certificate: 96557 is prime (generator 2). -/
theorem prime_cert_96557 : Nat.Prime 96557 := by
  refine prime_of_lucas_cert 96557 2 [2, 2, 101, 239] (by norm_num) (by decide) ?_ (by decide) ?_
  · intro q hql
    fin_cases hql
    · norm_num
    · norm_num
    · norm_num
    · norm_num
  · intro q hql
    fin_cases hql <;> decide

/-- Pratt/Lucas certificate: 1206781 is prime (generator 10). -/
theorem prime_cert_1206781 : Nat.Prime 1206781 := by
  refine prime_of_lucas_cert 1206781 10 [2, 2, 3, 5, 20113] (by norm_num) (by decide) ?_ (by decide) ?_
  · intro q hql
    fin_cases hql
    · norm_num
    · norm_num
    · norm_num
    · norm_num
    · exact prime_cert_20113
  · intro q hql
    fin_cases hql <;> decide

/-- Pratt/Lucas certificate: 7240687 is prime (generator 3). -/
theorem prime_cert_7240687 : Nat.Prime 7240687 := by
  refine prime_of_lucas_cert 7240687 3 [2, 3, 1206781] (by norm_num) (by decide) ?_ (by decide) ?_
  · intro q hql
    fin_cases hql
    · norm_num
    · norm_num
    · exact prime_cert_1206781
  · intro q hql
    fin_cases hql <;> decide

/-- Pratt/Lucas certificate: 13331831 is prime (generator 13). -/
theorem prime_cert_13331831 : Nat.Prime 13331831 := by
  refine prime_of_lucas_cert 13331831 13 [2, 5, 971, 1373] (by norm_num) (by decide) ?_ (by decide) ?_
  · intro q hql
    fin_cases hql
    · norm_num
    · norm_num
    · norm_num
    · norm_num
  · intro q hql
    fin_cases hql <;> decide

/-- Pratt/Lucas certificate: 107590001 is prime (generator 3). -/
theorem prime_cert_107590001 : Nat.Prime 107590001 := by
  refine prime_of_lucas_cert 107590001 3 [2, 2, 2, 2, 5, 5, 5, 5, 7, 29, 53] (by norm_num) (by decide) ?_ (by decide) ?_
  · intro q hql
    fin_cases hql
    · norm_num
    · norm_num
    · norm_num
    · norm_num
    · norm_num
    · norm_num
    · norm_num
    · norm_num
    · norm_num
    · norm_num
    · norm_num
  · intro q hql
    fin_cases hql <;> decide

/-- Pratt/Lucas certificate: 173378833005251801 is prime (generator 6). -/
theorem prime_cert_173378833005251801 : Nat.Prime 173378833005251801 := by
  refine prime_of_lucas_cert 173378833005251801 6 [2, 2, 2, 5, 5, 2621, 24809, 13331831] (by norm_num) (by decide) ?_ (by decide) ?_
  · intro q hql
    fin_cases hql
    · norm_num
    · norm_num
    · norm_num
    · norm_num
    · norm_num
    · norm_num
    · exact prime_cert_24809
    · exact prime_cert_13331831
  · intro q hql
    fin_cases hql <;> decide

/-- Pratt/Lucas certificate: 22149492674086928081353 is prime (generator 5). -/
theorem prime_cert_22149492674086928081353 : Nat.Prime 22149492674086928081353 := by
  refine prime_of_lucas_cert 22149492674086928081353 5 [2, 2, 2, 3, 5323, 173378833005251801] (by norm_num) (by decide) ?_ (by decide) ?_
  · intro q hql
    fin_cases hql
    · norm_num
    · norm_num
    · norm_num
    · norm_num
    · norm_num
    · exact prime_cert_173378833005251801
  · intro q hql
    fin_cases hql <;> decide

/-- Pratt/Lucas certificate: 132896956044521568488119 is prime (generator 6). -/
theorem prime_cert_132896956044521568488119 : Nat.Prime 132896956044521568488119 := by
  refine prime_of_lucas_cert 132896956044521568488119 6 [2, 3, 22149492674086928081353] (by norm_num) (by decide) ?_ (by decide) ?_
  · intro q hql
    fin_cases hql
    · norm_num
    · norm_num
    · exact prime_cert_22149492674086928081353
  · intro q hql
    fin_cases hql <;> decide

/-- Pratt/Lucas certificate: 255515944373312847190720520512484175977 is prime (generator 3). -/
theorem prime_cert_255515944373312847190720520512484175977 : Nat.Prime 255515944373312847190720520512484175977 := by
  refine prime_of_lucas_cert 255515944373312847190720520512484175977 3 [2, 2, 2, 7, 7, 11, 1627, 2657, 4423, 41201, 96557, 7240687, 107590001] (by norm_num) (by decide) ?_ (by decide) ?_
  · intro q hql
    fin_cases hql
    · norm_num
    · norm_num
    · norm_num
    · norm_num
    · norm_num
    · norm_num
    · norm_num
    · norm_num
    · norm_num
    · exact prime_cert_41201
    · exact prime_cert_96557
    · exact prime_cert_7240687
    · exact prime_cert_107590001
  · intro q hql
    fin_cases hql <;> decide

/-- Pratt/Lucas certificate: 205115282021455665897114700593932402728804164701536103180137503955397371 is prime (generator 10). -/
theorem prime_cert_205115282021455665897114700593932402728804164701536103180137503955397371 : Nat.Prime 205115282021455665897114700593932402728804164701536103180137503955397371 := by
  refine prime_of_lucas_cert 205115282021455665897114700593932402728804164701536103180137503955397371 10 [2, 3, 5, 29, 29, 31, 7723, 132896956044521568488119, 255515944373312847190720520512484175977] (by norm_num) (by decide) ?_ (by decide) ?_
  · intro q hql
    fin_cases hql
    · norm_num
    · norm_num
    · norm_num
    · norm_num
    · norm_num
    · norm_num
    · norm_num
    · exact prime_cert_132896956044521568488119
    · exact prime_cert_255515944373312847190720520512484175977
  · intro q hql
    fin_cases hql <;> decide

/-- Pratt/Lucas certificate: 115792089237316195423570985008687907853269984665640564039457584007908834671663 is prime (generator 3). -/
theorem secp_p_prime : Nat.Prime 115792089237316195423570985008687907853269984665640564039457584007908834671663 := by
  refine prime_of_lucas_cert 115792089237316195423570985008687907853269984665640564039457584007908834671663 3 [2, 3, 7, 13441, 205115282021455665897114700593932402728804164701536103180137503955397371] (by norm_num) (by decide) ?_ (by decide) ?_
  · intro q hql
    fin_cases hql
    · norm_num
    · norm_num
    · norm_num
    · exact prime_cert_13441
    · exact prime_cert_205115282021455665897114700593932402728804164701536103180137503955397371
  · intro q hql
    fin_cases hql <;> decide


/-! ## Cast lemmas: embedded operations versus ZMod arithmetic -/

/-- Integer casts into `ZMod N` are injective on `[0, N)`. -/
theorem intCast_inj_of_lt {N : Nat} (hN : 0 < N) {a b : Int}
    (ha0 : 0 ≤ a) (haN : a < N) (hb0 : 0 ≤ b) (hbN : b < N)
    (h : (a : ZMod N) = (b : ZMod N)) : a = b := by
  have hm := (ZMod.intCast_eq_intCast_iff a b N).mp h
  unfold Int.ModEq at hm
  rwa [Int.emod_eq_of_lt ha0 haN, Int.emod_eq_of_lt hb0 hbN] at hm

/-- Cast of `FieldElement.new`. -/
theorem cast_new {N : Nat} (v : Int) :
    (((FieldElement.new v (N : Int)).value : Int) : ZMod N) = (v : ZMod N) := by
  unfold FieldElement.new
  exact ZMod.intCast_mod v N

/-- Cast of `FieldElement.add`. -/
theorem cast_add_fe {N : Nat} (a b : FieldElement) (hb : b.p = (N : Int)) :
    (((a.add b).value : Int) : ZMod N) = (a.value : ZMod N) + (b.value : ZMod N) := by
  unfold FieldElement.add
  rw [hb]
  rw [ZMod.intCast_mod]
  push_cast
  ring

/-- Cast of `FieldElement.sub`. -/
theorem cast_sub_fe {N : Nat} (a b : FieldElement) (hb : b.p = (N : Int)) :
    (((a.sub b).value : Int) : ZMod N) = (a.value : ZMod N) - (b.value : ZMod N) := by
  unfold FieldElement.sub
  rw [hb, ZMod.intCast_mod]
  push_cast
  ring

/-- Cast of `FieldElement.neg`. -/
theorem cast_neg_fe {N : Nat} (a : FieldElement) (ha : a.p = (N : Int)) :
    ((a.neg.value : Int) : ZMod N) = -(a.value : ZMod N) := by
  unfold FieldElement.neg
  rw [ha, ZMod.intCast_mod]
  push_cast
  ring

/-- Cast of `FieldElement.mul`. -/
theorem cast_mul_fe {N : Nat} (a b : FieldElement) (hb : b.p = (N : Int)) :
    (((a.mul b).value : Int) : ZMod N) = (a.value : ZMod N) * (b.value : ZMod N) := by
  unfold FieldElement.mul
  rw [hb, ZMod.intCast_mod]
  push_cast
  ring

/-- Cast of `FieldElement.mulInt`. -/
theorem cast_mulInt_fe {N : Nat} (a : FieldElement) (n : Int) (ha : a.p = (N : Int)) :
    (((a.mulInt n).value : Int) : ZMod N) = (a.value : ZMod N) * (n : ZMod N) := by
  unfold FieldElement.mulInt
  rw [ha, ZMod.intCast_mod]
  push_cast
  ring

/-- Cast of `FieldElement.pow` for a reduced base. -/
theorem cast_pow_fe {N : Nat} (a : FieldElement) (n : Int) (hN : 0 < N)
    (ha : a.p = (N : Int)) (ha0 : 0 ≤ a.value) :
    (((a.pow n).value : Int) : ZMod N) = (a.value : ZMod N) ^ n.toNat := by
  unfold FieldElement.pow FieldElement.new
  rw [ha]
  have htn : ((N : Int)).toNat = N := Int.toNat_natCast N
  rw [htn, ZMod.intCast_mod]
  rw [powModNat_correct _ _ _ hN]
  have h1 : (Int.ofNat (a.value.toNat ^ n.toNat % N) : Int) =
      ((a.value.toNat ^ n.toNat % N : Nat) : Int) := rfl
  rw [h1, Int.cast_natCast, ZMod.natCast_mod, Nat.cast_pow]
  congr 1
  rw [← Int.cast_natCast, Int.toNat_of_nonneg ha0]

/-- A reduced nonzero element of a prime field divides: `FieldElement.div`
succeeds, stays in the field, and computes field division in `ZMod N`
(stated multiplicatively to avoid needing the field instance in the
statement). -/
theorem div_bridge {N : Nat} (hN : N.Prime) (a b : FieldElement)
    (hbp : b.p = (N : Int)) (hb0 : 0 ≤ b.value) (hbN : b.value < N)
    (hbne : (b.value : ZMod N) ≠ 0) :
    ∃ w, a.div b = some w ∧ w.p = (N : Int) ∧ 0 ≤ w.value ∧ w.value < N ∧
      ((w.value : Int) : ZMod N) * (b.value : ZMod N) = (a.value : ZMod N) := by
  haveI := Fact.mk hN
  have hNpos : (0 : Int) < (N : Int) := by exact_mod_cast hN.pos
  have hb1 : (1 : Int) < b.p := by rw [hbp]; exact_mod_cast hN.one_lt
  have hgcd : Nat.gcd b.value.toNat b.p.toNat = 1 := by
    rw [hbp, Int.toNat_natCast, Nat.gcd_comm]
    refine (Nat.Prime.coprime_iff_not_dvd hN).mpr ?_
    intro hdvd
    have hvne : b.value ≠ 0 := by
      intro h0
      apply hbne
      rw [h0]
      exact Int.cast_zero
    have hlt : b.value.toNat < N := by omega
    have hne : b.value.toNat ≠ 0 := by omega
    have := Nat.le_of_dvd (by omega) hdvd
    omega
  obtain ⟨r, hinv, hmul, hrp, hr0, hrN⟩ := inverse_some_of_coprime b hb1 hb0 hgcd
  have hcast1 : ((b.value * r.value % b.p : Int) : ZMod N) =
      (((1 : Int) % b.p : Int) : ZMod N) := by rw [hmul]
  rw [hbp, ZMod.intCast_mod, ZMod.intCast_mod] at hcast1
  push_cast at hcast1
  refine ⟨a.mul r, ?_, ?_, ?_, ?_, ?_⟩
  · unfold FieldElement.div
    rw [hinv]
    rfl
  · show r.p = (N : Int)
    rw [hrp, hbp]
  · show 0 ≤ (a.value * r.value) % r.p
    rw [hrp, hbp]
    exact Int.emod_nonneg _ (ne_of_gt hNpos)
  · show (a.value * r.value) % r.p < (N : Int)
    rw [hrp, hbp]
    exact Int.emod_lt_of_pos _ hNpos
  · show (((a.value * r.value) % r.p : Int) : ZMod N) * (b.value : ZMod N) = (a.value : ZMod N)
    rw [hrp, hbp, ZMod.intCast_mod]
    push_cast
    linear_combination ((a.value : Int) : ZMod N) * hcast1

/-! ## Bridge helper lemmas -/

/-- Extensionality for embedded field elements. -/
theorem fe_ext {a b : FieldElement} (hv : a.value = b.value) (hp : a.p = b.p) : a = b := by
  cases a; cases b; cases hv; cases hp; rfl

/-- On our curves (`a₁ = a₃ = 0`), Mathlib's `negY` is plain negation. -/
theorem toW_negY (c : FiniteCurve) (x y : ZMod c.pN) : (c.toW).negY x y = -y := by
  simp [WeierstrassCurve.Affine.negY, FiniteCurve.toW]

/-- Equality of Mathlib `some` points from coordinate equalities. -/
theorem msome_congr {F : Type} [Field F] {W : WeierstrassCurve.Affine F}
    {x₁ y₁ x₂ y₂ : F} (h₁ : W.Nonsingular x₁ y₁) (h₂ : W.Nonsingular x₂ y₂)
    (hx : x₁ = x₂) (hy : y₁ = y₂) :
    WeierstrassCurve.Affine.Point.some h₁ = WeierstrassCurve.Affine.Point.some h₂ := by
  subst hx; subst hy; rfl

/-- The Weierstrass equation of `c.toW` in plain short form. -/
theorem toW_equation {c : FiniteCurve} {x y : ZMod c.pN}
    (h : (c.toW).Equation x y) :
    y ^ 2 = x ^ 3 + (c.a.value : ZMod c.pN) * x + (c.b.value : ZMod c.pN) := by
  have := (WeierstrassCurve.Affine.equation_iff _ x y).mp h
  simpa [FiniteCurve.toW] using this

/-- The code's inverse-branch condition in `Point::add` corresponds exactly
to Mathlib's negation condition. -/
theorem inverse_cond_iff {N : Nat} (hN : 0 < N) (xp yp xq yq : FieldElement)
    (hxp : xp.wf (N : Int)) (hyp : yp.wf (N : Int))
    (hxq : xq.wf (N : Int)) (hyq : yq.wf (N : Int)) :
    Point.coordinate xp yp = (Point.coordinate xq yq).inverse ↔
      ((xp.value : ZMod N) = (xq.value : ZMod N) ∧
        (yp.value : ZMod N) = -(yq.value : ZMod N)) := by
  unfold Point.inverse
  constructor
  · intro h
    injection h with hx hy
    constructor
    · rw [hx]
    · rw [hy, cast_neg_fe yq hyq.1]
  · rintro ⟨hx, hy⟩
    have hNi : (0 : Int) < (N : Int) := by exact_mod_cast hN
    have hxv : xp.value = xq.value :=
      intCast_inj_of_lt hN hxp.2.1 hxp.2.2 hxq.2.1 hxq.2.2 hx
    have hyv : yp.value = yq.neg.value := by
      refine intCast_inj_of_lt hN hyp.2.1 hyp.2.2 ?_ ?_ ?_
      · exact Int.emod_nonneg _ (by rw [hyq.1]; exact ne_of_gt hNi)
      · show (-yq.value) % yq.p < (N : Int)
        rw [hyq.1]
        exact Int.emod_lt_of_pos _ hNi
      · rw [cast_neg_fe yq hyq.1]
        exact hy
    have h1 : xp = xq := fe_ext hxv (by rw [hxp.1, hxq.1])
    have h2 : yp = yq.neg := fe_ext hyv (by rw [hyp.1]; show _ = yq.p; rw [hyq.1])
    rw [h1, h2]

/-! ## Addition-chain certificates: verifying scalar multiples of a point in
the Mathlib Weierstrass group from externally supplied slope hints, using
only modular multiplications. -/

/-- Equal residues cast to equal elements of `ZMod`. -/
theorem natMod_cast_eq (N : Nat) (u v : Nat) (h : u % N = v % N) :
    ((u : Nat) : ZMod N) = (v : ZMod N) := by
  rw [← ZMod.natCast_mod u N, ← ZMod.natCast_mod v N, h]

/-- A natural number with nonzero residue casts to a nonzero element. -/
theorem natMod_cast_ne (N : Nat) [NeZero N] (u : Nat) (h : u % N ≠ 0) :
    ((u : Nat) : ZMod N) ≠ 0 := by
  intro h0
  apply h
  rw [ZMod.natCast_zmod_eq_zero_iff_dvd] at h0
  rcases h0 with ⟨k, rfl⟩
  exact Nat.mul_mod_right N k

/-- Distinct residues cast to distinct elements of `ZMod`. -/
theorem natMod_cast_ne_of_ne (N : Nat) (u v : Nat) (h : u % N ≠ v % N) :
    ((u : Nat) : ZMod N) ≠ (v : ZMod N) := by
  intro h0
  exact h ((ZMod.natCast_eq_natCast_iff u v N).mp h0)

/-- Certified point doubling: from a tangent-slope hint `l` satisfying
`l * 2y₁ = 3x₁² + a₄` and result coordinates satisfying the tangent-line
relations (all as residue checks), the Mathlib group double of `(x₁, y₁)`
is `(x₃, y₃)`. -/
theorem cert_dbl (c : FiniteCurve) [hpf : Fact c.pN.Prime] (A x1 y1 l x3 y3 : Nat)
    (hA : ((c.a.value : Int) : ZMod c.pN) = ((A : Nat) : ZMod c.pN))
    (h1 : (c.toW).Nonsingular ((x1 : Nat) : ZMod c.pN) ((y1 : Nat) : ZMod c.pN))
    (hy : (y1 + y1) % c.pN ≠ 0)
    (hl : (l * (y1 + y1)) % c.pN = (3 * x1 * x1 + A) % c.pN)
    (hx3 : (x3 + x1 + x1) % c.pN = (l * l) % c.pN)
    (hy3 : (y3 + y1 + l * x3) % c.pN = (l * x1) % c.pN) :
    ∃ h3 : (c.toW).Nonsingular ((x3 : Nat) : ZMod c.pN) ((y3 : Nat) : ZMod c.pN),
      WeierstrassCurve.Affine.Point.some h1 + WeierstrassCurve.Affine.Point.some h1 =
        WeierstrassCurve.Affine.Point.some h3 := by
  haveI : NeZero c.pN := ⟨hpf.out.pos.ne'⟩
  have hy' : ((y1 : Nat) : ZMod c.pN) + ((y1 : Nat) : ZMod c.pN) ≠ 0 := by
    have h := natMod_cast_ne c.pN (y1 + y1) hy
    push_cast at h
    exact h
  have hyne : ((y1 : Nat) : ZMod c.pN) ≠
      (c.toW).negY ((x1 : Nat) : ZMod c.pN) ((y1 : Nat) : ZMod c.pN) := by
    rw [toW_negY]
    intro h
    apply hy'
    linear_combination h
  have hlz : ((l : Nat) : ZMod c.pN) * (((y1 : Nat) : ZMod c.pN) + ((y1 : Nat) : ZMod c.pN)) =
      3 * ((x1 : Nat) : ZMod c.pN) * ((x1 : Nat) : ZMod c.pN) + ((A : Nat) : ZMod c.pN) := by
    have h := natMod_cast_eq c.pN _ _ hl
    push_cast at h
    linear_combination h
  have hxz : ((x3 : Nat) : ZMod c.pN) + ((x1 : Nat) : ZMod c.pN) + ((x1 : Nat) : ZMod c.pN) =
      ((l : Nat) : ZMod c.pN) * ((l : Nat) : ZMod c.pN) := by
    have h := natMod_cast_eq c.pN _ _ hx3
    push_cast at h
    linear_combination h
  have hyz : ((y3 : Nat) : ZMod c.pN) + ((y1 : Nat) : ZMod c.pN) +
      ((l : Nat) : ZMod c.pN) * ((x3 : Nat) : ZMod c.pN) =
      ((l : Nat) : ZMod c.pN) * ((x1 : Nat) : ZMod c.pN) := by
    have h := natMod_cast_eq c.pN _ _ hy3
    push_cast at h
    linear_combination h
  have hdenne : ((y1 : Nat) : ZMod c.pN) -
      -((y1 : Nat) : ZMod c.pN) ≠ 0 := by
    intro h
    apply hy'
    linear_combination h
  have hL : (c.toW).slope ((x1 : Nat) : ZMod c.pN) ((x1 : Nat) : ZMod c.pN)
      ((y1 : Nat) : ZMod c.pN) ((y1 : Nat) : ZMod c.pN) = ((l : Nat) : ZMod c.pN) := by
    rw [WeierstrassCurve.Affine.slope_of_Y_ne rfl hyne, toW_negY]
    rw [div_eq_iff hdenne]
    simp only [FiniteCurve.toW]
    rw [hA]
    linear_combination -hlz
  have hxr : (c.toW).addX ((x1 : Nat) : ZMod c.pN) ((x1 : Nat) : ZMod c.pN)
      ((l : Nat) : ZMod c.pN) = ((x3 : Nat) : ZMod c.pN) := by
    simp only [WeierstrassCurve.Affine.addX, FiniteCurve.toW]
    linear_combination -hxz
  have hyr : (c.toW).addY ((x1 : Nat) : ZMod c.pN) ((x1 : Nat) : ZMod c.pN)
      ((y1 : Nat) : ZMod c.pN) ((l : Nat) : ZMod c.pN) = ((y3 : Nat) : ZMod c.pN) := by
    rw [WeierstrassCurve.Affine.addY, WeierstrassCurve.Affine.negAddY, toW_negY, hxr]
    linear_combination -hyz
  have hxy : ((x1 : Nat) : ZMod c.pN) = ((x1 : Nat) : ZMod c.pN) →
      ((y1 : Nat) : ZMod c.pN) ≠
        (c.toW).negY ((x1 : Nat) : ZMod c.pN) ((y1 : Nat) : ZMod c.pN) :=
    fun _ => hyne
  have hns := WeierstrassCurve.Affine.nonsingular_add h1 h1 hxy
  rw [hL, hxr, hyr] at hns
  refine ⟨hns, ?_⟩
  rw [WeierstrassCurve.Affine.Point.add_of_imp hxy]
  exact msome_congr _ _ (by rw [hL, hxr]) (by rw [hL, hyr])

/-- Certified point addition (distinct x-coordinates): from a chord-slope
hint `l` with `l * (x₁ - x₂) = y₁ - y₂` and result coordinates satisfying
the chord-line relations (as residue checks), the Mathlib group sum of
`(x₁, y₁)` and `(x₂, y₂)` is `(x₃, y₃)`. -/
theorem cert_add (c : FiniteCurve) [hpf : Fact c.pN.Prime] (x1 y1 x2 y2 l x3 y3 : Nat)
    (h1 : (c.toW).Nonsingular ((x1 : Nat) : ZMod c.pN) ((y1 : Nat) : ZMod c.pN))
    (h2 : (c.toW).Nonsingular ((x2 : Nat) : ZMod c.pN) ((y2 : Nat) : ZMod c.pN))
    (hx : x1 % c.pN ≠ x2 % c.pN)
    (hl : (l * x1 + y2) % c.pN = (l * x2 + y1) % c.pN)
    (hx3 : (x3 + x1 + x2) % c.pN = (l * l) % c.pN)
    (hy3 : (y3 + y1 + l * x3) % c.pN = (l * x1) % c.pN) :
    ∃ h3 : (c.toW).Nonsingular ((x3 : Nat) : ZMod c.pN) ((y3 : Nat) : ZMod c.pN),
      WeierstrassCurve.Affine.Point.some h1 + WeierstrassCurve.Affine.Point.some h2 =
        WeierstrassCurve.Affine.Point.some h3 := by
  have hx' : ((x1 : Nat) : ZMod c.pN) ≠ ((x2 : Nat) : ZMod c.pN) :=
    natMod_cast_ne_of_ne c.pN x1 x2 hx
  have hlz : ((l : Nat) : ZMod c.pN) * ((x1 : Nat) : ZMod c.pN) + ((y2 : Nat) : ZMod c.pN) =
      ((l : Nat) : ZMod c.pN) * ((x2 : Nat) : ZMod c.pN) + ((y1 : Nat) : ZMod c.pN) := by
    have h := natMod_cast_eq c.pN _ _ hl
    push_cast at h
    linear_combination h
  have hxz : ((x3 : Nat) : ZMod c.pN) + ((x1 : Nat) : ZMod c.pN) + ((x2 : Nat) : ZMod c.pN) =
      ((l : Nat) : ZMod c.pN) * ((l : Nat) : ZMod c.pN) := by
    have h := natMod_cast_eq c.pN _ _ hx3
    push_cast at h
    linear_combination h
  have hyz : ((y3 : Nat) : ZMod c.pN) + ((y1 : Nat) : ZMod c.pN) +
      ((l : Nat) : ZMod c.pN) * ((x3 : Nat) : ZMod c.pN) =
      ((l : Nat) : ZMod c.pN) * ((x1 : Nat) : ZMod c.pN) := by
    have h := natMod_cast_eq c.pN _ _ hy3
    push_cast at h
    linear_combination h
  have hL : (c.toW).slope ((x1 : Nat) : ZMod c.pN) ((x2 : Nat) : ZMod c.pN)
      ((y1 : Nat) : ZMod c.pN) ((y2 : Nat) : ZMod c.pN) = ((l : Nat) : ZMod c.pN) := by
    rw [WeierstrassCurve.Affine.slope_of_X_ne hx']
    rw [div_eq_iff (sub_ne_zero.mpr hx')]
    linear_combination -hlz
  have hxr : (c.toW).addX ((x1 : Nat) : ZMod c.pN) ((x2 : Nat) : ZMod c.pN)
      ((l : Nat) : ZMod c.pN) = ((x3 : Nat) : ZMod c.pN) := by
    simp only [WeierstrassCurve.Affine.addX, FiniteCurve.toW]
    linear_combination -hxz
  have hyr : (c.toW).addY ((x1 : Nat) : ZMod c.pN) ((x2 : Nat) : ZMod c.pN)
      ((y1 : Nat) : ZMod c.pN) ((l : Nat) : ZMod c.pN) = ((y3 : Nat) : ZMod c.pN) := by
    rw [WeierstrassCurve.Affine.addY, WeierstrassCurve.Affine.negAddY, toW_negY, hxr]
    linear_combination -hyz
  have hxy : ((x1 : Nat) : ZMod c.pN) = ((x2 : Nat) : ZMod c.pN) →
      ((y1 : Nat) : ZMod c.pN) ≠
        (c.toW).negY ((x2 : Nat) : ZMod c.pN) ((y2 : Nat) : ZMod c.pN) :=
    fun h => absurd h hx'
  have hns := WeierstrassCurve.Affine.nonsingular_add h1 h2 hxy
  rw [hL, hxr, hyr] at hns
  refine ⟨hns, ?_⟩
  rw [WeierstrassCurve.Affine.Point.add_of_imp hxy]
  exact msome_congr _ _ (by rw [hL, hxr]) (by rw [hL, hyr])

/-- Certified cancellation: two points with equal x-residues and opposite
y-residues sum to zero in the Mathlib group. -/
theorem cert_neg (c : FiniteCurve) [hpf : Fact c.pN.Prime] (x1 y1 x2 y2 : Nat)
    (h1 : (c.toW).Nonsingular ((x1 : Nat) : ZMod c.pN) ((y1 : Nat) : ZMod c.pN))
    (h2 : (c.toW).Nonsingular ((x2 : Nat) : ZMod c.pN) ((y2 : Nat) : ZMod c.pN))
    (hx : x1 % c.pN = x2 % c.pN)
    (hy : (y1 + y2) % c.pN = 0 % c.pN) :
    WeierstrassCurve.Affine.Point.some h1 + WeierstrassCurve.Affine.Point.some h2 = 0 := by
  have hx' : ((x1 : Nat) : ZMod c.pN) = ((x2 : Nat) : ZMod c.pN) :=
    natMod_cast_eq c.pN x1 x2 hx
  have hy' : ((y1 : Nat) : ZMod c.pN) = -((y2 : Nat) : ZMod c.pN) := by
    have h := natMod_cast_eq c.pN _ _ hy
    push_cast at h
    linear_combination h
  exact WeierstrassCurve.Affine.Point.add_of_Y_eq hx' (by rw [toW_negY]; exact hy')

/-- Chain step: double a certified multiple of the base point. -/
theorem chain_dbl {c : FiniteCurve} [hpf : Fact c.pN.Prime] {G0 : (c.toW).Point}
    {A m x1 y1 : Nat}
    (hA : ((c.a.value : Int) : ZMod c.pN) = ((A : Nat) : ZMod c.pN))
    (l x3 y3 m2 : Nat)
    (prev : ∃ h : (c.toW).Nonsingular ((x1 : Nat) : ZMod c.pN) ((y1 : Nat) : ZMod c.pN),
      m • G0 = WeierstrassCurve.Affine.Point.some h)
    (hm : m2 = m + m)
    (hy : (y1 + y1) % c.pN ≠ 0)
    (hl : (l * (y1 + y1)) % c.pN = (3 * x1 * x1 + A) % c.pN)
    (hx3 : (x3 + x1 + x1) % c.pN = (l * l) % c.pN)
    (hy3 : (y3 + y1 + l * x3) % c.pN = (l * x1) % c.pN) :
    ∃ h3 : (c.toW).Nonsingular ((x3 : Nat) : ZMod c.pN) ((y3 : Nat) : ZMod c.pN),
      m2 • G0 = WeierstrassCurve.Affine.Point.some h3 := by
  obtain ⟨h1, he⟩ := prev
  obtain ⟨h3, he3⟩ := cert_dbl c A x1 y1 l x3 y3 hA h1 hy hl hx3 hy3
  refine ⟨h3, ?_⟩
  rw [hm, add_nsmul, he, he3]

/-- Chain step: add two certified multiples of the base point. -/
theorem chain_add {c : FiniteCurve} [hpf : Fact c.pN.Prime] {G0 : (c.toW).Point}
    {m1 m2 x1 y1 x2 y2 : Nat}
    (l x3 y3 m3 : Nat)
    (p1 : ∃ h : (c.toW).Nonsingular ((x1 : Nat) : ZMod c.pN) ((y1 : Nat) : ZMod c.pN),
      m1 • G0 = WeierstrassCurve.Affine.Point.some h)
    (p2 : ∃ h : (c.toW).Nonsingular ((x2 : Nat) : ZMod c.pN) ((y2 : Nat) : ZMod c.pN),
      m2 • G0 = WeierstrassCurve.Affine.Point.some h)
    (hm : m3 = m1 + m2)
    (hx : x1 % c.pN ≠ x2 % c.pN)
    (hl : (l * x1 + y2) % c.pN = (l * x2 + y1) % c.pN)
    (hx3 : (x3 + x1 + x2) % c.pN = (l * l) % c.pN)
    (hy3 : (y3 + y1 + l * x3) % c.pN = (l * x1) % c.pN) :
    ∃ h3 : (c.toW).Nonsingular ((x3 : Nat) : ZMod c.pN) ((y3 : Nat) : ZMod c.pN),
      m3 • G0 = WeierstrassCurve.Affine.Point.some h3 := by
  obtain ⟨h1, he1⟩ := p1
  obtain ⟨h2, he2⟩ := p2
  obtain ⟨h3, he3⟩ := cert_add c x1 y1 x2 y2 l x3 y3 h1 h2 hx hl hx3 hy3
  refine ⟨h3, ?_⟩
  rw [hm, add_nsmul, he1, he2, he3]

/-- Chain step: two certified multiples cancelling to zero. -/
theorem chain_neg {c : FiniteCurve} [hpf : Fact c.pN.Prime] {G0 : (c.toW).Point}
    {m1 m2 x1 y1 x2 y2 : Nat} (m3 : Nat)
    (p1 : ∃ h : (c.toW).Nonsingular ((x1 : Nat) : ZMod c.pN) ((y1 : Nat) : ZMod c.pN),
      m1 • G0 = WeierstrassCurve.Affine.Point.some h)
    (p2 : ∃ h : (c.toW).Nonsingular ((x2 : Nat) : ZMod c.pN) ((y2 : Nat) : ZMod c.pN),
      m2 • G0 = WeierstrassCurve.Affine.Point.some h)
    (hm : m3 = m1 + m2)
    (hx : x1 % c.pN = x2 % c.pN)
    (hy : (y1 + y2) % c.pN = 0 % c.pN) :
    m3 • G0 = 0 := by
  obtain ⟨h1, he1⟩ := p1
  obtain ⟨h2, he2⟩ := p2
  rw [hm, add_nsmul, he1, he2]
  exact cert_neg c x1 y1 x2 y2 h1 h2 hx hy

/-- Central bridge: on well-formed nonsingular points over a prime modulus,
`Point::add` always succeeds, preserves well-formedness and nonsingularity,
and agrees with the Mathlib Weierstrass group law. -/
theorem add_bridge (c : FiniteCurve) [hpf : Fact c.pN.Prime] (hcp : c.p = (c.pN : Int))
    (hap : c.a.p = c.p) (hbp2 : c.b.p = c.p)
    (P Q : Point) (hPw : P.wf c.p) (hQw : Q.wf c.p) (hPo : P.onW c) (hQo : Q.onW c) :
    ∃ R, Point.add P Q c = some R ∧ R.wf c.p ∧ ∃ hRo : R.onW c,
      R.toM c hRo = P.toM c hPo + Q.toM c hQo := by
  have hp := hpf.out
  have hN0 : 0 < c.pN := hp.pos
  have hNi : (0 : Int) < (c.pN : Int) := by exact_mod_cast hN0
  cases P with
  | infinity =>
    cases Q with
    | infinity =>
      refine ⟨.infinity, ?_, trivial, trivial, ?_⟩
      · unfold Point.add
        rw [if_pos (show Point.infinity = Point.infinity.inverse from rfl)]
      · show (0 : (c.toW).Point) = 0 + 0
        rw [zero_add]
    | coordinate xq yq =>
      refine ⟨.coordinate xq yq, ?_, hQw, hQo, ?_⟩
      · unfold Point.add
        rw [if_neg (by intro h; cases h)]
      · show Point.toM c (.coordinate xq yq) hQo = 0 + Point.toM c (.coordinate xq yq) hQo
        rw [zero_add]
  | coordinate xp yp =>
    cases Q with
    | infinity =>
      refine ⟨.coordinate xp yp, ?_, hPw, hPo, ?_⟩
      · unfold Point.add
        rw [if_neg (by intro h; cases h)]
      · show Point.toM c (.coordinate xp yp) hPo = Point.toM c (.coordinate xp yp) hPo + 0
        rw [add_zero]
    | coordinate xq yq =>
      obtain ⟨hxpw, hypw⟩ := hPw
      obtain ⟨hxqw, hyqw⟩ := hQw
      rw [hcp] at hxpw hypw hxqw hyqw hap hbp2
      have hPo' : (c.toW).Nonsingular (xp.value : ZMod c.pN) (yp.value : ZMod c.pN) := hPo
      have hQo' : (c.toW).Nonsingular (xq.value : ZMod c.pN) (yq.value : ZMod c.pN) := hQo
      have heqP := toW_equation hPo'.1
      have heqQ := toW_equation hQo'.1
      have haddX : ∀ L : ZMod c.pN, (c.toW).addX (xp.value : ZMod c.pN) (xq.value : ZMod c.pN) L =
          L ^ 2 - (xp.value : ZMod c.pN) - (xq.value : ZMod c.pN) := by
        intro L
        simp [WeierstrassCurve.Affine.addX, FiniteCurve.toW]
        try ring
      have haddY : ∀ L : ZMod c.pN, (c.toW).addY (xp.value : ZMod c.pN) (xq.value : ZMod c.pN)
          (yp.value : ZMod c.pN) L =
          -(L * ((c.toW).addX (xp.value : ZMod c.pN) (xq.value : ZMod c.pN) L -
            (xp.value : ZMod c.pN)) + (yp.value : ZMod c.pN)) := by
        intro L
        rw [WeierstrassCurve.Affine.addY, WeierstrassCurve.Affine.negAddY, toW_negY]
      by_cases hinv : (Point.coordinate xp yp) = (Point.coordinate xq yq).inverse
      · refine ⟨.infinity, ?_, trivial, trivial, ?_⟩
        · unfold Point.add
          rw [if_pos hinv]
        · obtain ⟨hx, hy⟩ := (inverse_cond_iff hN0 xp yp xq yq hxpw hypw hxqw hyqw).mp hinv
          show (0 : (c.toW).Point) = _
          exact (WeierstrassCurve.Affine.Point.add_of_Y_eq hx (by rw [toW_negY]; exact hy)).symm
      · have hinv' : ¬((xp.value : ZMod c.pN) = (xq.value : ZMod c.pN) ∧
            (yp.value : ZMod c.pN) = -(yq.value : ZMod c.pN)) := fun h =>
          hinv ((inverse_cond_iff hN0 xp yp xq yq hxpw hypw hxqw hyqw).mpr h)
        by_cases hxx : xp = xq
        · -- doubling branch
          have hxv : (xp.value : ZMod c.pN) = (xq.value : ZMod c.pN) := by rw [hxx]
          have hyne : (yp.value : ZMod c.pN) ≠ -(yq.value : ZMod c.pN) := fun h => hinv' ⟨hxv, h⟩
          have hyy : (yp.value : ZMod c.pN) = (yq.value : ZMod c.pN) := by
            have hfac : ((yp.value : ZMod c.pN) - (yq.value : ZMod c.pN)) *
                ((yp.value : ZMod c.pN) + (yq.value : ZMod c.pN)) = 0 := by
              have heqP' := heqP
              rw [hxv] at heqP'
              linear_combination heqP' - heqQ
            rcases mul_eq_zero.mp hfac with h | h
            · exact sub_eq_zero.mp h
            · exact absurd (by linear_combination h) hyne
          have hynegY : (yp.value : ZMod c.pN) ≠
              (c.toW).negY (xq.value : ZMod c.pN) (yq.value : ZMod c.pN) := by
            rw [toW_negY]
            exact hyne
          -- denominator 2*yp is nonzero
          have hyp2 : (yp.value : ZMod c.pN) * 2 ≠ 0 := by
            intro h
            apply hyne
            linear_combination h - hyy
          have hden : (((yp.mulInt 2).value : Int) : ZMod c.pN) ≠ 0 := by
            rw [cast_mulInt_fe yp 2 hypw.1]
            push_cast
            exact hyp2
          have hdenw : (yp.mulInt 2).p = ((c.pN : Nat) : Int) ∧ 0 ≤ (yp.mulInt 2).value ∧
              (yp.mulInt 2).value < (c.pN : Int) := by
            refine ⟨by show yp.p = _; rw [hypw.1], ?_, ?_⟩
            · show 0 ≤ (yp.value * 2) % yp.p
              rw [hypw.1]
              exact Int.emod_nonneg _ (ne_of_gt hNi)
            · show (yp.value * 2) % yp.p < (c.pN : Int)
              rw [hypw.1]
              exact Int.emod_lt_of_pos _ hNi
          obtain ⟨m, hmdiv, hmp, hm0, hmN, hmval⟩ :=
            div_bridge hp (((xp.mul xp).mulInt 3).add c.a) (yp.mulInt 2)
              hdenw.1 hdenw.2.1 hdenw.2.2 hden
          -- numerator cast
          have hnum : ((((((xp.mul xp).mulInt 3).add c.a).value : Int)) : ZMod c.pN) =
              (xp.value : ZMod c.pN) * (xp.value : ZMod c.pN) * 3 + (c.a.value : ZMod c.pN) := by
            rw [cast_add_fe _ c.a hap]
            congr 1
            rw [cast_mulInt_fe (xp.mul xp) 3 hxpw.1]
            rw [cast_mul_fe xp xp hxpw.1]
            push_cast
            ring
          -- the slope
          set L := (c.toW).slope (xp.value : ZMod c.pN) (xq.value : ZMod c.pN)
            (yp.value : ZMod c.pN) (yq.value : ZMod c.pN) with hLdef
          have hL : L = ((xp.value : ZMod c.pN) * (xp.value : ZMod c.pN) * 3 +
              (c.a.value : ZMod c.pN)) / ((yp.value : ZMod c.pN) * 2) := by
            rw [hLdef, WeierstrassCurve.Affine.slope_of_Y_ne hxv hynegY, toW_negY]
            simp only [FiniteCurve.toW]
            congr 1
            · ring
            · ring
          have hmL : ((m.value : Int) : ZMod c.pN) = L := by
            rw [hL, eq_div_iff hyp2]
            rw [cast_mulInt_fe yp 2 hypw.1, hnum] at hmval
            push_cast at hmval
            linear_combination hmval
          -- the result point
          refine ⟨.coordinate (((m.mul m).sub xp).sub xq)
            ((yq.add (m.mul (((((m.mul m).sub xp).sub xq)).sub xq))).neg), ?_, ?_, ?_⟩
          · unfold Point.add
            rw [if_neg hinv]
            dsimp only
            rw [if_pos ⟨hxx, rfl⟩, hmdiv]
          · constructor
            · refine ⟨?_, ?_, ?_⟩
              · show xq.p = c.p
                rw [hxqw.1, hcp]
              · show 0 ≤ _ % xq.p
                rw [hxqw.1]
                exact Int.emod_nonneg _ (ne_of_gt hNi)
              · show _ % xq.p < c.p
                rw [hxqw.1, hcp]
                exact Int.emod_lt_of_pos _ hNi
            · refine ⟨?_, ?_, ?_⟩
              · show (yq.add _).p = c.p
                show xq.p = c.p
                rw [hxqw.1, hcp]
              · show 0 ≤ _ % (yq.add _).p
                show 0 ≤ _ % xq.p
                rw [hxqw.1]
                exact Int.emod_nonneg _ (ne_of_gt hNi)
              · show _ % xq.p < c.p
                rw [hxqw.1, hcp]
                exact Int.emod_lt_of_pos _ hNi
          · -- cast of result coordinates
            have hxr : (((((m.mul m).sub xp).sub xq).value : Int) : ZMod c.pN) =
                (c.toW).addX (xp.value : ZMod c.pN) (xq.value : ZMod c.pN) L := by
              rw [cast_sub_fe ((m.mul m).sub xp) xq hxqw.1, cast_sub_fe (m.mul m) xp hxpw.1,
                cast_mul_fe m m hmp, hmL, haddX]
              ring
            have hyr : ((((yq.add (m.mul (((((m.mul m).sub xp).sub xq)).sub xq))).neg).value :
                Int) : ZMod c.pN) =
                (c.toW).addY (xp.value : ZMod c.pN) (xq.value : ZMod c.pN)
                  (yp.value : ZMod c.pN) L := by
              rw [cast_neg_fe (yq.add (m.mul (((((m.mul m).sub xp).sub xq)).sub xq))) hxqw.1]
              rw [cast_add_fe yq (m.mul (((((m.mul m).sub xp).sub xq)).sub xq)) hxqw.1]
              rw [cast_mul_fe m (((((m.mul m).sub xp).sub xq)).sub xq) hxqw.1]
              rw [cast_sub_fe (((m.mul m).sub xp).sub xq) xq hxqw.1, hxr, hmL, haddY, hyy, hxv]
              ring
            have hxy : (xp.value : ZMod c.pN) = (xq.value : ZMod c.pN) →
                (yp.value : ZMod c.pN) ≠
                  (c.toW).negY (xq.value : ZMod c.pN) (yq.value : ZMod c.pN) :=
              fun _ => hynegY
            have hRo : Point.onW c (.coordinate (((m.mul m).sub xp).sub xq)
                ((yq.add (m.mul (((((m.mul m).sub xp).sub xq)).sub xq))).neg)) := by
              show (c.toW).Nonsingular _ _
              rw [hxr, hyr]
              exact WeierstrassCurve.Affine.nonsingular_add hPo' hQo' hxy
            refine ⟨hRo, ?_⟩
            show WeierstrassCurve.Affine.Point.some hRo = _
            rw [show Point.toM c (.coordinate xp yp) hPo = .some hPo' from rfl,
              show Point.toM c (.coordinate xq yq) hQo = .some hQo' from rfl]
            rw [WeierstrassCurve.Affine.Point.add_of_imp hxy]
            exact msome_congr _ _ (by rw [hxr]) (by rw [hyr])
        · -- distinct x branch
          have hxv : (xp.value : ZMod c.pN) ≠ (xq.value : ZMod c.pN) := by
            intro h
            apply hxx
            exact fe_ext (intCast_inj_of_lt hN0 hxpw.2.1 hxpw.2.2 hxqw.2.1 hxqw.2.2 h)
              (by rw [hxpw.1, hxqw.1])
          have hden : (((xp.sub xq).value : Int) : ZMod c.pN) ≠ 0 := by
            rw [cast_sub_fe xp xq hxqw.1]
            exact sub_ne_zero.mpr hxv
          have hdenw : (xp.sub xq).p = ((c.pN : Nat) : Int) ∧ 0 ≤ (xp.sub xq).value ∧
              (xp.sub xq).value < (c.pN : Int) := by
            refine ⟨by show xq.p = _; rw [hxqw.1], ?_, ?_⟩
            · show 0 ≤ _ % xq.p
              rw [hxqw.1]
              exact Int.emod_nonneg _ (ne_of_gt hNi)
            · show _ % xq.p < (c.pN : Int)
              rw [hxqw.1]
              exact Int.emod_lt_of_pos _ hNi
          obtain ⟨m, hmdiv, hmp, hm0, hmN, hmval⟩ :=
            div_bridge hp (yp.sub yq) (xp.sub xq) hdenw.1 hdenw.2.1 hdenw.2.2 hden
          set L := (c.toW).slope (xp.value : ZMod c.pN) (xq.value : ZMod c.pN)
            (yp.value : ZMod c.pN) (yq.value : ZMod c.pN) with hLdef
          have hL : L = ((yp.value : ZMod c.pN) - (yq.value : ZMod c.pN)) /
              ((xp.value : ZMod c.pN) - (xq.value : ZMod c.pN)) := by
            rw [hLdef, WeierstrassCurve.Affine.slope_of_X_ne hxv]
          have hmL : ((m.value : Int) : ZMod c.pN) = L := by
            rw [hL, eq_div_iff (sub_ne_zero.mpr hxv)]
            rw [cast_sub_fe xp xq hxqw.1] at hmval
            rw [cast_sub_fe yp yq hyqw.1] at hmval
            exact hmval
          have hmline : ((m.value : Int) : ZMod c.pN) *
              ((xp.value : ZMod c.pN) - (xq.value : ZMod c.pN)) =
              (yp.value : ZMod c.pN) - (yq.value : ZMod c.pN) := by
            rw [cast_sub_fe xp xq hxqw.1] at hmval
            rw [cast_sub_fe yp yq hyqw.1] at hmval
            exact hmval
          refine ⟨.coordinate (((m.mul m).sub xp).sub xq)
            ((yq.add (m.mul (((((m.mul m).sub xp).sub xq)).sub xq))).neg), ?_, ?_, ?_⟩
          · unfold Point.add
            rw [if_neg hinv]
            dsimp only
            rw [if_neg (fun h => hxx h.1), hmdiv]
          · constructor
            · refine ⟨?_, ?_, ?_⟩
              · show xq.p = c.p
                rw [hxqw.1, hcp]
              · show 0 ≤ _ % xq.p
                rw [hxqw.1]
                exact Int.emod_nonneg _ (ne_of_gt hNi)
              · show _ % xq.p < c.p
                rw [hxqw.1, hcp]
                exact Int.emod_lt_of_pos _ hNi
            · refine ⟨?_, ?_, ?_⟩
              · show xq.p = c.p
                rw [hxqw.1, hcp]
              · show 0 ≤ _ % xq.p
                rw [hxqw.1]
                exact Int.emod_nonneg _ (ne_of_gt hNi)
              · show _ % xq.p < c.p
                rw [hxqw.1, hcp]
                exact Int.emod_lt_of_pos _ hNi
          · have hxr : (((((m.mul m).sub xp).sub xq).value : Int) : ZMod c.pN) =
                (c.toW).addX (xp.value : ZMod c.pN) (xq.value : ZMod c.pN) L := by
              rw [cast_sub_fe ((m.mul m).sub xp) xq hxqw.1, cast_sub_fe (m.mul m) xp hxpw.1,
                cast_mul_fe m m hmp, hmL, haddX]
              ring
            have hyr : ((((yq.add (m.mul (((((m.mul m).sub xp).sub xq)).sub xq))).neg).value :
                Int) : ZMod c.pN) =
                (c.toW).addY (xp.value : ZMod c.pN) (xq.value : ZMod c.pN)
                  (yp.value : ZMod c.pN) L := by
              rw [cast_neg_fe (yq.add (m.mul (((((m.mul m).sub xp).sub xq)).sub xq))) hxqw.1]
              rw [cast_add_fe yq (m.mul (((((m.mul m).sub xp).sub xq)).sub xq)) hxqw.1]
              rw [cast_mul_fe m (((((m.mul m).sub xp).sub xq)).sub xq) hxqw.1]
              rw [cast_sub_fe (((m.mul m).sub xp).sub xq) xq hxqw.1, hxr, hmL, haddY]
              have hLline : L * ((xp.value : ZMod c.pN) - (xq.value : ZMod c.pN)) =
                  (yp.value : ZMod c.pN) - (yq.value : ZMod c.pN) := by
                rw [← hmL]
                exact hmline
              linear_combination -hLline
            have hxy : (xp.value : ZMod c.pN) = (xq.value : ZMod c.pN) →
                (yp.value : ZMod c.pN) ≠
                  (c.toW).negY (xq.value : ZMod c.pN) (yq.value : ZMod c.pN) :=
              fun h => absurd h hxv
            have hRo : Point.onW c (.coordinate (((m.mul m).sub xp).sub xq)
                ((yq.add (m.mul (((((m.mul m).sub xp).sub xq)).sub xq))).neg)) := by
              show (c.toW).Nonsingular _ _
              rw [hxr, hyr]
              exact WeierstrassCurve.Affine.nonsingular_add hPo' hQo' hxy
            refine ⟨hRo, ?_⟩
            show WeierstrassCurve.Affine.Point.some hRo = _
            rw [show Point.toM c (.coordinate xp yp) hPo = .some hPo' from rfl,
              show Point.toM c (.coordinate xq yq) hQo = .some hQo' from rfl]
            rw [WeierstrassCurve.Affine.Point.add_of_imp hxy]
            exact msome_congr _ _ (by rw [hxr]) (by rw [hyr])

/-- Interpretation is injective on well-formed points. -/
theorem toM_inj (c : FiniteCurve) (hN0 : 0 < c.pN) (P Q : Point)
    (hPw : P.wf c.p) (hQw : Q.wf c.p) (hPo : P.onW c) (hQo : Q.onW c)
    (hcp : c.p = (c.pN : Int))
    (h : P.toM c hPo = Q.toM c hQo) : P = Q := by
  cases P with
  | infinity =>
    cases Q with
    | infinity => rfl
    | coordinate xq yq =>
      exact absurd h.symm (WeierstrassCurve.Affine.Point.some_ne_zero hQo)
  | coordinate xp yp =>
    cases Q with
    | infinity =>
      exact absurd h (WeierstrassCurve.Affine.Point.some_ne_zero hPo)
    | coordinate xq yq =>
      obtain ⟨hxpw, hypw⟩ := hPw
      obtain ⟨hxqw, hyqw⟩ := hQw
      rw [hcp] at hxpw hypw hxqw hyqw
      injection h with hx hy
      have hxv : xp.value = xq.value :=
        intCast_inj_of_lt hN0 hxpw.2.1 hxpw.2.2 hxqw.2.1 hxqw.2.2 hx
      have hyv : yp.value = yq.value :=
        intCast_inj_of_lt hN0 hypw.2.1 hypw.2.2 hyqw.2.1 hyqw.2.2 hy
      rw [fe_ext hxv (by rw [hxpw.1, hxqw.1]), fe_ext hyv (by rw [hypw.1, hyqw.1])]

/-- Loop invariant of `Point::mul`: the double-and-add loop computes
`result + coeff • current` in the Mathlib group. -/
theorem pmulAux_bridge (c : FiniteCurve) [hpf : Fact c.pN.Prime]
    (hcp : c.p = (c.pN : Int)) (hap : c.a.p = c.p) (hbp2 : c.b.p = c.p) (fuel : Nat) :
    ∀ (coeff : Int) (current result : Point), 0 ≤ coeff → coeff.toNat < fuel →
      ∀ (hcw : current.wf c.p) (hrw : result.wf c.p)
        (hco : current.onW c) (hro : result.onW c),
      ∃ R, pmulAux c fuel coeff current result = some R ∧ R.wf c.p ∧ ∃ hRo : R.onW c,
        R.toM c hRo = result.toM c hro + coeff.toNat • current.toM c hco := by
  induction fuel with
  | zero => intro coeff _ _ _ hf; omega
  | succ fuel ih =>
    intro coeff current result hc hf hcw hrw hco hro
    unfold pmulAux
    by_cases hpos : coeff > 0
    · rw [if_pos hpos]
      obtain ⟨cur2, hc2eq, hc2w, hc2o, hc2m⟩ :=
        add_bridge c hcp hap hbp2 current current hcw hcw hco hco
      by_cases hodd : coeff % 2 ≠ 0
      · obtain ⟨r1, hr1eq, hr1w, hr1o, hr1m⟩ :=
          add_bridge c hcp hap hbp2 result current hrw hcw hro hco
        obtain ⟨R, hReq, hRw, hRo, hRm⟩ := ih (coeff / 2) cur2 r1
          (by omega) (by omega) hc2w hr1w hc2o hr1o
        refine ⟨R, ?_, hRw, hRo, ?_⟩
        · rw [if_pos hodd, hr1eq, hc2eq]
          exact hReq
        · rw [hRm, hr1m, hc2m]
          have hcoeff : coeff.toNat = (coeff / 2).toNat + (coeff / 2).toNat + 1 := by omega
          rw [hcoeff, add_nsmul, add_nsmul, one_nsmul, nsmul_add]
          try abel
      · obtain ⟨R, hReq, hRw, hRo, hRm⟩ := ih (coeff / 2) cur2 result
          (by omega) (by omega) hc2w hrw hc2o hro
        refine ⟨R, ?_, hRw, hRo, ?_⟩
        · rw [if_neg hodd, hc2eq]
          exact hReq
        · rw [hRm, hc2m]
          have hcoeff : coeff.toNat = (coeff / 2).toNat + (coeff / 2).toNat := by omega
          rw [hcoeff, add_nsmul, nsmul_add]
          try abel
    · rw [if_neg hpos]
      have hz : coeff.toNat = 0 := by omega
      refine ⟨result, rfl, hrw, hro, ?_⟩
      rw [hz, zero_nsmul, add_zero]

/-- `Point::mul` computes `(n mod p) • P` in the Mathlib group. -/
theorem pmul_bridge (c : FiniteCurve) [hpf : Fact c.pN.Prime]
    (hcp : c.p = (c.pN : Int)) (hap : c.a.p = c.p) (hbp2 : c.b.p = c.p)
    (P : Point) (n : Int) (hPw : P.wf c.p) (hPo : P.onW c) :
    ∃ R, Point.mul P n c = some R ∧ R.wf c.p ∧ ∃ hRo : R.onW c,
      R.toM c hRo = (n % c.p).toNat • P.toM c hPo := by
  have hppos : (0 : Int) < c.p := by
    rw [hcp]
    exact_mod_cast hpf.out.pos
  obtain ⟨R, hReq, hRw, hRo, hRm⟩ := pmulAux_bridge c hcp hap hbp2 ((n % c.p).toNat + 1)
    (n % c.p) P .infinity (Int.emod_nonneg _ (ne_of_gt hppos)) (by omega)
    hPw trivial hPo trivial
  refine ⟨R, hReq, hRw, hRo, ?_⟩
  rw [hRm]
  show _ = _
  rw [show Point.toM c .infinity trivial = 0 from rfl, zero_add]

/-- Loop invariant of `FiniteCurve::mul` (identical up to the operand order
of the conditional addition). -/
theorem fcmulAux_bridge (c : FiniteCurve) [hpf : Fact c.pN.Prime]
    (hcp : c.p = (c.pN : Int)) (hap : c.a.p = c.p) (hbp2 : c.b.p = c.p) (fuel : Nat) :
    ∀ (coeff : Int) (current result : Point), 0 ≤ coeff → coeff.toNat < fuel →
      ∀ (hcw : current.wf c.p) (hrw : result.wf c.p)
        (hco : current.onW c) (hro : result.onW c),
      ∃ R, fcmulAux c fuel coeff current result = some R ∧ R.wf c.p ∧ ∃ hRo : R.onW c,
        R.toM c hRo = result.toM c hro + coeff.toNat • current.toM c hco := by
  induction fuel with
  | zero => intro coeff _ _ _ hf; omega
  | succ fuel ih =>
    intro coeff current result hc hf hcw hrw hco hro
    unfold fcmulAux
    by_cases hpos : coeff > 0
    · rw [if_pos hpos]
      obtain ⟨cur2, hc2eq, hc2w, hc2o, hc2m⟩ :=
        add_bridge c hcp hap hbp2 current current hcw hcw hco hco
      by_cases hodd : coeff % 2 ≠ 0
      · obtain ⟨r1, hr1eq, hr1w, hr1o, hr1m⟩ :=
          add_bridge c hcp hap hbp2 current result hcw hrw hco hro
        obtain ⟨R, hReq, hRw, hRo, hRm⟩ := ih (coeff / 2) cur2 r1
          (by omega) (by omega) hc2w hr1w hc2o hr1o
        refine ⟨R, ?_, hRw, hRo, ?_⟩
        · show (match (if coeff % 2 ≠ 0 then c.add current result else some result) with
            | none => none
            | some result' =>
              match c.add current current with
              | none => none
              | some current' => fcmulAux c fuel (coeff / 2) current' result') = some R
          rw [if_pos hodd, show c.add current result = some r1 from hr1eq,
            show c.add current current = some cur2 from hc2eq]
          exact hReq
        · rw [hRm, hr1m, hc2m]
          have hcoeff : coeff.toNat = (coeff / 2).toNat + (coeff / 2).toNat + 1 := by omega
          rw [hcoeff, add_nsmul, add_nsmul, one_nsmul, nsmul_add]
          try abel
      · obtain ⟨R, hReq, hRw, hRo, hRm⟩ := ih (coeff / 2) cur2 result
          (by omega) (by omega) hc2w hrw hc2o hro
        refine ⟨R, ?_, hRw, hRo, ?_⟩
        · show (match (if coeff % 2 ≠ 0 then c.add current result else some result) with
            | none => none
            | some result' =>
              match c.add current current with
              | none => none
              | some current' => fcmulAux c fuel (coeff / 2) current' result') = some R
          rw [if_neg hodd, show c.add current current = some cur2 from hc2eq]
          exact hReq
        · rw [hRm, hc2m]
          have hcoeff : coeff.toNat = (coeff / 2).toNat + (coeff / 2).toNat := by omega
          rw [hcoeff, add_nsmul, nsmul_add]
          try abel
    · rw [if_neg hpos]
      have hz : coeff.toNat = 0 := by omega
      refine ⟨result, rfl, hrw, hro, ?_⟩
      rw [hz, zero_nsmul, add_zero]

/-- `FiniteCurve::mul` computes `n • P` (no scalar reduction) for `n ≥ 0`. -/
theorem fcmul_bridge (c : FiniteCurve) [hpf : Fact c.pN.Prime]
    (hcp : c.p = (c.pN : Int)) (hap : c.a.p = c.p) (hbp2 : c.b.p = c.p)
    (P : Point) (n : Int) (hn : 0 ≤ n) (hPw : P.wf c.p) (hPo : P.onW c) :
    ∃ R, FiniteCurve.mul c P n = some R ∧ R.wf c.p ∧ ∃ hRo : R.onW c,
      R.toM c hRo = n.toNat • P.toM c hPo := by
  obtain ⟨R, hReq, hRw, hRo, hRm⟩ := fcmulAux_bridge c hcp hap hbp2 (n.toNat + 1)
    n P .infinity hn (by omega) hPw trivial hPo trivial
  refine ⟨R, ?_, hRw, hRo, ?_⟩
  · unfold FiniteCurve.mul
    rw [if_neg (by omega)]
    exact hReq
  · rw [hRm]
    rw [show Point.toM c .infinity trivial = 0 from rfl, zero_add]

/-- `naive_mul` computes `n • P` in the Mathlib group. -/
theorem naive_mul_bridge (c : FiniteCurve) [hpf : Fact c.pN.Prime]
    (hcp : c.p = (c.pN : Int)) (hap : c.a.p = c.p) (hbp2 : c.b.p = c.p)
    (P : Point) (hPw : P.wf c.p) (hPo : P.onW c) (n : Nat) :
    ∃ R, naive_mul c P n = some R ∧ R.wf c.p ∧ ∃ hRo : R.onW c,
      R.toM c hRo = n • P.toM c hPo := by
  induction n with
  | zero =>
    refine ⟨.infinity, rfl, trivial, trivial, ?_⟩
    rw [zero_nsmul]
    rfl
  | succ n ih =>
    obtain ⟨r, hreq, hrw, hro, hrm⟩ := ih
    obtain ⟨R, hReq, hRw, hRo, hRm⟩ := add_bridge c hcp hap hbp2 r P hrw hPw hro hPo
    refine ⟨R, ?_, hRw, hRo, ?_⟩
    · unfold naive_mul
      rw [hreq]
      exact hReq
    · rw [hRm, hrm, succ_nsmul]

/-! ## Fast-path equivalence: the `Fast` accelerator definitions agree with
the embedded source functions on well-formed inputs over a prime modulus. -/

/-- A nonzero reduced residue is coprime to a prime modulus. -/
theorem gcd_one_of_nonzero_lt {v : Int} {N : Nat} (hN : N.Prime)
    (h0 : 0 ≤ v) (hne : v ≠ 0) (hlt : v < (N : Int)) : Nat.gcd v.toNat N = 1 := by
  rw [Nat.gcd_comm]
  refine (Nat.Prime.coprime_iff_not_dvd hN).mpr ?_
  intro hdvd
  have h2 := hN.two_le
  have hvn : v.toNat ≠ 0 := by omega
  have hvlt : v.toNat < N := by omega
  have := Nat.le_of_dvd (by omega) hdvd
  omega

/-- Properties extractable from a successful `FieldElement::inverse` call:
the result is a reduced multiplicative inverse and the input was coprime to
the modulus. -/
theorem inverse_some_props {a r : FieldElement} (h : a.inverse = some r)
    (h0 : 0 ≤ a.value) (hp : 1 < a.p) :
    (a.value * r.value) % a.p = 1 % a.p ∧ r.p = a.p ∧ 0 ≤ r.value ∧ r.value < a.p ∧
      Nat.gcd a.value.toNat a.p.toNat = 1 := by
  have hg : Nat.gcd a.value.toNat a.p.toNat = 1 := by
    have hcopy := h
    unfold FieldElement.inverse at hcopy
    dsimp only at hcopy
    split_ifs at hcopy with h1 h2
    have hfst := eea_fst a.value a.p h0 (by omega)
    rw [hfst] at h2
    have : ((Nat.gcd a.value.toNat a.p.toNat : Nat) : Int) = 1 := not_not.mp h2
    exact_mod_cast this
  obtain ⟨r0, hr0eq, hmul, hrp, hrlo, hrhi⟩ := inverse_some_of_coprime a hp h0 hg
  rw [h] at hr0eq
  cases hr0eq
  exact ⟨hmul, hrp, hrlo, hrhi, hg⟩

/-! ## Concrete secp256k1 facts -/

/-- The coordinate-field modulus of the embedded secp256k1 curve as a
natural number. -/
theorem secp_pN_eq : (Secp256k1.new.curve).pN =
    115792089237316195423570985008687907853269984665640564039457584007908834671663 := rfl

/-- The secp256k1 modulus is prime, phrased on the embedded curve. -/
theorem secp_curve_prime : Nat.Prime (Secp256k1.new.curve).pN := by
  rw [secp_pN_eq]
  exact secp_p_prime

/-- The secp256k1 curve parameters are well-formed. -/
theorem secp_curve_wf : Secp256k1.new.curve.p = ((Secp256k1.new.curve).pN : Int) ∧
    Secp256k1.new.curve.a.p = Secp256k1.new.curve.p ∧
    Secp256k1.new.curve.b.p = Secp256k1.new.curve.p := by
  refine ⟨by decide, rfl, rfl⟩

/-- The secp256k1 base point is well-formed. -/
theorem secp_g_wf : (Secp256k1.new.g).wf Secp256k1.new.curve.p := by decide

/-- The secp256k1 base point is a nonsingular point of the bridged
Weierstrass curve. -/
theorem secp_g_onW : Point.onW Secp256k1.new.curve Secp256k1.new.g := by
  show WeierstrassCurve.Affine.Nonsingular _ _ _
  refine (WeierstrassCurve.Affine.nonsingular_iff _ _ _).mpr
    ⟨(WeierstrassCurve.Affine.equation_iff _ _ _).mpr (by decide), Or.inr (by decide)⟩

/-- The `a` parameter of secp256k1 casts to the residue of `0`. -/
theorem secp_a4_cast : ((Secp256k1.new.curve.a.value : Int) : ZMod (Secp256k1.new.curve).pN) =
    ((0 : Nat) : ZMod (Secp256k1.new.curve).pN) := by decide

/-- The base point, with coordinates as natural-number casts. -/
theorem secp_g_ns_nat : ((Secp256k1.new.curve).toW).Nonsingular
    ((0x79be667ef9dcbbac55a06295ce870b07029bfcdb2dce28d959f2815b16f81798 : Nat) : ZMod (Secp256k1.new.curve).pN)
    ((0x483ada7726a3c4655da4fbfc0e1108a8fd17b448a68554199c47d08ffb10d4b8 : Nat) : ZMod (Secp256k1.new.curve).pN) := by
  refine (WeierstrassCurve.Affine.nonsingular_iff _ _ _).mpr
    ⟨(WeierstrassCurve.Affine.equation_iff _ _ _).mpr (by decide), Or.inr (by decide)⟩

/-- The base point's x-coordinate as a natural-number cast. -/
theorem secp_gx_cast : ((((FiniteCurve.new 0 7 secp_pI).field_elem secp_gx).value : Int) :
    ZMod (Secp256k1.new.curve).pN) = ((0x79be667ef9dcbbac55a06295ce870b07029bfcdb2dce28d959f2815b16f81798 : Nat) : ZMod (Secp256k1.new.curve).pN) := by
  decide

/-- The base point's y-coordinate as a natural-number cast. -/
theorem secp_gy_cast : ((((FiniteCurve.new 0 7 secp_pI).field_elem secp_gy).value : Int) :
    ZMod (Secp256k1.new.curve).pN) = ((0x483ada7726a3c4655da4fbfc0e1108a8fd17b448a68554199c47d08ffb10d4b8 : Nat) : ZMod (Secp256k1.new.curve).pN) := by
  decide

/-- The point `(p - n) * G` lies on the bridged Weierstrass curve. -/
theorem secp_negnG_onW : Point.onW Secp256k1.new.curve
    (Point.coordinate ⟨0xb42b34a9748238715c0b8b853b6939aabc3b5224bcdd4b4b65e902417e7af914, secp_pI⟩
      ⟨0xc1064ce5dfb9e0247fa170896d939c3b87404dca2f648560936138086ac129e9, secp_pI⟩) := by
  show WeierstrassCurve.Affine.Nonsingular _ _ _
  refine (WeierstrassCurve.Affine.nonsingular_iff _ _ _).mpr
    ⟨(WeierstrassCurve.Affine.equation_iff _ _ _).mpr (by decide), Or.inr (by decide)⟩

/-- The Provisions generator `H` lies on the bridged Weierstrass curve. -/
theorem secp_provH_onW : Point.onW Secp256k1.new.curve
    (Point.coordinate ⟨0x8a0d7d6bb024b7e1456e217c41b2fd6ee8d8fdcc44dc90b6ac00f96c7e30562f, secp_pI⟩
      ⟨0x6138aeb39666c8ff177ffeb7f51843364e47919e7e1b9efc5b63f8f972c9d3d2, secp_pI⟩) := by
  show WeierstrassCurve.Affine.Nonsingular _ _ _
  refine (WeierstrassCurve.Affine.nonsingular_iff _ _ _).mpr
    ⟨(WeierstrassCurve.Affine.equation_iff _ _ _).mpr (by decide), Or.inr (by decide)⟩

/-- Integer and natural casts of a coordinate literal agree in the field. -/
theorem secp_negn_x_cast : ((0xb42b34a9748238715c0b8b853b6939aabc3b5224bcdd4b4b65e902417e7af914 : Int) : ZMod (Secp256k1.new.curve).pN) =
    ((0xb42b34a9748238715c0b8b853b6939aabc3b5224bcdd4b4b65e902417e7af914 : Nat) : ZMod (Secp256k1.new.curve).pN) := by decide

/-- Integer and natural casts of a coordinate literal agree in the field. -/
theorem secp_negn_y_cast : ((0xc1064ce5dfb9e0247fa170896d939c3b87404dca2f648560936138086ac129e9 : Int) : ZMod (Secp256k1.new.curve).pN) =
    ((0xc1064ce5dfb9e0247fa170896d939c3b87404dca2f648560936138086ac129e9 : Nat) : ZMod (Secp256k1.new.curve).pN) := by decide

/-- Integer and natural casts of a coordinate literal agree in the field. -/
theorem secp_provH_x_cast : ((0x8a0d7d6bb024b7e1456e217c41b2fd6ee8d8fdcc44dc90b6ac00f96c7e30562f : Int) : ZMod (Secp256k1.new.curve).pN) =
    ((0x8a0d7d6bb024b7e1456e217c41b2fd6ee8d8fdcc44dc90b6ac00f96c7e30562f : Nat) : ZMod (Secp256k1.new.curve).pN) := by decide

/-- Integer and natural casts of a coordinate literal agree in the field. -/
theorem secp_provH_y_cast : ((0x6138aeb39666c8ff177ffeb7f51843364e47919e7e1b9efc5b63f8f972c9d3d2 : Int) : ZMod (Secp256k1.new.curve).pN) =
    ((0x6138aeb39666c8ff177ffeb7f51843364e47919e7e1b9efc5b63f8f972c9d3d2 : Nat) : ZMod (Secp256k1.new.curve).pN) := by decide

/-- Certified addition-chain facts about the secp256k1 base point in the
Mathlib group: `n * G = 0`, `(p - n) * G` and `provisions_sha256 * G` land on
the stated coordinates. Every step of the three double-and-add chains is
certified by residue arithmetic on slope hints. -/
theorem secp_chain_facts [hpf : Fact (Nat.Prime (Secp256k1.new.curve).pN)] :
    ((0xfffffffffffffffffffffffffffffffebaaedce6af48a03bbfd25e8cd0364141 : Nat) •
        Point.toM Secp256k1.new.curve Secp256k1.new.g secp_g_onW = 0) ∧
    (∃ h : ((Secp256k1.new.curve).toW).Nonsingular ((0xb42b34a9748238715c0b8b853b6939aabc3b5224bcdd4b4b65e902417e7af914 : Nat) : ZMod (Secp256k1.new.curve).pN) ((0xc1064ce5dfb9e0247fa170896d939c3b87404dca2f648560936138086ac129e9 : Nat) : ZMod (Secp256k1.new.curve).pN),
      (0x14551231950b75fc4402da1722fc9baee : Nat) •
        Point.toM Secp256k1.new.curve Secp256k1.new.g secp_g_onW = WeierstrassCurve.Affine.Point.some h) ∧
    (∃ h : ((Secp256k1.new.curve).toW).Nonsingular ((0x8a0d7d6bb024b7e1456e217c41b2fd6ee8d8fdcc44dc90b6ac00f96c7e30562f : Nat) : ZMod (Secp256k1.new.curve).pN) ((0x6138aeb39666c8ff177ffeb7f51843364e47919e7e1b9efc5b63f8f972c9d3d2 : Nat) : ZMod (Secp256k1.new.curve).pN),
      (0x7982ad72bd36e6f2a1b65cc0f14a1610c7822a6d1efff818ab95a3ba1793847f : Nat) •
        Point.toM Secp256k1.new.curve Secp256k1.new.g secp_g_onW = WeierstrassCurve.Affine.Point.some h) := by
  have d0 : ∃ h : ((Secp256k1.new.curve).toW).Nonsingular ((0x79be667ef9dcbbac55a06295ce870b07029bfcdb2dce28d959f2815b16f81798 : Nat) : ZMod (Secp256k1.new.curve).pN) ((0x483ada7726a3c4655da4fbfc0e1108a8fd17b448a68554199c47d08ffb10d4b8 : Nat) : ZMod (Secp256k1.new.curve).pN),
      (1 : Nat) • Point.toM Secp256k1.new.curve Secp256k1.new.g secp_g_onW = WeierstrassCurve.Affine.Point.some h :=
    ⟨secp_g_ns_nat, by
      rw [one_nsmul]
      exact msome_congr secp_g_onW secp_g_ns_nat secp_gx_cast secp_gy_cast⟩
  have d1 := chain_dbl secp_a4_cast 0xcb35b28428101a303eb9d1235992ac63f58857c2f631ee6936d3aebbeddcd1b1 0xc6047f9441ed7d6d3045406e95c07cd85c778e4b8cef3ca7abac09b95c709ee5 0x1ae168fea63dc339a3c58419466ceaeef7f632653266d0e1236431a950cfe52a 0x2 d0 (by decide) (by decide) (by decide) (by decide) (by decide)
  have d2 := chain_dbl secp_a4_cast 0x6ad2cb95963c033328d4857d4f8711deff557dd9faaa673b400442833f0efb64 0xe493dbf1c10d80f3581e4904930b1404cc6c13900ee0758474fa94abe8c4cd13 0x51ed993ea0d455b75642e2098ea51448d967ae33bfbdfe40cfe97bdc47739922 0x4 d1 (by decide) (by decide) (by decide) (by decide) (by decide)
  have d3 := chain_dbl secp_a4_cast 0x9693023fb325cc6c7bc993eb684358ea623d5feea8ff351df662beabd0efdc6d 0x2f01e5e15cca351daff3843fb70f3c2f0a1bdd05e5af888a67784ef3e10a2a01 0x5c4da8a741539949293d082a132d13b4c2e213d6ba5b7617b5da2cb76cbde904 0x8 d2 (by decide) (by decide) (by decide) (by decide) (by decide)
  have d4 := chain_dbl secp_a4_cast 0xbc380350880ab969e653d334691ca8c2da83b2acde59e7439ed92d96a9654a07 0xe60fce93b59e9ec53011aabc21c23e97b2a31369b87a5ae9c44ee89e2a6dec0a 0xf7e3507399e595929db99f34f57937101296891e44d23f0be1f32cce69616821 0x10 d3 (by decide) (by decide) (by decide) (by decide) (by decide)
  have d5 := chain_dbl secp_a4_cast 0xb68c9cb56c4f0fd3279f2dec6acae3ffbacfb8384548d24892d676cd6beacbf5 0xd30199d74fb5a22d47b6e054e2f378cedacffcb89904a61d75d0dbd407143e65 0x95038d9d0ae3d5c3b3d6dec9e98380651f760cc364ed819605b3ff1f24106ab9 0x20 d4 (by decide) (by decide) (by decide) (by decide) (by decide)
  have d6 := chain_dbl secp_a4_cast 0x57aaae4151a198790e40eb37fe0dad5ed4d4581b1a82c40124b58ac767ed1ec4 0xbf23c1542d16eab70b1051eaf832823cfc4c6f1dcdbafd81e37918e6f874ef8b 0x5cb3866fc33003737ad928a0ba5392e4c522fc54811e2f784dc37efe66831d9f 0x40 d5 (by decide) (by decide) (by decide) (by decide) (by decide)
  have d7 := chain_dbl secp_a4_cast 0x875978642d00b859133774fec1878f9e7623f6df9c734f7ed297e920a77b4406 0x34ff3be4033f7a06696c3d09f7d1671cbcf55cd700535655647077456769a24e 0x5d9d11623a236c553f6619d89832098c55df16c3e8f8b6818491067a73cc2f1a 0x80 d6 (by decide) (by decide) (by decide) (by decide) (by decide)
  have d8 := chain_dbl secp_a4_cast 0xf0d3817330010db820c7710c8ee17a157984f4bfd3bafbd4a49079efd7754990 0x8282263212c609d9ea2a6e3e172de238d8c39cabd5ac1ca10646e23fd5f51508 0x11f8a8098557dfe45e8256e830b60ace62d613ac2f7b17bed31b6eaff6e26caf 0x100 d7 (by decide) (by decide) (by decide) (by decide) (by decide)
  have d9 := chain_dbl secp_a4_cast 0xed7816fe6ca3e42058b150c9eeac31ef8a6bda7ee9e51a0ec33e09f96afc74bc 0x465370b287a79ff3905a857a9cf918d50adbc968d9e159d0926e2c00ef34a24d 0x35e531b38368c082a4af8bdafdeec2c1588e09b215d37a10a2f8fb20b33887f4 0x200 d8 (by decide) (by decide) (by decide) (by decide) (by decide)
  have d10 := chain_dbl secp_a4_cast 0x62f219d148d24eff34fe56735390098e29b6a2190daa3dc0fbd1d33b92531a49 0x241febb8e23cbd77d664a18f66ad6240aaec6ecdc813b088d5b901b2e285131f 0x513378d9ff94f8d3d6c420bd13981df8cd50fd0fbd0cb5afabb3e66f2750026d 0x400 d9 (by decide) (by decide) (by decide) (by decide) (by decide)
  have d11 := chain_dbl secp_a4_cast 0xda8eabc70379e66ae8e505f49deb2e1b4906022def4c45ec320e33aed7091903 0x5d1bdb4ea172fa79fce4cc2983d8f8d9fc318b85f423de0dedcb63069b920471 0x2843826779379e2e794bb99438a2265679eb1e9996c56e7b70330666f7b83103 0x800 d10 (by decide) (by decide) (by decide) (by decide) (by decide)
  have d12 := chain_dbl secp_a4_cast 0x6c49014b33417076abaadc7958f95908e93dd2886468bd7d27d61cef7c1fdfdd 0x175e159f728b865a72f99cc6c6fc846de0b93833fd2222ed73fce5b551e5b739 0xd3506e0d9e3c79eba4ef97a51ff71f5eacb5955add24345c6efa6ffee9fed695 0x1000 d11 (by decide) (by decide) (by decide) (by decide) (by decide)
  have d13 := chain_dbl secp_a4_cast 0xca43b3ab114e7c697fee873576d7b89f909e0592f9e805e00246c31200fb967b 0x423a013f03ff32d7a5ffbcc8e139c62130fdfeb5c6da121bce78049e46bc47d6 0xb91ae00fe1e1d970a1179f7bbaf6b3c7720d8ec3524f009ed1236e6d8b548a34 0x2000 d12 (by decide) (by decide) (by decide) (by decide) (by decide)
  have d14 := chain_dbl secp_a4_cast 0x1b5d9cdfbd96d7eaf397653b120ed6cb0f4bd05bf004f79c2a9fd0bcdf4929bc 0x111d6a45ac1fb90508907a7abcd6877649df662f3b3e2741302df6f78416824a 0x696911c478eaffbb90d48dbff065952f070008996daca4ca9a111d42108e9d0 0x4000 d13 (by decide) (by decide) (by decide) (by decide) (by decide)
  have d15 := chain_dbl secp_a4_cast 0x6fedf4339b46436d0db4e1864076fe618c51a754e1c0ed5708b889c5733613e 0x4a4a6dc97ac7c8b8ad795dbebcb9dcff7290b68a5ef74e56ab5edde01bced775 0x529911b016631e72943ef9f739c0f4571de90cdb424742acb2bf8f68a78dd66d 0x8000 d14 (by decide) (by decide) (by decide) (by decide) (by decide)
  have d16 := chain_dbl secp_a4_cast 0xa377ffff0b36d0535197bead9992fee7698334fa5bfc270f64d511cc9ab7c03a 0x363d90d447b00c9c99ceac05b6262ee053441c7e55552ffe526bad8f83ff4640 0x4e273adfc732221953b445397f3363145b9a89008199ecb62003c7f3bee9de9 0x10000 d15 (by decide) (by decide) (by decide) (by decide) (by decide)
  have d17 := chain_dbl secp_a4_cast 0xbe610814de113647213fff8fc6378b31333e2bac4ac437ff9a702a6734563c9 0x4c1b9866ed9a7e9b553973c6c93b02bf0b62fb012edfb59dd2712a5caf92c541 0xc1f792d320be8a0f7fbcb753ce56e69cc652ead7e43eb1ad72c4f3fdc68fe020 0x20000 d16 (by decide) (by decide) (by decide) (by decide) (by decide)
  have d18 := chain_dbl secp_a4_cast 0x92ebb512788e5c3c7a3baf1feaf8281104d50976aef98bbac62a97be2d8b7a7b 0xa4083877ba83b12b529a2f3c0780b54e3233edbc1a28f135e0c8f28cbeaaf3d1 0x40e9f612feefbc79b8bf83d69361b3e22001e7576ed1ef90b12b534df0b254b9 0x40000 d17 (by decide) (by decide) (by decide) (by decide) (by decide)
  have d19 := chain_dbl secp_a4_cast 0x9b0f855eb9be64f095aa255167f0f0baf01b2cd3cc72ef8f1444747071666278 0xa804c641d28cc0b53a4e3e1a2f56c86f6e0d880a454203b98cd3db5a7940d33a 0x95be83252b2fa6d03dec2842c16047e81af18ca89cf736a943ce95fa6d46967a 0x80000 d18 (by decide) (by decide) (by decide) (by decide) (by decide)
  have d20 := chain_dbl secp_a4_cast 0xc95c70effee378ee51d4695a7e30804db90a8fdfcca618c180cec3ec5c83b500 0x8b4b5f165df3c2be8c6244b5b745638843e4a781a15bcd1b69f79a55dffdf80c 0x4aad0a6f68d308b4b3fbd7813ab0da04f9e336546162ee56b3eff0c65fd4fd36 0x100000 d19 (by decide) (by decide) (by decide) (by decide) (by decide)
  have d21 := chain_dbl secp_a4_cast 0xec7e64a924b93bbe0b71cb15729ff63848d6104ae7d55a16ed4a41d45b8fe684 0xed0c5ce4e13291718ce17c7ec83c611071af64ee417c997abb3f26714755e4be 0x221a9fc7bc2345bdbf3dad7f5a7ea68049d93925763ddab163f9fa6ea07bf42f 0x200000 d20 (by decide) (by decide) (by decide) (by decide) (by decide)
  have d22 := chain_dbl secp_a4_cast 0x4a97f998b50e69d9b7f9c654687b8490e7f4a168b22ee05f0491f67c5bcae6b4 0xfaecb013c44ce694b3b15c3f83f1fae8e53254566e0552ced4b6e6c807cec8ab 0xcc09b5e90e9ecb57fc2e02c6ec2fb13d9c32b286b85e2e2e8981dfd9ab155070 0x400000 d21 (by decide) (by decide) (by decide) (by decide) (by decide)
  have d23 := chain_dbl secp_a4_cast 0xc0b764bf04ae63359beb2b4fc6f722f47da0482483379a58ca50aff8c2ea4869 0x9bb8a132dcad2f2c8731a0b37cbcafdb3b2dd824f23cd3e07f64eae9ad1b1f7 0x945bb2b2afeee3b9b6f9dd284f863e850f54a840f4752d5364130627c3811c80 0x800000 d22 (by decide) (by decide) (by decide) (by decide) (by decide)
  have d24 := chain_dbl secp_a4_cast 0xb9f84addcab19fb53a62e79564f6075b848477821df6d6c58668d8e9b2501575 0x723cbaa6e5db996d6bf771c00bd548c7b700dbffa6c0e77bcb6115925232fcda 0x96e867b5595cc498a921137488824d6e2660a0653779494801dc069d9eb39f5f 0x1000000 d23 (by decide) (by decide) (by decide) (by decide) (by decide)
  have d25 := chain_dbl secp_a4_cast 0xc985b179caa5bee0ef6acefc42c0dec227b196c5dbd0953cc43c5868392e7cd3 0x57efa786437b744d343d7dc45773a3c62d240a43079849071fd383d60ca030d5 0xd712db0bd1b48518893627c928de03ec689b6d2ae5e9974ab07ab44274b02f9e 0x2000000 d24 (by decide) (by decide) (by decide) (by decide) (by decide)
  have d26 := chain_dbl secp_a4_cast 0xa6d04e5b19577537db75701165cc1aa476cbdc92cb167d90af93b785d698742e 0x264bbd436a28bc42a2df7e9cd5226cb91080577e327b012a7fafc7770c584dd5 0xd87c6fa94ee093b4d4f75ce24c33be226a118243717b8d8de61227937704ab11 0x4000000 d25 (by decide) (by decide) (by decide) (by decide) (by decide)
  have d27 := chain_dbl secp_a4_cast 0x4479d94c2f98166b4c1d24655334f9bab459cb5a6c074f1e9bb5b9ea97b6a18b 0xa94c6524bd40d2bbdac85c056236a79da78bc61fd5bdec9d2bf26bd84b2438e8 0xb5201fd992f96280fd79219505019e3a7e5d3c60a0e39b2bc2e2c8dbf18661f4 0x8000000 d26 (by decide) (by decide) (by decide) (by decide) (by decide)
  have d28 := chain_dbl secp_a4_cast 0xbe5aafdeb2f0b1599d1b413e816d0ae93363953c3d97e4fd3afed1c367f9596d 0xeebfa4d493bebf98ba5feec812c2d3b50947961237a919839a533eca0e7dd7fa 0x5d9a8ca3970ef0f269ee7edaf178089d9ae4cdc3a711f712ddfd4fdae1de8999 0x10000000 d27 (by decide) (by decide) (by decide) (by decide) (by decide)
  have d29 := chain_dbl secp_a4_cast 0xa6a6f72a0273aa6f7b6276e647117f1c0e9f5561a551c6238ec167ba7ac03635 0x381c4ad7a7a97bfda61c6031c118495fc4ea4bc08f6766d676bee90847d297fd 0x936af53b238eeee48f3e5fa709915eccf0451032db939c0093ace3187d493fc5 0x20000000 d28 (by decide) (by decide) (by decide) (by decide) (by decide)
  have d30 := chain_dbl secp_a4_cast 0x8dee3efccec9fbd528bcbdfc380d106f09ab41277d36c65ed6c4dc4784ea857a 0xe1efb9cd05adc63bcce10831d9538c479cf1d05fefdd08b2448d70422ede454c 0xecb4530d8af9be7b0154c1ffe477123464e3244a7a2d4c6ad9fd233a8913797 0x40000000 d29 (by decide) (by decide) (by decide) (by decide) (by decide)
  have d31 := chain_dbl secp_a4_cast 0xdb3e8ec5d990ec59421e6569d96dcdaecb7f725432c5a4ddb78439afbfe5554f 0x5318f9b1a2697010c5ac235e9af475a8c7e5419f33d47b18d33feeb329eb99a4 0xf44ccfeb4beda4195772d93aebb405e8a41f2b40d1e3ec652c726eeefe91f92d 0x80000000 d30 (by decide) (by decide) (by decide) (by decide) (by decide)
  have d32 := chain_dbl secp_a4_cast 0xf18fad968cb987adc7d7c35fc6ad8974a3fcf82a55e9400e7bf3015e6b558a5 0x100f44da696e71672791d0a09b7bde459f1215a29b3c03bfefd7835b39a48db0 0xcdd9e13192a00b772ec8f3300c090666b7ff4a18ff5195ac0fbd5cd62bc65a09 0x100000000 d31 (by decide) (by decide) (by decide) (by decide) (by decide)
  have d33 := chain_dbl secp_a4_cast 0x82cd82212ae9dbf4101c8671a40de941c0bc39b23359c41063b171fe4cbf7c6a 0x8c0989f2ceb5c771a8415dff2b4c4199d8d9c8f9237d08084b05284f1e4df706 0xfb4dbd044f432034ffd2172cb9dc966c60de6bf5156511aa736ac5a35d72fa98 0x200000000 d32 (by decide) (by decide) (by decide) (by decide) (by decide)
  have d34 := chain_dbl secp_a4_cast 0xc5ab93dae7b4d1d3c5edfe8bc49fa6ba5566b166494b830b6cf082231fe99f39 0xfb8f153c5e266704c4a481743262c0259c528539bc95bc1bb1e63c33dc47bffd 0x6ca27a9dc5e0621816fa11d9b4bccd531dde1389ac542613090a45ddd949b095 0x400000000 d33 (by decide) (by decide) (by decide) (by decide) (by decide)
  have d35 := chain_dbl secp_a4_cast 0xde12036f73e80356f7db91954e2ca46c56dcab93ec4efda7fa9e72b8b3a2b20a 0xe747333fd75d51755a0cc9f0a728708465a02c587737a7b8b8fa1b8b4bb2629a 0xf2affe0145070c114cc43603804c2581c88376aa6e1a969a9f8d961a6946f6d6 0x800000000 d34 (by decide) (by decide) (by decide) (by decide) (by decide)
  have d36 := chain_dbl secp_a4_cast 0xeaaf7c28dae8dfa52783d0b7ef5ebc91aa999f58db631588e00a05856dbef4cd 0xe1031be262c7ed1b1dc9227a4a04c017a77f8d4464f3b3852c8acde6e534fd2d 0x9d7061928940405e6bb6a4176597535af292dd419e1ced79a44f18f29456a00d 0x1000000000 d35 (by decide) (by decide) (by decide) (by decide) (by decide)
  have d37 := chain_dbl secp_a4_cast 0x27923dd35874b9d0c3e1b1930352c0c3b0d91412f38fa8c1341f5a73beb4f8b9 0xf4b93f224c8089eab9f95dcd0f29b2c9028a6ac5de94d85784e27e36a95c8356 0xa67a92ec062962dfb0e5f6a7a40eee90c37ef1344915609abd5861b9be001fd3 0x2000000000 d36 (by decide) (by decide) (by decide) (by decide) (by decide)
  have d38 := chain_dbl secp_a4_cast 0xd8880a7ae61955a53b91ef1d5de7f4b9646afd475edbbc8974911329e12fbdcd 0x9d1aca1fce55236b19622ea025b08b0d51e8512f97e696c20d62fe17b160e8a 0x1153188f5101f0c63e56692ce0d8c27e6fe9e0ee9212b5e534e050c57ca04c44 0x4000000000 d37 (by decide) (by decide) (by decide) (by decide) (by decide)
  have d39 := chain_dbl secp_a4_cast 0x8676b3eae525414b100a173e847e521f75a5c46ae628b3858b1c1fbcbc59daf7 0xc66c59cc454c2b9e18a2ad793821cde7518b3a93bfc39562e97d7d0475ba7fc2 0xd9592fe2bfb30fcfbea4f3ceaac10cb2f00a60ddb15955977ec3c69cf75f5956 0x8000000000 d38 (by decide) (by decide) (by decide) (by decide) (by decide)
  have d40 := chain_dbl secp_a4_cast 0xf53ade417a0d913b3b9e411781e6e8de0ff1a6b169ca912fe5495f51c90530d8 0xfeea6cae46d55b530ac2839f143bd7ec5cf8b266a41d6af52d5e688d9094696d 0xe57c6b6c97dce1bab06e4e12bf3ecd5c981c8957cc41442d3155debf18090088 0x10000000000 d39 (by decide) (by decide) (by decide) (by decide) (by decide)
  have d41 := chain_dbl secp_a4_cast 0x32f78aa8da44cbc85c1d785fb24f0e7f0da8ec5386523d436bb3a50d1e52fb8c 0x4d000b621adb87e1c53261af9db2e179141ecae0b331a1870aa4040aee752b08 0x6a0d5b8f18e0d255cb6d825582d972cccb7df5f119c7293a3e72851f48302cea 0x20000000000 d40 (by decide) (by decide) (by decide) (by decide) (by decide)
  have d42 := chain_dbl secp_a4_cast 0x2c5edb78f874848d89ceb49fa59a1ff38ba3a6605f567ca67bb74a6e78c097d7 0x71f570ca203da05dd6aa262114717128d657a0403e1f1b77f89962fd475c58ef 0xeb42415b95dc880dd25557345bc95b8df2445d00c3363e7df8649a72d35d420e 0x40000000000 d41 (by decide) (by decide) (by decide) (by decide) (by decide)
  have d43 := chain_dbl secp_a4_cast 0xdebcd686b581f6645f94a93467d0ecdf9e4ad7edeedcfeed57d9d6364c78d427 0xa2b7b3629f7bd253b7d282b5c21da01446b4821dc65e76516048b06043ff8359 0x693038941695122d57a937a3f71e29c910d10835046f3835a2397fecfe86fec2 0x80000000000 d42 (by decide) (by decide) (by decide) (by decide) (by decide)
  have d44 := chain_dbl secp_a4_cast 0x81751b61f3b4ad7169d8ac62378adc14043339e3a60078fa2bf394c804c26e20 0xda67a91d91049cdcb367be4be6ffca3cfeed657d808583de33fa978bc1ec6cb1 0x9bacaa35481642bc41f463f7ec9780e5dec7adc508f740a17e9ea8e27a68be1d 0x100000000000 d43 (by decide) (by decide) (by decide) (by decide) (by decide)
  have d45 := chain_dbl secp_a4_cast 0xea6ec05c50822815af2653e43c1adabb3be24e602591c72373d731cc1a44a051 0x4dbacd365fa1ef587c0c0cfaaf00d8718bbd9f35ccea5a835ee3cc821fe741c9 0x16c3540e8a51892e7fdcfd59e838299d0cc384a09fc0535f60be10f8338eb623 0x200000000000 d44 (by decide) (by decide) (by decide) (by decide) (by decide)
  have d46 := chain_dbl secp_a4_cast 0xe60635d4ed2d254e05003b55d58bd309cce50b703f8dbf6d4700a65d85559a25 0x13d1ffc481509beee68f17d8ff41c2590f4c85f15268605087eda8bab4e218da 0x6008391fa991961dcecb9337b1b758bda4ad01206d5bd127e0db419ddb191c19 0x400000000000 d45 (by decide) (by decide) (by decide) (by decide) (by decide)
  have d47 := chain_dbl secp_a4_cast 0x7471bc58c865f770a22bcb1e2465507731b3ad17d19c55c851a736531fefafae 0x219b4f9cef6c60007659c79c45b0533b3cc9d916ce29dbff133b40caa2e96db8 0x24d9c605d959efeaf5a44180c0372a6e394f8ac53e90576527df01a78d3b6bc7 0x800000000000 d46 (by decide) (by decide) (by decide) (by decide) (by decide)
  have d48 := chain_dbl secp_a4_cast 0xc84b8bb00e0f4407e49fe1be00895dca6d817c8ce64cfebb5d67625411bde644 0x53904faa0b334cdda6e000935ef22151ec08d0f7bb11069f57545ccc1a37b7c0 0x5bc087d0bc80106d88c9eccac20d3c1c13999981e14434699dcb096b022771c8 0x1000000000000 d47 (by decide) (by decide) (by decide) (by decide) (by decide)
  have d49 := chain_dbl secp_a4_cast 0xdfada4b2106cac4951ec538f3d828576d57426ebe0d870d5e091e5b044aa5639 0x1a575af9d4146753cf991196316995d2a6ee7aaad0f85ad57cd0f1f38a47ca9 0x3038f1cb8ab20dc3cc55fc52e1bb8698bdb93c5d9f4d7ea667c5df2e77ebcdb7 0x2000000000000 d48 (by decide) (by decide) (by decide) (by decide) (by decide)
  have d50 := chain_dbl secp_a4_cast 0x51ee9a34eead0ad899a54439d004a42a2f3fa11be3c4773c1dc6457062e3572b 0xf5f0e0437621d439ca71f5c1b76155d6d3a61a83d3c20c6ee309d755e315565b 0x6b9f4e62be5a052bf62189160df7101aa5bf61bf3ed7e40a678430afdd2ecc82 0x4000000000000 d49 (by decide) (by decide) (by decide) (by decide) (by decide)
  have d51 := chain_dbl secp_a4_cast 0x602c9992d00cc6030985312c38033bca60ce74f3a25777862a7288488389cdc1 0x8f506f0b6c0b6e9a57a7f36d970ca4e347cbc92146227642cbe781d9f5362d33 0x469f955d2afa61719530c5424f1c336848cf925d43bb8eaf30487d0c87fa243f 0x8000000000000 d50 (by decide) (by decide) (by decide) (by decide) (by decide)
  have d52 := chain_dbl secp_a4_cast 0x2caed624594a3483ad98859bef75a97ed7cc509bd906bb2b23fbf9fbe4e5004f 0x8e7bcd0bd35983a7719cca7764ca906779b53a043a9b8bcaeff959f43ad86047 0x10b7770b2a3da4b3940310420ca9514579e88e2e47fd68b3ea10047e8460372a 0x10000000000000 d51 (by decide) (by decide) (by decide) (by decide) (by decide)
  have d53 := chain_dbl secp_a4_cast 0xff486a88ac95151d852a5270924d4ccf1fff7b676398e499d324893a4bbb576c 0x33b35baa195e729dc350f319996950df3bc15b8d3d0389e777d2808bf13f0351 0xa58a0185640abf87f9464036248d52bcaa6560efbc889b702bc503cccb8d7418 0x20000000000000 d52 (by decide) (by decide) (by decide) (by decide) (by decide)
  have d54 := chain_dbl secp_a4_cast 0x8309b9cd7caf364f8a4726b848e574837a1498176583cd38a99bbf35c27c0e01 0x374deeae22c93f955cb83ad2071f7e2256f6e109cad7bca6d71dc7b24414bb36 0x171165b64fcd4f9916032c06f806f7293828d66300e543217875bea98daf734a 0x40000000000000 d53 (by decide) (by decide) (by decide) (by decide) (by decide)
  have d55 := chain_dbl secp_a4_cast 0xc3a088da9a740fbef9a36dc94890489302dbf3a200c6aad18428714f41d62ef0 0x2380c09c7f3aeae57c46e07395aeb0dc944dbaf2b62a9f0c5e8a64ad6ae7d616 0x6f8e86193464956af1598aefd509b09a93af92148f8467560099be48161bbc1a 0x80000000000000 d54 (by decide) (by decide) (by decide) (by decide) (by decide)
  have d56 := chain_dbl secp_a4_cast 0x9a1bb41d1a00d1b60cc94b47fe3b071dd38189836c875b949a5bb1b3744d5622 0x385eed34c1cdff21e6d0818689b81bde71a7f4f18397e6690a841e1599c43862 0x283bebc3e8ea23f56701de19e9ebf4576b304eec2086dc8cc0458fe5542e5453 0x100000000000000 d55 (by decide) (by decide) (by decide) (by decide) (by decide)
  have d57 := chain_dbl secp_a4_cast 0x738fd7bbbe9afd0e286fa67c1b3d9d1d4306cf1d91327714eb87d7e6678bcdb6 0xf6f622083daf54800456be134d5f67d147c82642befc1ce2dc83a27078f2827c 0x1bcd4e817de73a0faf2c5715b367cee7e657ca7448321bf6d15b20b520aaa102 0x200000000000000 d56 (by decide) (by decide) (by decide) (by decide) (by decide)
  have d58 := chain_dbl secp_a4_cast 0x245df8c5a6ad254b4c4c56c0d969cacd2ea321b08b1ed4d55515f34d582f7420 0xfb26e5188f953de2bd70cb3c3d1fc255cd91c3ce7d8c6f369d893209715adcb6 0xf3e128811012a34d58e846a719d0176916d2cb31b8b7ab5449dbca3b58ba68f3 0x400000000000000 d57 (by decide) (by decide) (by decide) (by decide) (by decide)
  have d59 := chain_dbl secp_a4_cast 0xb51b78655a4e5a25c8c18dd20190b5571b736e586729fe907b550841e1b6724f 0x8991225911b9132d28f5c6bc763ceab7d18c37060e8bd1d7ed44db7560788c1e 0xda8b4d987cc9ac9b27b8763559b136fa36969c84fdef9e11635c42228e8f0ef1 0x800000000000000 d58 (by decide) (by decide) (by decide) (by decide) (by decide)
  have d60 := chain_dbl secp_a4_cast 0x2e95bd430cb40948c3e3069bb698efdada1d87ac3d902f2d55129e9cbdb660d4 0x6f9d9b803ecf191637c73a4413dfa180fddf84a5947fbc9c606ed86c3fac3a7 0x7c80c68e603059ba69b8e2a30e45c4d47ea4dd2f5c281002d86890603a842160 0x1000000000000000 d59 (by decide) (by decide) (by decide) (by decide) (by decide)
  have d61 := chain_dbl secp_a4_cast 0x61ff0b09e723c8829eb256b349701c992867da5babb9246b4e80f4a06a7739aa 0xae86eeea252b411c1cdc36c284482939da1745e5a7e4da175c9d22744b7fd72d 0x19e993c9707302f962ab0ace589ff0e98d9211551472f7282334cb7a4eee38bc 0x2000000000000000 d60 (by decide) (by decide) (by decide) (by decide) (by decide)
  have d62 := chain_dbl secp_a4_cast 0x3172c36f49857e7e10d1b5927bf54091d80521d6b2eb92a8998b92cbb2234de1 0x2248c9f90bbfff55e61d2f8c56dc2c488718be75cf36f2ee7a1474267c169290 0xfa0594692d21eed7a506bb55b435ba18e163750235da2be2369d8a12883ea257 0x4000000000000000 d61 (by decide) (by decide) (by decide) (by decide) (by decide)
  have d63 := chain_dbl secp_a4_cast 0xc3c8b71e8454afd4fe4ae23209d6947bbfdb44f29f3474cbf6e1de6bfd9974ad 0xe11a6e16e05c44074ac11b48d94085d0a99f0877dd1c6f76fd0dac4bb50964e3 0x87d6065b87a2d430e1ad5e2596f0af2417adc6e138318c6f767fbf8b0682bfc8 0x8000000000000000 d62 (by decide) (by decide) (by decide) (by decide) (by decide)
  have d64 := chain_dbl secp_a4_cast 0xc781a37bd88a0baa945a25dcbec891a96eab33936f3ae33b924c4ebb9ccc91e1 0x3322d401243c4e2582a2147c104d6ecbf774d163db0f5e5313b7e0e742d0e6bd 0x56e70797e9664ef5bfb019bc4ddaf9b72805f63ea2873af624f3a2e96c28b2a0 0x10000000000000000 d63 (by decide) (by decide) (by decide) (by decide) (by decide)
  have d65 := chain_dbl secp_a4_cast 0x5e1c71fb55e898f6e64912dece2b8a3d031f1eaee2af6f37ebd48ca94c1a3624 0x8d26200250cebdae120ef31b04c80cd50d4cddc8eadbcf29fc696d32c0ade462 0xebed3bb4715bf437d31f6f2dc3ee36ba1d4afb4e72678b3ad8e0a8b90f26470c 0x20000000000000000 d64 (by decide) (by decide) (by decide) (by decide) (by decide)
  have d66 := chain_dbl secp_a4_cast 0x5adeba52ee6ac0e141ffb884efa7a7d9a940b9950373647c8aaef60dd14e763c 0x1238c0766eaebea9ce4068a1f594d03b8ed4930d072d9c8b9164643e1516e633 0x8a9db02dbb271359d6c979e2d1c3dc170946252dcc74022805cdb728c77b7805 0x40000000000000000 d65 (by decide) (by decide) (by decide) (by decide) (by decide)
  have d67 := chain_dbl secp_a4_cast 0xa478dd7bfcb0fe45115c6952feba38f9de0842736b164666c083b48c9ac6cb1 0x271d5b0770cb9c15e7b2ea758a6a11b9cddcd7282b0ec21619b01552788e7a66 0x5d3aa45834e7f491e457d09949ac877fe2a065e3508a824e7a8d7258e03c9727 0x80000000000000000 d66 (by decide) (by decide) (by decide) (by decide) (by decide)
  have d68 := chain_dbl secp_a4_cast 0x104f2aa37e05be6add58d281a2334816593555f014ce643f702814ec1391f5a4 0x85672c7d2de0b7da2bd1770d89665868741b3f9af7643397721d74d28134ab83 0x7c481b9b5b43b2eb6374049bfa62c2e5e77f17fcc5298f44c8e3094f790313a6 0x100000000000000000 d67 (by decide) (by decide) (by decide) (by decide) (by decide)
  have d69 := chain_dbl secp_a4_cast 0xad98ae499f8b968dacfaf69097db01061deecdd4b8b7fe434720aaf6131a6fc1 0x534ccf6b740f9ec036c1861215c8a61f3b89ea46df2e6d96998b90bc1f17fc25 0xd5715cb09c8b2ddb462ae3dd32d543550ae3d277bfdd28ddd71c7f6ecfe86e76 0x200000000000000000 d68 (by decide) (by decide) (by decide) (by decide) (by decide)
  have d70 := chain_dbl secp_a4_cast 0xe3b8c91ddd9155986dea06e85caade56b09b179572444c1c2007fd77d04d6f0 0xa91d1f5cee87b7f3081e142018f8aaed79020d47ecfbc8d2c7170923e8bee8b6 0x748a324ee2df8ee15a7189c8dddad3b2f800569f628cb225003d16aa410644c1 0x400000000000000000 d69 (by decide) (by decide) (by decide) (by decide) (by decide)
  have d71 := chain_dbl secp_a4_cast 0x6d5074103e91fdcfa4597e9b5c32b822c19b5af92207eb477c72ec4f9dcccb6b 0xc15c8c23d90c8e35c1a214dde2d4383c0735ae45bef61f10aa1a1c255984cf74 0x2ba954d828522235c8dc6f45e25fd7ba47bf772d50b015a2c4a48cd839ccb000 0x800000000000000000 d70 (by decide) (by decide) (by decide) (by decide) (by decide)
  have d72 := chain_dbl secp_a4_cast 0xb0486abb58d31b2dc9704b8502170a38dc4139987db4802a1661a40d857824d 0x948bf809b1988a46b06c9f1919413b10f9226c60f668832ffd959af60c82a0a 0x53a562856dcb6646dc6b74c5d1c3418c6d4dff08c97cd2bed4cb7f88d8c8e589 0x1000000000000000000 d71 (by decide) (by decide) (by decide) (by decide) (by decide)
  have d73 := chain_dbl secp_a4_cast 0xe6d9fa3e6518d4e9723dea425cf89cf627c6b2258bb185785b0f3d91b04e6115 0x26952c7f372e59360d5ce4c66291f0b6ef16c1331e825e51396eb0457e8b000a 0xf513ea4c5800a68862bc893d2d688422debe398f653d67318c3d401f05ef705a 0x2000000000000000000 d72 (by decide) (by decide) (by decide) (by decide) (by decide)
  have d74 := chain_dbl secp_a4_cast 0xd884b65bd5b8dfcbdda21a681b317b0bcbf4d101debc21a38ca7300520334d4c 0xc62e58e6fc23c5bdbef2be8b131ff243f521196572d6b0e9f102588976134f96 0x4397827d45b1a1678c3d676753141fc5bcfb853563731c3e82277ed4d14cf97e 0x4000000000000000000 d73 (by decide) (by decide) (by decide) (by decide) (by decide)
  have d75 := chain_dbl secp_a4_cast 0x9d1540c9467d3bf99ee5b77f3c9121f1a88e1886ce5c64aa196b85cf6815554e 0x107460520eec5c741683329a716622b0b81c03200807de973686f8800b188cbb 0xabe5d4c09a21598c35326b9b9cf54a11242e0d748dce3da601d7b6361f272124 0x8000000000000000000 d74 (by decide) (by decide) (by decide) (by decide) (by decide)
  have d76 := chain_dbl secp_a4_cast 0xc48405b3038c03bd744a8ed8a5527cb83e8f1929b392d0a6967cbd721bae0b 0x6260ce7f461801c34f067ce0f02873a8f1b0e44dfc69752accecd819f38fd8e8 0xbc2da82b6fa5b571a7f09049776a1ef7ecd292238051c198c1a84e95b2b4ae17 0x10000000000000000000 d75 (by decide) (by decide) (by decide) (by decide) (by decide)
  have d77 := chain_dbl secp_a4_cast 0xf9bd4b25fb8787ac97edb42b9bac8deb9ff7ef01b41f5d6575086f1012bf96ce 0x85d8da4748ad1a73dec8409be84f1a1316e65c5196aad27e0766746f3d477c2d 0x58948b53665c6690586b536531efc7bc94b0a02033c4d5a62079816fc7d1dd70 0x20000000000000000000 d76 (by decide) (by decide) (by decide) (by decide) (by decide)
  have d78 := chain_dbl secp_a4_cast 0x95b144bd0405b76f012f298ce4bf1355bccb8671d21cdb26d904bbbeb3860cda 0x8e2a7166e7ec4b968c0892e9cc3ee3ee4d1e7e100fdc47f04850312d6c0b80d9 0xeadb0ba9ae2cbe592cedd29b716a9d485297b688d706349a49c61f2ad6b29f50 0x40000000000000000000 d77 (by decide) (by decide) (by decide) (by decide) (by decide)
  have d79 := chain_dbl secp_a4_cast 0xcd97a7266946a362a966c2469bb3e45413110726a2c395c2bea221545461dbef 0x769bc75842bff58edc8366ecd78f8950ee4ab2e81359d90f9921fa3d2c4561be 0x4bf817362fe783bac8dce4cef73f5d4741a177767b7873add5920bffb0d9685f 0x80000000000000000000 d78 (by decide) (by decide) (by decide) (by decide) (by decide)
  have d80 := chain_dbl secp_a4_cast 0xe53ce2c798d39bef6ff55175192d6b703f4df8f610db8e47bda11627318a4605 0xe5037de0afc1d8d43d8348414bbf4103043ec8f575bfdc432953cc8d2037fa2d 0x4571534baa94d3b5f9f98d09fb990bddbd5f5b03ec481f10e0e5dc841d755bda 0x100000000000000000000 d79 (by decide) (by decide) (by decide) (by decide) (by decide)
  have d81 := chain_dbl secp_a4_cast 0x18b9cd189f45726e2c6dfdc2cce38866bc945ec92113621bfaa817ce723adf9e 0xa5e00da467fd5494f40b6cf7d2d61b3ec3ab217c792a2ddb8c63c8c79e3d34ef 0x98fe5f5e5608555421726fe99bf43d25b60dcfe790900acb855c5ce2f7adb4c 0x200000000000000000000 d80 (by decide) (by decide) (by decide) (by decide) (by decide)
  have d82 := chain_dbl secp_a4_cast 0xbcba2313f29e1d97551bf61072f2a6f583d17ef9378ac65a6a5a28639887beb1 0xa99415f5ef3a2b403519f4bb1c9bfbc46d4afd2e4477572ae6737160d7b91252 0x82d0e64cae81f84bb9e2f10f24f6f6b6899a16ad590f4ddd73a377ac4bedc264 0x400000000000000000000 d81 (by decide) (by decide) (by decide) (by decide) (by decide)
  have d83 := chain_dbl secp_a4_cast 0xccb0c2d5a765fae0fa90950f0ed92a38ad56207a00bd4f3ea9da4b31dfc25815 0xb56f4e9f9e4fd1fc7d8edde098f935f84c750d705f0c132bd8c465b66a540f17 0x32e8e53429cca856d3dc11adf0582d1d21d42963cbcca85446a2fcae0200102d 0x800000000000000000000 d82 (by decide) (by decide) (by decide) (by decide) (by decide)
  have d84 := chain_dbl secp_a4_cast 0xdfedec6f42f70b127c80c91fa38ee129550274bde0c96a7286b93a0f6c39dfc0 0xe06372b0f4a207adf5ea905e8f1771b4e7e8dbd1c6a6c5b725866a0ae4fce725 0x7a908974bce18cfe12a27bb2ad5a488cd7484a7787104870b27034f94eee31dd 0x1000000000000000000000 d83 (by decide) (by decide) (by decide) (by decide) (by decide)
  have d85 := chain_dbl secp_a4_cast 0x24076fdb1fa11f74017e5c3696347308e32b3f0e740977d9c044061b43cc1ca4 0xeac134ca2046b8f9c8dbd304fad3f3c045ebfdb4ec6ed3cfe09aee43ed2ff3e 0x49630dbe79359b4245bf103bf2b11799ac19f696b7f21376e17206207d210988 0x2000000000000000000000 d84 (by decide) (by decide) (by decide) (by decide) (by decide)
  have d86 := chain_dbl secp_a4_cast 0x38894d85c2951105037a5d11369af6d039f62d660aef1e5b13689d8a8da7b17a 0xd6788590731fea198392119d7adbb41ff5948a7804c85b17476706e4dfbfa4dc 0x28eaa8c89d5063c4940ef5c6d21c13aa6206f1c4ddc9a07cca7bcd6bbd3b5406 0x4000000000000000000000 d85 (by decide) (by decide) (by decide) (by decide) (by decide)
  have d87 := chain_dbl secp_a4_cast 0x43e3186271177bc3437dffd0f295e9a9b2a7a173698f8c15f747e07c7e8ff275 0x6930fccbd9a040974abf210f12b71d4bc7b1a6205599b01a7275fb40e48ff9b3 0x7f02ae94b94701eada30fcdb875f6d78090f9b13e4acc51acfddab5f8ee96a4e 0x8000000000000000000000 d86 (by decide) (by decide) (by decide) (by decide) (by decide)
  have d88 := chain_dbl secp_a4_cast 0xb52c04d03ee5d1a4b1d4065d2e74ed960cb2de26a95aa21abbc0df208ef24801 0x213c7a715cd5d45358d0bbf9dc0ce02204b10bdde2a3f58540ad6908d0559754 0x4b6dad0b5ae462507013ad06245ba190bb4850f5f36a7eeddff2c27534b458f2 0x10000000000000000000000 d87 (by decide) (by decide) (by decide) (by decide) (by decide)
  have d89 := chain_dbl secp_a4_cast 0xa25099814b5320e1032c789b522196ca8e997d9c4c7caf884c79019ad46985e4 0x1c5e548132b49a7f66ae9fed8323480e0d1ab974622e7cf08993895e0ec87fac 0x4ffcf60f837f468f2bb959fa1d4c2ad3a3deaceb26fe324c555d7b3d5fc2d4ef 0x20000000000000000000000 d88 (by decide) (by decide) (by decide) (by decide) (by decide)
  have d90 := chain_dbl secp_a4_cast 0x722376042ae0f9d2ab08571a325abc3a4436037b5b82183ef03f4c040825c566 0x46276d0602c5668ddef6e94210bbc7ce1f901c19fed5c970e20fcba1d4531dbc 0xe0f7f24d44c75b84a292287570ded99498badfbffe1bc99af8730099686b8e2 0x40000000000000000000000 d89 (by decide) (by decide) (by decide) (by decide) (by decide)
  have d91 := chain_dbl secp_a4_cast 0xa108d01af8d3416aa2f0e358342876e2ba7343cd700f6c28a824e467637a1221 0xefea68eca7a6c24f4e65eb211c3191636850e0acdc78d8996114ef13522f001d 0xaab847869d583c14da150307a3719a17e413959fb3848771c128419f73bc4415 0x80000000000000000000000 d90 (by decide) (by decide) (by decide) (by decide) (by decide)
  have d92 := chain_dbl secp_a4_cast 0xaa93ae9daa82037fbb9b9ac8d39248dd36602f49c2588d2617debf0c252844b5 0x4e7c272a7af4b34e8dbb9352a5419a87e2838c70adc62cddf0cc3a3b08fbd53c 0x17749c766c9d0b18e16fd09f6def681b530b9614bff7dd33e0b3941817dcaae6 0x100000000000000000000000 d91 (by decide) (by decide) (by decide) (by decide) (by decide)
  have d93 := chain_dbl secp_a4_cast 0x1636e902f0379b679aafde9343d791a7ab89d449ce8432e3b716d55e3470094f 0x899017b02696888f268a269f4e385d9c9b11f25a1bef8790e2821e6e7c6e1b4d 0x43ae2cdab5b334f0bb45798336358bfae4e51bc0f932b212009aebdad814ab2b 0x200000000000000000000000 d92 (by decide) (by decide) (by decide) (by decide) (by decide)
  have d94 := chain_dbl secp_a4_cast 0x61d87a0cfe2e33fd3d7b20932d6ec316534b451b05017d55ebf66df97c650703 0x67f644f76e905fd4a8f4728e63227f0e2831f5bf91b583a8af2635a17e5f712f 0xb833d68f66445d04f05adeb7b586cf785e0e1488f7d36198d68acb5e707160e5 0x400000000000000000000000 d93 (by decide) (by decide) (by decide) (by decide) (by decide)
  have d95 := chain_dbl secp_a4_cast 0x24454cfd40d319c9fe377ebae48788ea6718ae1dc023e42f98c46838dfdb2715 0x327f876c93652555fa80a054968b4712930dc93012ee6b8dc10263ed3b89a762 0xb2d404eab3524026b09969255e1997b975535070febd7dfe9c9fd959b9203301 0x800000000000000000000000 d94 (by decide) (by decide) (by decide) (by decide) (by decide)
  have d96 := chain_dbl secp_a4_cast 0x717534901dbb59ab006854c068a50dfdd20232fe591a31fbd7dda12262862069 0xfea74e3dbe778b1b10f238ad61686aa5c76e3db2be43057632427e2840fb27b6 0x6e0568db9b0b13297cf674deccb6af93126b596b973f7b77701d3db7f23cb96f 0x1000000000000000000000000 d95 (by decide) (by decide) (by decide) (by decide) (by decide)
  have d97 := chain_dbl secp_a4_cast 0x41c5c1a77b62baa51b180e1dcbff6780ece0a093f5a78051c6de090fab67d58b 0xed9441c8304280ff180e03d850e8cd0ebb570ee5de3730488fd97c961f9756e4 0x3dbe9e9efe8bfa19afa176128b13911e09f23774fe4de98bff0e09f93f3abfae 0x2000000000000000000000000 d96 (by decide) (by decide) (by decide) (by decide) (by decide)
  have d98 := chain_dbl secp_a4_cast 0xcc008c577437b3b458c9b836494bb2bc62d6e64da3f0842ef710401e85163577 0x29d9698ee67a7c3fc9fed3f624b487515b10bdd84fab4d3015bad033d51cf119 0x7fd02c517dc82b45277a125404f1c96fb89c940e93a7c2963c88740575056339 0x4000000000000000000000000 d97 (by decide) (by decide) (by decide) (by decide) (by decide)
  have d99 := chain_dbl secp_a4_cast 0x9294b9f9f80b87f9d51ea42cdc54616c6c8cacf9b6a14ad9e9bee370d90df338 0x126b57d05013936d6f3fb7bd33580a31fd453e4a86060cff467c44537f422491 0xc1a7dc13061662c2e3c4a3eba2bf3fb0e148bac30bf39347afa31f199da3ef84 0x8000000000000000000000000 d98 (by decide) (by decide) (by decide) (by decide) (by decide)
  have d100 := chain_dbl secp_a4_cast 0x27b376e30f76ec47e5e68b16c3a2cf484262baa820f9d61937a65d963ba0a28f 0x76e64113f677cf0e10a2570d599968d31544e179b760432952c02a4417bdde39 0xc90ddf8dee4e95cf577066d70681f0d35e2a33d2b56d2032b4b1752d1901ac01 0x10000000000000000000000000 d99 (by decide) (by decide) (by decide) (by decide) (by decide)
  have d101 := chain_dbl secp_a4_cast 0xf1bf5eae2a0c4c9ef23bb69797a3827927656b3d5c2e1dc0e927cc43f0db11ba 0x708a530e9e52c73bee87c9d88161c810005d57622c29ae691cf999a83a1187a5 0x9b884811e1f9a897fa9656dcbb6d38283ecda73c6d353e8a58a4f19b473db9c0 0x20000000000000000000000000 d100 (by decide) (by decide) (by decide) (by decide) (by decide)
  have d102 := chain_dbl secp_a4_cast 0x546acca7e813b1998650b06326ef6544d2d72aa88a3413c45c35c5c3ba5cef5e 0x19cf034fc48b3be219bd648395e462cf9f374b6d86b2b59e2e1b16c6cde4f5be 0x28e32b06a15ab466c3b4be68ab181947ef91d1c93f0f1c0c0a91532b6f321af2 0x40000000000000000000000000 d101 (by decide) (by decide) (by decide) (by decide) (by decide)
  have d103 := chain_dbl secp_a4_cast 0x631098678fdb228e7be3f87f83e86efe5e8cb7d78b2be931475be0b75e618be4 0xaf6c44a078cb5f0d7c719c2f8397f576ee93bd034bea2219e3abc209d17cf3e8 0x784096fe85d4b30af9e73153cb246dfec362aea7ca0d435b8add0601751baea 0x80000000000000000000000000 d102 (by decide) (by decide) (by decide) (by decide) (by decide)
  have d104 := chain_dbl secp_a4_cast 0x792c04e8f7afd1b9a401fb8523f74d5c81c76302b10a6726b0a0b54d60e62eac 0xc738c56b03b2abe1e8281baa743f8f9a8f7cc643df26cbee3ab150242bcbb891 0x893fb578951ad2537f718f2eacbfbbbb82314eef7880cfe917e735d9699a84c3 0x100000000000000000000000000 d103 (by decide) (by decide) (by decide) (by decide) (by decide)
  have d105 := chain_dbl secp_a4_cast 0xa12d5e05dff013873b8147dae62e9e6caf91901e3e357c1cec3858f69f0d4b2 0x5578845ecd7c037435b32a6992e7aa94647197ea49b8c9e4ddaab0784662ab1b 0xe61d07978b6de2c3cea6d0a51d2a4053f653a7746a5d64de316d18f3056f3511 0x200000000000000000000000000 d104 (by decide) (by decide) (by decide) (by decide) (by decide)
  have d106 := chain_dbl secp_a4_cast 0x2a2f3623eafc2706805279368e2b1c5c2afa8d5e85e53d5ba7e9d48345cf88f4 0x47f3383888a364cc4abfa3bc1d0ceccd22f12354fce3996094f869b8948b6c29 0x48ca9a8d0f032937190e48675b416c7118bb499588f994a81edee1120e537ef9 0x400000000000000000000000000 d105 (by decide) (by decide) (by decide) (by decide) (by decide)
  have d107 := chain_dbl secp_a4_cast 0x292696c573b74a6cd56a72bbb1bcc0d621fb2ff611aec55bd728a03258fa9ac4 0xc0c01f34ae41b8cfe466b4c9c6a5d5f614f570d6fcbef768a81a6c8f05ff4adb 0xb84f5bee4357f5c7c937a0b4075b8cecdbc43d170d15b85fc4eff73ac351065 0x800000000000000000000000000 d106 (by decide) (by decide) (by decide) (by decide) (by decide)
  have d108 := chain_dbl secp_a4_cast 0xaa59b2dd302ea6d3ebf0bd86b52a675096448eaee3e2c37f59fe73a32ea2452c 0xd895626548b65b81e264c7637c972877d1d72e5f3a925014372e9f6588f6c14b 0xfebfaa38f2bc7eae728ec60818c340eb03428d632bb067e179363ed75d7d991f 0x1000000000000000000000000000 d107 (by decide) (by decide) (by decide) (by decide) (by decide)
  have d109 := chain_dbl secp_a4_cast 0x9824e79ee39825411d7bf6454d5ed23a6453d1b81b9b3a889361ae2bb1a01db9 0xfd136eef8971044e8a3a43622003a26703ecaf7a0ec40c3fba5b594b77078424 0x218da834f3c652cc67a1d191b5c5efa57cf2b1f78a2adfa8cd61eeefc671ddf1 0x2000000000000000000000000000 d108 (by decide) (by decide) (by decide) (by decide) (by decide)
  have d110 := chain_dbl secp_a4_cast 0x1410252b4cd150f805430da05be0fa84af1a95f3bda9041d49b5dac99bde7dbc 0xd99e8e9dd9638d140e9cca5367519f861b7003a0d43f024a5f1d84ec8db1cb3c 0x36dc19ad1cc0a3a7a945bb321bceba6e6286fef8ffc8765cd88a29e36b8637a7 0x4000000000000000000000000000 d109 (by decide) (by decide) (by decide) (by decide) (by decide)
  have d111 := chain_dbl secp_a4_cast 0xd835dfd81665457b77de5400f8e630b0f3fee3384b8a278f65ff35efbac3549d 0x3fdf1619a198317a1bd8a54e5b09191d203351e0440e636fd46f68d3c385172 0x408d02c06e5c12c3fe470c7d3c8573755b9b929e90e7232b79ac67f0fccb9794 0x8000000000000000000000000000 d110 (by decide) (by decide) (by decide) (by decide) (by decide)
  have d112 := chain_dbl secp_a4_cast 0x31acb4e1b1cf7975d68309d78e4079a67ff7ca16b70a141bca36aa1e38f7816 0xb8da94032a957518eb0f6433571e8761ceffc73693e84edd49150a564f676e03 0x2804dfa44805a1e4d7c99cc9762808b092cc584d95ff3b511488e4e74efdf6e7 0x10000000000000000000000000000 d111 (by decide) (by decide) (by decide) (by decide) (by decide)
  have d113 := chain_dbl secp_a4_cast 0x9e134159fa7f342a7059c56115bfcbe4aee40bb38561a32f7d1cd882eb497297 0x6d36d105ed8cc5ce53f2cb698ab620f9469a3e5cb25bf6e6d413f414c5af726a 0xe4ba5c34e377669e72d8c66c95c50029dcc59936b4108a35c570491a13f9fc7d 0x20000000000000000000000000000 d112 (by decide) (by decide) (by decide) (by decide) (by decide)
  have d114 := chain_dbl secp_a4_cast 0xf7f95ba71f70ffae38b8afe471517eb23276f67bb7e8587cbcc1c8f03fdd8edc 0x3ab6bde10cd3ac0cd06883fa66f0b0e3eb1309c0534b812286e2a30ca540db99 0xbaca62079be871d7fc3117a96a13e99c38d137b0e369c043e6873fe31bda78a3 0x40000000000000000000000000000 d113 (by decide) (by decide) (by decide) (by decide) (by decide)
  have d115 := chain_dbl secp_a4_cast 0x775399578055e555c62520e02bf03e8454a29230887ca4369e4c87b9bb0ba8cd 0x796634e3f1ad56f0fdba069d9d07bce2ba2fd4f373ddd3ba7777bf279f1048da 0x4d8ee2b6cfb20b8956de74735a7927f2532576d8cfd74862e8f9be24a106cf01 0x80000000000000000000000000000 d114 (by decide) (by decide) (by decide) (by decide) (by decide)
  have d116 := chain_dbl secp_a4_cast 0x500a08279b3c953b7ea4c442af79ee4fc12bb93017e4727816b4374fcac245db 0xe80fea14441fb33a7d8adab9475d7fab2019effb5156a792f1a11778e3c0df5d 0xeed1de7f638e00771e89768ca3ca94472d155e80af322ea9fcb4291b6ac9ec78 0x100000000000000000000000000000 d115 (by decide) (by decide) (by decide) (by decide) (by decide)
  have d117 := chain_dbl secp_a4_cast 0x759f42169706492f4d893748465b0b891cf451657415eb8bad19754d88799bb8 0x440ca1f08ea41265981ac4ed1efe7a37122dcc3877d2f9162db0e78b0f83cd58 0xa6c8b0d2cd5ee122af8954dc9d4e2f02a21e4d4269c0a260b07bc069b88a3f4b 0x200000000000000000000000000000 d116 (by decide) (by decide) (by decide) (by decide) (by decide)
  have d118 := chain_dbl secp_a4_cast 0x9b2f8851451a0c4a32b655df99f323889b9f437a5ac499423c383f787a29e43e 0xf694cbaf2b966c1cc5f7f829d3a907819bc70ebcc1b229d9e81bda2712998b10 0x40a63eba61bef03d633c5ffacc46d82aeb6c64c3183c2a47f6788b1700f05e51 0x400000000000000000000000000000 d117 (by decide) (by decide) (by decide) (by decide) (by decide)
  have d119 := chain_dbl secp_a4_cast 0xfd694f82ce17714f7e6a833cfa028cf5206ab4c04bab17679f65e28f90487e1d 0x8b6e862a3556684850b6d4f439a2595047abf695c08b6414f95a13358dd553fd 0xea5e08910ed11cb40d10bc2df4eb9fa124ac3c5a183383d0d803dad33e9be5ed 0x800000000000000000000000000000 d118 (by decide) (by decide) (by decide) (by decide) (by decide)
  have d120 := chain_dbl secp_a4_cast 0x6d66f1633c0ea4e3be369e04bdcfc73efac3f92d72320932c55fd0197c48e44a 0xa301697bdfcd704313ba48e51d567543f2a182031efd6915ddc07bbcc4e16070 0x7370f91cfb67e4f5081809fa25d40f9b1735dbf7c0a11a130c0d1a041e177ea1 0x1000000000000000000000000000000 d119 (by decide) (by decide) (by decide) (by decide) (by decide)
  have d121 := chain_dbl secp_a4_cast 0x60fb0dd8cfb159a6cc7a0b308761f2bb17857246959617835ef54989090a211d 0x27e1e59cff79f049f3e8d2419e0bff74b43965004c34b5d811420316f24ba5ae 0x310b26a6c804e209ee1b5e3cfc79df05df48a1a69afa63f784a5bfee883a45b3 0x2000000000000000000000000000000 d120 (by decide) (by decide) (by decide) (by decide) (by decide)
  have d122 := chain_dbl secp_a4_cast 0x50018607e3d60e50bc5e7dd6ea0060dab9e5478b964170294f64677ef6f5adfd 0xc712e7a5f6864aee16588ec3892d7e4f5a39adde84fbfb4f9969175c9caed7ae 0x49644107516363b365ed4b82311dd9e5380d8e544b0ce63784d148aa46156294 0x4000000000000000000000000000000 d121 (by decide) (by decide) (by decide) (by decide) (by decide)
  have d123 := chain_dbl secp_a4_cast 0xcae60ba240a4434e4187587e5c8846b5fb61cb5eed6df31ef65e69275e8298dd 0xbfc0504a4b3235d065c0d426b8675fcb2c85d6f58275d791b43e1fe44a6db03 0x1955467a6c34f3453fb8ec7f94a6c99237427197345d4f0558ac8d1a464b8542 0x8000000000000000000000000000000 d122 (by decide) (by decide) (by decide) (by decide) (by decide)
  have d124 := chain_dbl secp_a4_cast 0x27fec578a9edadb2aa5328699c0a3cccb201d9e4c4c46c036041f20898797576 0x90ad85b389d6b936463f9d0512678de208cc330b11307fffab7ac63e3fb04ed4 0xe507a3620a38261affdcbd9427222b839aefabe1582894d991d4d48cb6ef150 0x10000000000000000000000000000000 d123 (by decide) (by decide) (by decide) (by decide) (by decide)
  have d125 := chain_dbl secp_a4_cast 0xd4f0db18fed8a66a083b386445c250011b57923062480f793ccb65d82d6f2d6b 0x7e2cd40ef8c94077f44b1d1548425e3d7e125be646707bad2818b0eda7dc0151 0x905b75082adcfab382a61a8b321ef95d889bee40aeee082c9a3bc53920721ec7 0x20000000000000000000000000000000 d124 (by decide) (by decide) (by decide) (by decide) (by decide)
  have d126 := chain_dbl secp_a4_cast 0x58ff873b75fe48d0de02ba7960e477f2b009a1fad79a0c13db1f838a68704f33 0xa146f52195bedace21c975bbd1ef52a79c636bf9db853cf90e103ae41345e597 0xa5a99b0ab053feb09ae95dd2dbb31b40ea67a5b221f094b07675676af45a770a 0x40000000000000000000000000000000 d125 (by decide) (by decide) (by decide) (by decide) (by decide)
  have d127 := chain_dbl secp_a4_cast 0x4a448861c49b177bf3d75a72ffbe403636a0189476ffa033360c12be26583b58 0xd24c75a1cf1993b9bcfbf9dab25a8114dbde421efeccc4e20cbb53fc4ce45444 0x58fe1d2de84dc1d1cfcb7d1810e5a78abf7593f499f1e524cb93246987dd4a57 0x80000000000000000000000000000000 d126 (by decide) (by decide) (by decide) (by decide) (by decide)
  have d128 := chain_dbl secp_a4_cast 0x857ad2cd6b2921bd076754555a30fbaa46c691e4d20c90d6ea86468cd38da973 0x8f68b9d2f63b5f339239c1ad981f162ee88c5678723ea3351b7b444c9ec4c0da 0x662a9f2dba063986de1d90c2b6be215dbbea2cfe95510bfdf23cbf79501fff82 0x100000000000000000000000000000000 d127 (by decide) (by decide) (by decide) (by decide) (by decide)
  have d129 := chain_dbl secp_a4_cast 0xcfc72646669a22e13c4fa2f56147ca7fd7babf662697196e4fab511935abdd53 0x4d49aefd784e8158fcafebe77fd9af59d89858ade7627eaee6847df84cf27076 0xcd32fc59a10dd135e723f210359ca6f06e0f2d1a7df4d8466b90b66203aa781e 0x200000000000000000000000000000000 d128 (by decide) (by decide) (by decide) (by decide) (by decide)
  have d130 := chain_dbl secp_a4_cast 0x8adbeb828d3955fd13580b649ec0d51cd200054e8894fa357bb6dd39dd142198 0x7564539e85d56f8537d6619e1f5c5aa78d2a3de0889d1d4ee8dbcb5729b62026 0xc1d685413749b3c65231df524a722925684aacd954b79f334172c8fadace0cf3 0x400000000000000000000000000000000 d129 (by decide) (by decide) (by decide) (by decide) (by decide)
  have d131 := chain_dbl secp_a4_cast 0x8fd62364fc6918a7b6ad07b7300fbb01b94e5f0fc41d37bcc1f45a015cdc44a6 0x210a917ad9df27796746ff301ad9ccc878f61a5f1ff4082b5364dacd57b4a278 0x670e1b5450b5e57b7a39be81f8d6737d3789e61aaff20bfc7f2713fd0c7b2231 0x800000000000000000000000000000000 d130 (by decide) (by decide) (by decide) (by decide) (by decide)
  have d132 := chain_dbl secp_a4_cast 0xd9a2254eb1165724d49b7f402b59327424e10d29788a1a1b00e957605bca3d62 0xe4f3fb0176af85d65ff99ff9198c36091f48e86503681e3e6686fd5053231e11 0x1e63633ad0ef4f1c1661a6d0ea02b7286cc7e74ec951d1c9822c38576feb73bc 0x1000000000000000000000000000000000 d131 (by decide) (by decide) (by decide) (by decide) (by decide)
  have d133 := chain_dbl secp_a4_cast 0xe838298a11c6053304d86bdaf61c5c8d69f0d9a71cdac755d0eef49f886c88a5 0x4b30cbb7686773e01ec64110abdb362f88531a825ba172953bfee2233bcdaf2f 0x74c6350265bb629b6f9e2c5777c3c4a91fdf3c81e434857568033d463d26b5b7 0x2000000000000000000000000000000000 d132 (by decide) (by decide) (by decide) (by decide) (by decide)
  have d134 := chain_dbl secp_a4_cast 0xc32552ee2210231698d000b389e2f9bb93532e3f3c0dc62634ad9f14b80b3a81 0xcbb434aa7ae1700dcd15b20b17464817ec11715050e0fa192ffe9c29a673059f 0x4a1a200ab4dabd17562d492338b5dfad41d45e4f0ad5f845b7da9642227c070c 0x4000000000000000000000000000000000 d133 (by decide) (by decide) (by decide) (by decide) (by decide)
  have d135 := chain_dbl secp_a4_cast 0x5b992fd2d78850b42b957a04c4217803e73a2f75edc048f1fe7f5d849cd9661f 0xf478056d9c102c1cd06d7b1e7557244c6d9cdac5874610e94d4786e106de12c0 0x7f09e610f33e3946e68095e01068694c26c17ef609ab92d769a76ce6ca5361fe 0x8000000000000000000000000000000000 d134 (by decide) (by decide) (by decide) (by decide) (by decide)
  have d136 := chain_dbl secp_a4_cast 0x33fa37f998b0740bd3d01ebf4eb5dca5fd795ca30bb2b700f6c2c5246c91c493 0x8c00fa9b18ebf331eb961537a45a4266c7034f2f0d4e1d0716fb6eae20eae29e 0xefa47267fea521a1a9dc343a3736c974c2fadafa81e36c54e7d2a4c66702414b 0x10000000000000000000000000000000000 d135 (by decide) (by decide) (by decide) (by decide) (by decide)
  have d137 := chain_dbl secp_a4_cast 0x6c647a1f5541b1be021e4f77cd01120521d0d33c945d4d43da55868291df55d1 0x24cfc0176da2b46fa8bb5bf9636be1effd7e297f29122fb3e84c9ab0c18ada5f 0xebff8fbb079c61a69868714d5deda927ed959ca1a4f814f268fa6139978a586b 0x20000000000000000000000000000000000 d136 (by decide) (by decide) (by decide) (by decide) (by decide)
  have d138 := chain_dbl secp_a4_cast 0xa881cca3218459c4678bb25fbc018ebb7201965d2d05436f7cddc2a67995862e 0x4a7d58d4b9bc82ea2ded72a1292ec616ddd67fc7f057edf103189594679da2 0xb98ac5b76702cb75e6b1d8147ec71b3b71c3b494963fa28a4877f484779ffe26 0x40000000000000000000000000000000000 d137 (by decide) (by decide) (by decide) (by decide) (by decide)
  have d139 := chain_dbl secp_a4_cast 0x9176aa61da3a43f2c3aa722d4938d534e45ea3c34dd7d52d38fe3a4e4b052794 0xee7d69c4cbd001c7fc76c5e2c066ce4996f8808a1e07b2a9ccf34eadc87c4b65 0xecc8626ec1a413821a192abf030f2ee2c33e8999bae942e523e8f44ed136a95a 0x80000000000000000000000000000000000 d138 (by decide) (by decide) (by decide) (by decide) (by decide)
  have d140 := chain_dbl secp_a4_cast 0x15f335679cf24d02b0b55fdd7638c68285de4d357daa4be71b389ad9535365de 0xe7a26ce69dd4829f3e10cec0a9e98ed3143d084f308b92c0997fddfc60cb3e41 0x2a758e300fa7984b471b006a1aafbb18d0a6b2c0420e83e20e8a9421cf2cfd51 0x100000000000000000000000000000000000 d139 (by decide) (by decide) (by decide) (by decide) (by decide)
  have d141 := chain_dbl secp_a4_cast 0xd752c21abb9fa74c23cf9a0a508bceb1e8ebf1a05fa786e83dfcabe7215cc4f8 0xf5cafaba036bf8d00d38bfb6772089f5203c35e4d6e32fa9d97e5b917b4ae861 0x19e83b8a022a6d817bff9904640839159b3b2a9c552f05f3cc9c239c0d82239c 0x200000000000000000000000000000000000 d140 (by decide) (by decide) (by decide) (by decide) (by decide)
  have d142 := chain_dbl secp_a4_cast 0x8b3d8da9821538c4475232b06093d3fa288c68c003427d39f1ced9e3bbfc8c3b 0xe9389024ceb63f1f12df5156d7e805428f9e509c494c982084fd4cd7bd2a9651 0x8648688723726595f9287abaf671aaf18d7110cec6770bfefefde2b75e786824 0x400000000000000000000000000000000000 d141 (by decide) (by decide) (by decide) (by decide) (by decide)
  have d143 := chain_dbl secp_a4_cast 0x4836f38b45f2a424931add7980a31bf02d932c6fc999d1fc31ab23c7225027cf 0x264559d87829256bed116900d82d0c379f0e4d1253c68e6fcf2d41ae7cddab8b 0x79e5bd1926d3512cef7bc637034072d77a8631af39caf1e6c9f64b45001de473 0x800000000000000000000000000000000000 d142 (by decide) (by decide) (by decide) (by decide) (by decide)
  have d144 := chain_dbl secp_a4_cast 0xe8336acb6dc9e42fab137b0020cf959c58beb9c8dbd24817f0db4d4de21a0ce0 0xb6459e0ee3662ec8d23540c223bcbdc571cbcb967d79424f3cf29eb3de6b80ef 0x67c876d06f3e06de1dadf16e5661db3c4b3ae6d48e35b2ff30bf0b61a71ba45 0x1000000000000000000000000000000000000 d143 (by decide) (by decide) (by decide) (by decide) (by decide)
  have d145 := chain_dbl secp_a4_cast 0x2ecde3a1819b7740be340e73abd290b7be207dc8b994187f22de6eae9bc0bf87 0xe5d8e8f0d9823c88e4d36f7301f41593b6890576be79c211253ef375033eb51f 0x4dc1e9b7861e3e04abb16a57d8feeef0e509dc46d9f0f54979d5bd965a62a2d9 0x2000000000000000000000000000000000000 d144 (by decide) (by decide) (by decide) (by decide) (by decide)
  have d146 := chain_dbl secp_a4_cast 0xd3eaf468a8bc9da649bfda360e58123d08a8994961d8dcc798e8f327d77a7b58 0xa9ca27f77dbc8c3dc56b0f7321bae0ddab66be4fa8a3011737a676480f155e64 0xf4bb335678fb14d4d197d2246c02d004875d41821bcaf0ae1f3f333c561b3297 0x4000000000000000000000000000000000000 d145 (by decide) (by decide) (by decide) (by decide) (by decide)
  have d147 := chain_dbl secp_a4_cast 0xcf169a730ff6bd430feeadfce090a00b8759d8d0bf889fc3f149e8b8873558e6 0x68fb71800686d7f25eba105611cfe7591f478e847f51cee06d4bc629d6ee247c 0xcd12d23462dd963673735427501b0c079a8d580b04c73c9dae1f822d1a01865d 0x8000000000000000000000000000000000000 d146 (by decide) (by decide) (by decide) (by decide) (by decide)
  have d148 := chain_dbl secp_a4_cast 0xb2059641ab0bedb3d33165cfdd3f28ea07ce982b23a5c2c28b0b13e0d6398458 0xd68a80c8280bb840793234aa118f06231d6f1fc67e73c5a5deda0f5b496943e8 0xdb8ba9fff4b586d00c4b1f9177b0e28b5b0e7b8f7845295a294c84266b133120 0x10000000000000000000000000000000000000 d147 (by decide) (by decide) (by decide) (by decide) (by decide)
  have d149 := chain_dbl secp_a4_cast 0xadd2fbf87697aae5ab2e2dcaaf5124953800e7ee86c6dac559dcf3af6cf0dbcb 0xf16a409c677a40be402f8efb3752373caced053c6f702b828bda222ca412b6fd 0x2a41311714532799d7a6a75a74e30e4e16540659249ebca4268dae77eca052da 0x20000000000000000000000000000000000000 d148 (by decide) (by decide) (by decide) (by decide) (by decide)
  have d150 := chain_dbl secp_a4_cast 0x9287be7f0afa6983cd699e3214e93be3f148051bc4fb4ef320c804f4b794300b 0x4154b506ab766f42fbe37f699976f84db89f4f2f6bed98325c1a0b6e326dd4e4 0x23ad075043c5988894c6e44d61025ff6414ea9d9d1e22dd46c859295075ded1c 0x40000000000000000000000000000000000000 d149 (by decide) (by decide) (by decide) (by decide) (by decide)
  have d151 := chain_dbl secp_a4_cast 0x9c9fd4930c70494186b5d5d9d890e2bcce7206cf188411b34d3b67ea6f8c28a2 0xb73c652769cc95c1080a8d4d0b5956ea93e86e49fc727ddf4c51a7a63f7f0246 0x9a67db107174ca9d4b535893c5b6c1ea1a0d72e4c6e554e5597e5164ea2a407b 0x80000000000000000000000000000000000000 d150 (by decide) (by decide) (by decide) (by decide) (by decide)
  have d152 := chain_dbl secp_a4_cast 0x34d435f849f01d44561214651ddf3211d592d451d2a86f8735fb65f4cd4bcfdb 0x324aed7df65c804252dc0270907a30b09612aeb973449cea4095980fc28d3d5d 0x648a365774b61f2ff130c0c35aec1f4f19213b0c7e332843967224af96ab7c84 0x100000000000000000000000000000000000000 d151 (by decide) (by decide) (by decide) (by decide) (by decide)
  have d153 := chain_dbl secp_a4_cast 0x7b7846b99d2cb887dc01de992223a08bd13234db3fadf04f7cd70e0a52208267 0x32c9331ea26f490228d32681880d7203f72b3e4a8de0db1fa8f38381b2919749 0xd7cd272b34209cb5695a2f02b6f3dbb8268a4abdae39ab09631e97b0f290b5e3 0x200000000000000000000000000000000000000 d152 (by decide) (by decide) (by decide) (by decide) (by decide)
  have d154 := chain_dbl secp_a4_cast 0xf7a26b6a8ce590440204968eaf4da18c5dc4f489c2df35ce2ffc02fc468a6fa9 0xeb292f3b3b9837854a02f6a70fec6b1c69c161b6e1846b8e1e1c22527b9795e4 0x8c43c25a96eebe801696634af145835b57131d7509111c6f5b7e9d2fae53a0fe 0x400000000000000000000000000000000000000 d153 (by decide) (by decide) (by decide) (by decide) (by decide)
  have d155 := chain_dbl secp_a4_cast 0x1100fdec7e6383675829d155e86ec171267c223e1af2130f62dd917a4ab681ea 0xa65a3a01df3b5ef2e620d4310049fbe14d71457f19d1ed35aea39d5789303fdd 0x798ea0940cff5c6fb8f43d8d90ed2c7686861d024faed3cadad44a8d02e68703 0x800000000000000000000000000000000000000 d154 (by decide) (by decide) (by decide) (by decide) (by decide)
  have d156 := chain_dbl secp_a4_cast 0xa210709fd33d3229ed42eb3f8adbf0b5aa1160af5247148199a372de4e262559 0x4df9c14919cde61f6d51dfdbe5fee5dceec4143ba8d1ca888e8bd373fd054c96 0x35ec51092d8728050974c23a1d85d4b5d506cdc288490192ebac06cad10d5d 0x1000000000000000000000000000000000000000 d155 (by decide) (by decide) (by decide) (by decide) (by decide)
  have d157 := chain_dbl secp_a4_cast 0x372b7dac49413e4c9dad265782bb7a697f6b7066a48cf5559b1227cbfb02729a 0xed32cad8d2cc998cd25317d4e4b87088e9de4554e57a8d70c0c6b0fc1da49e04 0x129fef5f1d030204a541ca375859d20b52da9facb49fab7db63120d17c1db9e0 0x2000000000000000000000000000000000000000 d156 (by decide) (by decide) (by decide) (by decide) (by decide)
  have d158 := chain_dbl secp_a4_cast 0xa9587d010c296df8256bb52abcc9f14a8096637c08c53b90c2508e512193e884 0xe821ab724d6360f18049e4111c70366e28c36dcb63c34016cb7418d4e883f855 0xadefcbf863f53ce367d0d4115416cf598b3b19c614ec23efed4e0c6a59852ddf 0x4000000000000000000000000000000000000000 d157 (by decide) (by decide) (by decide) (by decide) (by decide)
  have d159 := chain_dbl secp_a4_cast 0xf2eb75eec8d833de051f90e5ce580682965818417ad8deeddf4e6b867fdd2966 0x3f0d8994e51ad212f455452fbc9693a72f14a547af3806e9fbff59eeb441742e 0xfbd76c23f28c3dc445e5cb0e847a6e0b1e205e2c3ad13d958c65363bcfecadbe 0x8000000000000000000000000000000000000000 d158 (by decide) (by decide) (by decide) (by decide) (by decide)
  have d160 := chain_dbl secp_a4_cast 0xf285b9d782f0c0358d78c0660d654c01b9a4854ddc7b5cebf22e5cbfc0c44685 0x9c3919a84a474870faed8a9c1cc66021523489054d7f0308cbfc99c8ac1f98cd 0xddb84f0f4a4ddd57584f044bf260e641905326f76c64c8e6be7e5e03d4fc599d 0x10000000000000000000000000000000000000000 d159 (by decide) (by decide) (by decide) (by decide) (by decide)
  have d161 := chain_dbl secp_a4_cast 0x7200f1a08c4d4fa4b78f1a5ccf3dcd2a05dac0177c506d88589c5ec2a987e9a 0x2e3c05326255d80f0a42fc69d5c92aa40cd326a53e8535f0435efb7b694a09ec 0x1ff891656c6fb5bddae240b82fc1abe048a53c707b66512534868188c7327e 0x20000000000000000000000000000000000000000 d160 (by decide) (by decide) (by decide) (by decide) (by decide)
  have d162 := chain_dbl secp_a4_cast 0xdab54b18d28903cf90b96a82c856b347b5809ef67d80f359ed223c17009cb9c5 0xe8e2a24ccfa41587ae15fb7e3e24dda433710316a1908934205f19a2ab9c7ce6 0x46c983ce0c6f5d1b4caf2b2b3bee20596e09e603b5c27a73b2c01eb68836267c 0x40000000000000000000000000000000000000000 d161 (by decide) (by decide) (by decide) (by decide) (by decide)
  have d163 := chain_dbl secp_a4_cast 0x40f885d90dd61ea2f5659e2f2bf302f4e2bf09826f62d88a8053c5b509a23510 0xa7549aac5d8573c2b2f0a38b170032a212acaf92383d5b5f5b0d39668ac7b3c2 0xbd17d1b90d1c2415335a1d70c1947d2b5d6b5115537116dffa0c91719287eaef 0x80000000000000000000000000000000000000000 d162 (by decide) (by decide) (by decide) (by decide) (by decide)
  have d164 := chain_dbl secp_a4_cast 0x1cc8488cc365cea31f2fa2bfdaf2cc934a7ee50cabfd150becf69e6f4461d10b 0x6057170b1dd12fdf8de05f281d8e06bb91e1493a8b91d4cc5a21382120a959e5 0x9a1af0b26a6a4807add9a2daf71df262465152bc3ee24c65e899be932385a2a8 0x100000000000000000000000000000000000000000 d163 (by decide) (by decide) (by decide) (by decide) (by decide)
  have d165 := chain_dbl secp_a4_cast 0x540888725efd001e10d388737cf1cfa7349e1f8870aa9655492e125f3f6807ab 0x6773fd677c52e0640394110a46dc85df7c133f8dd4a28e661899ca5d82fd545c 0x444eb6d8cd97652f0f0f25c9dd2b246bead780f5a1c6cf98e8c7f034947eb1ae 0x200000000000000000000000000000000000000000 d164 (by decide) (by decide) (by decide) (by decide) (by decide)
  have d166 := chain_dbl secp_a4_cast 0xcbd459afdcc89e756164c6f50b08e8231a953ba7807175a99eeabdad06dbbab3 0xe0f86d94d17ce565237c79aace0c87c20374e43810468050373c616b0b86f021 0xc571c73730abcf47a91e832f1c89a2c9a80bcc0115fc45b3b6b79ccb5bf325a 0x400000000000000000000000000000000000000000 d165 (by decide) (by decide) (by decide) (by decide) (by decide)
  have d167 := chain_dbl secp_a4_cast 0x5e4c5a26fd030caab23e28ab4cfd0f3bb05b85f1a3af85084a01f8e337e2c301 0x42ca15ab9f245041ce991e193d696f4f4c277df908cad6038ad0772c02da6e03 0x68d2ef26c81c57c9647ce4d1fcb800eed66e85a68106bea7836889fa8c347793 0x800000000000000000000000000000000000000000 d166 (by decide) (by decide) (by decide) (by decide) (by decide)
  have d168 := chain_dbl secp_a4_cast 0xd7b2ac50e5f422a44b5fa8e1e17009beea07a30d87d1a22f1b645e1a2b9436cb 0xa576df8e23a08411421439a4518da31880cef0fba7d4df12b1a6973eecb94266 0x40a6bf20e76640b2c92b97afe58cd82c432e10a7f514d9f3ee8be11ae1b28ec8 0x1000000000000000000000000000000000000000000 d167 (by decide) (by decide) (by decide) (by decide) (by decide)
  have d169 := chain_dbl secp_a4_cast 0x6f6f2e174458f1d58240ba2cfac0d9070d865a2d820ca850f93c92ac5eabd882 0x9e5dcc62ef3b5a3b546520867be71bae6f3ba063c9acfb8dcec5725bda704896 0x6fedd12ddb925f3ea5fd3a2154c7612279605d186030f51248f2769dca82c835 0x2000000000000000000000000000000000000000000 d168 (by decide) (by decide) (by decide) (by decide) (by decide)
  have d170 := chain_dbl secp_a4_cast 0x287a0f5419f0c50b86e3d4e36a2093c4853f9fcfcd9c9918115a50d610bd0574 0xa7de08375b8745adf8d6e9f976f03b20e33625a05cef5833953ed58744bf7ea0 0xa63d96b057ada5e52104a0b334888e9a645a47c0febc5aa2e04c05539bbcabaa 0x4000000000000000000000000000000000000000000 d169 (by decide) (by decide) (by decide) (by decide) (by decide)
  have d171 := chain_dbl secp_a4_cast 0x9889077ff7088509a52a94303f520cd847b1998c048b4457312e0c5c1a9507ea 0xc266658e689080c9c13c35ac01cff4cbe68065fde949e4a3a9f8fa104ad916fb 0xe7e8593854e7daab0f798170b24627ab6b8fecdfeb61138856aef52ba0887814 0x8000000000000000000000000000000000000000000 d170 (by decide) (by decide) (by decide) (by decide) (by decide)
  have d172 := chain_dbl secp_a4_cast 0xc519b871bb990b190be26744246550363e9ccf0909487de80822bc5c0c725b3f 0x7778a78c28dec3e30a05fe9629de8c38bb30d1f5cf9a3a208f763889be58ad71 0x34626d9ab5a5b22ff7098e12f2ff580087b38411ff24ac563b513fc1fd9f43ac 0x10000000000000000000000000000000000000000000 d171 (by decide) (by decide) (by decide) (by decide) (by decide)
  have d173 := chain_dbl secp_a4_cast 0xc7816876ad9abbf99acb73461760051cde30b403c126a5d18def648dcd8a3255 0xe7b9796b5ca006d1632f482d7f0fe3932cf16a5ae104eea7a7ea1c251073e879 0x12b8988c19169e2fdf42102a737cc1ca9cb5bf25eda98af338e71089baa89d98 0x20000000000000000000000000000000000000000000 d172 (by decide) (by decide) (by decide) (by decide) (by decide)
  have d174 := chain_dbl secp_a4_cast 0x35ddc1c3218ad84fc1545f6ca20f19705f4cee46b36e21e1ffd9f4f28793f197 0x71bf01850876203c2c915a24be09a7365423daaf2aee919865d722bf2628f0f 0x527aa15d504dcf4ae33600bc1c084ce2098f9c6a231c80bbb57c5cbd45a1c334 0x40000000000000000000000000000000000000000000 d173 (by decide) (by decide) (by decide) (by decide) (by decide)
  have d175 := chain_dbl secp_a4_cast 0x634da6c426d7e9540c4ec18599a4aac7b6f27f4541aa9c5ec26df1f1922fde6c 0x218343acb9be56833a32e594c03c39e5b1911c8501213786f6376dfa39620e1 0xbea81d48970a50beaf3f24fd602fbfc0443299a42f43c9ec5e0199f6506998b5 0x80000000000000000000000000000000000000000000 d174 (by decide) (by decide) (by decide) (by decide) (by decide)
  have d176 := chain_dbl secp_a4_cast 0xe8150724b4cc461557c8359ad74ec82e5eaa15d665db3306a7517390d4f9a142 0x928955ee637a84463729fd30e7afd2ed5f96274e5ad7e5cb09eda9c06d903ac 0xc25621003d3f42a827b78a13093a95eeac3d26efa8a8d83fc5180e935bcd091f 0x100000000000000000000000000000000000000000000 d175 (by decide) (by decide) (by decide) (by decide) (by decide)
  have d177 := chain_dbl secp_a4_cast 0xfe85fc2db040e0bf7f52d908972234ce554af464e48dc688262d664d91d26ef2 0x4f89bdee3771d350dad163b04cb18ad67ce5e9c55b58f0e7231047a60f59dd9e 0xca7952d5227a1f695c4baf4c043bb2471e4882506638df5c1016ae320156b049 0x200000000000000000000000000000000000000000000 d176 (by decide) (by decide) (by decide) (by decide) (by decide)
  have d178 := chain_dbl secp_a4_cast 0x9b3653fccbfb063809d9bd9c7697e235a29eb0e52279887b1d3729fb5b679b31 0xcb9e8304cae3c5a80c396baca2c3c4c994b668f079a245bf529c314cfff01197 0x62c7d2801eb80e6a127258cdff08891741b2d18c015e0a24c334e0763b989c1d 0x400000000000000000000000000000000000000000000 d177 (by decide) (by decide) (by decide) (by decide) (by decide)
  have d179 := chain_dbl secp_a4_cast 0x9af09d487e0b537a82b89893d84e5748912cfa7c4d1e82a889fb3a08966ec885 0xe2f349b0f89c69bd3c8cf2a410730dc58e0beed47048c58c15f9ffc2508d2cc2 0x1feb2f280f82723781860aec760215ba42344be8e09cbdb37e347bd8e0d4c04f 0x800000000000000000000000000000000000000000000 d178 (by decide) (by decide) (by decide) (by decide) (by decide)
  have d180 := chain_dbl secp_a4_cast 0x6eaae5507193866000abd5a64adac8a3737a5dc078c8273a372cba8385e9f1d7 0x85d0fef3ec6db109399064f3a0e3b2855645b4a907ad354527aae75163d82751 0x1f03648413a38c0be29d496e582cf5663e8751e96877331582c237a24eb1f962 0x1000000000000000000000000000000000000000000000 d179 (by decide) (by decide) (by decide) (by decide) (by decide)
  have d181 := chain_dbl secp_a4_cast 0xdddfc2224c76486c7cf9a8aad85abc295a5272e88b500a0a3fa5d2868ca0cfb4 0x6b790f4b19a4c4f4f607a6cfcd11df0468b482e009711ff756356d141d5fcade 0xd03a981b2ff9eb3ef296661f9cae09cba83fa5b47be26b0ab6fff86fc338d3ff 0x2000000000000000000000000000000000000000000000 d180 (by decide) (by decide) (by decide) (by decide) (by decide)
  have d182 := chain_dbl secp_a4_cast 0x2f57949e5699197663093203346d7d5f2bec999ac95a01ab37134aa771c45fe6 0x41149b2c2d7ebed3c162c367acc4f8fe3d2479de85978be0bb0ccdabe3a3e0cb 0xc90d5b92db7c30542b415c9b9902cf28b3ec7805ef490f2470e92e98339033a8 0x4000000000000000000000000000000000000000000000 d181 (by decide) (by decide) (by decide) (by decide) (by decide)
  have d183 := chain_dbl secp_a4_cast 0x49129c375ba6e6bb5695fc239fa9414fc1f82bfe3acc41f1a4d2696df87f6430 0xd1fad4fa4e7c849dfaec3dfe2872a7ba664a9b8205c29cebf8dddd28e3f3d3fc 0x8fe19714a348fdfe5473f70e858b7818bad37131eff37326ed22343c50f3704d 0x8000000000000000000000000000000000000000000000 d182 (by decide) (by decide) (by decide) (by decide) (by decide)
  have d184 := chain_dbl secp_a4_cast 0xfa027415863d41fa371c2dc21e44b0c9b8eba0048b2c4dd2698ed166bc4e81f0 0xff2b0dce97eece97c1c9b6041798b85dfdfb6d8882da20308f5404824526087e 0x493d13fef524ba188af4c4dc54d07936c7b7ed6fb90e2ceb2c951e01f0c29907 0x10000000000000000000000000000000000000000000000 d183 (by decide) (by decide) (by decide) (by decide) (by decide)
  have d185 := chain_dbl secp_a4_cast 0x282ba9fe238cf4d58886ca874c29771dec3f1fe49d8d1478d77543a97562c63a 0x2982dbbc5f366c9f78e29ebbecb1bb223deb5c4ee638b4583bd3a9af3149f8ef 0xa61b5be9af66220ab9fa5339c7b5bc9d095db99412e3ed8456e726b016c7a248 0x20000000000000000000000000000000000000000000000 d184 (by decide) (by decide) (by decide) (by decide) (by decide)
  have d186 := chain_dbl secp_a4_cast 0x2a296a5b39c00f29aefb930028fb5f9a29b29d6260977e5390ecacd1b4f963a9 0x1a28e5042af0c0f6b436eb590497db5860011f4580e1765885289f612380441b 0x55779a7996c59dab7c78329a8976f0ed04b3e75b46ee67aeb05f606a8452af25 0x40000000000000000000000000000000000000000000000 d185 (by decide) (by decide) (by decide) (by decide) (by decide)
  have d187 := chain_dbl secp_a4_cast 0x7f8ab1c12cc5ecd1865a8307f2fa33d5a7e43c5e2a992126e8e458e74de52d59 0xc8b83e9535f30601d250cc0bd3f20142edd5eb7985d83242eef0e39621e30a7 0xdcc7077065fdac7b850e3f17efdc854aacad237b987134dbebf7beb9ff688de 0x80000000000000000000000000000000000000000000000 d186 (by decide) (by decide) (by decide) (by decide) (by decide)
  have d188 := chain_dbl secp_a4_cast 0xd1d1154a63ffd0950b5550b0ce04673742208ef0b192ae37de10730284ce6d31 0x827fbbe4b1e880ea9ed2b2e6301b212b57f1ee148cd6dd28780e5e2cf856e241 0xc60f9c923c727b0b71bef2c67d1d12687ff7a63186903166d605b68baec293ec 0x100000000000000000000000000000000000000000000000 d187 (by decide) (by decide) (by decide) (by decide) (by decide)
  have d189 := chain_dbl secp_a4_cast 0x9e87acd4a4f9954e433d87d2c82b246380f5d49b0ade098a24addc6e6ee1de4f 0xb77f12a7dce56b973e2d7c8d576e6b3660470a9218b87461ef6e44b70cb1815d 0x4b6f85b14f86acc43f0cefb373cc2e654c42f0f91a44816d6ba3d2bc8e57dbc5 0x200000000000000000000000000000000000000000000000 d188 (by decide) (by decide) (by decide) (by decide) (by decide)
  have d190 := chain_dbl secp_a4_cast 0x4ee74fade23a01a878fb3c374df45c17c225066fcd6bde84297fcb6d0d076b80 0x48973b943018bf1247b308b2cb79f956d858d8df4977c5970fe5dad2c45565ec 0x761f75684f3cdc1b6437bb3a01445af1511b3596580477b83b879075faed07e9 0x400000000000000000000000000000000000000000000000 d189 (by decide) (by decide) (by decide) (by decide) (by decide)
  have d191 := chain_dbl secp_a4_cast 0xf6d86bf1dc1c078cbb867791047c8b5b38eed75bfb229a5c0ded069a7e8ece5d 0xe931258e8eb5559c6d6972728a704c170b775a265b4527d4a4d4d742bbfd71fa 0xfb1e33364c3fdee0e85eb4169c954b40b3946ce1bb5e35f33d9bd0d3174d3307 0x800000000000000000000000000000000000000000000000 d190 (by decide) (by decide) (by decide) (by decide) (by decide)
  have d192 := chain_dbl secp_a4_cast 0xdf71ec84c663fec05c571e2c6fc5085c6011af545fbe42f3ff693db7d801c00b 0xeaa649f21f51bdbae7be4ae34ce6e5217a58fdce7f47f9aa7f3b58fa2120e2b3 0xbe3279ed5bbbb03ac69a80f89879aa5a01a6b965f13f7e59d47a5305ba5ad93d 0x1000000000000000000000000000000000000000000000000 d191 (by decide) (by decide) (by decide) (by decide) (by decide)
  have d193 := chain_dbl secp_a4_cast 0x361f57ef460f29732cafc83d9eba25fe0dd319931c8036710b2a38f274f1db61 0x3adb9db3beb997eec2623ea5002279ea9e337b5c705f3db453dbc1cc1fc9b0a8 0x374e2d6daee74e713c774de07c095ff6aad9c8f9870266cc61ae7975f05bbdda 0x2000000000000000000000000000000000000000000000000 d192 (by decide) (by decide) (by decide) (by decide) (by decide)
  have d194 := chain_dbl secp_a4_cast 0xa4afeb28ea7f78a6c09688fb88e28a8a67d5786fa2f90dca571f6de9515ef2e 0x129e53ac428e9cbb7e10955e56c5fc69fefdff56963e7caf054e9e0c90ae86f9 0x415ecb958aee9a29b2da2115b712183fb2a232fd16b3e01b822efdcd1e89c85d 0x4000000000000000000000000000000000000000000000000 d193 (by decide) (by decide) (by decide) (by decide) (by decide)
  have d195 := chain_dbl secp_a4_cast 0xff5737b636d1c1ffbe6c3acb14f153e190294a4b1510629bd4c822ab9dad3e37 0x60144494c8f694485b85ecb6aee10956c756267d12894711922243d5e855b8da 0x8bb5d669f681e6469e8be1fd9132e65b543955c27e3f2a4bad500590f34e4bbd 0x8000000000000000000000000000000000000000000000000 d194 (by decide) (by decide) (by decide) (by decide) (by decide)
  have d196 := chain_dbl secp_a4_cast 0x3c8aae7b252f8ad62c5cbd47b0395603168652829700f7c1f76902d8f7ed0e95 0xe4a42d43c5cf169d9391df6decf42ee541b6d8f0c9a137401e23632dda34d24f 0x4d9f92e716d1c73526fc99ccfb8ad34ce886eedfa8d8e4f13a7f7131deba9414 0x10000000000000000000000000000000000000000000000000 d195 (by decide) (by decide) (by decide) (by decide) (by decide)
  have d197 := chain_dbl secp_a4_cast 0xa5af926d811d13acfb2c4a8c53c007027c0786aaa9e7ca78d2ef4ce4f1014719 0xfd6451fb84cfb18d3ef0acf856c4ef4d0553c562f7ae4d2a303f2ea33e8f62bb 0xe745ceb2b1871578b6fe7a5c1bc344ccfa2ab492d200e83fd0ad9086132c0911 0x20000000000000000000000000000000000000000000000000 d196 (by decide) (by decide) (by decide) (by decide) (by decide)
  have d198 := chain_dbl secp_a4_cast 0xcbe492e4985bdd16dadef632759ded318b5927d7201171512a30ff038b505ab5 0x1eee207cb24086bc716e81a06f9edbbb0042e2d5dcf3c7a1fa1d1fb9d5fe696b 0x652cbd19aef6269cd2b196d12461c95f7a02062e0afd694ebb45670e7429337b 0x40000000000000000000000000000000000000000000000000 d197 (by decide) (by decide) (by decide) (by decide) (by decide)
  have d199 := chain_dbl secp_a4_cast 0xc194d171091781faa47f5ce501af8b4334ff7fe52203f734ac51cb5aec54e4c7 0xcc0ea33ea8a9eb14d465ab2c346e2111e1c0fc017c57257908d40f19ef94c0d5 0xf9907a3b711c8a2fb23dd203b5fbe663f6074f266113f543deabe597af452fe6 0x80000000000000000000000000000000000000000000000000 d198 (by decide) (by decide) (by decide) (by decide) (by decide)
  have d200 := chain_dbl secp_a4_cast 0xf2da5bf72e636a9f21f40bafdc050a179de1ea73d05fe6de8bae1ac6ca80f88d 0x1ec80fef360cbdd954160fadab352b6b92b53576a88fea4947173b9d4300bf19 0xaeefe93756b5340d2f3a4958a7abbf5e0146e77f6295a07b671cdc1cc107cefd 0x100000000000000000000000000000000000000000000000000 d199 (by decide) (by decide) (by decide) (by decide) (by decide)
  have d201 := chain_dbl secp_a4_cast 0xf492eaa6961c99ae817c48f8e3a99d4a2945f856225756a063f20f3021e24ab0 0x5be7ea3519f04bc6cbeeaa0344fc90bb8e8462f6ebd890560dae805d414ff9e4 0x32f32ec3f638e605477f890f655ab7fe0e99c6302119a3094030b07847e0bdbb 0x200000000000000000000000000000000000000000000000000 d200 (by decide) (by decide) (by decide) (by decide) (by decide)
  have d202 := chain_dbl secp_a4_cast 0xa72e4243dc96df2a157145e0c716cc80520155f5128cd64d74123b48359d5782 0x58f099116eae4e650813fc8698df7f5cd50028649f853991e3fb545f4ddb7bb8 0x7e07002aaffe111a0d62ff7614638066507ee4062d174302bdec73582e5b2d6e 0x400000000000000000000000000000000000000000000000000 d201 (by decide) (by decide) (by decide) (by decide) (by decide)
  have d203 := chain_dbl secp_a4_cast 0xeb7198abf8ca01eb3fac129c5a73dc3b83d031a663556a8467837511c77ce4b5 0xb0f9e4b9b29790b633bcc04fd860cb0f823d8d1a4cc1a1c1413c1606cc9a8e2c 0x49e82bf1843ade6d41cbb0b906fde3f03350cc02c171cee76c2066c4df3d0db4 0x800000000000000000000000000000000000000000000000000 d202 (by decide) (by decide) (by decide) (by decide) (by decide)
  have d204 := chain_dbl secp_a4_cast 0x97b46ee4200685076ddedde034be36b2906cd6bc27e4a45103dd3df11241112f 0x146a778c04670c2f91b00af4680dfa8bce3490717d58ba889ddb5928366642be 0xb318e0ec3354028add669827f9d4b2870aaa971d2f7e5ed1d0b297483d83efd0 0x1000000000000000000000000000000000000000000000000000 d203 (by decide) (by decide) (by decide) (by decide) (by decide)
  have d205 := chain_dbl secp_a4_cast 0x2236ba67f0aed1ee74398f778818bc9190f4f60d994e1952d10793288a21c756 0x574ef0ce8a597e24e5670b5c0bcd14cfeefc983c7ecb261911b2365579de5cac 0x9b99930281f19c73bd6ada0569b78451a260a7bef10008cae59aea6c75a4805 0x2000000000000000000000000000000000000000000000000000 d204 (by decide) (by decide) (by decide) (by decide) (by decide)
  have d206 := chain_dbl secp_a4_cast 0x8eddd290e5189e9a09c76ed6d712441b6d27664842dd8e2a2da6fc2264734dae 0xd3d97e799d8bf9f85d909397b98c835d10a770c1aeff8645808c2d74260966d3 0x8ddbb46376bac95e6aaa89275d403ad3b5e48711be8dc4eebddeb850833c2e52 0x4000000000000000000000000000000000000000000000000000 d205 (by decide) (by decide) (by decide) (by decide) (by decide)
  have d207 := chain_dbl secp_a4_cast 0x5e5d9f74a69405ab738e867514ecbd088355b4c30437e68d0aea625c1d4349ec 0xb1aa653288b318987b974e782cbbee0ab2be78cf8f494c120040fb93968c6d4b 0x7ed6071c60810d712684aa8e2d63a83b100a1d909d623cc383d9e62ae891ac51 0x8000000000000000000000000000000000000000000000000000 d206 (by decide) (by decide) (by decide) (by decide) (by decide)
  have d208 := chain_dbl secp_a4_cast 0x86d7e10b7570e8b0637420fc36ff4e519a6eab0b3ffc8ac280b69a1d86ff9887 0xfa50c0f61d22e5f07e3acebb1aa07b128d0012209a28b9776d76a8793180eef9 0x6b84c6922397eba9b72cd2872281a68a5e683293a57a213b38cd8d7d3f4f2811 0x10000000000000000000000000000000000000000000000000000 d207 (by decide) (by decide) (by decide) (by decide) (by decide)
  have d209 := chain_dbl secp_a4_cast 0xf66c18362c94a842ae9f96fd5fe8a693363e8759ff6c57cdc3f98b7730339f73 0x63964eee619074e0780140fe02e90836e72328d2448386d459c5be23187f5048 0x3b6cfb3a6b89cf41a39ff9b1c34bfbc93d580b934dde6c84383a284d89309df8 0x20000000000000000000000000000000000000000000000000000 d208 (by decide) (by decide) (by decide) (by decide) (by decide)
  have d210 := chain_dbl secp_a4_cast 0xdbfd8bf7c3b1490a8b50e596292609b6253877026373c6a492ecdd76197b8138 0x5a3ce25b4d15b7e22d1469ddf0fc9f75afd7f12ad3cbda31f814ba1ebadb2a65 0x8b34125b92e05f63873a6dbfbf3f99af3ee28bc3d825fe8ed8b170cf1d327f1d 0x40000000000000000000000000000000000000000000000000000 d209 (by decide) (by decide) (by decide) (by decide) (by decide)
  have d211 := chain_dbl secp_a4_cast 0xd8922062d40c8a8ad208d58d36ad5621d550e8fb087d1c34f90909dd1a2b4f79 0x5ce605af98f93eda6910be34f0de41ff85dbcb6e69a8fa0016a733754a9f44d0 0x4cddcf9bec226bfe7ba56bd031c76c58ab3cb1bfa32eccc6c0d05f3489d30105 0x80000000000000000000000000000000000000000000000000000 d210 (by decide) (by decide) (by decide) (by decide) (by decide)
  have d212 := chain_dbl secp_a4_cast 0xdc1020d83e933047e2c67d95c88b21a1172997339674cf169ec12b7e79270d55 0xda1d61d0ca721a11b1a5bf6b7d88e8421a288ab5d5bba5220e53d32b5f067ec2 0x8157f55a7c99306c79c0766161c91e2966a73899d279b48a655fba0f1ad836f1 0x100000000000000000000000000000000000000000000000000000 d211 (by decide) (by decide) (by decide) (by decide) (by decide)
  have d213 := chain_dbl secp_a4_cast 0xb30ceb66c726c55aa8bdeef02647bed83bb630d8025e1beaa2a4659163a8f3f0 0x9c7be00b4ef4c444df85d5f61dc1283a23605483e1f8e934b3c210d22cd3c369 0x9220c0de74b20d2052a26d455ce401483e31153a16769cbd29ee3feba2329515 0x200000000000000000000000000000000000000000000000000000 d212 (by decide) (by decide) (by decide) (by decide) (by decide)
  have d214 := chain_dbl secp_a4_cast 0x90a197b7b8e33bfeb50cc4756bced529643b3afb182001e52b13f8336cf36bc3 0xfcd83f42825263bb55664b238ccc49174dd06a70541178e76bcd92d7bb8c9e3 0x6c0bc1cfeac5fbced1d8232de5fdb683adbeaecdf1627bf4e86d55fbdf4aa9ad 0x400000000000000000000000000000000000000000000000000000 d213 (by decide) (by decide) (by decide) (by decide) (by decide)
  have d215 := chain_dbl secp_a4_cast 0x538642245d31a63b4ffc418923f6e47a203f3c84c89fb4291b3726d7d2c6be2d 0x7175407f1b58f010d4cda4c62511e59db7edcf28f5476d995cf39944b26b64f1 0x43b4554344e3d550f36d3401134cc86eb01fe8b774471d2a426e7efab24234d5 0x800000000000000000000000000000000000000000000000000000 d214 (by decide) (by decide) (by decide) (by decide) (by decide)
  have d216 := chain_dbl secp_a4_cast 0x29e06cd166ef787ccdee448a9b153c1f4e2693bb0de4270e420d5e1413c652ae 0xa8e282ff0c9706907215ff98e8fd416615311de0446f1e062a73b0610d064e13 0x7f97355b8db81c09abfb7f3c5b2515888b679a3e50dd6bd6cef7c73111f4cc0c 0x1000000000000000000000000000000000000000000000000000000 d215 (by decide) (by decide) (by decide) (by decide) (by decide)
  have d217 := chain_dbl secp_a4_cast 0x22045e501c08e7fd4bfd5e3730fbefb93cc5ef12bac847beb4253468845106b3 0xcac6f2e7e27faecbcb876f805ea66e63efbe9eaa753d67c1c15eb9ea7f7653a1 0xf7d416e5e2aa6f194cdb65d9a42a345081e83ae5688103a068c10ad0fec5e556 0x2000000000000000000000000000000000000000000000000000000 d216 (by decide) (by decide) (by decide) (by decide) (by decide)
  have d218 := chain_dbl secp_a4_cast 0xcf3730f3c43c216356e4851fca06af5a3feaec8e75aaf2a402dbc499336d49cd 0xe6dfde46ee37d206efbc5932e58e43254ab767294238cb11cc9f4ab08624003d 0x8727b3b7be9139498f2f48f7b88f92203b1ce5ea527fd7dd7548650e2216b93b 0x4000000000000000000000000000000000000000000000000000000 d217 (by decide) (by decide) (by decide) (by decide) (by decide)
  have d219 := chain_dbl secp_a4_cast 0x5a72b1347f2f36dc741c32f6d55ecc4feb41dc1d79bc84dc3c3caa4d33b31c33 0x3c4e089cd9a6823d66a40cfc7ac96082e250e3149cf211d3b0e1103548dce109 0x43fbbe669fe191b480757bca15764d379579e142d97fe697e2bf65923a19aeea 0x8000000000000000000000000000000000000000000000000000000 d218 (by decide) (by decide) (by decide) (by decide) (by decide)
  have d220 := chain_dbl secp_a4_cast 0x2cf6e38b89eb995ff629523e4d1a1870528d114ddfac39b1848799eb9e8e3a19 0x174a53b9c9a285872d39e56e6913cab15d59b1fa512508c022f382de8319497c 0xccc9dc37abfc9c1657b4155f2c47f9e6646b3a1d8cb9854383da13ac079afa73 0x10000000000000000000000000000000000000000000000000000000 d219 (by decide) (by decide) (by decide) (by decide) (by decide)
  have d221 := chain_dbl secp_a4_cast 0x4d2f7028964ab24df12ede0ebb0d70474d9d35e3fa88a6f72d0992ca075e7423 0x20e6e2e796946bb630c7071ef1b92ea3d53d280e0e4501115f5da36f840dd273 0xd3ad7afe4f1559e44a0ba1ad97874655811ec9793da8693cc07cfd15bb46b593 0x20000000000000000000000000000000000000000000000000000000 d220 (by decide) (by decide) (by decide) (by decide) (by decide)
  have d222 := chain_dbl secp_a4_cast 0xe7f7b5bf52677f47c909ff753e0cb6422a756242da7e9774f36f7853e8ba4548 0x8e0ca824d7a351dba80280a07e71db7035ae68136cc24ca3e7b54f301a077674 0x4ec560759192d41dc569d24da62cf57cff60419d2f910290b84cbec12b7ed98 0x40000000000000000000000000000000000000000000000000000000 d221 (by decide) (by decide) (by decide) (by decide) (by decide)
  have d223 := chain_dbl secp_a4_cast 0x67cf0c07b10b0e211b54630fd69e79dfea8523099792a76ee4fdf4e9f6aea0a0 0xf7bb50da51c982d1c5fa63553e3d66c1afdb5821a321b4afe96afc5ea8192441 0x93cc3be30334a526311bc63bdde6485db1cfdc1fbbc4c74bbc640ea1d45165ae 0x80000000000000000000000000000000000000000000000000000000 d222 (by decide) (by decide) (by decide) (by decide) (by decide)
  have d224 := chain_dbl secp_a4_cast 0x73055117f8fc71da09e4402e46a97b6258827c6a82b8f56dd4ed293544d609bd 0x959396981943785c3d3e57edf5018cdbe039e730e4918b3d884fdff09475b7ba 0x2e7e552888c331dd8ba0386a4b9cd6849c653f64c8709385e9b8abf87524f2fd 0x100000000000000000000000000000000000000000000000000000000 d223 (by decide) (by decide) (by decide) (by decide) (by decide)
  have d225 := chain_dbl secp_a4_cast 0x20f70b4b1d6ce28d3cb19b2f27a9714fe1185759ffd6109ec1ae18ba7e0b482b 0xcbee1405ff0da7deafe32ca7dd73d95ed702226b391747c707275a940bc8f53b 0xf6211f4f4e75f902b51f3e689b8294cf0d9ff4f68126f7282922e6b278c87f45 0x200000000000000000000000000000000000000000000000000000000 d224 (by decide) (by decide) (by decide) (by decide) (by decide)
  have d226 := chain_dbl secp_a4_cast 0x92ed0bec3174253e88f618baf673554e1329094b7bfbcd13d35dd9abf016b216 0xadd5bad28faaf5acdd580bfa0ba252e03de3beaefbd71b9cf377c88b14b311dd 0xe9c43cf4da3dc3a5974e434f8359814f52d4e1e7669b9b8902f982f349d6c38d 0x400000000000000000000000000000000000000000000000000000000 d225 (by decide) (by decide) (by decide) (by decide) (by decide)
  have d227 := chain_dbl secp_a4_cast 0x2cd908c6c9e08e431bd3bcf301875953abae29e512407a57a9131c017312ba60 0x53f2432ba81717143fa9df3dff41ced24a29b314bc5a8c96f5f6400a0d7c0979 0xbd52effbc1f079b7ccd4e3e0911b07de4bd5a4f5c9e8b845f9f7e90c537b36a2 0x800000000000000000000000000000000000000000000000000000000 d226 (by decide) (by decide) (by decide) (by decide) (by decide)
  have d228 := chain_dbl secp_a4_cast 0xabb29926777623d00344ec00c5dd34ea088fc53e9f5ef3e6d3c7cdd083ad1676 0xd2a63a50ae401e56d645a1153b109a8fcca0a43d561fba2dbb51340c9d82b151 0xe82d86fb6443fcb7565aee58b2948220a70f750af484ca52d4142174dcf89405 0x1000000000000000000000000000000000000000000000000000000000 d227 (by decide) (by decide) (by decide) (by decide) (by decide)
  have d229 := chain_dbl secp_a4_cast 0x695a461880f215df8c78df54a946d96d3d913b60d87441a36d3e41538f4789b7 0xbaf183a76100525e23bc7202033725f922b9cd6b36c413497c6c4bacca72da5f 0xdeac9fbe9ccb4d335688bd58dd69b1d18e2336c5ca739361377ce628a8f2a0cf 0x2000000000000000000000000000000000000000000000000000000000 d228 (by decide) (by decide) (by decide) (by decide) (by decide)
  have d230 := chain_dbl secp_a4_cast 0x779bd28859b018134c8e880d8a3618c424181023236cb8286c33e300ff139275 0xf7aef8a7e38440238f9332906e48f6fd5adbd02d56b76a5ffa5aca58c56c3943 0x4e3b0b44d5ffda797c442bbdc3ab3fcfeec30184a8dcd003431f627facf442f1 0x4000000000000000000000000000000000000000000000000000000000 d229 (by decide) (by decide) (by decide) (by decide) (by decide)
  have d231 := chain_dbl secp_a4_cast 0xa35657db7e33dd28b733057677392155cc1b5230a1fe05b24ffc8e5b5198fefa 0xdfb547cb10019036c5a2e29f0dddbb1f7af2fa25a3c7a78c1fac945711924459 0x9accd2a9ba0f47088b8389ce9dc864cc22af0930e5c031dcfa205e0dcc65fd9e 0x8000000000000000000000000000000000000000000000000000000000 d230 (by decide) (by decide) (by decide) (by decide) (by decide)
  have d232 := chain_dbl secp_a4_cast 0xd3c93a931625a689dd3592bab79729508468624abd1b29f3fc8a043138c2fbdd 0x64587e2335471eb890ee7896d7cfdc866bacbdbd3839317b3436f9b45617e073 0xd99fcdd5bf6902e2ae96dd6447c299a185b90a39133aeab358299e5e9faf6589 0x10000000000000000000000000000000000000000000000000000000000 d231 (by decide) (by decide) (by decide) (by decide) (by decide)
  have d233 := chain_dbl secp_a4_cast 0xae953ad3269b7bcb3fc29e1dc17815047a20636d0ece8ba0dc6dddcbf615bda 0xb866d6b142df940f2cf28b54c92f0c1294e0b6a22a91f2ef44bcd88c4384480d 0x1914b0b3426aeb7089a278d7ea9ad7ac24e522804b1d86d60e659b470c4cafa8 0x20000000000000000000000000000000000000000000000000000000000 d232 (by decide) (by decide) (by decide) (by decide) (by decide)
  have d234 := chain_dbl secp_a4_cast 0x4fff3d2acd719a0c307986ea355754397ae1fca620951f11cae247eacc5841a6 0xec2bb89085de819ec4d9d1646102ba87e2d52ae4ed4fe455d229cda81db20d6c 0xccecc17661e013a1332f66f0650940c633a2364be87efa98a0e99c4d629cf4a0 0x40000000000000000000000000000000000000000000000000000000000 d233 (by decide) (by decide) (by decide) (by decide) (by decide)
  have d235 := chain_dbl secp_a4_cast 0x7a52afb302ea144dbc27ab1f0c7c9af22e769094a0a9b1eff91b1eafbdf41c0b 0x71c4a7e389e296ced39d75ef5e545905e50050640f50becf38a60ecb23b09d0f 0x1313fadb737af3ba0af3e0a292f810aa786f2b084a62ffc7637b1f01720ddb62 0x80000000000000000000000000000000000000000000000000000000000 d234 (by decide) (by decide) (by decide) (by decide) (by decide)
  have d236 := chain_dbl secp_a4_cast 0xd81c11d09ea2ebe388858b897a2514e6c806372d05dafa3a8307e1103e57626d 0x8481bde0e4e4d885b3a546d3e549de042f0aa6cea250e7fd358d6c86dd45e458 0x38ee7b8cba5404dd84a25bf39cecb2ca900a79c42b262e556d64b1b59779057e 0x100000000000000000000000000000000000000000000000000000000000 d235 (by decide) (by decide) (by decide) (by decide) (by decide)
  have d237 := chain_dbl secp_a4_cast 0xa1f316299c051adcfd77e3908b8b8e1d16a72fcd0b069f7ae3f53fb842d3ad56 0x9629a450bd383a8b9fd43c6cd1d492bf392ed605299561dde54433526ce9f114 0xbf439b280c5fb6d7576befd220cef64db925593e5c56af8dca3972c4a24aa391 0x200000000000000000000000000000000000000000000000000000000000 d236 (by decide) (by decide) (by decide) (by decide) (by decide)
  have d238 := chain_dbl secp_a4_cast 0xaee719a737ac4e364919e03e5445a0aa54749101ba80f9870cf20e6dc301ffdc 0xb73b1c47ef1e4688eb1730da7cc893df1477d747e187e18383d38d9626ca6cc3 0x584315cb294922a90a57d64bbcc805097322a25209757f5afac35d76a54fdba3 0x400000000000000000000000000000000000000000000000000000000000 d237 (by decide) (by decide) (by decide) (by decide) (by decide)
  have d239 := chain_dbl secp_a4_cast 0xe732d14399fbeed039026f11b190354fba6434bfd8f73a24ef6362b4a0ea91ef 0xedfe16b2db40180311f9892007a2fef7d05b2a3bb676899f9c6e2192d38f93e0 0xee6902f1fca5db3694d74faa4b05d0d25b3d5100c46e227e3d01793de29405ad 0x800000000000000000000000000000000000000000000000000000000000 d238 (by decide) (by decide) (by decide) (by decide) (by decide)
  have d240 := chain_dbl secp_a4_cast 0x2c649e1b444bfaa921f03578039be8f40e5e8ec300f40fb2cf8755a250992c04 0x13464a57a78102aa62b6979ae817f4637ffcfed3c4b1ce30bcd6303f6caf666b 0x69be159004614580ef7e433453ccb0ca48f300a81d0942e13f495a907f6ecc27 0x1000000000000000000000000000000000000000000000000000000000000 d239 (by decide) (by decide) (by decide) (by decide) (by decide)
  have d241 := chain_dbl secp_a4_cast 0x7f6ca70ea09ad6dc86113265e004c641fe4ade7c26f023e090d6fed00d0af860 0xeb3cf8f532245362ec05c88c85fe12d19182be7dceabe577c75849c6065084ae 0xc833c78222d9d70043fe63dcefdca4a1f52b45c5e7dbd2a66f67c1fff96b9480 0x2000000000000000000000000000000000000000000000000000000000000 d240 (by decide) (by decide) (by decide) (by decide) (by decide)
  have d242 := chain_dbl secp_a4_cast 0x956bb6638dcfae6ed2d37ab4883e724fe35b9eef641780caac5efc9af49ad601 0xbdf1a67d092d99974f7a60f2184519b2a576fcf984a201d9f8e5bcbcc2e9a5d0 0x4095902bab65a1aaa80be54a86bf7baaa6280b61e5626461cdb4f7018562ff7b 0x4000000000000000000000000000000000000000000000000000000000000 d241 (by decide) (by decide) (by decide) (by decide) (by decide)
  have d243 := chain_dbl secp_a4_cast 0x4ba55d8b5483fb0b4eef34a9a5f85538af7bbc4e921ba073bb4bf2b4cd7a6391 0x68856a6eddc4ec29cd5be267b64483b48c3b4196477da62abde5fc173b27e771 0x77a33df14f79a1fb13b6fd49c19f7b4a331d22f293b0733a6118d62a07bbdab6 0x8000000000000000000000000000000000000000000000000000000000000 d242 (by decide) (by decide) (by decide) (by decide) (by decide)
  have d244 := chain_dbl secp_a4_cast 0x13b8ee10d8c63ccc1406374f50b83c6235b74b6e09e566dcd2899776e23a0e7f 0xbc4a9df5b713fe2e9aef430bcc1dc97a0cd9ccede2f28588cada3a0d2d83f366 0xd3a81ca6e785c06383937adf4b798caa6e8a9fbfa547b16d758d666581f33c1 0x10000000000000000000000000000000000000000000000000000000000000 d243 (by decide) (by decide) (by decide) (by decide) (by decide)
  have d245 := chain_dbl secp_a4_cast 0xaa3e6192682f538d4b72a6099461c5e2cfe08640786f4558796afa7bdd1b4f14 0xda433d5e11ceccc0abc5c7626ce7bab42e89b221f785c409282de545f3fceb19 0xe498dbd321a810301debbdc4af95e5218e77fc2d9227b277684e7120a6f5cc64 0x20000000000000000000000000000000000000000000000000000000000000 d244 (by decide) (by decide) (by decide) (by decide) (by decide)
  have d246 := chain_dbl secp_a4_cast 0x6d40f867eb9969bd1934729f2455f97d4dfc8afe1a79a60beb99bd71d438f605 0x31e8e1ee9e8c7ec1c1c116981c16efdbcc4838a72207e0654de275c5acf692a 0xad7e7f5b465b353dd9d0970290d6743b70649827c5bf73b09cc2a84eb16f667a 0x40000000000000000000000000000000000000000000000000000000000000 d245 (by decide) (by decide) (by decide) (by decide) (by decide)
  have d247 := chain_dbl secp_a4_cast 0x41c6ddf7f1d7920ac2d440aa504b65fbd35a0fc0b352cf7d2843b7f37fa68e6d 0xa9878607a88d61155d3e00d862657f73e9c9bf363fc7a91592bbd7ff81f488b6 0xd181a1abd58895d61c063e7c82157c2239d0f01964ad5c6d495a7bbb031dab1d 0x80000000000000000000000000000000000000000000000000000000000000 d246 (by decide) (by decide) (by decide) (by decide) (by decide)
  have d248 := chain_dbl secp_a4_cast 0xf717c949c00a247330d2c209336c342191c46c4a3cd7e6c574cf6d0475aa1d3c 0x8c28a97bf8298bc0d23d8c749452a32e694b65e30a9472a3954ab30fe5324caa 0x40a30463a3305193378fedf31f7cc0eb7ae784f0451cb9459e71dc73cbef9482 0x100000000000000000000000000000000000000000000000000000000000000 d247 (by decide) (by decide) (by decide) (by decide) (by decide)
  have d249 := chain_dbl secp_a4_cast 0x1bddb5e9b6dcb12288dee8372dd502b817cebcf99239560c5bb02eae1f5b8d6d 0xab1ac1872a38a2f196bed5a6047f0da2c8130fe8de49fc4d5dfb201f7611d8e2 0x13f4a37a324d17a1e9aa5f39db6a42b6f7ef93d33e1e545f01a581f3c429d15b 0x200000000000000000000000000000000000000000000000000000000000000 d248 (by decide) (by decide) (by decide) (by decide) (by decide)
  have d250 := chain_dbl secp_a4_cast 0x5155e968839912f9df9c4d6591d7f05b63e0a833bfbf06859834b241f4ce2c97 0x2564fe9b5beef82d3703a607253f31ef8ea1b365772df434226aee642651b3fa 0x8ad9f7a60678389095fa14ae1203925f14f37dab6b79816edb82e6a301e5122d 0x400000000000000000000000000000000000000000000000000000000000000 d249 (by decide) (by decide) (by decide) (by decide) (by decide)
  have d251 := chain_dbl secp_a4_cast 0xa6e9eb9d3da9c42f9aae6f283394cef1be5989de42d18f364787a82adcf070b8 0xff3d6136ffac5b0cbfc6c5c0c30dc01a7ea3d56c20bd3103b178e3d3ae180068 0x133239be84e4000e40d0372cdd96adc1547676f24001f5e670a6bb6e188c6077 0x800000000000000000000000000000000000000000000000000000000000000 d250 (by decide) (by decide) (by decide) (by decide) (by decide)
  have d252 := chain_dbl secp_a4_cast 0xbbf8483324d2a924f05c202908140e3f3fd6da9ac5f253124e8953d67d1905a2 0x8ea9666139527a8c1dd94ce4f071fd23c8b350c5a4bb33748c4ba111faccae0 0x620efabbc8ee2782e24e7c0cfb95c5d735b783be9cf0f8e955af34a30e62b945 0x1000000000000000000000000000000000000000000000000000000000000000 d251 (by decide) (by decide) (by decide) (by decide) (by decide)
  have d253 := chain_dbl secp_a4_cast 0xf606cc653fb2edb4402ff71980fbd71223060bd7ebc89b350e2a4b367515686a 0xc25f637176220cd9f3a66df315559d8263cf2a23a4ab5ab9a293131da190b632 0x53154fede94d2873989049903809d7980a9f04ff9e027a1d6eebf3d6fc9590cf 0x2000000000000000000000000000000000000000000000000000000000000000 d252 (by decide) (by decide) (by decide) (by decide) (by decide)
  have d254 := chain_dbl secp_a4_cast 0xe0a350de580db0ef003512968ac580a51a40c6df2112239e26ad8a411bf7301c 0x2a9e8dfe3cce6bab3e82d82a5688544c0c7b55dc31978b4de2ccb3b7d466d561 0x1dfeda5c16e651fbac7b5ad608b96cf5e01eaec17a02182f96ccf5252e76373 0x4000000000000000000000000000000000000000000000000000000000000000 d253 (by decide) (by decide) (by decide) (by decide) (by decide)
  have d255 := chain_dbl secp_a4_cast 0xf0313f849e88f449ddecee7e8f30603b8b1fdbb3cf774d1188570c68388edc6d 0xb23790a42be63e1b251ad6c94fdef07271ec0aada31db6c3e8bd32043f8be384 0xfc6b694919d55edbe8d50f88aa81f94517f004f4149ecb58d10a473deb19880e 0x8000000000000000000000000000000000000000000000000000000000000000 d254 (by decide) (by decide) (by decide) (by decide) (by decide)
  have an1 := chain_add 0x4f51e7f40598f0055487614fccc230afd92371c4b8a603aae25cedc411d89e0e 0x186b483d056a033826ae73d88f732985c4ccb1f32ba35f4b4cc47fdcf04aa6eb 0x3b952d32c67cf77e2e17446e204180ab21fb8090895138b4a4a797f86e80888b 0x41 d0 d6 (by decide) (by decide) (by decide) (by decide) (by decide)
  have an2 := chain_add 0xf7e66214a35ae7bec27b1ecd5c0de5ff1dce682f0f4e6588e11d6ec7feb9a5c5 0x8b4544fc1fdfa06e456c1115a1dc831c85e7f1c5e620eca51c20802d36a4bc6b 0xe3e77c41288f2602e722af7f4b70e64de4116fb9955b03b06ea8b19f7a20350d 0x141 an1 d8 (by decide) (by decide) (by decide) (by decide) (by decide)
  have an3 := chain_add 0xe0cb18a3edbcd600a286c6b603e220d63bed148bfd0c00e3027d30018ec79731 0xd1d74cc17ae64d46da4919c1b7fdd0661c8e6549110499fc9e6844e56fd50ce8 0x5448294404d6dd8d913f40e91447643c653aa9869cc807eb1861f691a2ee15e6 0x4141 an2 d14 (by decide) (by decide) (by decide) (by decide) (by decide)
  have an4 := chain_add 0xa7d3054d6fe27dc5559c75f6bb2231a9d54f988d170234ebfd42174c1a3f32e0 0x406ec480f44ba9fdb49716de38bd6203e098e6068aef62fd952ff24f9dfb14ea 0xf6f25e2a2cad760449104bbd442507540642882dd3d53a0b2719c7051732ad29 0x24141 an3 d17 (by decide) (by decide) (by decide) (by decide) (by decide)
  have an5 := chain_add 0x5a5632e902f6c58ded7ffe4a60dd0278e397627c2a31c8afa3a7ac625064cd03 0xc8db06b4203881c24280af548d7212427fcfb4d3ff2647b4d2d423b8135dd420 0x4037b81be21acf19ab141c952570f1985653340fb451f11e1ae36cb5186d2c43 0x64141 an4 d18 (by decide) (by decide) (by decide) (by decide) (by decide)
  have an6 := chain_add 0x179ae0dc9d03a8028156678f64d8c80fb3a3ec33f145a5b507c6c6c02a8e71c8 0xc5d233bf948bc870efb34515912a900a60781512eac5e1b1952767ba81b5f8bb 0xc4714b8e45c5f9760c16530248d1d92dcd9b4dbcd737ea4edc54caa927d0c85a 0x164141 an5 d20 (by decide) (by decide) (by decide) (by decide) (by decide)
  have an7 := chain_add 0xa6a78cd866f50652c8426bad78453057fd429d93c659d5138c0bc7357a94f22 0xe86665a9762155cebe1129f2b56baa79c39c94851cacdd7510966cb07267a39b 0xe6b18635fe40a71483a2844370555ebf01f972830d8880551c3ac649502e5dde 0x364141 an6 d21 (by decide) (by decide) (by decide) (by decide) (by decide)
  have an8 := chain_add 0x7e1cc6e0806734816850b5f010d056e9b5b14f4630c1a6cb79a98c3660d3aa6d 0x4ab0ee866402c3eef08d0f8182c2c1297f3844019f55fda6f4259de4b5c7d6b8 0x47a416af230b37b632ab6c91a6cbb47bf2836f8071397e21a94ff28d5a5a74a9 0x10364141 an7 d28 (by decide) (by decide) (by decide) (by decide) (by decide)
  have an9 := chain_add 0x814d489910767dcde9878f169e7b250e5f59e8be1a15df7f8c1dee23adffb968 0x913b569ca2ba5b04dd683ce18d8f788f98d652ea509031163f27f61a5fc89ee8 0xa6ce67d8da0a21008e70b3255c3c6de94702e68c4fe9ce3df29531ecdf2800ad 0x50364141 an8 d30 (by decide) (by decide) (by decide) (by decide) (by decide)
  have an10 := chain_add 0x2ba83e31e20e6c6f464a26d2eaa4f799f06dd1c218946f49a69880bc5b4abc4c 0x5c035bbe1a2de20d1f991a8069db5f4f2a92d2e40882d7e65a1d6f66b8572495 0xd1c45ad0b5d537ff3f74f3bda1ce9e96ef03b3ace8e8cb851adcd742899145d3 0xd0364141 an9 d31 (by decide) (by decide) (by decide) (by decide) (by decide)
  have an11 := chain_add 0x4a9531cbc7fcb555627173f519a031a2187c66e581cecb04909d994c2e3b53e6 0x3baa6391ac865562d823a81a9b921830f234c2d77fde4cefe51dc3b9490f682b 0xa7d907791499cfae0c92139aad4e5190ca38bf2973ef138435fead5d4e1529e3 0x4d0364141 an10 d34 (by decide) (by decide) (by decide) (by decide) (by decide)
  have an12 := chain_add 0xc80f4833784b6a077df723e24fe535a67b40f01ee9e3dd59da9d65e8f82d9f2e 0xc8757f121c457d903f286e6d469485400163e6d05ed600e8147979cd7e74bd57 0xcd96d208ee0459c32f94bb64a38b23b91ad422377dd15b7e9907ca9b5466494d 0xcd0364141 an11 d35 (by decide) (by decide) (by decide) (by decide) (by decide)
  have an13 := chain_add 0xf8ad5290eaab42f191602466cfe19d6a8bdd2b5a788a8cb2c2eba34fd22847be 0xb43892fc8e9e70bb2e0374bca47533607f7238f968caa487983b5009f96a5755 0x71dab831a22ecb9271fdabd60202bd6421bb10932d9d8149441d5cd6aaeb6614 0x8cd0364141 an12 d39 (by decide) (by decide) (by decide) (by decide) (by decide)
  have an14 := chain_add 0x3086d220f31a0f4704f6874663e61a85b7baf3f27deeccb9c19ee6024d7c968f 0x84cf86ffc07de66e7668045155b072897e2ea00f1063c4a222fcc7321b21f22f 0x2135b794586ddb44fe41fe834d77fdd1424bf3ed7f3fda23f2a165de7c19193b 0x28cd0364141 an13 d41 (by decide) (by decide) (by decide) (by decide) (by decide)
  have an15 := chain_add 0xa824e3d624bd7aee30ad3fe846d969dad308c31c20d25cfd14d86a39aa928162 0x9bc7e4434f44744928035a39e7b0649c767309d26a1e22bab79b1f6a9ca8964b 0xdb9c3b886d118b81b281d3e214b7b40e37f25098ef6e48f03b193c3278e6cfc2 0x68cd0364141 an14 d42 (by decide) (by decide) (by decide) (by decide) (by decide)
  have an16 := chain_add 0x554516c7913f5284122e296af363f848e12d34d3fbfc90e94cedf9ce63e62aba 0xb48748b4910f7493f7df5c91c81099695c1c557dca159b3cfa497256ec09e4cb 0xce32fcd2e3a4fa873799a7ad1f9a2d42f2916977c0d5db3fe10db1e636eb1670 0xe8cd0364141 an15 d43 (by decide) (by decide) (by decide) (by decide) (by decide)
  have an17 := chain_add 0xa497ec081a5b43f307fe6b2ed7f51a2ed7042704318aad555da4795a4ae36810 0x96e95dae203b2577919a2575f297cd63c45d2fd648b294018e102efecde42823 0xe199aa0565aa39ca0a953d80b6fb6fe660964438c2e7a578671c37a8aa010e0d 0x1e8cd0364141 an16 d44 (by decide) (by decide) (by decide) (by decide) (by decide)
  have an18 := chain_add 0x4e9ae5800380f7cefcac474de3a049e12e1b0f0312740facb4144528ddd6e597 0x3d61221b5b8911ce7e65b850e897b8d4512f62f3aa08c78b73c496388966c2a2 0xfb4da90cb52a85f05e3e40ea380fd14bcdec02053f97380bfcc38a65e1723da9 0x5e8cd0364141 an17 d46 (by decide) (by decide) (by decide) (by decide) (by decide)
  have an19 := chain_add 0x9da339403188b608778cda205fcfeb0adce46dffa1dd103c3271ca529b43a7c8 0xdb4debedbb9468943822660643f229864d4d415da851d48fbfb65601eb0648d3 0x8e67133a0b8e549b5fcbb222baf5ea310138e31bc0ee09549b3a123dc44dddf9 0x25e8cd0364141 an18 d49 (by decide) (by decide) (by decide) (by decide) (by decide)
  have an20 := chain_add 0x3ba37ea85760c97215dced4f7d5d63cfa8df6d46b9c81063261e3c8e76399130 0x98f691cd3d79d6af0961d7202b0f9378a9525a78f42acdd7cc2381428e5dca97 0x6a6bcdcf21e0735a37c488691b705a81cae9b81153c4956246bc590a64ece19a 0x125e8cd0364141 an19 d52 (by decide) (by decide) (by decide) (by decide) (by decide)
  have an21 := chain_add 0x964b583a76ed003af67324d770a980a02bf6fd9d82ed81cdf325ae1b036bacd6 0x21a86490da95ae19ae09a35b5dc39800df42b70f6544b3143e7633a2b18ddd7b 0x628a444bf847b44b243fadaf6cd447b9089cbcc9df288d29a7a44eba88b5743b 0x525e8cd0364141 an20 d54 (by decide) (by decide) (by decide) (by decide) (by decide)
  have an22 := chain_add 0x52d4e5874c2b1e6d24626f661bd5964c6dc6495b659a1fbf54aa0b9e64734e42 0x7e6e0cd74b2fb86ac20274c8eaf9c7f9ab3241085e2be17ee70636a8d83248f0 0x860b6eacda868eb88e08766f4ee302e71099fc45770641dceca1876dbaa711d0 0xd25e8cd0364141 an21 d55 (by decide) (by decide) (by decide) (by decide) (by decide)
  have an23 := chain_add 0x8747c3e1175273bacb28dff9b123d030301368c3639952cdc0710f651cd21689 0x331c643eef11a8f80438d2343213e95cd5b382d035d5c1f76a1c2f67031312a1 0xf998517f90e1234a865e148c589ce704c0dbf988ad5d8709509f4d5ec22ab043 0x1d25e8cd0364141 an22 d56 (by decide) (by decide) (by decide) (by decide) (by decide)
  have an24 := chain_add 0x25853627ab9e4428bbc2b26df39a28f315236b3bde7ebd82ef5edf0a3883378d 0xf19388303efa3089e680517badf1da8ebbedbcd8a0af523e115ca3a73323d450 0x596f9770f9f63582eca50851dbe12e64b0d29212936c6afac867ad51ce757f98 0x3d25e8cd0364141 an23 d57 (by decide) (by decide) (by decide) (by decide) (by decide)
  have an25 := chain_add 0x38721d17954c3f8dfe37959da83d2772b07ab116c026c8bd9fe91cbd1553f8f9 0x11b56ca22ab152e015f6ce7241631a49c6658960d867ebaea64482720acf4ecf 0x12827cb1fc13d6a0aea4cd9ec914c96d6e1a5435f65bcd7d7a614ace95e190b6 0x7d25e8cd0364141 an24 d58 (by decide) (by decide) (by decide) (by decide) (by decide)
  have an26 := chain_add 0x4e49c808ad68250f9b3e17cd4afaa353e93f3346cd396b963a96d80fcd568ea1 0x51e30660b0713bdb461f3977a8f778a2b3014c7d2b44b5615ef06b9bc32cf68c 0x2e9935e9c1143b53e07b87f36d5153ebdd09d43ded0bfd3834e3877ab4fa87d2 0xfd25e8cd0364141 an25 d59 (by decide) (by decide) (by decide) (by decide) (by decide)
  have an27 := chain_add 0xbb67f3e7e496460578b64f06a38d43e72d6d99fd238fb168cef14484e8bb41ab 0xa778c393790830e87423b9fdf1c687ba228893158367c830fc156a4344d11c68 0x9047fe3ee0f738fd68fcd4381dbe3155dd7ccfb27c5b3a2293a420b51135e347 0x1fd25e8cd0364141 an26 d60 (by decide) (by decide) (by decide) (by decide) (by decide)
  have an28 := chain_add 0xa168102f9efde9e2c818a175b0e594b0d2c12fe65d53c553ee4bb7cfa6d47ed9 0x3b9be69330f4eb36fa32e217746bf539c169ca2b504ecd3645f31226d3edf1f5 0x2a817978b22ce026ad524452e2564bfcf980a1850987a43508eb62983001cf35 0x3fd25e8cd0364141 an27 d61 (by decide) (by decide) (by decide) (by decide) (by decide)
  have an29 := chain_add 0xdb1515f8b04a8b7ea74d3268f5d117db952ef047ae41c0e40d0a53ab7302311b 0x84f4101008af280dacc03df64cc1481b28cfa1a90dd79b0b14f8aa8a5ae6bf42 0x50d4edeaeda984377dce6d3d859f43494620f783733e7e7a5f633818fe72d406 0xbfd25e8cd0364141 an28 d63 (by decide) (by decide) (by decide) (by decide) (by decide)
  have an30 := chain_add 0x8e692c28c208ff37db20f820ad5f2b68061bfadf7707ba2a4af134bb46dc5e05 0xbe8d95bc2eb56e7f8021615353bd08b644a3a0e44d6d0f68c471bfa36c10ba3e 0xc919742386bcc6163807b3e771b6048dab082bd458a74191c805b029bb389a9f 0x1bfd25e8cd0364141 an29 d64 (by decide) (by decide) (by decide) (by decide) (by decide)
  have an31 := chain_add 0xcc5be2bb1875023a9046aceb919a137f79dd3babb398de17f6523da10c1082c5 0x6e82efe9e85926324e3bc361dae9943ea01dcc8162f8f61fd72fa109b7096fc1 0xf50c2b470175ed0c6fcea1e51b23c8db4fde9a159793c1f5b4f5346bafa04705 0x3bfd25e8cd0364141 an30 d65 (by decide) (by decide) (by decide) (by decide) (by decide)
  have an32 := chain_add 0x5e3ac5e451772fe60e7fb8e3a7e0e93c1d11e9df9e2d5365ea3b2d287a0aa4a6 0xecd7e0001a8c64ac630abdf2237791d22f6c8b480421757a062cb5c973a1b16 0x66c5bf0f2d47a3416fc2c5683503dcb99bacb90481400f4e3715909edd32ed55 0xbbfd25e8cd0364141 an31 d67 (by decide) (by decide) (by decide) (by decide) (by decide)
  have an33 := chain_add 0xabed522f3e193c67f73d321de6802349a92bbb5984c611c5b99d2149f1de2e18 0xe6df467bb317162329ceb52209def59f31bbbcd20547c2195bb9ad24f94e7a20 0x9bc26acddf160d59b850151f98f0d63160486e7d6c071cef0f6da827a408c19a 0x1bbfd25e8cd0364141 an32 d68 (by decide) (by decide) (by decide) (by decide) (by decide)
  have an34 := chain_add 0x4f81a978aadd715c8c18b34d3659c47f54e5750aa6dc05ffd4d6825fd0b851f4 0x38d5254ead8065cf016c065d6ec97dda209cce60ee3b8cb775fc2fd49602b887 0xbe3373095089ecb494b5273acb1746d790f502b7d0c87a41c53449cc369617df 0x3bbfd25e8cd0364141 an33 d69 (by decide) (by decide) (by decide) (by decide) (by decide)
  have an35 := chain_add 0x3e9a6f8aa99d1c95adaf191933c307be07f11e5ced10870e59df6f75cb5b22a9 0xa1abc014704f602a89ad1ad8e2ac6c5de0df7ed968a50ba84a6e76b545117047 0x2bf87422fc8658613093f63c6741be2d653705e12e1ad7ffb1b9663c48fb3de2 0x203bbfd25e8cd0364141 an34 d77 (by decide) (by decide) (by decide) (by decide) (by decide)
  have an36 := chain_add 0x1015a1ff5cceabdbb18b3bcab3e1e165565936df0a2e61c3ab9963575ffcfe0 0x86663d976aec03e16a44b899a677316e954d37fa25bd673e9e059e4b8dcd412 0x8ecd12766745d9fc15070e3147c85af32f8be33fe2dc1ffc1f930434700612c2 0xa03bbfd25e8cd0364141 an35 d79 (by decide) (by decide) (by decide) (by decide) (by decide)
  have an37 := chain_add 0x84c317b78952e8ca720dd89f1026a6d7e62c6ecc7df56058a251b46174cca20c 0x50a7932add9a9da3500361c205d579eca7e3d6d0b36f7157b2dc332443ecbd56 0x8345907f574f5a7f3e7db8f91486bdd822d9bd4d355f4eca36172c72c05f815c 0x8a03bbfd25e8cd0364141 an36 d83 (by decide) (by decide) (by decide) (by decide) (by decide)
  have an38 := chain_add 0x63ad0385d2e58ba85346be11e60b918beb00ea22cb7a1d097fdb7c77c9d3e881 0x5697fb65327a39d695f45850620a2de21ab27293d7ea8ea5898497cb331299b8 0x42fc4aaa5a4355e0b98c9d8932ff70b43545f3719c9553d0457e3b0c84c109b9 0x48a03bbfd25e8cd0364141 an37 d86 (by decide) (by decide) (by decide) (by decide) (by decide)
  have an39 := chain_add 0xa8aeb05a99b306c78cca5973cd3d3d095f9d4ef3d74d62f6f7cf9b876f335bb7 0x69812f1893689c677e88775279ada012489e9c6a9da439cace286442e8a354a0 0x746b6a265e96a90aa03ddbadc6b4743de7997cb8ae51486541cdf43f4e84af35 0x148a03bbfd25e8cd0364141 an38 d88 (by decide) (by decide) (by decide) (by decide) (by decide)
  have an40 := chain_add 0xfa07d0a101f7374a2f8bb1d504633bf0ff067500b5d1ce037c8bd50738e3191f 0xd35ad1184b9ff8baf22096b38510703c6ccf8b3becd7ef290bfb4bf2d0a5392 0xe2657ce3f5507626208c8596165ef9635e4b4738957152a89aae46cd57eb68cf 0x348a03bbfd25e8cd0364141 an39 d89 (by decide) (by decide) (by decide) (by decide) (by decide)
  have an41 := chain_add 0x2a8a59b09062121c1a279dd54cda676130095d894b4a213e6a3bcd23144e5fb7 0xc2e4f615f413ac147570cceee6605b570d5429f64611f7d5ecf44c03487e6eb 0x49ed03dadd024d29839f0cbb0de13b0430ee69fbc3bf3cc32e755139fe0324c2 0x748a03bbfd25e8cd0364141 an40 d90 (by decide) (by decide) (by decide) (by decide) (by decide)
  have an42 := chain_add 0x94d38f0c5a11a05e330e52faba3cc35968183fa7b1062fa8bdf7919209e27653 0xb42eb18de51f701c94ce236be40a8d3c2fad0436c303808957558d182bf76521 0xe2c98f7dda5522a25e4c898d14573388325e1ec63909266718861c60a88fae8e 0xf48a03bbfd25e8cd0364141 an41 d91 (by decide) (by decide) (by decide) (by decide) (by decide)
  have an43 := chain_add 0x2a23e22eae156ceda5423b8f4a5a90bd3806552386026b532a7ce892eae9b4a3 0xb73dbb3c9269ca6f9ab9f7731f2a0406d25e8aae7db1d34fab71a340ba2ad6e9 0x4f5b5befa6fe103decd417ec484f54d17466da37e9d8f78e8c63615bcb645d99 0x2f48a03bbfd25e8cd0364141 an42 d93 (by decide) (by decide) (by decide) (by decide) (by decide)
  have an44 := chain_add 0x36a2ec1244e6a5857c2d6f3ef99ba6795d8e5075cedf7b513a8e3e8543988676 0xbdbda4ce10f9b2dcdff92fe9efb47bd96549c45fab0014bef7d3806d33271426 0x6801f4e017b914e7189884ddae2719c70c7fd660d866004f35b914903f81780b 0xaf48a03bbfd25e8cd0364141 an43 d95 (by decide) (by decide) (by decide) (by decide) (by decide)
  have an45 := chain_add 0xede9085caf36674cf9c26eb146cff2eaf78cd9c36ec9e11da8e7ff616a065d06 0x4fa1e9e5164c5ef3685c977254928e5efd6aff88c654974f6bca03d54d12e15d 0xd5934a4ab91dd2a2ba822d964dd3b74ac09d1abf15b4cb5750e63e9a71122076 0x2af48a03bbfd25e8cd0364141 an44 d97 (by decide) (by decide) (by decide) (by decide) (by decide)
  have an46 := chain_add 0x21e3ddce9de38cc20e68c9dd3366e87516ef74cb537674bef9c2e6717945588f 0x5ae416c9c6aea45ae51ccfb815be2ba8fa4c5d2773dd486ccee926cdeb726fc6 0x2bfcd87eaf77dc9970b2a18fd6a7ce4a0008894243f428beee51e4299f3bdb50 0x6af48a03bbfd25e8cd0364141 an45 d98 (by decide) (by decide) (by decide) (by decide) (by decide)
  have an47 := chain_add 0xdcedbe88041c1959fb8494522e2e991a09293d7a9be661cc7a5db90be2837187 0x9aff6c77040e0d199f307ad67b5d5d6f5891173f05452a884ddde94ec7a27946 0x8701242c6121b8b03fc66d58c59c655503dfae267428dab7071c08d038cfc906 0x26af48a03bbfd25e8cd0364141 an46 d101 (by decide) (by decide) (by decide) (by decide) (by decide)
  have an48 := chain_add 0xcba49b4f56db9d6f1c37c946f26e932e0ab4e3fa2588a9ddf575c4b7a715ec76 0xe1af4db7111e33794be01610b0b168c02fb5f5fdb34bfba5cb5ed97deebd07ba 0xed1be1640a0612c2cc96966bf7adb42b1a1bc95237a89f33841e656267f597bb 0x66af48a03bbfd25e8cd0364141 an47 d102 (by decide) (by decide) (by decide) (by decide) (by decide)
  have an49 := chain_add 0x23de7fc74b52c6fa7f6f3ffe5df6d1e297553f0edbf7bf7ae0044fc7821ccd56 0xd0a29ba8a3b6d898a50d21278a7a6fb17ef7c61d5fbfd23298447980cd649cdd 0x95691e3baeb84b691cd2c9d2bc4e6d46f981b46ecfa1c9f5f2da4cd57e776c37 0xe6af48a03bbfd25e8cd0364141 an48 d103 (by decide) (by decide) (by decide) (by decide) (by decide)
  have an50 := chain_add 0xf45fa648c07117cc5c1d8abb6593a89cc0cbfcf9f4aa4234fc366c9641d9cd0f 0x16d1d8e67e70370e567bb8d3a15382f88303a016d69cc117dcd4723b3ee71dc8 0xa0bfa5c2c6926bb664ffd136d5234840c953443e54fdadb7c23da911640650f3 0x4e6af48a03bbfd25e8cd0364141 an49 d106 (by decide) (by decide) (by decide) (by decide) (by decide)
  have an51 := chain_add 0x35ce7a32cf0d50311858607db31567d10333d96cc5249a1bf3fec51fbbb3a885 0xf526be64e59e448494bfc16c842cc08b0238ecd47aea81b5fb2a175d893fabb1 0x6bdfd728a83a5c4771428c94621bc1b6d859b285679fe0444a150505ad56f767 0xce6af48a03bbfd25e8cd0364141 an50 d107 (by decide) (by decide) (by decide) (by decide) (by decide)
  have an52 := chain_add 0xe78be406923481e3ff87ba14fb72149d99b643ca33d787301f546d9318cab68b 0x1858d94ea225164e13c87fac293fb5f7c506ec67adeff6fdca702a6032011df 0x449450c30c0af81f3ca83b07abf22a25d0d2736350de3e59997148f74c7dcc9a 0x1ce6af48a03bbfd25e8cd0364141 an51 d108 (by decide) (by decide) (by decide) (by decide) (by decide)
  have an53 := chain_add 0xc100fbd242a0cc1671a85f4835f82866074601c469f6a320390ef4d1bd031873 0x7adb23c6031515b6955257b105f46ac5b8cee76e54bfe4483a289d3cc9b033e7 0xe33732a8f88ac689e357d8ff6b5db758f3686c0ba21baee01237d85e2a5fe690 0x5ce6af48a03bbfd25e8cd0364141 an52 d110 (by decide) (by decide) (by decide) (by decide) (by decide)
  have an54 := chain_add 0x26c98c0ebd6e011beb99e8e0c3063436faca64342fbabd098b26aa7dd1e315f8 0x99d6ab3f8104deae448fd1772854307da8dbfd4dab90a7bd84ad816f4380a7a2 0x785d936c7a25222e92b0dae1118f24260c616149b58392eb40476f37cdafad6b 0xdce6af48a03bbfd25e8cd0364141 an53 d111 (by decide) (by decide) (by decide) (by decide) (by decide)
  have an55 := chain_add 0x4060d419967b3a342e3cff852b8979201b31d90d0443d55dd52b3234196abcf4 0x2b67f9705313de9816b7684d1763d0eeef1bbf313d3e185fb252393065f08f08 0x95c3b159092392dd7ea3250784dd35b341ad929192d5d195e0a1809240d62a0d 0x2dce6af48a03bbfd25e8cd0364141 an54 d113 (by decide) (by decide) (by decide) (by decide) (by decide)
  have an56 := chain_add 0x68c614f8f98f4b0b6fad3d70c183b2dfa38d25a41c5562ffa4d062b997fdb878 0x24cdb1fc074bbd3c1af30bc169214e0a713a6a1f9293cfe26dc19e0963711087 0x60a4f8ecd7627f68309f9007ab34f11953ea2e386094a0f2b2f075c68b1276e5 0x6dce6af48a03bbfd25e8cd0364141 an55 d114 (by decide) (by decide) (by decide) (by decide) (by decide)
  have an57 := chain_add 0x8972303d7135726ca6f43a6cc68a7bb8a467bef3602641469ff0a6ca401d6697 0x7e3e25977a1733a36959ea9b63849233e51548f2f0b08bcc0a65b848b94a7332 0x30aa594455f343cc0a1d7f717d3718b35b4beb2f8ee11198e32b3047fbe156a7 0xedce6af48a03bbfd25e8cd0364141 an56 d115 (by decide) (by decide) (by decide) (by decide) (by decide)
  have an58 := chain_add 0xc5c36ae807049797eb6590a16d737389332a9d146b85f795b55218e1752562e2 0xd41ee1a85335389b9b966eff1d2fc6b4f2d02ad692dd1512c77097019e75f295 0xf4dadea2545d9c2fe408f5e97c9639beb4de4eff57f0943779f58af0b01a7722 0x2edce6af48a03bbfd25e8cd0364141 an57 d117 (by decide) (by decide) (by decide) (by decide) (by decide)
  have an59 := chain_add 0xe2262c8c4d6fa135e4a080d491501c25c8942964e7f3e2d8c124727895991705 0x77c1708d316c871e53754c63bbea238c6ebfacf15ca0ae006c7c1fc78807646c 0x9f4e3a56c53ac529dbe077518db793e54b6616b2f2a81a003c083a9fb2d4e0b8 0xaedce6af48a03bbfd25e8cd0364141 an58 d119 (by decide) (by decide) (by decide) (by decide) (by decide)
  have an60 := chain_add 0xd75735170d18da270cda1d77479f7ab209feab69a3007cf996a1a4494e68c6c7 0xda90d27f4068ea24f556480006c9075eb75e459f5822c9b348210e01362567b3 0x5ec3da29fffbbdb4527ee516e6e977be657da8aa72ee730f29ed18465027359e 0x2aedce6af48a03bbfd25e8cd0364141 an59 d121 (by decide) (by decide) (by decide) (by decide) (by decide)
  have an61 := chain_add 0x2b181dd32fa2d15489f02b79c6f93177c9a3c98585f482788c311520305e1099 0x5cf69822879b757e8677abc701d4721add75263406e0cac1771f3c4dadc17289 0xa26ca7646f6a68827603ea84eb55d71fdc36400c27cfe55bfdaf16bdd31eb145 0xaaedce6af48a03bbfd25e8cd0364141 an60 d123 (by decide) (by decide) (by decide) (by decide) (by decide)
  have an62 := chain_add 0xb0b26787824e620c0984379590331bcff3e3c0aec23b4e3cedb03856d7ab8143 0x5a38d47d49909deedbd80b6cd4642d10c60602f6018533de51ec817a2396d344 0xe90e42177414ab20bc2ebef62b136eeb7deb119b58f1cd850868d4cd697e8dc7 0x1aaedce6af48a03bbfd25e8cd0364141 an61 d124 (by decide) (by decide) (by decide) (by decide) (by decide)
  have an63 := chain_add 0x2dfe775849e679022317e53a4db204d86081d0c5ce38e978be54cdb0e3f5df8d 0x7c7214041cba74c727c314c76e4914e8be2fb950b1a12d7daa9ab53bf42125fb 0xc078dda79e18efd438b6a78ddbf0db489ac451e9f28cfa1e299195d4b9c9bbc2 0x3aaedce6af48a03bbfd25e8cd0364141 an62 d125 (by decide) (by decide) (by decide) (by decide) (by decide)
  have an64 := chain_add 0xb654363c42e14de3b526e0aa278589c2f8f589877d9e307b4d51d713064c4db8 0x4750aa97cae3e279458f34caeb63d19b1f50065c6e2c9eb8ad8f07477ddacff2 0xb43eef8292fdc16fbb0cc8835e96d3b93118dc3fa2a96c90688ccbc8cf44931a 0xbaaedce6af48a03bbfd25e8cd0364141 an63 d127 (by decide) (by decide) (by decide) (by decide) (by decide)
  have an65 := chain_add 0xbbf135af4a0a58e9ce1bccc2426cb37afea826ff889909bcc6284a540a621dbc 0xcad407d73d0933c7b5e86529dadb2098df3f79add86797a84f56f21b9d68b48a 0x9d04b7c2bd2713b233a6847e550eb4425d54352a40332a67de35e8d22d2d5311 0x2baaedce6af48a03bbfd25e8cd0364141 an64 d129 (by decide) (by decide) (by decide) (by decide) (by decide)
  have an66 := chain_add 0x60d0a4af293009d0a5e715eb54aa01c379928804e3ddb48575a8a70b7d2d251a 0x1efd34cd9a10e9b1de547b14c7008b27b197cc6d2250a98a0c90cc3ae9e24fc 0x77a3552e74103c0afac2b3f90d9d9fea834efcbdf6abd5bf33137bdcd8c1b8e1 0x6baaedce6af48a03bbfd25e8cd0364141 an65 d130 (by decide) (by decide) (by decide) (by decide) (by decide)
  have an67 := chain_add 0xf853e4a72d150c6d63a772e751734ea9a3f7584cbf7f22630755cc14b3d291ce 0x5b4aa9f5464f360f3e1f82d356075f1e6f13639afb6c3cd107b2c78acdb45790 0x96a94f25d2e61fe7dddf0f638bd310cef2f7a8880f4b9341c1ff7e7063b59aa1 0xebaaedce6af48a03bbfd25e8cd0364141 an66 d131 (by decide) (by decide) (by decide) (by decide) (by decide)
  have an68 := chain_add 0xd218e653fcaa1e2c8c7dc48eba09bf9e10ce06b8382f1000e4f5fe58c42c895a 0x7d9c8fbb02093fcdf845e61b6b43f2d16a7731a97743555399ebb7d697e11ae8 0xc042cac30b4cc1f57b2f34d09d64e17655611e71e2d3cab39f90730ecc416ccf 0x1ebaaedce6af48a03bbfd25e8cd0364141 an67 d132 (by decide) (by decide) (by decide) (by decide) (by decide)
  have an69 := chain_add 0x913cc2e5b9196d90427739b1237be78e4ed15fb1641ea0e2c82068589ac08f8d 0x33568f48bb55a643f2b36e6832b44e9adaf4c8c44b74a8b5488cc5baaca45659 0x7f64c7f24486bf50b9f0b146fe37e003522402b197b89d28cb5657a29aa7a23a 0x3ebaaedce6af48a03bbfd25e8cd0364141 an68 d133 (by decide) (by decide) (by decide) (by decide) (by decide)
  have an70 := chain_add 0x58c50dc67dd825c973338f90e2343a9f1c782fab5922a665bddc473e8743cd9 0x21220fc03095e0f806334f3cb98b293d33d76d8aeeedc71ede09b8fa02403b9e 0x891e7d4dbb7cbe2e304635a18a620fe0581c0fda969252c7222ee4f333fa30d2 0x7ebaaedce6af48a03bbfd25e8cd0364141 an69 d134 (by decide) (by decide) (by decide) (by decide) (by decide)
  have an71 := chain_add 0x90a0cb753de32788543bf230b35dfe6a9764fe9e82cfc4d1e6bff42f25d90e96 0xb8ead36b106b1e77e66dc732b036fa1ea301edbf80271686f888feaebfaa9b57 0xf147e75153f23c951f2bc0d45623fd051a70b2c1fd6d1aca1450236058e325e3 0xfebaaedce6af48a03bbfd25e8cd0364141 an70 d135 (by decide) (by decide) (by decide) (by decide) (by decide)
  have an72 := chain_add 0xd792ca04aebd9abe78b9a1fe183b640d8bbb2536bb2bf02b9c5b47e08d3b0e70 0xbe6c47c047294551d8e7eaa303385e10373ce2f7f4872c273929b9debf515478 0x4282f3bfb09e6bdb3358b9fc620e821fb935688c3e84eab1fd03375b920c424b 0x1febaaedce6af48a03bbfd25e8cd0364141 an71 d136 (by decide) (by decide) (by decide) (by decide) (by decide)
  have an73 := chain_add 0xb5e2d454701b0dc507a00bd2f75c84bbd5ed5c2148a57106f8b12631f2df80a1 0xa68b623332cc8a1ddbb33ff0accbcd592e6ce5ae947f6d08ac721cc42d33ac8a 0xc2c9adc750a47f56e85195ce7402e049f58565e6bc3f205ace8beb0223bc4799 0x3febaaedce6af48a03bbfd25e8cd0364141 an72 d137 (by decide) (by decide) (by decide) (by decide) (by decide)
  have an74 := chain_add 0xdedee90f88380745b54e9efbbc2c0cbbcd916960c08637ac86b9cd589a766305 0x9eb0e3114402f3546637c0909ec638ccb87a6e17958f95acb9ae38288a8d0896 0x500914b40c489b8898aae3855f55e5648f85d0b99218233782b94786cdaa1a51 0x7febaaedce6af48a03bbfd25e8cd0364141 an73 d138 (by decide) (by decide) (by decide) (by decide) (by decide)
  have an75 := chain_add 0x33a9a262882d67b3ba6c2441c706e1b0cb61a877e06c1a2b41d57764949dfc3a 0x5bd340c1ff3e1a5c15bc5ce17f7507f51c9f8a9a281a2284d34f48ad466f42bc 0x75e3e9b0b909197e9f41ff5d2249204f0e84218740df7bef889c76e8584c94b4 0xffebaaedce6af48a03bbfd25e8cd0364141 an74 d139 (by decide) (by decide) (by decide) (by decide) (by decide)
  have an76 := chain_add 0x268d37928ac400f791fb3a9004bcb8840e6ab9607b27a3a52c32aa5ee2917d41 0x6f96b853cc42f53731439086d82d886d3cd524930b249396fd64546ed214b32d 0xe8d361f7e53ce1fdeae85fdb8f10413145c25988a30cfd50b48c8700ea2b5dc8 0x1ffebaaedce6af48a03bbfd25e8cd0364141 an75 d140 (by decide) (by decide) (by decide) (by decide) (by decide)
  have an77 := chain_add 0x91e86efd63cc34733df69c37a891a40f08e3d45a7ed3871bb7307e00a2f78559 0xc22a29688403b3647939b97796ea8b5628d514c142283868e97738f41301f9b4 0xec9ba97f89ceac3c4fc5fddab688952ea7e85185987e46a56c7f73119409faf 0x3ffebaaedce6af48a03bbfd25e8cd0364141 an76 d141 (by decide) (by decide) (by decide) (by decide) (by decide)
  have an78 := chain_add 0xe4f0ecc59161d5df34f185bccd9d60945d93e81975b957f5e9e5e440798ef26c 0xc75698f23bbb6d02bbb5f2e95cbf64db17bf8556d972691f80910880fd957e3c 0xa4bb0ded904e5d274c3a9b43a488091498a4ee0c2a20746562216c30b3aecc9e 0x7ffebaaedce6af48a03bbfd25e8cd0364141 an77 d142 (by decide) (by decide) (by decide) (by decide) (by decide)
  have an79 := chain_add 0xa3f04ff83e71c402a9747f055b727bb483773a4b002593214381127aa56231a2 0x31dba3753460f46a6fef89624ae8f73c7a9eccb0d20d01e8731352d4ea706847 0x314d948335b147d69107c0c23662daec17c05344f72fd4f180010420bb240e4e 0xfffebaaedce6af48a03bbfd25e8cd0364141 an78 d143 (by decide) (by decide) (by decide) (by decide) (by decide)
  have an80 := chain_add 0x749af092d84e54d1364cd14639bd899f5457ff589d5c2964670d79ec9c1a02c2 0xddbf24ac53c15c1cc257409b138cc56b5c0114fe2a0df7f4167b32acaeb99661 0xc3b0af9d60970182fdc77eb5c4bd42bdcb9683fd89e1bb1a0d4ccf047bc47a79 0x1fffebaaedce6af48a03bbfd25e8cd0364141 an79 d144 (by decide) (by decide) (by decide) (by decide) (by decide)
  have an81 := chain_add 0xe8e3f84365618d1c25b8f8c021a7706b02889cb2da6e5515353072e508bb508 0x277604a2b449bc139b52f5ad9ab6df3f17aa20dfabda48c211536817859a4ef0 0x4b8574473fbcaa4a52a686287feb4ed1e60680468b711ddccfa225e2a4c3dcf5 0x3fffebaaedce6af48a03bbfd25e8cd0364141 an80 d145 (by decide) (by decide) (by decide) (by decide) (by decide)
  have an82 := chain_add 0x992ef39baebd33223e7dba2f0441b02bc3ed8a8c758a93776ddb8e826c5bb603 0x64ddef04c497b19484312a049870aa6d61d78c70b6794c1f3c74e1586484ae7a 0xed42ed865b3d0cb07720bb837e29d21dc290da5c740f5f4ad6b6b03c4e13e8d7 0x7fffebaaedce6af48a03bbfd25e8cd0364141 an81 d146 (by decide) (by decide) (by decide) (by decide) (by decide)
  have an83 := chain_add 0xa36a7f9e0a69e28eedec63ae819092cbbe102a830ecf1f8dce1e1ebdfd9a9f76 0x910e91ba5bccc2381081ff9a0c40ead75532d4d7751335a181ff52898af867db 0x61010d74bc22bfada38824f57c1584454906365c75c534c63f2dfd4d4bfe6aa7 0xffffebaaedce6af48a03bbfd25e8cd0364141 an82 d147 (by decide) (by decide) (by decide) (by decide) (by decide)
  have an84 := chain_add 0xc4650ca2bfcaabeafb110be319c3a28b6b22e70ece90df6c108f255831c4f369 0x14492a7fc4131de11133d72b3cebd7c1fa27e1708a9ffbeb80dc1f4eda8d9921 0xb369368f84b8f256c0e31bc089b0554cc124a08b46a41c6a1b6d18e2a59ebbad 0x1ffffebaaedce6af48a03bbfd25e8cd0364141 an83 d148 (by decide) (by decide) (by decide) (by decide) (by decide)
  have an85 := chain_add 0x231bf76c790a10e0716a216892fce49a5cc2ce69874e87eb2a94fe9c353b7fb 0xdbc5c7202a3ac56a231b727023e74078054e326165ff89dec07ddce37b7662f2 0x5ace9bef59f555627dc0f16627a6e1c588375a4b4406c309791fe7adf34482e0 0x3ffffebaaedce6af48a03bbfd25e8cd0364141 an84 d149 (by decide) (by decide) (by decide) (by decide) (by decide)
  have an86 := chain_add 0x54c10921cab2f4987319787ee93b32f256e0bd10a44862fd4cc70a825155c29e 0xda15e4bb63611e9b87a44dd2dad7a0e5e95de2e7323f282563e90aec5cf1f4 0x57dcb9ad72902014eba461b5e69deb24efa0edeb3015d379f33918ad940c959f 0x7ffffebaaedce6af48a03bbfd25e8cd0364141 an85 d150 (by decide) (by decide) (by decide) (by decide) (by decide)
  have an87 := chain_add 0x124696e30ac0988174655a6e327422bb8965c28e21a93c3587971594163f2250 0x53d267f2627fd7140d3577e26dd3a6559c50e09ac896129ab5965751ff12f77d 0x9187c16ee14c268a58922f6dc095e3d365ce47180cfbd0081794722532d2edd8 0xfffffebaaedce6af48a03bbfd25e8cd0364141 an86 d151 (by decide) (by decide) (by decide) (by decide) (by decide)
  have an88 := chain_add 0x81c466e8a260fd147ac1d99d6bd40ac7a98fe324e269451ca267cad3012fa4e9 0xdf5f1793a17436cb5e0321118b4994661eca5d9e6275efc6be6782f668ae58dd 0x5e9dd1b177e0c33f3c006cbb607b8ac897cacc3fdfed26a55d24fe3601b2a719 0x1fffffebaaedce6af48a03bbfd25e8cd0364141 an87 d152 (by decide) (by decide) (by decide) (by decide) (by decide)
  have an89 := chain_add 0x5897335bc08269345973a5ac0602b03c85d898eb33e6417ff000fdb34e5c7ada 0x8a9be8732fb8181d07478c7e9956404a1abceab52e7431c3531695d7ca6187ad 0x3545b75186c2899b9a8ccfafa140055c7e167dab4ea7a0f22e8de97bd04f5c90 0x3fffffebaaedce6af48a03bbfd25e8cd0364141 an88 d153 (by decide) (by decide) (by decide) (by decide) (by decide)
  have an90 := chain_add 0xbec466e3f46ce83c18bd72c0dec99fa3e5e16a53d5186a115c6b4324b52d6f98 0xb3fe5dcb5ea64993f6ca1a1a430a5f69d9759a5e5a9bdd026752495d203a7fd2 0x722d21e289cfc11fc49b8956fa4005fd3ddeeb450236c0b12068162bd2550ce6 0x7fffffebaaedce6af48a03bbfd25e8cd0364141 an89 d154 (by decide) (by decide) (by decide) (by decide) (by decide)
  have an91 := chain_add 0xf1f78a1d39381f7dd84ece3ac14345cb63bccf0b1c88d366016820de4eb7a0f6 0x2e91e45606b00aa02490d59b2796c9b946208b3b322c03b29a4944d327760a3d 0x23088e5093b47529f778a472f830e21ca3c8afeb3cc9824fb15d781584e9fceb 0xffffffebaaedce6af48a03bbfd25e8cd0364141 an90 d155 (by decide) (by decide) (by decide) (by decide) (by decide)
  have an92 := chain_add 0xd61c76993e14e1a148a2ea07fe4fd310ce5c38a507dccf31ee362f7cf6971e5 0x11d5d57c8b2e1cabc5ed91a47e231e58ca3e5e7c5ddc13e361acaef91848845f 0x3ecafda5317312cf252b57f3737da40edadb7f5900a90e1f195b3f79e6b11130 0x1ffffffebaaedce6af48a03bbfd25e8cd0364141 an91 d156 (by decide) (by decide) (by decide) (by decide) (by decide)
  have an93 := chain_add 0xa2a057d9f7712ca9691427b1ef3debe2b1f4d0797c2aa61c2ebdda4290ee270e 0x652be4f32ef5cb9def167054eb58fdb255af9b002f04aa445d448050cf8678a4 0x155f0d525d157f1400d666f53daf84980dce0ae885ed1893f92c4be05d9d8b17 0x3ffffffebaaedce6af48a03bbfd25e8cd0364141 an92 d157 (by decide) (by decide) (by decide) (by decide) (by decide)
  have an94 := chain_add 0x6c9f2019cd581922b3467eff527ab031b0c886e1fd485ec3d66b2ddee48574bb 0x29091d1d065a6278d33f32941152578f9ecaeceaf82414b7a1b9c88248ea2d8e 0xf9514f8e95c47df006959e44dbc901c29c1203d9e22a00df3c9760f69de93100 0x7ffffffebaaedce6af48a03bbfd25e8cd0364141 an93 d158 (by decide) (by decide) (by decide) (by decide) (by decide)
  have an95 := chain_add 0x6c4b80368dc184d38dbebc68662891455a43261acdedcfc3203b948995bca546 0xb68edff82e574c531ec225c9797eac7b488626d8f7e80aed195ab8e908c4bc13 0x56e2762a6a46c0449a256a7371e41511f57428edbb3938a2a126dac5bfa0779f 0xfffffffebaaedce6af48a03bbfd25e8cd0364141 an94 d159 (by decide) (by decide) (by decide) (by decide) (by decide)
  have an96 := chain_add 0xabe02ac7923480791ebe110154c285b48b90c9059ab48c0f1ec1dbddd54cbc31 0x6fe6547f588fa8335622cd2fd685b0b1addf7923e32077d6aa3ff7cf03f4dcc2 0x72891ac5f2ea82fa7828b36fe786501b632bea1fd7fe89c70f0952e9332353f9 0x1fffffffebaaedce6af48a03bbfd25e8cd0364141 an95 d160 (by decide) (by decide) (by decide) (by decide) (by decide)
  have an97 := chain_add 0x6ca9ae49f1eea494d74a4144591913f05c35f6561149ec1acd5e3cd8eb36c05c 0x899f6197ea9f5672ea3fe324a3d9b491d5390a7111257fd122d1de589dcfadac 0x119c984b1bce9fe80fcc647f781d2a273325804cc1779ade5b8e2c0bd0398be0 0x3fffffffebaaedce6af48a03bbfd25e8cd0364141 an96 d161 (by decide) (by decide) (by decide) (by decide) (by decide)
  have an98 := chain_add 0x53cf050d78ec45f61faaacce15c62d92bdd990413c1760e57621e13119405648 0xd07e5c313056daf1d9c1121d62c30d156afa544f479b26eae8d35aa1af68bff0 0x4633d67cb53471aa073fda852b11eafa5009790f4576d4abb896b2f5be451aa4 0x7fffffffebaaedce6af48a03bbfd25e8cd0364141 an97 d162 (by decide) (by decide) (by decide) (by decide) (by decide)
  have an99 := chain_add 0x327b935edde98f07dd5a5ddcee74e8c9aee33861ad6d8aa2c241134537bbf62a 0xfdb1b13c5662392b8cd3c2a92e925efbb13575e1e7f3f53ee736237ee8bc3398 0x9e5c22a71cef3dd555288e57742201b8103e596444d8aeea46b10311cb46150 0xffffffffebaaedce6af48a03bbfd25e8cd0364141 an98 d163 (by decide) (by decide) (by decide) (by decide) (by decide)
  have an100 := chain_add 0x61270bb9213c5d442b34429922956b8d2bddd6334e13419ef60adcce023ffb11 0xa1bd11327024693565b50a27d7d7a002fe783d5c95420365812619ffb0951d8c 0xa0cc645f70a6c339d257fde4c1ab48d22cccf1e5efcde18b9459339e6db317ee 0x1ffffffffebaaedce6af48a03bbfd25e8cd0364141 an99 d164 (by decide) (by decide) (by decide) (by decide) (by decide)
  have an101 := chain_add 0xee9948f5a40d8ea6aa9d039a79b0ec8459f595221949cf0fafb6c57b0bf031bf 0x8ab2737a3391a809cade77287b6f90d0070711912cca75ae60d5f86ae14b3214 0x8357a44dab856dabf401d6f01b7811187594953c27eb952edf03c2ec4d3ae1f5 0x3ffffffffebaaedce6af48a03bbfd25e8cd0364141 an100 d165 (by decide) (by decide) (by decide) (by decide) (by decide)
  have an102 := chain_add 0xa06214ec846dff4a7298a6f771450ea968f06bab08e86069e0c969f37b72521c 0xf7ff5ae10060fe4c8af14f0ca1c92f71a2131e85ae5b0aca58e5333bee761378 0x7b7f53c8e8fddfeb09165b951537a634e2102cc171fb389845723759a6ac77be 0x7ffffffffebaaedce6af48a03bbfd25e8cd0364141 an101 d166 (by decide) (by decide) (by decide) (by decide) (by decide)
  have an103 := chain_add 0x6bc341a76d491eadbbae14be981c7767681c908ae09b05ea8489ce98adcb4331 0xcfa0a0ea5ee9ff6f8bc2913f88a5074070a379dba0b82f312bba64f2e5ef9317 0x423f6a8db4a3b6f248b3e8f4f0e9fd56b9a4bdd779f1020c375d1dc6cb4cc1d6 0xfffffffffebaaedce6af48a03bbfd25e8cd0364141 an102 d167 (by decide) (by decide) (by decide) (by decide) (by decide)
  have an104 := chain_add 0xaf0242e89cb61109e8aa6e649e694e0c7e31a54ca7a67b6474e3d575d37790a8 0x4de13e37809d6238e8e96dec963b8ce8beccdb57f4158af1405817f823d16c66 0x49cf1b4e01512caa0f85dc7dd31a35ecaa4af1627431ea7745af0d794fc9b502 0x1fffffffffebaaedce6af48a03bbfd25e8cd0364141 an103 d168 (by decide) (by decide) (by decide) (by decide) (by decide)
  have an105 := chain_add 0x10083b6f0167e5da6d8598a2852186d177accdb8c4510a7983bfb216c32734eb 0xfa2849feaa84cf6c457d111adfe3299a4dec671c275072274d3ce688713d9bb7 0x846b0bcab675d9d6ffe67eeaec04a53d8077c15aff005df71d1b2a40a09b2bf7 0x3fffffffffebaaedce6af48a03bbfd25e8cd0364141 an104 d169 (by decide) (by decide) (by decide) (by decide) (by decide)
  have an106 := chain_add 0x42d24eb3494b930f185a1864d7e44446e1969f70858bb83fc5d63b3dac58550f 0x493b1c6e26f168cab84a451b03be1bc2764c540349fb85107a680602b7271ed 0xbdf13b0e83f57d3ae0dfab8673bb07cb086a92f266349a2a1283466102dc1b70 0x7fffffffffebaaedce6af48a03bbfd25e8cd0364141 an105 d170 (by decide) (by decide) (by decide) (by decide) (by decide)
  have an107 := chain_add 0xcfe3e2571a2c3bb8183a57e40a7f30df6d61da6fe08ec1a863b382daa684fd47 0x420bf137853b852b48e75f30fbc1b0e2a55358e05e5034453e5bfba2a768f494 0x855887f7bf03ab1432452924fd1d1395e18cd62fb48cb6181118219d6d0aec7d 0xffffffffffebaaedce6af48a03bbfd25e8cd0364141 an106 d171 (by decide) (by decide) (by decide) (by decide) (by decide)
  have an108 := chain_add 0xe8b550b04cbba89fb0a54fbf59d334f2a45b02fdd80cfc583bf0dbda8b2151e 0x7489b389dba9faa023afd130f65f0b12c8b8f5e90f89b0ba909d2d508cfe50de 0x1e461141ba2e0a004c5019b59fa89f5301d25536e6553d267d36580fbc165fae 0x1ffffffffffebaaedce6af48a03bbfd25e8cd0364141 an107 d172 (by decide) (by decide) (by decide) (by decide) (by decide)
  have an109 := chain_add 0x1c726beba7485e1e2eea4bb84645093e0bea4bdb659968ae6fd1c85e6715e650 0xfe178e9af6dd888235a372fbeb404cf0c79a00613cc32723a7634dba808319d4 0xc22e4e4a880230371fdb7e03b7c6bb01c8fadbafafd1cd11c4c979c7f2269192 0x3ffffffffffebaaedce6af48a03bbfd25e8cd0364141 an108 d173 (by decide) (by decide) (by decide) (by decide) (by decide)
  have an110 := chain_add 0xbda6ef5605ee677530ed274fbb65d9a59a615e0b03c43bf6d900cf1503dcd8a3 0x5dfa064f2b9a96db45816a7651d8b1f551268b641ecc84ef650854d76002366c 0x71a4a67d7e3fff48ce014276c0b026cf2ab084c1a32d4da5f6c7fbe8df32e946 0x7ffffffffffebaaedce6af48a03bbfd25e8cd0364141 an109 d174 (by decide) (by decide) (by decide) (by decide) (by decide)
  have an111 := chain_add 0x8b214efebb651d99c3bc26744e4c0004825879aa5c71b27da31418229321e262 0x32291d0c71362f6c129ac4d7292d2f63aa29f47a37c1384adf10c250840c64a9 0x383a2f6c238881628e8ddab189742028c1687c491cd9debe0833ad07348c4722 0xfffffffffffebaaedce6af48a03bbfd25e8cd0364141 an110 d175 (by decide) (by decide) (by decide) (by decide) (by decide)
  have an112 := chain_add 0xf06f881f349c3c8a40900f3594aac5db4eff14b3ade887380929d3125d7658d0 0x7c80544c0e30c7b556f355509d4a76df021758a144474113c217be62dc2fa617 0xf87623188ac1ee1ee47b48c95063ae4c52fc53f3da52c550a744dc8e82f756d 0x1fffffffffffebaaedce6af48a03bbfd25e8cd0364141 an111 d176 (by decide) (by decide) (by decide) (by decide) (by decide)
  have an113 := chain_add 0x1e9778a904790d796d84bcc4b06a5b6f8fa55a7d7952d2df3986ae5ebbc2e244 0x87bc8da9aeed5520432911c324b1652543951431e44ba71034ed6f69becb9c70 0x86d2d24ca8442da3aa7b0886f0a3ddf941a78f7a832a54b9224c53d9ed9db251 0x3fffffffffffebaaedce6af48a03bbfd25e8cd0364141 an112 d177 (by decide) (by decide) (by decide) (by decide) (by decide)
  have an114 := chain_add 0xb808f5ca3212edb8d0fe6770897e4bf4e9144fbc710a7586c32c521c2566d03c 0x85fb8574adfb1df9a3761e6fd35909504ab8c096207043ecf7bd0385eddaab6a 0x99fe3369ebb24b407ac82d50944423022e01e7c70dde59c60d962714980f063e 0x7fffffffffffebaaedce6af48a03bbfd25e8cd0364141 an113 d178 (by decide) (by decide) (by decide) (by decide) (by decide)
  have an115 := chain_add 0xd522a4bcb48d7039e07e62aeedcd06b32f18ed94fc2a7d891e7283867fd88ffd 0x8c5bf317323d51a449292c726850616174b36d2f511a03ac061b6caefac62518 0x967d8a9e15eaefe18f36e2916e9648a9b3054ddabb71a7c940fa7cd4f22f4c04 0xffffffffffffebaaedce6af48a03bbfd25e8cd0364141 an114 d179 (by decide) (by decide) (by decide) (by decide) (by decide)
  have an116 := chain_add 0xbb4b24770db93fc62f0a5f179cbf99008cd923c082860a78016f8059dc2e0a03 0x779c65f1209d6e55634f026959c6064c9ad37ad93d4e10b0e735e9cdd42c0921 0xeab925b57cf12e194fd507be45f47576152bfec8b6965f5c44344906521f42e2 0x1ffffffffffffebaaedce6af48a03bbfd25e8cd0364141 an115 d180 (by decide) (by decide) (by decide) (by decide) (by decide)
  have an117 := chain_add 0x488557af5862fe723a09ba733ffde91d2010d4d284402b735ea9058dbc761262 0x8201c9a949a073c8c8d22fbcf3a853b12af11923a70986800fa020ff7687e227 0x9756d1e942f35b1c1b971ef3c8149fb615de9394d14bc9d84d07dc3d21fe02e0 0x3ffffffffffffebaaedce6af48a03bbfd25e8cd0364141 an116 d181 (by decide) (by decide) (by decide) (by decide) (by decide)
  have an118 := chain_add 0x4026b4dea656769ba156e96e1e6b12fe4c195505bf6e7bcf4232c24fb6f665a2 0x9310619ca92e2efb90a9317236f70947888f666dd6a6d85156a1c636d2e5b99c 0x8cf3d1126a779b88468a47dba39bb6fdb57ca5c2151d467cd11b78533f4919cc 0x7ffffffffffffebaaedce6af48a03bbfd25e8cd0364141 an117 d182 (by decide) (by decide) (by decide) (by decide) (by decide)
  have an119 := chain_add 0x7921565e71ab7a06cfcbb597002d48f5975008ddba06649c8e9dcd1dbddfece8 0xfe39f9931f8580d74b06c98335cb270dcf72c1dd3ba2cb3564b2784719c5b061 0x108a4dd147bef22f566109c48c6bc524aa13105d89992a5574e74ae19026b1df 0xfffffffffffffebaaedce6af48a03bbfd25e8cd0364141 an118 d183 (by decide) (by decide) (by decide) (by decide) (by decide)
  have an120 := chain_add 0xe17ee9bc6ad89ae97ead69410fce72bc0d2517f1f12e5c81ca41e26f11ccb33c 0xe3c750d0d4e82f6328cc7d1dfc63e0ff3236d822808490fc079c5da3fe5979f7 0x77c98acb290e811c65a3c6b7e00febbdb89bad3406d173e5c9dd0f9263117469 0x1fffffffffffffebaaedce6af48a03bbfd25e8cd0364141 an119 d184 (by decide) (by decide) (by decide) (by decide) (by decide)
  have an121 := chain_add 0xf3407529d1a304af673cfb33e468bfb935b625936cfa0a2e64e5d15de429a66d 0x94bc60732bb6a812444ad7bb92437e3c0a51e03ff4df255b95f52e0c53eded4 0xe6647914d90003f13e668c60ed5a83a425b20ec1853f275a518c68be6c65dd5d 0x3fffffffffffffebaaedce6af48a03bbfd25e8cd0364141 an120 d185 (by decide) (by decide) (by decide) (by decide) (by decide)
  have an122 := chain_add 0x2c43bc34332e1c6471a380b2df673b3652cf5c85c74801f0cc3c3ce4271a25b3 0x77ec71fef8f59afc14f9a8a1b102e356cedee0565159fce6f83c30d2b16ab048 0x94537c603e7ebbb8f9253d873083026b51a55efeabf94b6a10b94c6146042c7 0x7fffffffffffffebaaedce6af48a03bbfd25e8cd0364141 an121 d186 (by decide) (by decide) (by decide) (by decide) (by decide)
  have an123 := chain_add 0x72e5fa2b0066b23183445a58d1eca5c581480fd79c33481b0db9ff8899060742 0x695448202f6547af91e66f3b38ea6244f9004d9d0aa593256514d5b7ea5c9909 0xa87bb1736eeeb7ba28861350134ddeda4e00f85a742619d0393f2de7273e16a9 0xffffffffffffffebaaedce6af48a03bbfd25e8cd0364141 an122 d187 (by decide) (by decide) (by decide) (by decide) (by decide)
  have an124 := chain_add 0xc4535b9687f4bcd7c4cb5acae96a92b9e84218a33b75839303cb068cfa69c1c6 0x9998317a3e9c1a29f97ac925746d6041155070a2f33d5143198c231a703c7654 0xb9dbd840b379981b009d29e0d0b67ded04a5ed31d449d0e2dd274d33acff0670 0x1ffffffffffffffebaaedce6af48a03bbfd25e8cd0364141 an123 d188 (by decide) (by decide) (by decide) (by decide) (by decide)
  have an125 := chain_add 0x740fec2d65d826880b2b60f5f0f6fd51d8768c4121c350856600d85f17aaae67 0x108956e5a699327b233055dd140088485b9ef044daf644caa3ef21ae6f9da674 0xa8e77c612aad977b3271fe9d9bc6ff71d9a4df895a04daafbf790886841fdada 0x3ffffffffffffffebaaedce6af48a03bbfd25e8cd0364141 an124 d189 (by decide) (by decide) (by decide) (by decide) (by decide)
  have an126 := chain_add 0x3fc357a1eccb667f5efb46b8979be63b12e2d024c2a141a47f8dc2b2ac40aa94 0xce159227058f534cf2926817eb715e134c13adcc14cb7ec65864fc11c6271c15 0xe3d4cf255e5809fb8b044860b2890f7f5afe3cd45df4864ab2118e97e78262d5 0x7ffffffffffffffebaaedce6af48a03bbfd25e8cd0364141 an125 d190 (by decide) (by decide) (by decide) (by decide) (by decide)
  have an127 := chain_add 0x8f4b0215ac9ed4b191552eeb421e44cbe548f98ea35878997a0a5d19baa26204 0x2af86b8393e2013275e18347ec0eb4ee2df1df65dbb38a4e3d53f9dfd774c728 0x378b41649a44d205e05db8f3f6138e71d86ccaadaf237453c26803ffe69e5cce 0xfffffffffffffffebaaedce6af48a03bbfd25e8cd0364141 an126 d191 (by decide) (by decide) (by decide) (by decide) (by decide)
  have an128 := chain_add 0x4ed245638c43efaa7d7c147f2beeb0f216ba3566b0a499dff75346203abcf28f 0xfa5e08a20b757fd92c276e68936541bc48f560ae0b25382a03bfa87f02a123d1 0xd5c7c999abf4d7959d3a46400222267251b527b2f912a6e716a833eb587fd49f 0x1fffffffffffffffebaaedce6af48a03bbfd25e8cd0364141 an127 d192 (by decide) (by decide) (by decide) (by decide) (by decide)
  have an129 := chain_add 0xac5a8db870603e9fe07e36b13f5ddc3092449cce7d548631dfa0d716384ae460 0xe46efdcbd36cb5f214394b3c205dbc158ff0906fb8b5539df1af79d4addd3638 0x8602d92eaae22c8f1e843a9827ef3df9797a2e5848541b46cf31601d087943ac 0x3fffffffffffffffebaaedce6af48a03bbfd25e8cd0364141 an128 d193 (by decide) (by decide) (by decide) (by decide) (by decide)
  have an130 := chain_add 0xfc309547cfc0f7314465eb8394313e396c5e92da51d14a648e3b3780bfc11f48 0xb2b01b7c15c7adde596f5257ea787713f4bbe0a6a5b41c9c0caabf0d48f3254c 0xe0809d35f7b74c600f7cb514c222a1bf4f372f82ce14766c06752cb6fc5f95d1 0x7fffffffffffffffebaaedce6af48a03bbfd25e8cd0364141 an129 d194 (by decide) (by decide) (by decide) (by decide) (by decide)
  have an131 := chain_add 0xb296579f99ecaddf65e7ad4ac94574444b2090b181277c3dcc669c81f8c056ca 0x70f7b8afc6aa2061bc6c93b2fc8c2aee471147834b69299d466009350de6ef45 0x5a41e01bd28e629828cdaf5cc0736a7682a019d0edbfaa003488db5794ef0c81 0xffffffffffffffffebaaedce6af48a03bbfd25e8cd0364141 an130 d195 (by decide) (by decide) (by decide) (by decide) (by decide)
  have an132 := chain_add 0xe7e13fa3c5d3b35dde8c1ab0ddfa6b4fa30cdd47933fb827a557716ec1312c4d 0xc87bf58dae28e0d343b9c6dff3ef896f78285896c6914d6b0218d6665fe1c05c 0x5007c713cb2cf23f988105d1e86d27bf2082bf3ec9e539a281dfbd16adf8ff5e 0x1ffffffffffffffffebaaedce6af48a03bbfd25e8cd0364141 an131 d196 (by decide) (by decide) (by decide) (by decide) (by decide)
  have an133 := chain_add 0x813365ea51f1f636d8d776ebc9d503df97d815a152974d9c710ed1ab6f551150 0x5adc7db87b9ebd77f5e39d3ef95ccc96c2c743d15cc1c292d4ad5ec845b5850f 0xaf77eecc3b4c0971786e5dcf1b23cb89d9b4eb99f1c169eb3991e0af75ff2d04 0x3ffffffffffffffffebaaedce6af48a03bbfd25e8cd0364141 an132 d197 (by decide) (by decide) (by decide) (by decide) (by decide)
  have an134 := chain_add 0x653941a6d6d9bc633cd1834a396a9a656d7e71e1ce287b5c946406f9c5164781 0xdea4ffc00dc71a42744f556bfcaf53c52969a03db7adf33f02caf5b51bc216bc 0x80d926fb3e742d7baee73d069154cb57a0955093db48f562352083b7044c53e7 0x7ffffffffffffffffebaaedce6af48a03bbfd25e8cd0364141 an133 d198 (by decide) (by decide) (by decide) (by decide) (by decide)
  have an135 := chain_add 0x5eece36901a3c53aa270143ba9bd667ffaf7a39098921344a685c8989f23dfe6 0x5cc676c101e027304169988905c307735015ed4e285bc0f3dc4e224dbf3a6a34 0x7ed242650431c312011cab78076a3d231f65c11f34ee2f34c60d0df532eebce2 0xfffffffffffffffffebaaedce6af48a03bbfd25e8cd0364141 an134 d199 (by decide) (by decide) (by decide) (by decide) (by decide)
  have an136 := chain_add 0xc493e47a110d8e7e67c8849cd541ad3512f7a8c7ce83448e10f105b6f778e4f0 0x8e6c4f14015f88c844284bdb3a1ac12040cfec6f600968da6f217ea4b69d7e0c 0xbd0d7794a8992c8b074be08a5ca1d504a9ea3f3785ae5095b4312fdaf991f292 0x1fffffffffffffffffebaaedce6af48a03bbfd25e8cd0364141 an135 d200 (by decide) (by decide) (by decide) (by decide) (by decide)
  have an137 := chain_add 0x1baa1b49f804953e7058fe0fb56a91b0c96a3586d29fed08199f3ae6e9ba9d2a 0x8ac21d120d7128dea338f169d25dc38e1f33cc84520c29fbaec04caf79029f60 0x56a436b1674708872a1ff20089f9a455ebdaedf029ab6d9ad772cfd39e7c3c1b 0x3fffffffffffffffffebaaedce6af48a03bbfd25e8cd0364141 an136 d201 (by decide) (by decide) (by decide) (by decide) (by decide)
  have an138 := chain_add 0x73b5f2d413dea649c19a6fddf2c06c6d7e10103fa57c3aa2549118ca33c2a4ea 0xb470c2896ce193013cd86b5bbbe14fd6992bef2760c83d9810ab4ff8a0f1ae94 0x225ced1ba5c97de8bbb77f305141a027c7d6f15a8d5956e29f71e6d935c061e0 0x7fffffffffffffffffebaaedce6af48a03bbfd25e8cd0364141 an137 d202 (by decide) (by decide) (by decide) (by decide) (by decide)
  have an139 := chain_add 0x9a313d9c9573a4685db9e95d9f94b125047f0acdf9ad9a478970390678edd3c8 0x6bba7755ac517a5621a4b588f59a6f00ecba19e4c5cd6de24b789934e466423b 0x5222f8d9e1b7cbbb7b14cac6745c724f9df3b7d0260d55047d3ab9eb737ed0de 0xffffffffffffffffffebaaedce6af48a03bbfd25e8cd0364141 an138 d203 (by decide) (by decide) (by decide) (by decide) (by decide)
  have an140 := chain_add 0xe56e81f8756b2614d5f803c98c50a7eea40a80de982652e6acbf3eb9a96f9f18 0x77771236078cc83365b85c07d6471887af071261b7b00f6ddd4480b6dfd96f91 0xca5970b6bb41b04e35edb309427848a909195771feb0eeb92c215385fc6468ce 0x1ffffffffffffffffffebaaedce6af48a03bbfd25e8cd0364141 an139 d204 (by decide) (by decide) (by decide) (by decide) (by decide)
  have an141 := chain_add 0x25af9e197862678f76a5fd41b62a14ad7cbabc294de1153e6457613cdf94cb98 0x9f019b2abef5c0801e35a2f4ab6081dfa0540a6cc0af55bca0c351d2a4758100 0xbc3c36d34a7a1bc31a199cf0c32d0adbc541f240cb5e88497fbbccde7db109ed 0x3ffffffffffffffffffebaaedce6af48a03bbfd25e8cd0364141 an140 d205 (by decide) (by decide) (by decide) (by decide) (by decide)
  have an142 := chain_add 0x8ef8e50c139db6594e1cd7a04e0594a04087aaebc631e03d4ec3e8b9bed888c2 0xf4a151c957426b6a2c576f5caaacabed1b7ec92031b45f2e404da04415292ad5 0xd31eb73321376270713fc11531cfdf7a4e8cf392e64dc997de179097fd177585 0x7ffffffffffffffffffebaaedce6af48a03bbfd25e8cd0364141 an141 d206 (by decide) (by decide) (by decide) (by decide) (by decide)
  have an143 := chain_add 0x63749ad9cfb7dc70b125bb4857e5446d49f838605d242b137687c22aea496084 0xf31bcde4637139b023f16fff60426598992ce559186d5fb458b5c09f50b577ca 0xd0edc594ca974127b26bb4315f1fe6ce8b19bfc2017fbb0d67d50adbce5de279 0xfffffffffffffffffffebaaedce6af48a03bbfd25e8cd0364141 an142 d207 (by decide) (by decide) (by decide) (by decide) (by decide)
  have an144 := chain_add 0x89c51b2fe7b717b11cb2f74e8b19d2b3bdccd6f049426502f56bd8e7d2061675 0x67cd9bb0b7dbc70b954db367dd2d99cf86c71512bf034dd550b86f0ad276526c 0xa3535de682036bddc6e10911652bc5cd9eabb01fb10d4d08c22934e3d2c978bb 0x1fffffffffffffffffffebaaedce6af48a03bbfd25e8cd0364141 an143 d208 (by decide) (by decide) (by decide) (by decide) (by decide)
  have an145 := chain_add 0x46d49dd175f9041488e81473117af0e0ae64cb505c13f50340712a3d616be1c7 0xd80b9928875985c45a5cdaf05e03061df8645f204d34b1168a3860c411412125 0xca7a2e296a0c07279e9d2333c37602e970e80219e2d86503ee1a138876f74443 0x3fffffffffffffffffffebaaedce6af48a03bbfd25e8cd0364141 an144 d209 (by decide) (by decide) (by decide) (by decide) (by decide)
  have an146 := chain_add 0xd7fc370c04984d1ecfaea270df3505a5b36bc2d61643a000e719e029311609b0 0x813cecd50e19f94c654837258186666dee6e52372794eb17e61fc194b0e81965 0xe3a9b15fd2e00ba069d87f2e70baddfafef1129d1079c6b18f6654b30f875565 0x7fffffffffffffffffffebaaedce6af48a03bbfd25e8cd0364141 an145 d210 (by decide) (by decide) (by decide) (by decide) (by decide)
  have an147 := chain_add 0x6d8a40163669c72a535182b9758befef40b45b31babe1f6ddcf05b29807fbb57 0xcf2e5e74f9ae703c0d86f152152f0b45dcbac3c1c145b85fd32d41c864b3395f 0x93ebf4bbdd466b982c1bc4d491308e1a2e0d30235dabbeb92132ca6e4432c499 0xffffffffffffffffffffebaaedce6af48a03bbfd25e8cd0364141 an146 d211 (by decide) (by decide) (by decide) (by decide) (by decide)
  have an148 := chain_add 0xe35d8b3f01b5998dbd567643434bda2d34d68d705866fa771d330049f021e6b9 0x1e5aab4529baeebfde9181767622e4454e26c3b29448aa19594cbd922e9e004e 0x582579034cb575716d254e4b5c9e992f134fbb533b10b7856a69959c4c7721f1 0x1ffffffffffffffffffffebaaedce6af48a03bbfd25e8cd0364141 an147 d212 (by decide) (by decide) (by decide) (by decide) (by decide)
  have an149 := chain_add 0xdd8884430cbd1255b995444b4b251ce12456dd8409c9932b4a53d1d6e61af019 0x1718c461e60e89c1f2918020fab088a7190feffb94313650930eb8635b1d0149 0x31c8ff56aaefadcaea7fb0e94e64ba693aa2e02a41000db9e7f1dbcad985ca8 0x3ffffffffffffffffffffebaaedce6af48a03bbfd25e8cd0364141 an148 d213 (by decide) (by decide) (by decide) (by decide) (by decide)
  have an150 := chain_add 0xcb2b080d88959faab188cd442eab6908a36d8cdd0019ef26c6b65e368c5506c2 0x5c3601220a2a374c73cc6da3d1cd9acca698145d1952e1d7ed899e76f04b9189 0x7038f8df6d9a090764647807125228ec532f930b697653510cb4a612b4d123f0 0x7ffffffffffffffffffffebaaedce6af48a03bbfd25e8cd0364141 an149 d214 (by decide) (by decide) (by decide) (by decide) (by decide)
  have an151 := chain_add 0xb7e832af842429880bf9e3481e8a410d3fe297a28e342caf02569bc5fd07df18 0xd2d7e1bf8cc7e561a378cf06e4923f0eb943e02507ab40e05bf4cc87b8165dae 0xea5ba67cb5c1fb5df8baab75d7f0296c7130a7af5bd08e58d1f300657b2d1b91 0xfffffffffffffffffffffebaaedce6af48a03bbfd25e8cd0364141 an150 d215 (by decide) (by decide) (by decide) (by decide) (by decide)
  have an152 := chain_add 0x5216c9debc5b9fdf85bbc5594e42fd37d1acacd494c91d18fd686c1b7fd8a0fe 0xe7a3410591c6a50269abb6d4b8a55bf7249d66f7b025294d80a4e39d15eaa237 0x49dbf8262410a6a46093bf29f82371b7d0e76e2c9e90ff94fa17049df38d2365 0x1fffffffffffffffffffffebaaedce6af48a03bbfd25e8cd0364141 an151 d216 (by decide) (by decide) (by decide) (by decide) (by decide)
  have an153 := chain_add 0xa4d8544fc360fb6b47a35bf2c937a5b40af656e73dd256375bcd06c8c366eb16 0x1677696120ff712721b201b90ffada05c8a25ba352de988178a0de4436a2ebd1 0x626634452facbbfd40dcbfab793b2d04a59ff515c0f5ff3a5eb85fcf2af49faf 0x3fffffffffffffffffffffebaaedce6af48a03bbfd25e8cd0364141 an152 d217 (by decide) (by decide) (by decide) (by decide) (by decide)
  have an154 := chain_add 0xf2f615b5027e1b833f69dd5582e2956b21a701cdf1706435cdd17d7280303621 0xa4561cb7deb34f0513426f3375409583ff8643c00413fc8d055bf825e30ad35a 0x60aabec9411878d74b64c8206c3ff5fe798769f11eb01ebb567caa2058abbf22 0x7fffffffffffffffffffffebaaedce6af48a03bbfd25e8cd0364141 an153 d218 (by decide) (by decide) (by decide) (by decide) (by decide)
  have an155 := chain_add 0x8a439cf7d579f1b7c72af5ccaf4d4c2038b068f49f4e235b16d97e45ed8564f5 0xdde1482e6bf525705d354681c5fb35c8aedf589d208d8743da017a64f2e73e01 0x354f57edcab4a927e3482376eb3c6c41f0c31e49cc95e44dbdcec581d1a7bcf4 0xffffffffffffffffffffffebaaedce6af48a03bbfd25e8cd0364141 an154 d219 (by decide) (by decide) (by decide) (by decide) (by decide)
  have an156 := chain_add 0xc39810f82fd2812300068a93900309baaa20ed505d021f217ffeaca010a516c7 0xe0e0eb700e18b521c1579a26fae783c864f15dc821c3bd6aaf4e2ab2330be2a8 0xd7b96247996d96b7cf8ab23386ca3804600ed7a2b1e71337ce84932fedde5308 0x1ffffffffffffffffffffffebaaedce6af48a03bbfd25e8cd0364141 an155 d220 (by decide) (by decide) (by decide) (by decide) (by decide)
  have an157 := chain_add 0xe24fdccc7917356fa66a3044f932cad0583f3df5da8f3db29999668cd77d014d 0x39edcd081495f6d55bf800c240b118b2cea097c191031dcb862bb594cc656505 0x8b20d6e803fe2ea969ad563e9755bf66f4abb79ad0b252786911dccb0a32b71a 0x3ffffffffffffffffffffffebaaedce6af48a03bbfd25e8cd0364141 an156 d221 (by decide) (by decide) (by decide) (by decide) (by decide)
  have an158 := chain_add 0xc52d65ca8138565077faae312e0da6c9662e74a4e94307f4ad6cb0b22631a125 0x20fd3c8cb9524ffcc29718a9ee4e832ef18df6bac49ce3d9eb9b4b34daa73cbb 0xae53ab2c987efd54561377a6d78c108af468de23ae53870aee85433f7799c098 0x7ffffffffffffffffffffffebaaedce6af48a03bbfd25e8cd0364141 an157 d222 (by decide) (by decide) (by decide) (by decide) (by decide)
  have an159 := chain_add 0xa35bbe5680001e07f5e3125ab1f11119e280c8c9b8891bec92d82f4df5235436 0xad14da0ccc16eae596feef4f1f7273c28233b4263f9cfa8ee02320be367a29a3 0x990275088fe257e68aadf546d348aa082784c614386a6a8da68d79a4e9cc93c9 0xfffffffffffffffffffffffebaaedce6af48a03bbfd25e8cd0364141 an158 d223 (by decide) (by decide) (by decide) (by decide) (by decide)
  have an160 := chain_add 0xd8f45bee8a6d2709f94f3b8ae96a3bfbcb3baa8af9edee9332e64866f1e60d70 0x46fad7cc1c3ac3776ed184cdf254a8189c97cf29694cf109b1f9fb60b1296adc 0xecf3bfff35555ce49ee5329cddf3b83df7cec1a2ed4e30698568212f1ab3c462 0x1fffffffffffffffffffffffebaaedce6af48a03bbfd25e8cd0364141 an159 d224 (by decide) (by decide) (by decide) (by decide) (by decide)
  have an161 := chain_add 0x50dedb3904941e369fe1f77280222ea4b78ab8e9808a678d5551d19fdbace463 0x76b034fda6ab3107793437ad3925d1bd317fedd085090ff986c136d4305a0ea2 0xe66f24ae192a69e64a8993f89c86a7a14a773698bd00a46e14b851a30b0a8f7b 0x3fffffffffffffffffffffffebaaedce6af48a03bbfd25e8cd0364141 an160 d225 (by decide) (by decide) (by decide) (by decide) (by decide)
  have an162 := chain_add 0xd72e6b21a0de785b1c9c2e5cd8b534174c08e6ba61e650a57d436ce97df11496 0x71a849a010d9f17dcdf8c95f2edf12402f5df0a12115105ff4cb6baebbb63f0e 0x562404848a7a7a5064aa369b1cb582d965ccd4d8239100a97b4f5608e1ac054d 0x7fffffffffffffffffffffffebaaedce6af48a03bbfd25e8cd0364141 an161 d226 (by decide) (by decide) (by decide) (by decide) (by decide)
  have an163 := chain_add 0xb86fb0c20290b07ba6955821ddfc73fd1e7d57ad54f0d2ee553e03d71eee4ce8 0x74b45d8e512382f2dfec78657473fbe8cfe97f9d22d1ab275196058fa3633772 0x81c556164f23fc09b8cb1d354a35c0cba90e464bcbe3c6f8e783e01ec915bb26 0xffffffffffffffffffffffffebaaedce6af48a03bbfd25e8cd0364141 an162 d227 (by decide) (by decide) (by decide) (by decide) (by decide)
  have an164 := chain_add 0xa3cd6325d724e68a02ffa3f93ca5ebab36ce6519ec451ff9c320273337c673a8 0xbe7aef1bc4f600588b9d5df7439edce67943fc43858e24d653f7b81190f88b12 0x6aa934f28aa03442c3bdb923242e5f1bf71f763503ef4919299ce8a13114214c 0x1ffffffffffffffffffffffffebaaedce6af48a03bbfd25e8cd0364141 an163 d228 (by decide) (by decide) (by decide) (by decide) (by decide)
  have an165 := chain_add 0xce67a77667dfdd4b310fe48848d9aa09ecfadeaa3cb4a37050964e44853b73eb 0xd85aec878737e3ec1fb4a21859ef5a37861b2a484053bb5fff1f5e7c35ef9765 0x14e4b759d84704d1226cc97188cc868cacbab164e81e19da707fb121b33eecbc 0x3ffffffffffffffffffffffffebaaedce6af48a03bbfd25e8cd0364141 an164 d229 (by decide) (by decide) (by decide) (by decide) (by decide)
  have an166 := chain_add 0x6097536dcf2cb298317ab9f254e9e396dd3d1959f4bab8499cfaf973349b946a 0xd7a7667b28a0432d8810b9f16b88ab9b1a331c0be347ee1303dc98cdbb62370a 0xd551185117a3b453eeb164e59bf4ed3b0d280079212085c9609ab7e98474d3e1 0x7ffffffffffffffffffffffffebaaedce6af48a03bbfd25e8cd0364141 an165 d230 (by decide) (by decide) (by decide) (by decide) (by decide)
  have an167 := chain_add 0x50bd6aa7cc79b76167d32eb82646e4533906bddedb5925c03405c9065fac2d98 0xe35804f377aa78e768a70c6dbd3cd493b352bc5d870a5a803772c31fda578787 0x433b1721278fed4c5d74ca83c9e1ebc0869e79d8f3e3be60f84e9ee30f9df057 0xfffffffffffffffffffffffffebaaedce6af48a03bbfd25e8cd0364141 an166 d231 (by decide) (by decide) (by decide) (by decide) (by decide)
  have an168 := chain_add 0x4cae837ee76d5a1015dbf9c408957e847f9b7bf6ca7c6508055732858a2e3a6a 0x42fb5edb17fde36d53991c3e290854a35711425a7e229b4c51750bf34c88f553 0x7b9fdc458687ffff7d72280ae3cf0087555216a5e933d08624c2d586d79c82ac 0x1fffffffffffffffffffffffffebaaedce6af48a03bbfd25e8cd0364141 an167 d232 (by decide) (by decide) (by decide) (by decide) (by decide)
  have an169 := chain_add 0x9b60b35ced6ced368dd45c5256a6751693eadc68fdb3199b9c15c2fdb06edf5e 0xf8500d600b807e2aa328042510a0ec35758009d1fae553a46cf1bfe81970bfc7 0x6e426888fd87c1fa1328a57a0094c7c70f913d617068777af9c7eea5f55e9f50 0x3fffffffffffffffffffffffffebaaedce6af48a03bbfd25e8cd0364141 an168 d233 (by decide) (by decide) (by decide) (by decide) (by decide)
  have an170 := chain_add 0xd49c842d723e1272c9d6c24fc705297f4dba548197584cfb02348f6d67f54f47 0x66f59c5b295406e7bb3465f611da7c443e1b73d1f7158808d27d2da65207ee69 0xdc19bb8582a9e4c470d556ec281e2b712451dc01bdd36d9e582ea60ec301be85 0x7fffffffffffffffffffffffffebaaedce6af48a03bbfd25e8cd0364141 an169 d234 (by decide) (by decide) (by decide) (by decide) (by decide)
  have an171 := chain_add 0xc317dcdacf75a36c4b3d5d4c374c5c8a772d47f1678925b620e6f1eeae0e6840 0x435819533a9bc56a88bb838e480d84af2aebd3e9956c141fbd1262e61897b8f7 0x246aa5af676323eaefeeea2a4970832095244990998c46e53d67936c6352e93 0xffffffffffffffffffffffffffebaaedce6af48a03bbfd25e8cd0364141 an170 d235 (by decide) (by decide) (by decide) (by decide) (by decide)
  have an172 := chain_add 0xf55f1cd454c2bb268e38bbe36349a3f678e3e241552bb281a474f0235270995c 0x9d91716b6ba3dddfeeee1be9b4e199e7764ff0d0c2d59f30a5dc34bba3ed6843 0x247b6e3bd06508863d7c87f640f4408f15f259feaf35a339b5443d1a9e3801ef 0x1ffffffffffffffffffffffffffebaaedce6af48a03bbfd25e8cd0364141 an171 d236 (by decide) (by decide) (by decide) (by decide) (by decide)
  have an173 := chain_add 0x3a5dc4ba414e186169b6ad39fc8e1eee638f0eb69116d9c7914c3e78ca7f2b4b 0x24bdc514fb7ec861272b5eff22502fa8dc16e5b89619ff2badfc56e7b34498de 0xe984bbc79237a348043b22fed5e9d69ca4adb637bb7b97c9dcfcd2cd7f4624fb 0x3ffffffffffffffffffffffffffebaaedce6af48a03bbfd25e8cd0364141 an172 d237 (by decide) (by decide) (by decide) (by decide) (by decide)
  have an174 := chain_add 0xbea4d0d2363a0b41b49760ff706d689baadd01b9525db933022a3d57fd43e2d3 0xa53ec06beaee697b5eda65a135e4429944291bb4c21b90a52f1b4f83842fb214 0xfd955d5c49f953fbdc7b7df46ee2fb052f3e5735e9505f8c8ece8a8ddf2916b6 0x7ffffffffffffffffffffffffffebaaedce6af48a03bbfd25e8cd0364141 an173 d238 (by decide) (by decide) (by decide) (by decide) (by decide)
  have an175 := chain_add 0xb0fa26cbada5201fd95b0ff3fefe6989c3cf9bb061a13e79d86b72cd59710f65 0x2642bc23054af85f666960a14be42d4df6cdd768f106b25cae172b73190bde3 0x62ee4061b6111d7f1ae95b2872892ce863468d0797715e402e66a08439c9b556 0xfffffffffffffffffffffffffffebaaedce6af48a03bbfd25e8cd0364141 an174 d239 (by decide) (by decide) (by decide) (by decide) (by decide)
  have an176 := chain_add 0x56bdfab60eebc37bdf53c4129b736f373556676d4744a221f1c988a89c536870 0x6e202f132fa56b86cff3ab1f34408192ac9ccc7a05d698998995b6cd20df68ef 0xc2acc9abc42ff90877be7bf550c5bc322ad8dc4bc5936261f29ecdf608d552d5 0x1fffffffffffffffffffffffffffebaaedce6af48a03bbfd25e8cd0364141 an175 d240 (by decide) (by decide) (by decide) (by decide) (by decide)
  have an177 := chain_add 0x946a0c394d295f9a373eb14b57879199f7f77b40082768a2b557d0e8a86beaf5 0xabcc4335c759b2517312868f575d7a68f42648c7086283eb515ad7968c18434a 0x84d8a05f6901f537d3b31c1f797069462f4f63e23973723698d975aff1310026 0x3fffffffffffffffffffffffffffebaaedce6af48a03bbfd25e8cd0364141 an176 d241 (by decide) (by decide) (by decide) (by decide) (by decide)
  have an178 := chain_add 0xbbd6bff4c540040860a0df22328db32ee3ca415ae326d8f9b42e5a107941ed38 0x3496277794154886856b2a30d1ca4cb73f925ad22c56a229414611a37529dc52 0x408c1821ae9e8dbe4d665f634df0db60bea668e3c50e25298631b0785d485c98 0x7fffffffffffffffffffffffffffebaaedce6af48a03bbfd25e8cd0364141 an177 d242 (by decide) (by decide) (by decide) (by decide) (by decide)
  have an179 := chain_add 0xd7f488d79841f2beacff0a3ed506780d14869f4642201c1a827f3094898ef742 0x1f26aef7af0fc09b7af66780746ec9fc1dbcae9d3e50f516d3d3d27a0254da71 0xc23047264ebc7cebf78a19b6dc72860546d6a0267c97f389e3d82c6868bb7315 0xffffffffffffffffffffffffffffebaaedce6af48a03bbfd25e8cd0364141 an178 d243 (by decide) (by decide) (by decide) (by decide) (by decide)
  have an180 := chain_add 0xcef09e0741a55a4fae28ffd9cee9492c33a4113fc6130b7066e321a259928248 0x53a220a83824e327a6e12d8f7b41bf041ef0d880f6460f5f948fa860a6696c01 0xfa53cf6ed0a7aafb6a2dd8fc0152d88676c42d79cf3c004b0a2c61dafdbe476d 0x1ffffffffffffffffffffffffffffebaaedce6af48a03bbfd25e8cd0364141 an179 d244 (by decide) (by decide) (by decide) (by decide) (by decide)
  have an181 := chain_add 0x811a032a5a672ab35bdbb3a5a0ae1a6ac2e651f6a71c80d2a2cbd68054c0a119 0x2e1499d7de2b82168f15050549c050c05eb810a3a791f4504c327b7615ab4af3 0xed780b3e60a3cd48b10e6ac5544ecae9430cf2eea8aa6d1b6949f8b5861a1c5f 0x3ffffffffffffffffffffffffffffebaaedce6af48a03bbfd25e8cd0364141 an180 d245 (by decide) (by decide) (by decide) (by decide) (by decide)
  have an182 := chain_add 0xf11bb36b7ec3459d6054fcb3ea89c1492fd787504554d110ec18551d82ba8973 0xf4631e7d404d2323727a2aff7cf2f9015a85ed0bd4a23e24d433b0b0b3a591a1 0xff3bce40d4f167bc48b80c1b15389f2268a8d8f51f484c6324771a20b31092c8 0x7ffffffffffffffffffffffffffffebaaedce6af48a03bbfd25e8cd0364141 an181 d246 (by decide) (by decide) (by decide) (by decide) (by decide)
  have an183 := chain_add 0x287ff2cbf1a9d6146a99ce02f55be3ae80acd199326f1bda4caf578dc321c86c 0x85c9bd8ad859cdb136a95fc386b552fb9fce855d6cdddad6aa62f800390e1b15 0x31db9b715276022a7067aa3f821932111ba120b821f47047c0a3e162a659336b 0xfffffffffffffffffffffffffffffebaaedce6af48a03bbfd25e8cd0364141 an182 d247 (by decide) (by decide) (by decide) (by decide) (by decide)
  have an184 := chain_add 0x407c62e377efb62b5a78ab72ebf360326fc0714d5b0884a65ed9acee28888d65 0x46dcf15cd8c30ae9ae945b4843ee9b263803b99c208ef64800a5d6b7bc65977f 0xd9557af5fbf2863080c12aaf08dd026637e8ceeaea2de098fa6dec9f6b7030df 0x1fffffffffffffffffffffffffffffebaaedce6af48a03bbfd25e8cd0364141 an183 d248 (by decide) (by decide) (by decide) (by decide) (by decide)
  have an185 := chain_add 0x321c1aa0ac205274e5d2db7950f3a96d9309d50e6fb36d1051e2ff8dc48e4c2b 0xe4ba318fae64806a8b8552029252e3c0d4580053cff0691208cfbad003f73580 0x6b256f8f48f8a03b0c0e0f6908b5ba6a7739920a1473265a92e0a3e7895bdb17 0x3fffffffffffffffffffffffffffffebaaedce6af48a03bbfd25e8cd0364141 an184 d249 (by decide) (by decide) (by decide) (by decide) (by decide)
  have an186 := chain_add 0x10069870cf14123388dd1bf3d59c502c7aafec7c7e5a3f1c691b28648e7e50a1 0x66df5d95acdf4260ee0e465ce3916d79395df522aa086aeb6c283bb718296d46 0xcb1f3deb8aea0337625f46dd903416d15647be911633c4c0cf0e629a413476fc 0x7fffffffffffffffffffffffffffffebaaedce6af48a03bbfd25e8cd0364141 an185 d250 (by decide) (by decide) (by decide) (by decide) (by decide)
  have an187 := chain_add 0xb4e9d5cd4f28e924ee797723c5e971f08178acf9d1cfcc8ba352a79d411fdd4 0x3bc6bc6446bf520136358eb0958dc4aa9e733164dd2d62e151f946107427bacc 0x71cfa33f8e893cfa3249d11dd9293fd428e48a5add7414b8eb3cc0291528fe89 0xffffffffffffffffffffffffffffffebaaedce6af48a03bbfd25e8cd0364141 an186 d251 (by decide) (by decide) (by decide) (by decide) (by decide)
  have an188 := chain_add 0xf5ce5b4d1a344626cbef7142bdc02894c6e68ca61fd5cc91742bd5f98ef6bb14 0xabc451ca4ee795cac52f8be79ee2c46139e015762bb13bacbf08472479ca950e 0x51d8e741017df5a624e2047f3d36eba9ad97bfff315aac13f8318272656b6b5d 0x1ffffffffffffffffffffffffffffffebaaedce6af48a03bbfd25e8cd0364141 an187 d252 (by decide) (by decide) (by decide) (by decide) (by decide)
  have an189 := chain_add 0xda56c47709137e7edb64ac7d756e6af7547b8a71d4e2666cf285ceb3a25299f5 0x71e935c8e1f54f25a6424274ab07e7891873c3b1a27a6c40b805264597a6257f 0x8726c1a60b83ddaec2127945b851d5ad10dadcabf308f085a4de8b9d2e4e16ad 0x3ffffffffffffffffffffffffffffffebaaedce6af48a03bbfd25e8cd0364141 an188 d253 (by decide) (by decide) (by decide) (by decide) (by decide)
  have an190 := chain_add 0xd58ed0d88e40f4154e28c2823463b57c7e0a328ed5e49997bfdff4bac4603e3c 0xb23790a42be63e1b251ad6c94fdef07271ec0aada31db6c3e8bd32043f8be384 0x39496b6e62aa124172af077557e06bae80ffb0beb6134a72ef5b8c114e67421 0x7ffffffffffffffffffffffffffffffebaaedce6af48a03bbfd25e8cd0364141 an189 d254 (by decide) (by decide) (by decide) (by decide) (by decide)
  have hn : (0xfffffffffffffffffffffffffffffffebaaedce6af48a03bbfd25e8cd0364141 : Nat) • Point.toM Secp256k1.new.curve Secp256k1.new.g secp_g_onW = 0 :=
    chain_neg 0xfffffffffffffffffffffffffffffffebaaedce6af48a03bbfd25e8cd0364141 an190 d255 (by decide) (by decide) (by decide)
  have ap1 := chain_add 0xd8d5ccaa108efee7f448f7083d3956148d8c7c407371b484b68cb06f239bb723 0xfff97bd5755eeea420453a14355235d382f6472f8568a18b2f057a1460297556 0xae12777aacfbb620f3be96017f45c560de80f0f6518fe4a03c870c36b075f297 0x6 d1 d2 (by decide) (by decide) (by decide) (by decide) (by decide)
  have ap2 := chain_add 0xcc23d04d0ecf7993bacefac3b8611269c9e233ded851b2eb03a736c4016b4377 0x499fdf9e895e719cfd64e67f07d38e3226aa7b63678949e6e49b241a60e823e4 0xcac2f6c4b54e855190f044e4a7b3d464464279c27a3f95bcc65f40d403a13f5b 0xe ap1 d3 (by decide) (by decide) (by decide) (by decide) (by decide)
  have ap3 := chain_add 0xb1628c503fca5ee69e922ca091bb7a0ac65a14d0b5da5f209ba4d9a72fe8422d 0xf8b0b03d44112259f903b3d100e3950d980fdde9c7e85701c16baedc90235717 0xbd8e9dc301d9adc96be1883b362f123bd0a986928ac79972517ab5c246242203 0x2e ap2 d5 (by decide) (by decide) (by decide) (by decide) (by decide)
  have ap4 := chain_add 0x239b2a2b2ac7a82f002ecf8658aaf25ce42aeea075855511fdd8135efeba8ea5 0x3bb9aec1f1eb9ec7fa735fc4fcd0ab7c7b00f024a9728087f745ddaa42583d11 0x9ae0247b2342180c6af5b9dd4a6600d7cd14d9dd764d472621ee1baef2bb04cd 0x6e ap3 d6 (by decide) (by decide) (by decide) (by decide) (by decide)
  have ap5 := chain_add 0xd9e506553b8e07740b2b3b8f658d8f9aeac92c5d1cd8dc78fc7d4f4c09e0146e 0x659214ac1a1790023f53c4cf55a0a63b9e20c1151efa971215b395a558aa151 0xb126363aa4243d2759320a356230569a4eea355d9dabd94ed7f4590701e5364d 0xee ap4 d7 (by decide) (by decide) (by decide) (by decide) (by decide)
  have ap6 := chain_add 0xe0ab05319b802a8e683eaaeccf1985042731cc3c0b2eaff3847474947783ec79 0xb6ac3d195bcca5b2ffe4d1ac7329b35dbc92efe975098381da1d2bf79d75c379 0x37561afa8a327b917bacf043e083774f2409c24a903c27799675c84649e27fb7 0x2ee ap5 d9 (by decide) (by decide) (by decide) (by decide) (by decide)
  have ap7 := chain_add 0x2123f535ce082985150f61ce51ba8e2227dec017287ef9d88f2881b3114a674e 0xcd4600cb9b625ade539a23b191735101a2e7d4f580d90771432f08514f64dc55 0x4e0952464c02cff715a0022ce7ae210ab0ba679f709011824fa55fbaeeb738f0 0xaee ap6 d11 (by decide) (by decide) (by decide) (by decide) (by decide)
  have ap8 := chain_add 0xd2277a77e77ebc9ba23f280e769ee7509759b5995f55db3342feb9e3e45cb3e 0x2bebd5638d01ac81943eb3a65bf2398ea42dfa5fdbab271bc90e9efc09436097 0xa9c108bbd3189790b0ffe67b9d9beb1fbf4e900104764ff6dbc3ca95a06a4a8a 0x1aee ap7 d12 (by decide) (by decide) (by decide) (by decide) (by decide)
  have ap9 := chain_add 0xedbece3ea1b3c77e792f0b01c7f60902c9e4ccc55cd9ae6d8a00a188548b16a4 0x7ebab8ec82b44503b118d03f35d07e196897c26ccd96b0260dfb950864054e93 0x21474d08be559ee2c1d3873fed9c7c5210a2e2f32f0cc50003adcace1e59ee06 0x3aee ap8 d13 (by decide) (by decide) (by decide) (by decide) (by decide)
  have ap10 := chain_add 0x64ad5a0cbbe3e8aabfec80593682d03fdf5b3caa26689223b86ff3cce8898e66 0xbb318e2a6e90a9b9d3f85edb0969335577e2b67016fa6217962a94a3c1283f9e 0xcfd0f4984b65badba493c022b28dde9da9bbec880dca72d6faf975d17092ff78 0xbaee ap9 d15 (by decide) (by decide) (by decide) (by decide) (by decide)
  have ap11 := chain_add 0xe9c86d6e31275cf2cd71c346be4ca46a01003411839856613a18077d49d8e757 0xf59616f89406b1dc2486a569fa954b2116ebfa910cdcbf79171189bc8eee65ed 0x4927df50999a9f88f375fd4ccf1494ae905d03fa13faef97e99e7485ef93ece7 0x1baee ap10 d16 (by decide) (by decide) (by decide) (by decide) (by decide)
  have ap12 := chain_add 0x7a6e07025e946b3edae7221dd8842f80e30c158a76906d789115522fc1a15487 0xbf67e4bedb7539b869ea30cfd6bd5611e41fe73487036f3ab7faaaa861a1ded1 0xdc7c89a92d0def8cd0cd4ce2e670a6aecc102afbafd3e3de269d37cddbcd79b0 0x9baee ap11 d19 (by decide) (by decide) (by decide) (by decide) (by decide)
  have ap13 := chain_add 0x9333fe56f1a281e46bf9561cf912ed25b2bc4c287e7a4c4574a1bb9279124ebd 0xe261a4b7f38a283996f4e4179e09b9ecba66a833ea1a6d053af86c7d3e48295 0x6e41a98483b6c2f74b40aea97735e23111e466beae67c3fcfe6b0f4c2dd48d99 0x49baee ap12 d22 (by decide) (by decide) (by decide) (by decide) (by decide)
  have ap14 := chain_add 0x33196c0ec395d4826d1b655ee5e3d6e35bf934c60678b00522224be091bfd47b 0x739c53720440a90fce54daf6c1356c2e558f891654a2b15c1d16826f8cec5a76 0x8550f701ef195c883b30d7669648e737cb3a712348707b1e44765164f75e65fd 0xc9baee ap13 d23 (by decide) (by decide) (by decide) (by decide) (by decide)
  have ap15 := chain_add 0x8b998e8da4c06ad2931c88600a7e4a27da85f2fc5971729dfbc1bd5cb4301834 0x78a6eefbc5d6a23c7df0f4d737ec50a7262e11e5ff89d2f2d33a517ab1ce770b 0x6cc9b177421bb70bf1c9565d72992d3357feec2f0cd539425e148e07ebd560a 0x1c9baee ap14 d24 (by decide) (by decide) (by decide) (by decide) (by decide)
  have ap16 := chain_add 0xfc0190cc339a28704ef938cd74a61aa24d0fe22b7a2cd1e0d4a18da0e2df18ca 0x4d1352ca28a31145c1f966e3d5800ad09d18f7eb371b2e62d62a5283303923c 0xf43a493066e627012cc17c47dc0b20f8ae9a2a24a03dc9ed6cc4b7379016e436 0x3c9baee ap15 d25 (by decide) (by decide) (by decide) (by decide) (by decide)
  have ap17 := chain_add 0xdf3383bd224a9ecf03efba57d3adc508a9569eacd0e036a277a8bc613fd25436 0xb6d73b33910cb15033d5018518f2f8c96e1b052dfac649ffd2000189ac4d4247 0xa2bfcd0f8a0e48fa3936a2ddd63fa4d1b022e9e4f4b6389b364796dd67834f67 0x7c9baee ap16 d26 (by decide) (by decide) (by decide) (by decide) (by decide)
  have ap18 := chain_add 0x60f56de88c4e98331a8a8a6ebc1280a89c3c8cc8bfcb56fe7885fbe37e67a874 0x270a57e3599655cd0885b5a229eec0eb5601a6637beea310fef4ff62c8ac665e 0x144c14c6e01ceb19b20505bb4b87a861a40dec5cc1caabdf8c84edab10557a94 0xfc9baee ap17 d27 (by decide) (by decide) (by decide) (by decide) (by decide)
  have ap19 := chain_add 0x6a8bd03033f0ded56167ca1ffa11c5f779101a26e3d4f726934c56fbbfc49830 0x42270dea699feea8c74dabe7ede33e8e0ad3a96080fc4457a510b2995692d7b9 0x1795cd16573d672f5c398574a6b52c68eeaa98c83a0e496e6ecd991164ca65c5 0x2fc9baee ap18 d29 (by decide) (by decide) (by decide) (by decide) (by decide)
  have ap20 := chain_add 0xb17ef91222d48c71e09964431683441ab1086c6e37d1006ebfac35713fa3f64d 0xb7fc968fb7267237aa7e7d8197ba371f6a75c77e39ada0fda19048f9e04606e6 0x9486c98571801676b1e3415f2fe334d7422a7076f36530aff05caaf972ee651c 0x22fc9baee ap19 d33 (by decide) (by decide) (by decide) (by decide) (by decide)
  have ap21 := chain_add 0xd7e467eb1dc229219e386546c4379e2dd83e9b49cafb37dd35388ace6bc2ecfb 0x4d57bf6236863c9d4a5d524c8d0cce7d8a99977a142bb8352a105bc6465091d4 0x15081f2760efccfa5b1f83b17a6243afa97cb8bfc448fce3291d3c8a6b99d875 0x122fc9baee ap20 d36 (by decide) (by decide) (by decide) (by decide) (by decide)
  have ap22 := chain_add 0xfa8971ee01cc7d73e2823d1920ade5c583d44cf00041a1d354dafbe68f8af01f 0xb9d0ce7deff68407ca5e8f434b8be2f090975d3fee35aeed1acbf27420f6a39a 0x77e19a1694e93b1d00154f3c9733d29e2c5e8839f9f494cca61cfb9f593334ad 0x322fc9baee ap21 d37 (by decide) (by decide) (by decide) (by decide) (by decide)
  have ap23 := chain_add 0x5f4517a5464082550e10d40b4d662636640c30a044dd0640ac77246f5ee489b8 0xcb2ea1d47d14fcf987a00e18210bd2abde05125ed1655a1e498cf2f89c0234b2 0xafd5500d097b493d443f1f9616b56b9bf915b5df8ccc0987dc02ca5f4fcd5740 0x722fc9baee ap22 d38 (by decide) (by decide) (by decide) (by decide) (by decide)
  have ap24 := chain_add 0xf49d9a688e1577c1c44205779e503c3404800a6358f3da25a10f936c56328dd8 0xe66cab87d4359dea1dfeb50ed415e54f5c2a4595137f7ef736e4ceb4a97ec200 0xcf8692e0dade5429ad36b1483d2d47cc5ba65da4d0b80d4f848b02497d8f4f4d 0x1722fc9baee ap23 d40 (by decide) (by decide) (by decide) (by decide) (by decide)
  have ap25 := chain_add 0x89cb21a1b7cea398bc96adf78ba8cc25a55d281beb13e0e1a8cb01e0e10fa970 0x9c257ee3f33f63d767a2a341dda854b1c8466e89676aed46784badfdfbbfaa99 0x667bf3f18d90b7ce066f5e65bfcf5599b059914cf36ce2a96f9ae983b8cdd784 0x21722fc9baee ap24 d45 (by decide) (by decide) (by decide) (by decide) (by decide)
  have ap26 := chain_add 0x779564ff33ca7ac5603e77018e5e3e710c8bfe45972f729948d9d52f9216b1f2 0x8757e1a21dd7669d2ce97b2b9684b0c22c10abdbb3691fc9b561ec243e80957 0x834b186bf2a434a406293d24ff4d2cfba4d7602eb5c7aa6360671d3cb5496459 0xa1722fc9baee ap25 d47 (by decide) (by decide) (by decide) (by decide) (by decide)
  have ap27 := chain_add 0x66f60db7ac897e1f2f40e9c827a499a75b2b6a791a45a8d8da3bdafe1f88ae56 0xca0d05edc239e2b180d059267e4018193cdd5077945675e3a4a3ba910acf59e8 0x348925d522994b27833e9e0f1ebfef01ec1be3cfb834579162f437467f13af7f 0x1a1722fc9baee ap26 d48 (by decide) (by decide) (by decide) (by decide) (by decide)
  have ap28 := chain_add 0x46331984c19e6bcc1435310b2189294635a5f724e21fae928a7683b56aa61c9b 0x43b41b5a72799b57277ccfe40b4c2d6d6cd083812e99bb5d6f83e29f4413448d 0xcc393e57bf95f9178d049b7f0ca976b9dc2cd3b51e54bba4dc29d3e8558cbb49 0x5a1722fc9baee ap27 d50 (by decide) (by decide) (by decide) (by decide) (by decide)
  have ap29 := chain_add 0xc7467c1a2c007fc1995f96b17b8f0b626af7d41efba3d025c1314d0bc19d9e21 0xb2f06accc6c24cf314e30a9816c8486678d53cca840ba7dd322993f7d9e737c8 0x9885c74e53280c2d3a52123af76409e8b9769efad33423c0ffce7f4eff296d62 0xda1722fc9baee ap28 d51 (by decide) (by decide) (by decide) (by decide) (by decide)
  have ap30 := chain_add 0x5209fb1c02b849d1667555aed0a1b37aa6606be9fa6e7d8ad4fd828a6bc1bb15 0x377451418f37573b48a926a7d82497431ba961d3c58ce614d05fd14c9029b18a 0xe6f753ac58c1936579f90561c2c5ec16bda5717763112278c43620fca6c0620a 0x2da1722fc9baee ap29 d53 (by decide) (by decide) (by decide) (by decide) (by decide)
  have ap31 := chain_add 0xe283961bd325f8661828e4acef2418df55604c71ed81852cfa05cbb9f9485ce4 0x9fc8a9b01c5e178ba66f0811739d9977c41c125089ecf42a519dbfc3fb431d01 0x54d79ac94903028ee2224e5f990b55ed8141c6260cf616bef2508ad9ea92b0ec 0x402da1722fc9baee ap30 d62 (by decide) (by decide) (by decide) (by decide) (by decide)
  have ap32 := chain_add 0xe52718add829a05f1258fdbd0d90e293e72447f96ef8d8a54429c691e6da0766 0x761aa03e16163b5fa1cde12e48b2c0db2d0a1193b32a7e2a0f41b9c8c3f27e49 0xaa650eebf121929dcb10cf8ebc6961ffe1c18cd0dbeb90714284b1576cf22184 0x4402da1722fc9baee ap31 d66 (by decide) (by decide) (by decide) (by decide) (by decide)
  have ap33 := chain_add 0x6fef0ab2dea8cfd6415ec74d3f45199dddcf77b3aeb0197408ca57234ec82738 0xae5c3e87e86858aa4acc68632af4351060e69bdea06e24549e30451dc5c0197 0xd3fc571505ab356b85b2b1f49efd70877128e678de704a75c29092c0621c221d 0x44402da1722fc9baee ap32 d70 (by decide) (by decide) (by decide) (by decide) (by decide)
  have ap34 := chain_add 0xd03984bf4ecb3f08e4e1d78f38bffcbde7d716f6845dca17dd6b1c212bb2ece7 0xb0c1c2a73b9223eea16d5212772d8ecb826e0e82493bd50a93a4aa15d4c582b3 0x40a2dc5c36546ce91d8b7739ff80a1f777dc1385cdde376f9700e617a0244341 0xc4402da1722fc9baee ap33 d71 (by decide) (by decide) (by decide) (by decide) (by decide)
  have ap35 := chain_add 0xb4138cccc190a593d9ee1859c4fec09f605b8a43ccd8bc4e2f53651bea08f998 0x37f452890787dd4734283b5018b6c6ecc882c758789708abaf13194d954518e7 0x70ec2187037c909c17fc23beaa491c0062b30edcb32a232d4c6287a5d4cb08f1 0x1c4402da1722fc9baee ap34 d72 (by decide) (by decide) (by decide) (by decide) (by decide)
  have ap36 := chain_add 0x63bfc65147ec0533c3bfc0a406fc010ad3e13438926ff90743ea2ca3dd851c80 0x151b5535857f65b060fa865d0d2257dc11fffcfd3e11bfa5ac7bbf7a48fe53f1 0x2a0f70d8f7b8e322df9488cfe32094a126fa71ae96353fa585b8f6fbb6214bfe 0x3c4402da1722fc9baee ap35 d73 (by decide) (by decide) (by decide) (by decide) (by decide)
  have ap37 := chain_add 0xa1fab45b9e28e27e15c90c4395971637ac2a152d3813231c575705aee4353782 0xc7f4195728ab61bc38967b2ce8f465a16452c426c448ba50ad510dd01361ea82 0x1d08f945995ed3239b3c9f74fed0bf55615c7f99e7eea448e2a6f01179d2539d 0x7c4402da1722fc9baee ap36 d74 (by decide) (by decide) (by decide) (by decide) (by decide)
  have ap38 := chain_add 0x79702476b77861f74e16d4a88f48b075ed4adc601478a006ffc4003cc25bd670 0x405b1c3a64eac37c5bc40092fee635bebf03cd405aab4ede5d39923f0342b30b 0x6e85ce9bceca68942db042a7944ad33146ac8a509881cebb742cbd97a3c8da8c 0xfc4402da1722fc9baee ap37 d75 (by decide) (by decide) (by decide) (by decide) (by decide)
  have ap39 := chain_add 0xa26bb54c3243edf6e289c4a0f95832878b9d74fb8f3a074ab9bc3ad5a557ee2d 0xe67b5b9bcbb250036d8f3a1daf03d3fc6eaa02931b0d3f5c60073f0e934da353 0xa12fac4018bdd8d1ea546873d6786d5719e79ac7ea71fbcc8d1925695a6986f0 0x1fc4402da1722fc9baee ap38 d76 (by decide) (by decide) (by decide) (by decide) (by decide)
  have ap40 := chain_add 0x9f0c73ce38afaf79bdb1d50c342e20704ba5713edf78a7bd5b569f228edcc8c7 0xcc9f6bfa23a42c032c29ad61f13d6c7f22694534bc0b28ff7c84f94fc934400c 0x69a89cd97060133f3add06053cf5ffd97d7f2fc343c63037c477b9a096c2d060 0x5fc4402da1722fc9baee ap39 d78 (by decide) (by decide) (by decide) (by decide) (by decide)
  have ap41 := chain_add 0x12dafb1ec681aa51e22edca62adcc7831e4ebfa9d7855d604e583c3bd907bc80 0xa45a8d421d097a2e418d26ea6e9fc97651af4feb73b9a0b934e0573fd081ab7e 0x77e26e69a03f6bd2447ef5787d11fe2a779c355aa03441214fffc3593fffa4c5 0x15fc4402da1722fc9baee ap40 d80 (by decide) (by decide) (by decide) (by decide) (by decide)
  have ap42 := chain_add 0x81c1345d8aca2ef8984609e295c0743eb8669867825a857c2574c977ba8db2d1 0xc234b533f3d1a4501c7c3c633c2061ef0c7b80f8b5a90d1e27c8b18eb57662d3 0xdc6efe731c866fee1f0409336c47978f783dd29911ef7acdfb527d9b2765953d 0x35fc4402da1722fc9baee ap41 d81 (by decide) (by decide) (by decide) (by decide) (by decide)
  have ap43 := chain_add 0x190c6cd360422e99e00f68a1ebbc6a3353b36acb2f32487e07c968d1a3edc53 0xf119ce5b7c6a2354dce326dd55d8c1ce454b9510a299beb78a1491d3b3630e40 0x7eccaed6ebd690f7522dea7852a80ed50a514e82b693b27df5540149dc1905d5 0x75fc4402da1722fc9baee ap42 d82 (by decide) (by decide) (by decide) (by decide) (by decide)
  have ap44 := chain_add 0x96f1df3c98f9647f33a2c3082703ebdb4e440187a3f32119045718b3ca624fb5 0xe195ecbfa885c0c10221195ec9e958e2d9184a65c98bcf66ed4439587e261624 0x898771f454b32b7fb2dc677f0cdb903987c202f2a4229d8582036bea2b416f01 0x175fc4402da1722fc9baee ap43 d84 (by decide) (by decide) (by decide) (by decide) (by decide)
  have ap45 := chain_add 0x9e2477496da60e8158f499b83fadb864f222606322d61db0a01063effe612f2e 0x7113263ca528d29186ccb69a8a543774c21e336e686da11bbb096eef9e94aee3 0xf833af2710eb0b0ba3afea1841eb649910129bff1d6812da65221364c8c9f125 0x375fc4402da1722fc9baee ap44 d85 (by decide) (by decide) (by decide) (by decide) (by decide)
  have ap46 := chain_add 0x9bb4f440642c29fd9dc4ea47b83a0bc7e5722f111faae30768364d8a0b1ddcd1 0xe185a658802ecd279ae89281c75daada059b31e5002af4623592f3cf85a36dea 0x5d3947e938ba5fd8ce37ee7daa768c502321cb1d932946d738df412570a2ec37 0xb75fc4402da1722fc9baee ap45 d87 (by decide) (by decide) (by decide) (by decide) (by decide)
  have ap47 := chain_add 0x92d8da3bba741465ecfc8e9a3ca8ed5d6a9b76110a32f1cbdb438fa37be51a19 0xad2820358ce2182ded1611931f2d5ad0bc0282a18415b9aefaf6bd2a9014d1a1 0x6f02927057c9d750c853054131edf3b91ce7f513b122b20317bf1837cbfe3368 0x10b75fc4402da1722fc9baee ap46 d92 (by decide) (by decide) (by decide) (by decide) (by decide)
  have ap48 := chain_add 0xf0c74bfcc5ab8d41247703a1d70b342becaa62ed1ae05eb09c0e85e64a84c8e6 0x20ab47fca3f6322d1a773f9ab5835c9a4dc4e7be6449f4b67f7eeb06e428b117 0xb1356227c62179ee5b25d87b98d9cc77f9c1af86fdb2f0a0677d584364082645 0x50b75fc4402da1722fc9baee ap47 d94 (by decide) (by decide) (by decide) (by decide) (by decide)
  have ap49 := chain_add 0x40a26b08f08d75dd17c6ab58977b7da72c58a37406d0fc7c1b42f3d5719b7dec 0xed1b56578e3a05668958ef943bf23dc478b6dfa0bdf63442a3afada8112f9621 0xe7ebd2e72502f595c9108880d22105bdfe4be94ed1f87c0a169012beaef03f34 0x150b75fc4402da1722fc9baee ap48 d96 (by decide) (by decide) (by decide) (by decide) (by decide)
  have ap50 := chain_add 0x3887f8c42019a42713a908e918a74dc57283221ff6dbccdb78457e8badb54f3c 0x2c003041e468a1b2d229ea2a533e755267477f1539d5664b157b6f243064dba0 0xe23a630c5ba586c09b0133a648c7f31e5e44dd9519acdbbb0c7458eb48af3333 0x950b75fc4402da1722fc9baee ap49 d99 (by decide) (by decide) (by decide) (by decide) (by decide)
  have ap51 := chain_add 0x3148b225055a3c4fefaca7de95c32ac99f6c78cb8c765f0df281380064d88346 0x1016ffece6de91b8a9c96c338cd6d1af2cecc3ceec1ad375c2a71ec7b79b8f9c 0xabee1be18f65e69564a06f26e2b8c5a3d17f820e5771142bd875a7d8ac6679b3 0x1950b75fc4402da1722fc9baee ap50 d100 (by decide) (by decide) (by decide) (by decide) (by decide)
  have ap52 := chain_add 0xdadc8f954fc9fbab2a0ec9994f52281f084a145b3e95642b29f0b9cb0d1b8dd9 0x3f72c091e125a8b03824cb2420fec33ff4d0f9e2ad2393ce9c90c964aa208d65 0xde0fb560d48e5e5e0d685bcbce11ce29a587720e547951c3655cfc349dcd35aa 0x11950b75fc4402da1722fc9baee ap51 d104 (by decide) (by decide) (by decide) (by decide) (by decide)
  have ap53 := chain_add 0x2c92c8b676b4e642832da495c1027a314ca122d25e7cd429aa01b2cd66379d8d 0x226bb2c115b6bcf50f8c46a6156f083943d01cb916bcb4bd2d342ece43cf0a5f 0x98476956f5a4e50c6075f3662895c259e9842240eda6c537604fa263cf43fd59 0x31950b75fc4402da1722fc9baee ap52 d105 (by decide) (by decide) (by decide) (by decide) (by decide)
  have ap54 := chain_add 0xe01b6772706a6715be6316ea9fe8f797cae07cc6f1e540741971ccbf21507ee7 0x1ad3765dd9c6b234d9022334b6829b1fbc0ddae0363c15abc01b12159b49a654 0x65edbd3478ab12335e279a09a1dc7ffc9aeb01dcb964bd27fcd5b2abea049cb 0x231950b75fc4402da1722fc9baee ap53 d109 (by decide) (by decide) (by decide) (by decide) (by decide)
  have ap55 := chain_add 0xc7944ebe45c87bbd00988cee899de6744584d6487598738ab8cbc3d03086015a 0xb7ad5171244ce7daa67f8302bc44881e7aa4933eb630fb8fce9421ab47ed7e77 0xcdfc6c8cdd4aa197f757004512438c13c5c325125d969eb72b7f40211a0ccf27 0x1231950b75fc4402da1722fc9baee ap54 d112 (by decide) (by decide) (by decide) (by decide) (by decide)
  have ap56 := chain_add 0xfe02a7fba626a5d1c687a7fc56eed28398913483dfcab2dba3bea84e6f4a9a6c 0x3374fabf615f9691889e8683ec3d44c23f3812b2d3a48f02c3e4423423159703 0x410733849a32c00d0dc1f16768ba3540668818698b1c6bbc0b0f3eecd4a669b7 0x11231950b75fc4402da1722fc9baee ap55 d116 (by decide) (by decide) (by decide) (by decide) (by decide)
  have ap57 := chain_add 0xbda1ff07bf07f6b51093606a01a446bdc2d75206573c8a5ddaaf1ee7f8aec132 0xcd22dd30a26b8b332344af50f7686314bc0086c9e2b11a140bf7a3c6d279e0a8 0xe90a45975c42a9e1edf51a1cb548ce22ba8c3e5aa34def7b0f3018c9413f97dd 0x51231950b75fc4402da1722fc9baee ap56 d118 (by decide) (by decide) (by decide) (by decide) (by decide)
  have ap58 := chain_add 0xd8da73bb5650e421f46d0174d258228292a21796a362e9d6ebdbf907f74ad3dc 0x9729bd72dd265cbf038479d91ecdc93f4e6e56e6574517a2f51c2599755f269a 0x3ef38198fadc6138768bcdb8c698210d2795b1764813422a11b59d0ba60fc694 0x151231950b75fc4402da1722fc9baee ap57 d120 (by decide) (by decide) (by decide) (by decide) (by decide)
  have ap59 := chain_add 0x3c9d69c7f8dc2e842dfab13084ad74b9a987d24550f06944fbd694fceca3f8ec 0x3b699131cc07480c972d23a7c22e23eef13ae320d9e72f4456e95dfa03f1d5ff 0xb43ef4970c8d1c2733e08cc3bb113c77fede83b315b7a5f1775dac7dd4976c99 0x551231950b75fc4402da1722fc9baee ap58 d122 (by decide) (by decide) (by decide) (by decide) (by decide)
  have ap60 := chain_add 0xd81265ded5e400451001f98c953cc37652b1f069228bc26dee7002d4a9e30952 0x3abb66d1d7ff24f4f5e680b545cfba3d9677c2d25eff1aeeb38f925c35ea42e 0xc2a14300dedfeb3613065766b83350302e43137bde0c2ad8d3605030836c8c1b 0x4551231950b75fc4402da1722fc9baee ap59 d126 (by decide) (by decide) (by decide) (by decide) (by decide)
  have ap61 := chain_add 0x7e8ef6210a6436e4be9d95fc9e9c38acaa41e0a44ca8d2b3ebada3aa1dea43b7 0xb42b34a9748238715c0b8b853b6939aabc3b5224bcdd4b4b65e902417e7af914 0xc1064ce5dfb9e0247fa170896d939c3b87404dca2f648560936138086ac129e9 0x14551231950b75fc4402da1722fc9baee ap60 d128 (by decide) (by decide) (by decide) (by decide) (by decide)
  have ac1 := chain_add 0x342119815c0f816f31f431a9fe98a6c76d11425ecaeaecf2d0ef6def197c56b0 0xf9308a019258c31049344f85f89d5229b531c845836f99b08601f113bce036f9 0x388f7b0f632de8140fe337e62a37f3566500a99934c2231b6cb9fd7584b8e672 0x3 d0 d1 (by decide) (by decide) (by decide) (by decide) (by decide)
  have ac2 := chain_add 0x51dfec5a5e088f7a36a091e7fa53dd881e0928b1dfdaac75558eca95363a4c75 0x5cbdf0646e5db4eaa398f365f2ea7a0e3d419b7e0330e39ce92bddedcac4f9bc 0x6aebca40ba255960a3178d6d861a54dba813d0b813fde7b5a5082628087264da 0x7 ac1 d2 (by decide) (by decide) (by decide) (by decide) (by decide)
  have ac3 := chain_add 0x44be604bdca00ee48878757c670e79cf87da1dbfa7aacada06e41787e70e77e4 0xd7924d4f7d43ea965a465ae3095ff41131e5946f3c85f79e44adbcf8e27e080e 0x581e2872a86c72a683842ec228cc6defea40af2bd896d3a5c504dc9ff6a26b58 0xf ac2 d3 (by decide) (by decide) (by decide) (by decide) (by decide)
  have ac4 := chain_add 0xbc85a9a0f382ea6c70477c24c69acf76f2a8c6deee14df45ff531e9bc3d65f7e 0x6a245bf6dc698504c89a20cfded60853152b695336c28063b61c65cbd269e6b4 0xe022cf42c2bd4a708b3f5126f16a24ad8b33ba48d0423b6efd5e6348100d8a82 0x1f ac3 d4 (by decide) (by decide) (by decide) (by decide) (by decide)
  have ac5 := chain_add 0x7011355b1a5cd94653f22338c8b42bcc49d5351e572f6519fba80e4c8e7f3974 0xe3e6bd1071a1e96aff57859c82d570f0330800661d1c952f9fe2694691d9b9e8 0x59c9e0bba394e76f40c0aa58379a3cb6a5a2283993e90c4167002af4920e37f5 0x3f ac4 d5 (by decide) (by decide) (by decide) (by decide) (by decide)
  have ac6 := chain_add 0x94e4027ce0079056a9da13cb9a0d1edc3509b4c2c53ebb9163e3bdbd3a36b8cc 0x841d6063a586fa475a724604da03bc5b92a2e0d2e0a36acfe4c73a5514742881 0x73867f59c0659e81904f9a1c7543698e62562d6744c169ce7a36de01a8d6154 0x7f ac5 d6 (by decide) (by decide) (by decide) (by decide) (by decide)
  have ac7 := chain_add 0xe52f0283e721d88f55e12b084bdeea801bcb9430a8e29cbab9487793a12d3271 0xda24811909d385a78468e86e1b146fbde0be031c3a19d0de2f44a1d56c6743cb 0xc07c897b5f76f6eef2c6251119b37c4705d418b61d2cda666d39ef6740348cbf 0x47f ac6 d10 (by decide) (by decide) (by decide) (by decide) (by decide)
  have ac8 := chain_add 0xd5942685d4c3f61c6e02c5960e1eb1334d8c8c9b1b8264eec64b3e8fcea211e5 0x2ceb451d7cf0a59778abec84e067ee9781d1f7deb571bbff2f11dd7ae41de373 0xbfae192cfb923e763003d17ed6ad23da2d6677758fe87f00565973abeb306d6e 0x847f ac7 d15 (by decide) (by decide) (by decide) (by decide) (by decide)
  have ac9 := chain_add 0x8aaf7c886ad9884c990703eb5e203c2e7ba886c5589429fee72097da12c99981 0x62e8cd982661234ed201b77354e8def132ed18ae11f9d4adde59614fbcc0b862 0x629b6b87621fa96754c97859e93e16418442ee47743cdcccce229d0f2ecf4933 0x1847f ac8 d16 (by decide) (by decide) (by decide) (by decide) (by decide)
  have ac10 := chain_add 0xa1295b0368c66eff62618211de8901c85ba45be5e21a66fadd14a69ed199cb5 0xa45498a9b15078c4c098a2025921115cd7ca01d876c36db82480a0b685d9eb78 0xc4b6746aa67cad0b4aa48ba71cbb17ddef8f55505d98c30f07b812451b07d490 0x3847f ac9 d17 (by decide) (by decide) (by decide) (by decide) (by decide)
  have ac11 := chain_add 0x5018cf5caf1c80735109db951691fd64cec72b80d3a90e38d6f368ceeaa5b2e4 0xd22846c097cfadf4a7ff617c45f99ae37402451901cb26cba484785f9f7c10c8 0x66b6c803b0900f48993c4d17cc2583f71a4b1ca12a3ea5d3255eee2911a5cddd 0x13847f ac10 d20 (by decide) (by decide) (by decide) (by decide) (by decide)
  have ac12 := chain_add 0xb4e6b25be35f6f75b23cd3833ae300e1bbd92d906b88c6038132a4c4da45ac0b 0x790f9c227eebd8f852dc01e9dedc554ba5bfb8ee7922ea0ea29f779e16acbc40 0x7555107da8c1f5c0867638e78d6ede02b0651fe265f8199ec6379ddd5ca126e7 0x93847f ac11 d23 (by decide) (by decide) (by decide) (by decide) (by decide)
  have ac13 := chain_add 0xe6ecf125ff0d16969cbfd30a66563c73bd16a3792f270933d6ed6e19a7ce7992 0xf334b2f2543c24bbf4c8fa26d0d68f11f5f9b0e3cb9483f81d9df3f18c43aeaf 0x1b572d7735919a2031a92543dd821200ebbb2db6672cc8e45d65532c17485ea0 0x193847f ac12 d24 (by decide) (by decide) (by decide) (by decide) (by decide)
  have ac14 := chain_add 0xc2c2a21dd5b5f2a4624d98528dcb150ede772516cb22f087e9b1f50146c380a0 0xd057107973e2b1bda0da4b0bcb652656b9f35fad44e360ff86db1b7d90ee7fe7 0x9afd745ce1165b3199b5a37789440cd7b01adcda85c52edde46b71e84894b8e7 0x393847f ac13 d25 (by decide) (by decide) (by decide) (by decide) (by decide)
  have ac15 := chain_add 0x63b4fc0866af05201a4cfe5b6d64eed5d70ac3e72595e504e68a22e2b8e1d82d 0x1bcd40d8bf7d00ef3c02d01ea123d3108a42c8c7968267a8605830ab6fcdb6fb 0x592ced97d1c724711405adcd381ba1b6e6fb7d07eab79098a5a3f0d80c706827 0x793847f ac14 d26 (by decide) (by decide) (by decide) (by decide) (by decide)
  have ac16 := chain_add 0x5b1ee45fff2f82152b3a548b1544672d8f9557d872dfd06ccf73e01f71e28bc6 0x51983106550105761dd8e780ec84befd791e41998eca9056a2e22a2a7a6f3825 0xc5ffdb0a61632f6b34f758163a73eecce675793adf5ee9cc2144408efbd81ab4 0x1793847f ac15 d28 (by decide) (by decide) (by decide) (by decide) (by decide)
  have ac17 := chain_add 0x6fb009ab3ab4d869b858ae3a9cb7de88b14ea22d2b0d9a37955d83756678de1f 0xc9fd0daee37c5b866bb9a85eb57a638e85bba46bc6ea5cf88ecbc12d5b2d83f 0x36fc77f05362ecfc8ebdd63f56121e1727ad5235267ea2afb6084e79904f0d05 0x21793847f ac16 d33 (by decide) (by decide) (by decide) (by decide) (by decide)
  have ac18 := chain_add 0x3d0c64d6956ccf8f545359f24a13ad8e1d8e0e605f752cb8c837e1e0160cba63 0x48f15bce8f8cbf23cae7689473c761cf2ed88efd3ee546c355a18d303429ac86 0x3c3420902548636367707b964ab006a42bcb586c0da5b1242ffb4a2c3f9afd4d 0xa1793847f ac17 d35 (by decide) (by decide) (by decide) (by decide) (by decide)
  have ac19 := chain_add 0x6017b0b6cb1638fb7cd13df577a97618dd011aeb1c2873c6603f66e60bd9af79 0xf969bc4806b365168ff101a80964336ab7ed5d82fda4bf6fa8a8bc0534fb69a7 0xac2452ba14cd858d5f39bb391438439b3ddc5f3bc60c29a01bf2fe0c5d38bdb2 0x1a1793847f ac18 d36 (by decide) (by decide) (by decide) (by decide) (by decide)
  have ac20 := chain_add 0x80f28765b37fd959a8bfe99377c782ecff65165ba869f6f978df4f5323f7b3d9 0xf353a4864b0fa7e1d9d2c73a4101dafdb28a663dc35c32232823253034ad60fc 0x12c1765a08ca2ce8893db7c5c1c2c577f30b66dc4804b13eeab927138377e114 0x3a1793847f ac19 d37 (by decide) (by decide) (by decide) (by decide) (by decide)
  have ac21 := chain_add 0xd6f6fa6b1c943705835d454435c95f0c5690691205d14447dc7bc4113ecca2e4 0x13e533239a7c4f425d08eeabd56f5947e70d9dbe8efc2904a486ee0465c13eae 0xf3776d72407dfad02a4592779e4665ea9823053c2d33d9e42d3674d6912a22fd 0xba1793847f ac20 d39 (by decide) (by decide) (by decide) (by decide) (by decide)
  have ac22 := chain_add 0x8648f9e734eadd360f1ced4847f19e67a40a6bf49d32c4da66df31719923ec3b 0xd03786f129e895c5ed0b58e3a68d3716c806f010a483f7486a3e74a14cb21e57 0xb740165f33a3a9ad2633ae4ff4db6d98cb0f65ff937a4d2baf94bcc1f5aa817b 0x1ba1793847f ac21 d40 (by decide) (by decide) (by decide) (by decide) (by decide)
  have ac23 := chain_add 0x1be6735f1c7bac4951673f6feb27b0341b296388ffcdf45773fa0d6cfd8cc8b1 0x8ab74bed822ae652eb826df2ce3ecfb9851fe5aefca9b02047e3e7de4b97a622 0x30a07b5cbfc417c986ff1cbc0c66db38d120362526c50181d2f21975690705cf 0x3ba1793847f ac22 d41 (by decide) (by decide) (by decide) (by decide) (by decide)
  have ac24 := chain_add 0xbcee7f476d68ac84e4b2c41a241bd6fb817db9487299327899688b4647cffeb1 0x3ca98df5d5296ce24ee63e295a0f73b6c871ee051389e2f9a481719e3e4aaa40 0x80c886a4bc9a2c24e9c41f9e234c0ff4cee62efb5c0854daa0863f8994595f8 0x23ba1793847f ac23 d45 (by decide) (by decide) (by decide) (by decide) (by decide)
  have ac25 := chain_add 0xdee8b3335dc9176674135102cbcc12b1122eb058e349705b5a26efac4c3db1f0 0xc8dd710455ecf2ca6aabb80eecd8c776f3301bb687f0d79c5e0f6cb9fe6d2d48 0x930ea2300c870209e8714b5d2f24f4265fde616005c7316f65239ea21d925461 0xa3ba1793847f ac24 d47 (by decide) (by decide) (by decide) (by decide) (by decide)
  have ac26 := chain_add 0xe25062aebfedb6bf9d96be12f009af46a1a2b6f328091929b42679b814dcbecb 0x3bc9113f2030a14187d6fe13654d6af56ede03453f616c72c05c0994b907c678 0xa576aa84c9127465b16c3a7ae1cd5e9a9decebf384765aca3461cae7c4e9f48d 0x1a3ba1793847f ac25 d48 (by decide) (by decide) (by decide) (by decide) (by decide)
  have ac27 := chain_add 0xb019c7cdd207127bb877c03cdfea13244815f70e932f447d17f68b40cdf5b27a 0xe21fdcdb41be0be1aeeba009467f305265b21a01c0dbfecf884bb993ecfa6805 0x1dda5a5ea4847dcb98149b615018e65400355ccdf3e1e23aa29550818888e68f 0x5a3ba1793847f ac26 d50 (by decide) (by decide) (by decide) (by decide) (by decide)
  have ac28 := chain_add 0x3a0fdaf40fbfc98af4b1d07151497538489a60e5730c9c5a564ff3a275d97606 0x70806c65267deed1fe9545304d3ca012c0b4723fa4cfcd6e703377bc6af41aeb 0x2a5357265bff649684ef23e69c9b73347fb179d1766edaf55a0fbb0d1eb0e629 0x15a3ba1793847f ac27 d52 (by decide) (by decide) (by decide) (by decide) (by decide)
  have ac29 := chain_add 0xb5c1d2a08178d7149a1dce13c410f101023521cfa4f291d0d955dab3cf794cb0 0xd333680103d01ecd1f293f95adc8a0eb88f89d79b49872b85d404a611ed406e4 0x6234aa0a0e91da51166a0dfe05fc42d7b6de4bf9e99416a1af7e8eab4c5fa276 0x95a3ba1793847f ac28 d55 (by decide) (by decide) (by decide) (by decide) (by decide)
  have ac30 := chain_add 0xcf53e0e83bacabb0d032ac29ec5e07eccd917c8141565ce00515d29432a31a64 0xe9a23c23f6b1aa915fd6de99ce6b0acf44b30cc95f2a67c608bd79be776c977 0x90b0b5040654242af94a45387ef103d2988767923e6dd1ab9fd90e7fbc11a4d 0x195a3ba1793847f ac29 d56 (by decide) (by decide) (by decide) (by decide) (by decide)
  have ac31 := chain_add 0x66d456ba5f4a92e41fb4d99e5eff23ee4b5d756aaaaeb2a80e0a85593326ab2c 0xe151db910b4c7bf81c5fbe106501f9c86fe63e5645030ad47073634e900f157b 0x9087b8ccc94a2d6b8684fc3020bfe7c722bf764e3e81a7dc8910d19aa11cbb47 0x395a3ba1793847f ac30 d57 (by decide) (by decide) (by decide) (by decide) (by decide)
  have ac32 := chain_add 0x4ba00138504237c06b4073cf26890daf9730512e92f286cd0ea848b64c4aff8d 0x22b08bd9a17b528def14f43841b0ef6574fb083b99e05a04e86c2717d4536b92 0x3dd6df7b58d0489c99c4257e918ba067e8982415e15f5b231894d5a432c3a7e8 0xb95a3ba1793847f ac31 d59 (by decide) (by decide) (by decide) (by decide) (by decide)
  have ac33 := chain_add 0xdfe7080755106577e2bff1988387db2df86f76272dacf5da6e26dc67cfc46e33 0xd99cc5ada7bdecadbdc2d3320740c770818904a71825c63a30ea0a5ae06ed608 0x10d4b932bb82661736de459cae38155c00e9fe159c6425dda620012fbaf34f98 0x2b95a3ba1793847f ac32 d61 (by decide) (by decide) (by decide) (by decide) (by decide)
  have ac34 := chain_add 0x4d43ca1da52740a810144077b0e7323cd8c320993937d5a0f3a1aa415b1a5c48 0xc44fa796a0a446136fa8503833b105edf25349f9391df277c67b414ac5c2e68a 0x6ae08b0e342ced66fc4c69b863e219eb72192ffe315f04c83f74cd2170c9827c 0xab95a3ba1793847f ac33 d63 (by decide) (by decide) (by decide) (by decide) (by decide)
  have ac35 := chain_add 0x86857258c28413e56ed64df0dba9a4b5ba8f83311edae9eec54f15e2fb638038 0xba48792a1e62d996fdd3fccb7612267e308599d81a86237ea0161171e27d2e6e 0xa73ab1a5d64a7aa678cf18b942f552220fe8c729c4adf6544e8899fb2e4be23c 0x8ab95a3ba1793847f ac34 d67 (by decide) (by decide) (by decide) (by decide) (by decide)
  have ac36 := chain_add 0xb9d5c96c14c5c5c8ee426806eb752bc4b7f3e2807150c9f04a063cc98bae004b 0xb906501cfc7ce1330009319fe40fa8ab5862f0f4d1d9eac81d8b93241841528d 0x9ef50e0548e72b237ca3ad333967ec2f8058377cf2836a101b6457eed2955f07 0x18ab95a3ba1793847f ac35 d68 (by decide) (by decide) (by decide) (by decide) (by decide)
  have ac37 := chain_add 0x59c57a0a7a3979b3697a928dc112069bb420cc0b0547af400642c14d1a952bc4 0x9f308261cb664008aeceadd534a551b197cf87840fe85660f394ed7c0abcfda4 0x9fc9b6bcfe37fd9ad96aca42bbe1704843a8d42b02dc6bfbf0d1964c8db5cc50 0x818ab95a3ba1793847f ac36 d75 (by decide) (by decide) (by decide) (by decide) (by decide)
  have ac38 := chain_add 0xf3cd6d8f7d247ddc66f2a1648ef82ab613f732265a97cdca5ca898ad5291a52b 0xf729e8f1aaa654f188604c88adcf24a4469d4642dd5e38504637df12717ce866 0x825e36c96de40585ee036505a0dcfde77984ea6d30c4af8e1338a7d785079edc 0x1818ab95a3ba1793847f ac37 d76 (by decide) (by decide) (by decide) (by decide) (by decide)
  have ac39 := chain_add 0xacedf0b7f3bb4a0e902e762bd77eb1df16f62cfae54420d71e6d5cf048813e5f 0x7d73b67075a2047bb0827ab033e22e87aafc5564584a377d823fa5872d752b81 0x88431042d0aeecc4414b9f08a720666e6f3d89ffa3bb8f5bd30553d0436cae85 0x3818ab95a3ba1793847f ac38 d77 (by decide) (by decide) (by decide) (by decide) (by decide)
  have ac40 := chain_add 0xfb54308947f39ae2909cfd8ddea7e60c7045039dc0c71ca94931e48af38e29ed 0x8304f0ca7d836bb91c13cbb3be58c70bb42550cfce10206f651f5b35197433bb 0x97fb17bccce2f514a55ef2f69a5177b2ebb3d3c4c1c003b5dcc4f74ae76f797c 0x7818ab95a3ba1793847f ac39 d78 (by decide) (by decide) (by decide) (by decide) (by decide)
  have ac41 := chain_add 0x1da8586447bcdd3895c4c4cea4b371f87127c6d981495cc71d9673d7cc9e7d1c 0x7a5be30f375f11d56f0049330e0cd770ccb10e7078367fbeb057f722b7ccb6af 0x89085dad63e289f1f938079745dfb96e6168a7124b4dd8fcc3ac2788a6a9e9af 0xf818ab95a3ba1793847f ac40 d79 (by decide) (by decide) (by decide) (by decide) (by decide)
  have ac42 := chain_add 0x8b0215539bd4fcb4b53f1ed2f5e977e27eed0113698633152e92ff67f47f9302 0xb28132ebebfb85c0474f090fdecb079a5960825e35eefe14b89d18485dabb83 0x4ef055c0f3225bfd46a534695e5000e5b758404be396237c7bca01d30a4a77e5 0x1f818ab95a3ba1793847f ac41 d80 (by decide) (by decide) (by decide) (by decide) (by decide)
  have ac43 := chain_add 0x2edca98cded1955eb6ac61ff7ed0b9ae8dffb94a33b2f1c567611c9759378091 0xda34593f780515e69e93773b5f14b8551100de64b28e8b6d4312be5677f25932 0x44786004ad7d91ff71758874b15acfb5ef3dd0e25df293afd9d04cae7fd24e60 0x3f818ab95a3ba1793847f ac42 d81 (by decide) (by decide) (by decide) (by decide) (by decide)
  have ac44 := chain_add 0x636471107d3bfd86e7c526a8724a1481b61504c29b91151f0dabaebb9f4b671c 0x50add873543973d48f8db51b48f03662eb5b836faabff31a01e1c68bcf930c87 0xe9ae66f9d90fcb768ee31dd48d97e071716a2c63471dc10ebcf1a9875840a351 0x7f818ab95a3ba1793847f ac43 d82 (by decide) (by decide) (by decide) (by decide) (by decide)
  have ac45 := chain_add 0xa7c7506db199d9e037b48c4b86ecd0828fb0cc4d381170341a943541857adb6f 0x81b0bc3126001e70ba702930baa9047967af07fca9a058ee8dd31d2bf0faecfe 0x1e95fd6b924ac9a61424600ce2b206012b6adc14217717677c0ef4715db6dfa8 0xff818ab95a3ba1793847f ac44 d83 (by decide) (by decide) (by decide) (by decide) (by decide)
  have ac46 := chain_add 0x23a655f1af57293d5470183e6a4b69c0aac17420e9a52889807152c8269f85be 0x1bb1a749ae856ea450b0f855fdd3ff8f1dd55ab5372dc04908da3de96296165e 0xcec62445beb41826b31c909927a49a867b9e8af86723a9798efeb9484b2cf7fb 0x1ff818ab95a3ba1793847f ac45 d84 (by decide) (by decide) (by decide) (by decide) (by decide)
  have ac47 := chain_add 0xbb353e3185a5ff8fcd962f545322767cf8683de55dce72577fa157c37b436940 0xff2026358bcda6f9cde865497c202889bb4bbf56dfe0cb932eff8fe2e0fa92be 0x60d7f2d39c5c210fefe17b178cbbd2c3c364cb7143f6ee85e30676fdb66f65c7 0x3ff818ab95a3ba1793847f ac46 d85 (by decide) (by decide) (by decide) (by decide) (by decide)
  have ac48 := chain_add 0xbb08441c714873007fc90576fdf9d1f593d2cf14e14b784d7ef26288ff2d804a 0xd63b733a28de578ea7722e6bc60a6608e4ddf92d9551830c90e8f4867e21030a 0xefab0794ca52ad43a1e1c1098d712870cbe8b1ef5ff6c557f3c82247e3172a47 0x7ff818ab95a3ba1793847f ac47 d86 (by decide) (by decide) (by decide) (by decide) (by decide)
  have ac49 := chain_add 0xee5b49eb4be753f20c30dd73e80fb793a59ff1b182b52637942e41c1f5038bf4 0x782f22bfbabe165d44cab9f2c58b803a536db4d29fcaf505f0d1f5e01f27436d 0x76d95d2c8b26fd4bedbfbf58a4c9f27d0da792011599e07dd14abdbe4da85552 0xfff818ab95a3ba1793847f ac48 d87 (by decide) (by decide) (by decide) (by decide) (by decide)
  have ac50 := chain_add 0xdbf800c2920c8dbcacec25d4f23ce21eda00d6cf6ddfd94ba357ad38dc190383 0x5c34c3ca4863d672d27f2f26d7a8322eaee89840dad8947a4195beab558f8fd6 0x3d140d272e11a5c2f0ce83448db8a7f537fa0401598575049051802d3d3e6bde 0x2fff818ab95a3ba1793847f ac49 d89 (by decide) (by decide) (by decide) (by decide) (by decide)
  have ac51 := chain_add 0x44bce9b9b7adbda49ff5109ae83e27645cc941bd8e0a38b8833dabb75ee3a5b2 0xcb6a1099fb2449f11ea50f044305fe1673d0bf03b071710aeffcaa30d8ef4fb0 0x6325c003e7c4098dc2481dc7cf3a85b4016573d5659bc5bac689d308882c25a 0x6fff818ab95a3ba1793847f ac50 d90 (by decide) (by decide) (by decide) (by decide) (by decide)
  have ac52 := chain_add 0xaa5d6a30d3bfbdd623262ac548915c701b489aff4e16f0f4db8697b3251b8e0a 0x3c5c22847d3b07d2ab94c2ee4ecaafc858121d601d07dd6f9b9cde202cca12c7 0x3c7230cdff2f5b78add0c60b460c10ed6168cab979aa33db1fd67906734a8733 0xefff818ab95a3ba1793847f ac51 d91 (by decide) (by decide) (by decide) (by decide) (by decide)
  have ac53 := chain_add 0x81906bd6ea2bd3fa91aa0ac376a9832333fffd1f8770b5205cc5a138be8c53e 0x493c595692dec965ec8ed273e523d8dbf617b2263544b2a0e7cfe567a724f3da 0x690a1c0e09afde739f4bbc08c0531aa70478220319ee09c38a7f59c4393fca72 0x1efff818ab95a3ba1793847f ac52 d92 (by decide) (by decide) (by decide) (by decide) (by decide)
  have ac54 := chain_add 0xf58c24bdcf0e3a268d353a68539781e144c3407fd3452dd0c29389644abb4a72 0x323c6a5dc1945229be89e41d9d5b9b31daa31d6b38cb53e9b12cd806f31669ff 0x35aaa2008f1dfceee86cbdf410f01fff526b3d6fac59069ae116d56f21210cb3 0x11efff818ab95a3ba1793847f ac53 d96 (by decide) (by decide) (by decide) (by decide) (by decide)
  have ac55 := chain_add 0x4d53abad89a69f30a0d647353e4069a8ccfc8348cdcefd62f3d4a180d86813ad 0x4e62005b349a7d89a773b5fa6a352a09fe58c586260da9d5a1412d3c537c6a1d 0x89ff32e6620798b3a017c0ffb3fa260358718e12c3891064559e8d83250c89b6 0x51efff818ab95a3ba1793847f ac54 d98 (by decide) (by decide) (by decide) (by decide) (by decide)
  have ac56 := chain_add 0xb355aef9746f358ccce5edfda2c843474ef5435705a4ae7085336d3b1d45a680 0x2967571ee8bd1ab1afd73f599678e1faa66fad48128a9aee48fcc6407566a31c 0x96ce461354b50a447a832a8f1d5270eb59e6a8da79559b44258047e28f4fa537 0xd1efff818ab95a3ba1793847f ac55 d99 (by decide) (by decide) (by decide) (by decide) (by decide)
  have ac57 := chain_add 0x46702928d8aca43004904047ec225dcfed753b7dc1e84829cf90492a1ae667d8 0xeaa5b396dffed8b6850555747504c5669cc5cfb6079035ddf6f7844fb1087ac6 0x2b88b385b6199e449414a2a4750a3cee506dd314b27e6dfa5287ed6c9b494dc5 0x2d1efff818ab95a3ba1793847f ac56 d101 (by decide) (by decide) (by decide) (by decide) (by decide)
  have ac58 := chain_add 0x8bbec65716fdf5fdeb567f75a5fc2ad60479220f4793f082f1fa09fd67e12f58 0xd632474f4ea9c91a405ad4ef6ad3d05934d9a07e99dd4c858e705fd2fe3c4dc6 0x599dbd40abdc735bbf0e170ddaf0b3b962b43ba497f2dc9e3d0491eb72be3bd9 0x6d1efff818ab95a3ba1793847f ac57 d102 (by decide) (by decide) (by decide) (by decide) (by decide)
  have ac59 := chain_add 0x4e081bcd010b426e022e1853116b3df56fe180ce70e4cb37a5ecaa847d412ab5 0xcd90c6fb0edb54c6c30616b8dd619a1a770f1dae5821737eaecae8822c44c461 0xc57b6e64e82b40c871a55d31a0c8a10f0252c1afa7db6019f0d683e1533ad372 0x26d1efff818ab95a3ba1793847f ac58 d105 (by decide) (by decide) (by decide) (by decide) (by decide)
  have ac60 := chain_add 0x17cfbed6c392ff4e3fd822ee082e45faa9212bd6864d3fc88e0dcf090ec81024 0x553632cb26b013f8f360ba0766b60ac35b017886f13df13aa40b330621d59892 0x82f3c94a24f004a474380f1954de981fe560bef68a067a81ac088c08524ed15e 0xa6d1efff818ab95a3ba1793847f ac59 d107 (by decide) (by decide) (by decide) (by decide) (by decide)
  have ac61 := chain_add 0xec0baf2f5253a6e595400e008f9733e60665a14b273cde9410e39eff7c1b8fa4 0xc30261930480fdfd0c7eeb63eaea331338bf88da35244e097233e84cfeaa03c7 0x9eccfd02a18faf00d3b760c98a2db9bb63d8b178b523f510953a544642a03b2b 0x2a6d1efff818ab95a3ba1793847f ac60 d109 (by decide) (by decide) (by decide) (by decide) (by decide)
  have ac62 := chain_add 0x201c55b57ac0d35f2866e0b0b50c8fc0a252e1f97461c371415d054c3acf5e15 0x3932f37045965b44fa16a870518a43e473741aba40bf60f690d616ca14266de6 0xeaa1012c9c29c8fa25d741d5ed97cffbd31f3f24af241202eb0ea1a53a7a1e06 0x22a6d1efff818ab95a3ba1793847f ac61 d113 (by decide) (by decide) (by decide) (by decide) (by decide)
  have ac63 := chain_add 0x454af6c00c6d30f7e677060656cadfc5698e472b03aebd036570fd13bb81f1b9 0xc67795ada830770cf40dc9e69d01bdcb30bc135ba9232235bc52e37a1680177a 0x83531743b7018bdc4e65e20cfc2a0fbde391ae29815eb0ca5480193fbf9a4292 0x822a6d1efff818ab95a3ba1793847f ac62 d119 (by decide) (by decide) (by decide) (by decide) (by decide)
  have ac64 := chain_add 0x4d52995a7b3017f57e6644228963dcc0abe8381ca481edba3319f18d0be3032e 0xb42612f1fc7b8f11f5d41a8759891b8fe97c01ce6dd42c2c572174f28701e67f 0x59dcebcf246c3c9ab97cc9490f5bf9a6735f02c8729e215804b78e8ff2e40b0d 0x1822a6d1efff818ab95a3ba1793847f ac63 d120 (by decide) (by decide) (by decide) (by decide) (by decide)
  have ac65 := chain_add 0x9a62a92570f8f00cefa70d606a6478a0d24b98bd3f1010ef03f70f035bae06d1 0xccaaa89b3c793fb91561aef8899f290ab3e5f509a62a18cc9e27a235317cdf0f 0x585eb333f75018439131540c45cafb8a760e2268e0768726a10f4a5c59621704 0x3822a6d1efff818ab95a3ba1793847f ac64 d121 (by decide) (by decide) (by decide) (by decide) (by decide)
  have ac66 := chain_add 0x906e8ed9eb8f5baefe8bf379954470cd896e9f29957c63453a63c2fe3d741320 0xb8a5279beb862fbcc9388be7d60a5fce212d96ab1ff1a78cf24921084873e2de 0xcfaeb19294c88fa201d0d9c431c401cba5a198aa57e22f1f13280c179e72d6fc 0x7822a6d1efff818ab95a3ba1793847f ac65 d122 (by decide) (by decide) (by decide) (by decide) (by decide)
  have ac67 := chain_add 0xcc62807ae371da8cec31804aba3bc02bf20dcc6763f305b0d2718887c56e9750 0x31f228beeef0eac53755a6d03ce4c77d163d875621fffc57cac916ebb2885d19 0xf4adc4e57d13eaffa3386b5a61fd81a36bcfcd6b019afa6ddd3813dfb273b20f 0x47822a6d1efff818ab95a3ba1793847f ac66 d126 (by decide) (by decide) (by decide) (by decide) (by decide)
  have ac68 := chain_add 0x4794110000b995618583b42df2a16928ef3a8ab220f5b5a4216fa6ace37fca75 0xa1b835cfdf0dae61fd325f0d2da9cff22b3a05ea708db861af9ef98cd22e860d 0x159c503c73eb6530b4a9a66be0974e3178983ce5e8bee9e30a6fcade68618728 0xc7822a6d1efff818ab95a3ba1793847f ac67 d127 (by decide) (by decide) (by decide) (by decide) (by decide)
  have ac69 := chain_add 0xfba28d70604abc6d8cbf9be378dcae25152b47ea4a72023301bc67bbe189cd58 0x280d3fc31e983e5a2bf9861df26b0ffd96c4f92d3645253c9f0f534e546734f3 0x98108c313bd4355769dadb65807f8c59aedec2df016368172c0250147b96376c 0x10c7822a6d1efff818ab95a3ba1793847f ac68 d132 (by decide) (by decide) (by decide) (by decide) (by decide)
  have ac70 := chain_add 0xcc2483676e2590bd259fb2526cf7fa93ffa4079d9983d9c56966e25dc066802f 0x8f87158a937a273600590286e41a5da35d890460cff2d1ba6529cf4ef95eb 0x5695525380af7ebf47549fdf08facca134ce8c91d70b472285c55dc79ddd52f7 0x210c7822a6d1efff818ab95a3ba1793847f ac69 d137 (by decide) (by decide) (by decide) (by decide) (by decide)
  have ac71 := chain_add 0xb66ac1b342d42e008aaeeaf1138e86d51fc5b59230321319096a6a435c739c2d 0x11e89a9027e5553164e698bb9fb5a2f203660c3f26f130d50311c2bbf5f881dd 0x1776cb0baa689dae8eb3eef2ee404fae18a9039049ddad6a2a8e4ea45b91c6ea 0x610c7822a6d1efff818ab95a3ba1793847f ac70 d138 (by decide) (by decide) (by decide) (by decide) (by decide)
  have ac72 := chain_add 0x846db6fafe4ff797c5a8762b37eb4cedcfa554e15cc0f54d8f6ffb72ae9203e3 0x3679b28bce681f9c3c30ed5e7b4a1d777eb7c3a11c45919569bf5076d1240ad 0x9e6751a713ecd267106f387ea1ea33f9bd8d7b0cf64bbe691b7f379d1af32d1a 0x1610c7822a6d1efff818ab95a3ba1793847f ac71 d140 (by decide) (by decide) (by decide) (by decide) (by decide)
  have ac73 := chain_add 0xd87478bb1be27080b357e2943e630dec9a35d97e368604c862f3ec22a9bd99c4 0xe0c53b5fb749a7cb223c2ea8d73727e52742ba9deade27b22a33510d75e1150 0x3767382c164a4f96e2cafe669c4e077862213024d6b3a5b9cfce4d37fb4b1ea2 0x21610c7822a6d1efff818ab95a3ba1793847f ac72 d145 (by decide) (by decide) (by decide) (by decide) (by decide)
  have ac74 := chain_add 0x14212ebf62e6789b88fa8daee7be6b6660e963b8977aafc1c41064a363abc5f7 0x3683792e05fdd212b8f84ebf73b10748c1505bc6d04e25b923ce71d97a3ce346 0x4878735410c28ac512d99d3b28001a718469c7700c48546d0dfad7abe9e03370 0xa1610c7822a6d1efff818ab95a3ba1793847f ac73 d147 (by decide) (by decide) (by decide) (by decide) (by decide)
  have ac75 := chain_add 0x8a2f77471969f87ef97c05422092dcfee1dd74152764783285383e6c9c1a5aaf 0xb633a3e251825a0e936c959f34c3657df798e0f25d667f0f5fede96fb8a18356 0xa6fb10343492941a36f34c0017e1fd7d7703778ce3a2d02b3bc777e2715575f8 0x4a1610c7822a6d1efff818ab95a3ba1793847f ac74 d150 (by decide) (by decide) (by decide) (by decide) (by decide)
  have ac76 := chain_add 0x65a11c60227b6da93f45a8119bb118f9066a74dfcb37590031211339ae742cf8 0xb87e441264f2611d74eb00dc5d1b461c5d6ffe6e4f4c1cbe5d777024aed7dab5 0xe985e1e8adf6541fca71f5c54892d11e5b905b23002a175a1f8c24c7a0aeab15 0x14a1610c7822a6d1efff818ab95a3ba1793847f ac75 d152 (by decide) (by decide) (by decide) (by decide) (by decide)
  have ac77 := chain_add 0xad4c824d2e3e29f0f6547e752553c56209b697c1895380d8e596e5d46c4829ae 0x657536be7598e1a5e3ae9e8572dc2a3764019b46f19490004210f9d22c784380 0x101e7d622b6fdae643db0f22fa5c0814476d9cba78f34641545be1b59b41e295 0x114a1610c7822a6d1efff818ab95a3ba1793847f ac76 d156 (by decide) (by decide) (by decide) (by decide) (by decide)
  have ac78 := chain_add 0x59555d3cdcfc08414342541fd302b87b03859b09a4af2639e7e1c2c2a8c306d1 0x2501a3e0cca3f46e2404292adf0eec1aa1499e68a3ce3422e0c774787370f4f6 0xe1b072e6babce5b543a7c9bbec2e4fd22b0c4cc3069773deba2d427b7c4bbdd5 0x314a1610c7822a6d1efff818ab95a3ba1793847f ac77 d157 (by decide) (by decide) (by decide) (by decide) (by decide)
  have ac79 := chain_add 0x46ffebbb3b4cf55789029abccd8c93e75ca2ebb7f0aac8bc374ac170d1cc18e2 0x39e4adcefddb70662552dd234a9cd6a60271dd3b19918ba2e4500e27400253c6 0x4f5c8a3ff0f668212748efbb796a64f1884a7c62d708a5e9d21398ae3ede3b64 0x714a1610c7822a6d1efff818ab95a3ba1793847f ac78 d158 (by decide) (by decide) (by decide) (by decide) (by decide)
  have ac80 := chain_add 0xd96a47e8728d94b6813105cf452990c8c822e2d33344362056261303c99763ba 0xf9a4246883d3c0c530970aa3e751f1e11c02913a0c510395f23e903dcff87e87 0xcdf84df3058193bac8ac405db8ec466ac6258e307c4b74136bf521a217796899 0xf14a1610c7822a6d1efff818ab95a3ba1793847f ac79 d159 (by decide) (by decide) (by decide) (by decide) (by decide)
  have ac81 := chain_add 0xace7ee1e1d733628e051d39b35da7b87f54d748983c939bdfc7581d03d1c6d0b 0xb5f7cd0eb06473c8c4448b3a347f312091208f513061b6c803df43fcf66653d2 0xb802215c73a6e72a022ffe369920d1ace4fa1365d7abe2d145a455f95331203e 0x40f14a1610c7822a6d1efff818ab95a3ba1793847f ac80 d166 (by decide) (by decide) (by decide) (by decide) (by decide)
  have ac82 := chain_add 0x84bae4bfc9e0afccc78e8eaad1b0afa0236a377be4939975f82dc7f776a765ff 0xc9049059455a06be2e03e99149eafa75284f87c04ec2b8e8aa4c04a0bb0cc5d6 0x2f235814b44e6a1ba9a4a48a1ad231183b43bf3e59d014db17414f14ece8b9bc 0xc0f14a1610c7822a6d1efff818ab95a3ba1793847f ac81 d167 (by decide) (by decide) (by decide) (by decide) (by decide)
  have ac83 := chain_add 0x6c0c2d6caccb9c5863ddc0c5c54a3a41315669d5388f0fab3d9c99093b6d6f91 0xd6c2c61806091a684207c168b9f34d8cc7b5d585daa3c6e9bac417486b9c84f 0xb1c7fd1528a724ec37327bc9f039ed0f417f4946fa9182561341d7a209bc624d 0x4c0f14a1610c7822a6d1efff818ab95a3ba1793847f ac82 d170 (by decide) (by decide) (by decide) (by decide) (by decide)
  have ac84 := chain_add 0xc5af708343b21561a47d890899b13321360115debb2a598ed22700b3077f7062 0x2b18d88714a6a85a2365e10155f573fb6d4feb3abf0512dfd98cc61d9a998a82 0x420ae1ee029d6595160d2d2a4735d720bba7019fc1acb3b5617e50e2664329bd 0xcc0f14a1610c7822a6d1efff818ab95a3ba1793847f ac83 d171 (by decide) (by decide) (by decide) (by decide) (by decide)
  have ac85 := chain_add 0x640d240e17ae64f6ad8d6a06aa3d4ce7ff5dad704efdcb69a51e3e07a3a360d6 0xd5ff8ddf4999421c7006e91d465e3c1f6c4bdd207a56d524e9b43c8bc286a6eb 0x59be99a8b94a0590f1667ddc9d10ebbfc3f61814edcdaf2d2178305d5a3507f2 0x1cc0f14a1610c7822a6d1efff818ab95a3ba1793847f ac84 d172 (by decide) (by decide) (by decide) (by decide) (by decide)
  have ac86 := chain_add 0xac3c2baf7845ff3b87407287a239ac05e40d7bf2de798be58d7ebf3d712bf4c0 0xa7446bb2271a2283c20b28ff49f880aaf1e536fb39a11e9aaa6e3cb7cf72cbba 0xe9eaa1c570bd1ff8e4d550acf1a5a7417b96dc725d0b28d62ba2e085c80a52 0x5cc0f14a1610c7822a6d1efff818ab95a3ba1793847f ac85 d174 (by decide) (by decide) (by decide) (by decide) (by decide)
  have ac87 := chain_add 0xeffdbab01a25fffd0cc09cb683602dccd16a355a22e5d4e9ccd247610b17b963 0x29a5b94573a31153b22ca1792fbad3c8ba2e78640a4abcd15105aebaf019f07c 0x2fd8ae9cddbd9937b3f6bf05777138f38d34d2df3e724db66b1706281d19bc02 0x25cc0f14a1610c7822a6d1efff818ab95a3ba1793847f ac86 d177 (by decide) (by decide) (by decide) (by decide) (by decide)
  have ac88 := chain_add 0xba624d35fce581bcaeb80ca773249574e5b77a0c68c83bf00c63566db69aff32 0x669a66315b44a60d275725c5e667a179f21e52f21de39d0e58f3d7beffdbf0db 0xdd56b427ea1d27cea60aefef603238331cf5f1b656e41b4700c79f84a3690656 0x65cc0f14a1610c7822a6d1efff818ab95a3ba1793847f ac87 d178 (by decide) (by decide) (by decide) (by decide) (by decide)
  have ac89 := chain_add 0x84c924df695eb1165144496d5531f1c919867ee4a169c5f5212457a276a316f8 0xfd100c3e0338b3174e5ec329b5dfec29daceb42b9d4d63f7f9d7cf62b5da88b5 0xd95c5ec7635d2bf3ee6ec51f16352580908843687d9efc0e99d87fc6cefbef7f 0x165cc0f14a1610c7822a6d1efff818ab95a3ba1793847f ac88 d180 (by decide) (by decide) (by decide) (by decide) (by decide)
  have ac90 := chain_add 0xcebfa8ed66c2161657d1bfe5d7966a1a48efd3ae15d0b67e479102cf8fd9138 0x69c3751b305afa4891927364e493033ab33ebb8a3abe83031c81375eeca02ec6 0x16235c58bd50657ec9ef55f6de8455c86a49e83b7a10d1a7e552d805e672ced2 0x365cc0f14a1610c7822a6d1efff818ab95a3ba1793847f ac89 d181 (by decide) (by decide) (by decide) (by decide) (by decide)
  have ac91 := chain_add 0x48e66bb810b783ac53ad98dfe17543b3eea298b9c6a845aa928ac840f410207a 0x7a50951b1e283b4b75e3e967915d870d106f39ffaeef33b8fa26fd1f2020bc63 0x8522295a304561395eb3ea6df0a089e3c9c9957d1dfc1bbb6620443ffef07581 0xb65cc0f14a1610c7822a6d1efff818ab95a3ba1793847f ac90 d183 (by decide) (by decide) (by decide) (by decide) (by decide)
  have ac92 := chain_add 0x4f721c92ff573186f60a3fe5c469115df6eaef03b39f458df7579c3860016689 0xbf677381f176bcdcbe31148ca87c84c2fed8fe1a5b066612025912e8945f86a9 0x30cd05295637614820c0c6ea9daf1d078c051798473eccaadbbe692b48386e5f 0x1b65cc0f14a1610c7822a6d1efff818ab95a3ba1793847f ac91 d184 (by decide) (by decide) (by decide) (by decide) (by decide)
  have ac93 := chain_add 0xab419a38b56aba20763def6d1f6ae4683baa5e00e50cd08d33a18c90cdb1a20e 0x53d6f4f7e8dc0d7d895ee70157c223a28d5584f3af0895017fc33d97921eb381 0xdc866ebcc74a4042dcaa7f20203800c9cabcdc70d99dfc9fd5639e3c121a7960 0x21b65cc0f14a1610c7822a6d1efff818ab95a3ba1793847f ac92 d189 (by decide) (by decide) (by decide) (by decide) (by decide)
  have ac94 := chain_add 0xb870e7274e8b04fdae1195e9aa1214f656e23dfbe1891e367561cb3e6c65a96c 0x2e997579243100efc9aa42689c0e6334f09790cece5f9b3ae2dbf71e3c2b0186 0xbbae98aaa46cec26b25318ffe5de898398f483bcdaa9e42d81c47aa37253331a 0xa1b65cc0f14a1610c7822a6d1efff818ab95a3ba1793847f ac93 d191 (by decide) (by decide) (by decide) (by decide) (by decide)
  have ac95 := chain_add 0x2dbe83d5abfdbf7729a8140d4598e48d982192f97fa03353095579c39c4d0945 0xc142420ac84642c039fee93ee989e095b42f9ec2192f5cbb17f850759ffb8b1f 0xf47b3a86a56bd4cfa5a733a14c5ae9c8ddcebc2cb6ecda6c89138286245bc3b8 0x2a1b65cc0f14a1610c7822a6d1efff818ab95a3ba1793847f ac94 d193 (by decide) (by decide) (by decide) (by decide) (by decide)
  have ac96 := chain_add 0x5cba932e8a05bc6a0ba332ccdb02bde686d2df50b7ed85897fe0f9eea59dfb6b 0x10197909050e0993e2c09346380593b4a13eded79e2ad0eb65302e7e6c76d2b3 0xd7d29e59557a757f2bfddc6426b152a330fc84fef2ca7dd8dfedcae3b45720d4 0x12a1b65cc0f14a1610c7822a6d1efff818ab95a3ba1793847f ac95 d196 (by decide) (by decide) (by decide) (by decide) (by decide)
  have ac97 := chain_add 0x4a9f1038422ba694246fd91e0fbe73fdd0d53ddd91d61e2e9ae17bad23dcedfb 0x456e4cbf2ef0eedad75e14778a4c3d5be13ab59d8aa075af4143f40b00decb1b 0xa65df50151b7f0e7b3d910ed60146bbd32a8b9819bc5a842def142e24bc2b8e3 0x32a1b65cc0f14a1610c7822a6d1efff818ab95a3ba1793847f ac96 d197 (by decide) (by decide) (by decide) (by decide) (by decide)
  have ac98 := chain_add 0x418ea8d72fc4241f6f270d45f0a295e1657a18f6963c6f197b20864a1876c812 0x44340c38bf558b28decd735fed18a7c4d3a7dd15b45cdf28aaeeeaa58668efbf 0xea88a2f9c19f6e859524117395015b0bb8d6675a227702afd8f79c38334a4d9 0x72a1b65cc0f14a1610c7822a6d1efff818ab95a3ba1793847f ac97 d198 (by decide) (by decide) (by decide) (by decide) (by decide)
  have ac99 := chain_add 0x2c8ab6a38346acdd70424ef7203f0d80d4513478b24c2f4fe92a86e2b8c227c6 0xffcdf62a0fa2c36e7c9ab7f6c305680d90405e8eff88e4cb16669f0e2e5ee407 0xd3a77fa0d8e2133ed3c17a857d2c38a4a686342b02f576f879efdb0bb0f6bb51 0xf2a1b65cc0f14a1610c7822a6d1efff818ab95a3ba1793847f ac98 d199 (by decide) (by decide) (by decide) (by decide) (by decide)
  have ac100 := chain_add 0xc250811f67d7c59dde9d7c17ec00a5dd85815dbbd6fca001faabaea71a29cf5b 0x8599b5287cf94b1c632151ff8952dd065c71b341d50024f72d8720d379c5e3b5 0xab59f6890baed58a41c4d29bb63029dae302eb749eab9c932c183d5e46fb7932 0x2f2a1b65cc0f14a1610c7822a6d1efff818ab95a3ba1793847f ac99 d201 (by decide) (by decide) (by decide) (by decide) (by decide)
  have ac101 := chain_add 0xa35c9721fc289769eec70b7370cfb8bbdf84f3ffc279aae1a469fe3f8adf3673 0x9bce5bd7a32f58ca51052c855c8062fdd5b7ce79c89b22456c033c87c23a5204 0xf6f2d60077490362088c41371367ed387ad707a2d797ca8656bac3663ce0a8f5 0x6f2a1b65cc0f14a1610c7822a6d1efff818ab95a3ba1793847f ac100 d202 (by decide) (by decide) (by decide) (by decide) (by decide)
  have ac102 := chain_add 0x7c0bffc3488fd5beaf7cbba1e62200fe532718686d8befbb383167bd7363c11a 0xa9f46e70addcdd7a512e392845bc0aa1f575e774fc920400712270ca5fd02b13 0x7fa030e6bbe9fd0b0d5b9ca7fe6154fc322c457ac029e6200c143eaa13d81fd4 0x26f2a1b65cc0f14a1610c7822a6d1efff818ab95a3ba1793847f ac101 d205 (by decide) (by decide) (by decide) (by decide) (by decide)
  have ac103 := chain_add 0xed3d067bf3b19c2732f34afb4ee013451b77eae3215ebcb095fd07db9982b9ac 0x10d2a384615d47c8d002bcea12d3d52db515d3e83f3569e0db36e25c860f252a 0x893d0ac7600e7abe142789f154292faf4a546d2811aa17dbddb5a98eb504b5ca 0x66f2a1b65cc0f14a1610c7822a6d1efff818ab95a3ba1793847f ac102 d206 (by decide) (by decide) (by decide) (by decide) (by decide)
  have ac104 := chain_add 0xe53df4d3a5016380b99ff825a765bba96e4cc506da4852953304ada199fb1031 0xd6d645554daaa937ee4403d45f2672dfb9eeb9dcd9c4b336208ad6d7aad01f6a 0x772ada7026830e7cfbd25237a477bb8178f90554d9f0c63f661c6cf770315ac6 0xe6f2a1b65cc0f14a1610c7822a6d1efff818ab95a3ba1793847f ac103 d207 (by decide) (by decide) (by decide) (by decide) (by decide)
  have ac105 := chain_add 0x261e9c747bd7610d7302258cc75b9524f567563424d46d9e43d4e3533115dcd 0x55a9a305fd24a4aaaa2aa6f3b0383b637f5d5a711a198c4469c84d8a174e8b5d 0xf536628784fb4ee675c4f5fa438a35d031c5f95c7209cf3efffa4e1fe80d28b 0x2e6f2a1b65cc0f14a1610c7822a6d1efff818ab95a3ba1793847f ac104 d209 (by decide) (by decide) (by decide) (by decide) (by decide)
  have ac106 := chain_add 0x17d4f94e7b452e67fec8f3d00e4f87cd4a173897b75ed3729bb5b778058895e9 0x611de54e4b8ffd0241d12eaf9b0de0e54ce03b2f38ca1f50fc6791009960e394 0x2537eb04e6d64affc7ec88ccfba2e1b39916e48598e41e568dff62ce22812af9 0x6e6f2a1b65cc0f14a1610c7822a6d1efff818ab95a3ba1793847f ac105 d210 (by decide) (by decide) (by decide) (by decide) (by decide)
  have ac107 := chain_add 0xd3d2c3495c9c7b60ee8df530987c0c5cc7c5a67ebdf489c10aa7153a8f964b90 0xc89d3fd27ac2361e2335fb5bf7d584af58c5095dd98af87983984f4bd3c4b2f0 0xec23f33ff9a2e3f42dff14d91043537c006ad3989c5117d2bfb871ea9eeea797 0x16e6f2a1b65cc0f14a1610c7822a6d1efff818ab95a3ba1793847f ac106 d212 (by decide) (by decide) (by decide) (by decide) (by decide)
  have ac108 := chain_add 0xfcaa8ce9555b8a9a52fc549006ef9bc1f6db93bb0a89b0b617a40cbc771e0989 0x261cf5181d553737e8f6165a261b41a8c8831a52fadf7d416f96b88c33d6d4f2 0xeae4ba1ef0797724e9f3a6bbbe715306d25fd9c7a8872b19a6fb168dce8cd719 0x36e6f2a1b65cc0f14a1610c7822a6d1efff818ab95a3ba1793847f ac107 d213 (by decide) (by decide) (by decide) (by decide) (by decide)
  have ac109 := chain_add 0x4bcccf306a89d459692d62c2feafa84be3f1066fcd94d4eef6c309cc0932da3d 0x2985f7f142280d0ee68874a45b2afea1ee04a27beef8aff67194ea8fc260ee52 0x6060611404cb49a09a1d988989bdf91fb976e513a7f426b83b23c620ed1244e4 0x136e6f2a1b65cc0f14a1610c7822a6d1efff818ab95a3ba1793847f ac108 d216 (by decide) (by decide) (by decide) (by decide) (by decide)
  have ac110 := chain_add 0x37d3902e529113f561c210199bba8c50bf2982ff281f6cdc51724ba665bb622e 0xe8d13137d14b950b494df2abf7814c59e8c1abf4aecea4d6e3af2565828d8a35 0x762f6357252e927020b3c20d6f9fab32786de6b5bd6123d20e018782575c950d 0x536e6f2a1b65cc0f14a1610c7822a6d1efff818ab95a3ba1793847f ac109 d218 (by decide) (by decide) (by decide) (by decide) (by decide)
  have ac111 := chain_add 0x34acb899fdb80e8b454788d2c9f6fab05a653f04479d3bb0b89cee9be747ea25 0x90ee7446a4a120e3a72f60af900c04372bea2de23a26791a07ffc9870a058443 0xf6fdcb5cdbacf3bd3089fcd5be482200c6708f5ad7cdd9dd011e5584a9c32ec0 0xd36e6f2a1b65cc0f14a1610c7822a6d1efff818ab95a3ba1793847f ac110 d219 (by decide) (by decide) (by decide) (by decide) (by decide)
  have ac112 := chain_add 0xe19c2a963199cc1964e43fdd4ce70fbf66c1b1774f86af38701f4d8f242031a0 0x1de8c06bcaadbfa85171ca7a7bb8f6abc8636753c08456706f7331bfb45724fd 0xfef6369333abca21cfd88a02a158e0921d828a8436c37c4f01d28e80903063d9 0x1d36e6f2a1b65cc0f14a1610c7822a6d1efff818ab95a3ba1793847f ac111 d220 (by decide) (by decide) (by decide) (by decide) (by decide)
  have ac113 := chain_add 0x9d24aeb4f4bf50ebca50b9d95fc19f7c29d2eb49d2c238d4b98e9b153955d5e9 0xb8fc3870c9d3967bc5e4a4802ec6774147d617ff10ca2a6238837b3614c65596 0xe1752d7eb7124523cd44fa984b92ff3cfcd69b56c811f4c966569202404249a9 0x3d36e6f2a1b65cc0f14a1610c7822a6d1efff818ab95a3ba1793847f ac112 d221 (by decide) (by decide) (by decide) (by decide) (by decide)
  have ac114 := chain_add 0x9201f8658a563d096a06438bacb5fae7c201364c35e17b0854d988884674f79c 0xa6761ac45cbb604dc837a653875d9b20944c0b6f6369e242fe02a351ffbe64e1 0x269446463dcb2d849878e82f58981f50b0890187c32f1d9793be978eb4d7a1a 0xbd36e6f2a1b65cc0f14a1610c7822a6d1efff818ab95a3ba1793847f ac113 d223 (by decide) (by decide) (by decide) (by decide) (by decide)
  have ac115 := chain_add 0xb479a451fe1fd3d93b70f961a1cd3ffb2297a8b68915a17d0ec159b630f6e0c9 0xd30cca9979d67e80db1f2f88f19f02b7f79c6092ac362a10bfb58ce34a706934 0xa384d6f14cd1e2c92e2bc12b0f31fb0ec6677c0191d283bfd6c9559728806818 0x2bd36e6f2a1b65cc0f14a1610c7822a6d1efff818ab95a3ba1793847f ac114 d225 (by decide) (by decide) (by decide) (by decide) (by decide)
  have ac116 := chain_add 0xb1e4a0e9a0183c8a7e8f54e52ca5ff72733d4bac5cedde241a3bf00b0a0fcfc4 0x6704765a205cc3757870567e49f4705e8fae6a161827d3e37970f7c0fa99fdc3 0x8ab32686598d32e0cddaf9de71d48577fcf080d1f416d5d8f571fc2374a6f1ba 0x12bd36e6f2a1b65cc0f14a1610c7822a6d1efff818ab95a3ba1793847f ac115 d228 (by decide) (by decide) (by decide) (by decide) (by decide)
  have ac117 := chain_add 0x6bb2427b0f1c9653ce2b84e41dfb5d18602797c63ec422cb9f97b6d3b4dfc08a 0x77420f0a5a706a64524e4e2595d414c7b24f43e3af3d96fbfe13ca4bc80a0cce 0xe48cbf27b43106932eb1891b36a3bf61367b5365fd94b4b4040f8f0f9582e2bf 0x32bd36e6f2a1b65cc0f14a1610c7822a6d1efff818ab95a3ba1793847f ac116 d229 (by decide) (by decide) (by decide) (by decide) (by decide)
  have ac118 := chain_add 0x553786b1c490cc209921fb70dbf08ba216957d39ebdc64b5bb6e07d7f0a5a16a 0x36d199cf4149eb23b0e6c607542203bc377ac29b004df8b085ddeca1054210e7 0xa4e791fa88690b6078a2b840af952c723cbc59f77991eb25441a8802e69ca546 0x72bd36e6f2a1b65cc0f14a1610c7822a6d1efff818ab95a3ba1793847f ac117 d230 (by decide) (by decide) (by decide) (by decide) (by decide)
  have ac119 := chain_add 0x34b65ef3c7717a85e2061b4e6557515963c868e6993ec1e800b4a4ed238b152d 0x2492fcf53dc3cf9fc7f185063ca401e0e8b3550cffed2757a9adde045bc9665d 0xe79f34cd9289d37a331282501a27d3d3655ecafbbf55c1df452f95cb8d40985 0x172bd36e6f2a1b65cc0f14a1610c7822a6d1efff818ab95a3ba1793847f ac118 d232 (by decide) (by decide) (by decide) (by decide) (by decide)
  have ac120 := chain_add 0xf621e01a11d7ebea91db31e037459acef089c023803e75c7fe2a7b9baec2e7cc 0x75befc63459825490e645164ac4cac455fa2de3203f563b1701288598b411d1 0xc2444809d3af7024035ab33c7a7c27e02be0a282c0a237d19ee6b26e5bcda8be 0x572bd36e6f2a1b65cc0f14a1610c7822a6d1efff818ab95a3ba1793847f ac119 d234 (by decide) (by decide) (by decide) (by decide) (by decide)
  have ac121 := chain_add 0xf56b3d6f4fc2421366ac7dd40b4e183510d1594d58797622c25c526c967ee8c3 0xfc33fa6f6d45f0e7269616b97bbc16d0afcb606bd7750328a9d7caeb98b34f6a 0x2629fa5e36a0fe3b05a027c3c6e584b581771e9921fba8044f336177feaecc57 0xd72bd36e6f2a1b65cc0f14a1610c7822a6d1efff818ab95a3ba1793847f ac120 d235 (by decide) (by decide) (by decide) (by decide) (by decide)
  have ac122 := chain_add 0xa05367275d0320aa134ab0e7847d8f410efb0a1d0d7ec1583bc578787d6410fb 0xe8ebc8ef8944a404143807736e87eac256dd60967f9c023295c6b0bc99c4a43a 0x969b9b185eb8e651fb2ea9305a6cac6183667d0be2b1e3e6fa4cd50e19231204 0x2d72bd36e6f2a1b65cc0f14a1610c7822a6d1efff818ab95a3ba1793847f ac121 d237 (by decide) (by decide) (by decide) (by decide) (by decide)
  have ac123 := chain_add 0x9c21de3526f6f2022de10edfc645a29e8024c1153ed72fd6ce49cef7db9241c 0x987cb795b882a847e311af0e026ec488a1771b217a602d7f91c43c2c10ad67ea 0xcc923894260086c1b9d5a54642ce8459119e9ba729699762172917e4c097f683 0xad72bd36e6f2a1b65cc0f14a1610c7822a6d1efff818ab95a3ba1793847f ac122 d239 (by decide) (by decide) (by decide) (by decide) (by decide)
  have ac124 := chain_add 0xdedf510c06ea8472668e13efa9a77a70175f556dc132189feeae5e5313623fb4 0xa83c87db74d260c470ccd5e0aa20b5d7ee68aefc2f471785f67e5c80cdf77baa 0x546845c2776eecc1426518726c94baa06bff514d59fca0d08141172b01352c66 0x2ad72bd36e6f2a1b65cc0f14a1610c7822a6d1efff818ab95a3ba1793847f ac123 d241 (by decide) (by decide) (by decide) (by decide) (by decide)
  have ac125 := chain_add 0x182221a53e6dfe36e5be3195cbc74e68052211b9d6aea432fc40808ac3c54afa 0x55712d550074449706880a164f4596a3181b333c8d5939b628f16803180af485 0xe7d7da3de8c08044e8e780b53ca7dd207a2ecaf99ea923a479036b3c5a57797f 0x82ad72bd36e6f2a1b65cc0f14a1610c7822a6d1efff818ab95a3ba1793847f ac124 d247 (by decide) (by decide) (by decide) (by decide) (by decide)
  have ac126 := chain_add 0x166fccff7683a848638d1f0f17786e0c4274c610f7c4f805c627cc305433a774 0x311f2a2844fa6a009630f9714592b49426326bef8c1420219e37b618d69e1fbf 0xbf1efe0e34b4ae1dc85ff4ca3a19ddcc621d21863f067236bf79b7e4e7752193 0x182ad72bd36e6f2a1b65cc0f14a1610c7822a6d1efff818ab95a3ba1793847f ac125 d248 (by decide) (by decide) (by decide) (by decide) (by decide)
  have ac127 := chain_add 0x8f163553ec76849fe82b65a658465acd6e8aed52abce086e717ad1992d7f6e3e 0xab8f9adc1ca1c02f279718afcc2f1268cf2aaeef06e1d0f1d1814e22b03cf998 0x407a3cd7fd51c57458bbce03c1d6f78cb54baa1a7f7f0d77f87f231e1761b6c7 0x982ad72bd36e6f2a1b65cc0f14a1610c7822a6d1efff818ab95a3ba1793847f ac126 d251 (by decide) (by decide) (by decide) (by decide) (by decide)
  have ac128 := chain_add 0xd0f0cc28cad76e0f8329f05a89edc52139f3944f606ffa5b6a9a3db97d910314 0xdda1a52c247172fcc84394c1b2b157b8368fa84a5bd8df85f46af65fc4a3c8d7 0xf67eeef012cfaa89e79278392b6a94b589a2c541f822019b8eafe13e6309882c 0x1982ad72bd36e6f2a1b65cc0f14a1610c7822a6d1efff818ab95a3ba1793847f ac127 d252 (by decide) (by decide) (by decide) (by decide) (by decide)
  have ac129 := chain_add 0x3220297c5116ea95f93e4c4bbbc51e130dc64a0ad5ff6360673a33f7dc6e15bf 0xfdb2d8c26bd11f31892ede1010d1dfab5e0fd9957455e09c180b6154f55b8f07 0xdb8413f38fbc329d24d556b5be6866cf1ac67eb0bfaf30838459c5de8a4116f7 0x3982ad72bd36e6f2a1b65cc0f14a1610c7822a6d1efff818ab95a3ba1793847f ac128 d253 (by decide) (by decide) (by decide) (by decide) (by decide)
  have ac130 := chain_add 0x35372f2f557ceec1cd2a69f65c858edf32335612a5291e99e54c5af9f4ae4ea7 0x8a0d7d6bb024b7e1456e217c41b2fd6ee8d8fdcc44dc90b6ac00f96c7e30562f 0x6138aeb39666c8ff177ffeb7f51843364e47919e7e1b9efc5b63f8f972c9d3d2 0x7982ad72bd36e6f2a1b65cc0f14a1610c7822a6d1efff818ab95a3ba1793847f ac129 d254 (by decide) (by decide) (by decide) (by decide) (by decide)
  exact ⟨hn, ap61, ac130⟩

/-- Heavy fact: `n * G = Infinity` on the embedded secp256k1 curve,
i.e. the base point's order divides `n`. Established from the certified
addition chain `secp_chain_facts` through the group bridge. -/
theorem secp_mul_nG : Point.mul Secp256k1.new.g secp_nI Secp256k1.new.curve =
    some Point.infinity := by
  haveI : Fact (Nat.Prime (Secp256k1.new.curve).pN) := ⟨secp_curve_prime⟩
  obtain ⟨hn, -, -⟩ := secp_chain_facts
  obtain ⟨R, hReq, hRw, hRo, hRm⟩ := pmul_bridge Secp256k1.new.curve secp_curve_wf.1
    secp_curve_wf.2.1 secp_curve_wf.2.2 Secp256k1.new.g secp_nI secp_g_wf secp_g_onW
  rw [show (secp_nI % Secp256k1.new.curve.p).toNat = (0xfffffffffffffffffffffffffffffffebaaedce6af48a03bbfd25e8cd0364141 : Nat) from by decide] at hRm
  have hR : R = Point.infinity :=
    toM_inj Secp256k1.new.curve secp_curve_prime.pos R Point.infinity hRw trivial hRo
      trivial secp_curve_wf.1 (hRm.trans hn)
  rw [hReq, hR]

/-- Heavy fact: `(-n) * G` on the embedded secp256k1 curve. Because
`Point::mul` reduces the scalar with `mod_floor` by the field prime `p` (not
the subgroup order `n`), the result is the finite point `(p - n) * G` rather
than infinity. Established from the certified addition chain. -/
theorem secp_mul_negnG : Point.mul Secp256k1.new.g (-secp_nI) Secp256k1.new.curve =
    some (.coordinate
      ⟨0xb42b34a9748238715c0b8b853b6939aabc3b5224bcdd4b4b65e902417e7af914, secp_pI⟩
      ⟨0xc1064ce5dfb9e0247fa170896d939c3b87404dca2f648560936138086ac129e9, secp_pI⟩) := by
  haveI : Fact (Nat.Prime (Secp256k1.new.curve).pN) := ⟨secp_curve_prime⟩
  obtain ⟨-, hp2, -⟩ := secp_chain_facts
  obtain ⟨hns, hch⟩ := hp2
  obtain ⟨R, hReq, hRw, hRo, hRm⟩ := pmul_bridge Secp256k1.new.curve secp_curve_wf.1
    secp_curve_wf.2.1 secp_curve_wf.2.2 Secp256k1.new.g (-secp_nI) secp_g_wf secp_g_onW
  rw [show ((-secp_nI) % Secp256k1.new.curve.p).toNat = (0x14551231950b75fc4402da1722fc9baee : Nat) from by decide] at hRm
  have hR : R = Point.coordinate
      ⟨0xb42b34a9748238715c0b8b853b6939aabc3b5224bcdd4b4b65e902417e7af914, secp_pI⟩
      ⟨0xc1064ce5dfb9e0247fa170896d939c3b87404dca2f648560936138086ac129e9, secp_pI⟩ :=
    toM_inj Secp256k1.new.curve secp_curve_prime.pos R _ hRw (by decide) hRo
      secp_negnG_onW secp_curve_wf.1
      (hRm.trans (hch.trans
        (msome_congr hns secp_negnG_onW secp_negn_x_cast.symm secp_negn_y_cast.symm)))
  rw [hReq, hR]

/-- Heavy fact: the Provisions generator `H = provisions_sha256 * G` on the
embedded secp256k1 curve, established from the certified addition chain. -/
theorem secp_mul_g_provisions :
    Point.mul Secp256k1.new.g provisions_sha256 Secp256k1.new.curve =
    some (.coordinate
      ⟨0x8a0d7d6bb024b7e1456e217c41b2fd6ee8d8fdcc44dc90b6ac00f96c7e30562f, secp_pI⟩
      ⟨0x6138aeb39666c8ff177ffeb7f51843364e47919e7e1b9efc5b63f8f972c9d3d2, secp_pI⟩) := by
  haveI : Fact (Nat.Prime (Secp256k1.new.curve).pN) := ⟨secp_curve_prime⟩
  obtain ⟨-, -, hc2⟩ := secp_chain_facts
  obtain ⟨hns, hch⟩ := hc2
  obtain ⟨R, hReq, hRw, hRo, hRm⟩ := pmul_bridge Secp256k1.new.curve secp_curve_wf.1
    secp_curve_wf.2.1 secp_curve_wf.2.2 Secp256k1.new.g provisions_sha256 secp_g_wf
    secp_g_onW
  rw [show (provisions_sha256 % Secp256k1.new.curve.p).toNat = (0x7982ad72bd36e6f2a1b65cc0f14a1610c7822a6d1efff818ab95a3ba1793847f : Nat) from by decide] at hRm
  have hR : R = Point.coordinate
      ⟨0x8a0d7d6bb024b7e1456e217c41b2fd6ee8d8fdcc44dc90b6ac00f96c7e30562f, secp_pI⟩
      ⟨0x6138aeb39666c8ff177ffeb7f51843364e47919e7e1b9efc5b63f8f972c9d3d2, secp_pI⟩ :=
    toM_inj Secp256k1.new.curve secp_curve_prime.pos R _ hRw (by decide) hRo
      secp_provH_onW secp_curve_wf.1
      (hRm.trans (hch.trans
        (msome_congr hns secp_provH_onW secp_provH_x_cast.symm secp_provH_y_cast.symm)))
  rw [hReq, hR]

/-- The Provisions curve constructor evaluated: its second generator `h` is
the concrete scalar multiple `provisions_sha256 * G`. -/
theorem provisions_curve_new_eq : ProvisionsCurve.new = some
    ⟨Secp256k1.new, .coordinate
      ⟨0x8a0d7d6bb024b7e1456e217c41b2fd6ee8d8fdcc44dc90b6ac00f96c7e30562f, secp_pI⟩
      ⟨0x6138aeb39666c8ff177ffeb7f51843364e47919e7e1b9efc5b63f8f972c9d3d2, secp_pI⟩⟩ := by
  unfold ProvisionsCurve.new
  rw [show Secp256k1.new.mul_g provisions_sha256 =
    some (Point.coordinate
      ⟨0x8a0d7d6bb024b7e1456e217c41b2fd6ee8d8fdcc44dc90b6ac00f96c7e30562f, secp_pI⟩
      ⟨0x6138aeb39666c8ff177ffeb7f51843364e47919e7e1b9efc5b63f8f972c9d3d2, secp_pI⟩)
    from secp_mul_g_provisions]
  rfl

/-! ## Claim theorems: double-and-add refines naive repeated addition (C3) -/

/-- C3. Over a prime field, for every well-formed nonsingular point `P` and
every natural scalar `n`, the double-and-add loop of `FiniteCurve::mul`
computes exactly the `n`-fold repeated addition `naive_mul` of `ecc.rs`
(starting from `Infinity`); in particular `mul(P, 0) = Infinity` and
`mul(P, 1) = P`. -/
theorem claim_C3_mul_refines_naive (c : FiniteCurve) (hp : Nat.Prime c.pN)
    (hcp : c.p = (c.pN : Int)) (hap : c.a.p = c.p) (hbp2 : c.b.p = c.p)
    (P : Point) (hPw : P.wf c.p) (hPo : P.onW c) (n : Nat) :
    FiniteCurve.mul c P (n : Int) = naive_mul c P n
    ∧ FiniteCurve.mul c P 0 = some Point.infinity
    ∧ FiniteCurve.mul c P 1 = some P := by
  haveI := Fact.mk hp
  have hN0 : 0 < c.pN := hp.pos
  have main : ∀ m : Nat, FiniteCurve.mul c P (m : Int) = naive_mul c P m := by
    intro m
    obtain ⟨R1, h1eq, h1w, h1o, h1m⟩ := fcmul_bridge c hcp hap hbp2 P (m : Int)
      (Int.natCast_nonneg m) hPw hPo
    obtain ⟨R2, h2eq, h2w, h2o, h2m⟩ := naive_mul_bridge c hcp hap hbp2 P hPw hPo m
    rw [h1eq, h2eq]
    have : R1 = R2 := by
      refine toM_inj c hN0 R1 R2 h1w h2w h1o h2o hcp ?_
      rw [h1m, h2m, Int.toNat_natCast]
    rw [this]
  refine ⟨main n, ?_, ?_⟩
  · have h0 := main 0
    rw [Nat.cast_zero] at h0
    rw [h0]
    rfl
  · have h1 := main 1
    rw [Nat.cast_one] at h1
    rw [h1]
    show naive_mul c P 1 = some P
    cases P with
    | infinity => rfl
    | coordinate x y => rfl

/-- Witness for C3 on the curve `y^2 = x^3 + 2x + 3` over `F_97` at the
source's own test point `(3, 6)` with `n = 5`. -/
theorem claim_C3_witness :
    FiniteCurve.mul (FiniteCurve.new 2 3 97) ((FiniteCurve.new 2 3 97).point 3 6) ((5 : Nat) : Int)
      = naive_mul (FiniteCurve.new 2 3 97) ((FiniteCurve.new 2 3 97).point 3 6) 5 :=
  (claim_C3_mul_refines_naive (FiniteCurve.new 2 3 97) (by rw [show (FiniteCurve.new 2 3 97).pN = 97 from rfl]; norm_num)
    (by decide) (by decide) (by decide)
    ((FiniteCurve.new 2 3 97).point 3 6) (by decide)
    (by
      show (WeierstrassCurve.Affine.Nonsingular _ _ _)
      refine (WeierstrassCurve.Affine.nonsingular_iff _ _ _).mpr
        ⟨(WeierstrassCurve.Affine.equation_iff _ _ _).mpr (by decide), Or.inr (by decide)⟩)
    5).1

/-! ## Claim theorems: field-element reduction (C2) -/

/-- C2. Every `FieldElement` produced by the constructor or by the arithmetic
operations `add`, `sub`, `neg`, `mul`, `mulInt`, `pow`, `sqrt`, `inverse` and
`div` over a field with positive modulus has its value reduced into
`[0, modulus)` — in particular subtraction and negation of larger values
reduce with true mathematical (floor) modulo, not truncating remainder. -/
theorem claim_C2_fieldelement_reduced (a b : FieldElement) (v q n : Int)
    (hq : 0 < q) (ha : 0 < a.p) (hb : 0 < b.p) :
    (0 ≤ (FieldElement.new v q).value ∧ (FieldElement.new v q).value < (FieldElement.new v q).p)
    ∧ (0 ≤ (a.add b).value ∧ (a.add b).value < (a.add b).p)
    ∧ (0 ≤ (a.sub b).value ∧ (a.sub b).value < (a.sub b).p)
    ∧ (0 ≤ a.neg.value ∧ a.neg.value < a.neg.p)
    ∧ (0 ≤ (a.mul b).value ∧ (a.mul b).value < (a.mul b).p)
    ∧ (0 ≤ (a.mulInt n).value ∧ (a.mulInt n).value < (a.mulInt n).p)
    ∧ (0 ≤ (a.pow n).value ∧ (a.pow n).value < (a.pow n).p)
    ∧ (0 ≤ a.sqrt.value ∧ a.sqrt.value < a.sqrt.p)
    ∧ (∀ r, a.inverse = some r → 0 ≤ r.value ∧ r.value < r.p)
    ∧ (∀ r, a.div b = some r → 0 ≤ r.value ∧ r.value < r.p) := by
  have hqne : q ≠ 0 := ne_of_gt hq
  have hane : a.p ≠ 0 := ne_of_gt ha
  have hbne : b.p ≠ 0 := ne_of_gt hb
  refine ⟨⟨Int.emod_nonneg _ hqne, Int.emod_lt_of_pos _ hq⟩,
    ⟨Int.emod_nonneg _ hbne, Int.emod_lt_of_pos _ hb⟩,
    ⟨Int.emod_nonneg _ hbne, Int.emod_lt_of_pos _ hb⟩,
    ⟨Int.emod_nonneg _ hane, Int.emod_lt_of_pos _ ha⟩,
    ⟨Int.emod_nonneg _ hbne, Int.emod_lt_of_pos _ hb⟩,
    ⟨Int.emod_nonneg _ hane, Int.emod_lt_of_pos _ ha⟩,
    ⟨Int.emod_nonneg _ hane, Int.emod_lt_of_pos _ ha⟩,
    ⟨Int.emod_nonneg _ hane, Int.emod_lt_of_pos _ ha⟩,
    ?_, ?_⟩
  · intro r hr
    rw [FieldElement.inverse_eq_some hr]
    exact ⟨Int.emod_nonneg _ hane, Int.emod_lt_of_pos _ ha⟩
  · intro r hr
    unfold FieldElement.div at hr
    cases hbi : b.inverse with
    | none => rw [hbi] at hr; cases hr
    | some bi =>
      rw [hbi] at hr
      have hrp : r = a.mul bi := (Option.some.inj hr).symm
      have hbip : bi.p = b.p := by rw [FieldElement.inverse_eq_some hbi]; rfl
      subst hrp
      unfold FieldElement.mul
      rw [hbip]
      exact ⟨Int.emod_nonneg _ hbne, Int.emod_lt_of_pos _ hb⟩

/-- Witness for C2 at a concrete input. -/
theorem claim_C2_witness :
    0 ≤ (FieldElement.new 9 7).value ∧ (FieldElement.new 9 7).value < (FieldElement.new 9 7).p :=
  (claim_C2_fieldelement_reduced ⟨3, 7⟩ ⟨5, 7⟩ 9 7 2 (by decide) (by decide) (by decide)).1

/-! ## Claim theorems: scalar reduction in Point::mul (C10) -/

/-- C10. `Point::mul` reduces its scalar with `mod_floor` by the prime `p` of
the curve's coordinate field (not the subgroup order), so for every integer
scalar `k`, including negative ones, `P.mul(k) = P.mul(k mod p)`; by
contrast `FiniteCurve::mul` panics on every negative scalar. -/
theorem claim_C10_pointmul_reduces_mod_p (c : FiniteCurve) (P : Point) (k : Int) :
    Point.mul P k c = Point.mul P (k % c.p) c
    ∧ (∀ m : Int, m < 0 → FiniteCurve.mul c P m = none) := by
  constructor
  · unfold Point.mul
    rw [Int.emod_emod_of_dvd k (dvd_refl c.p)]
  · intro m hm
    unfold FiniteCurve.mul
    rw [if_pos hm]

/-- Witness for C10 at a concrete input. -/
theorem claim_C10_witness :
    (Point.mul Secp256k1.new.g (-5) Secp256k1.new.curve =
      Point.mul Secp256k1.new.g ((-5 : Int) % Secp256k1.new.curve.p) Secp256k1.new.curve)
    ∧ FiniteCurve.mul Secp256k1.new.curve Secp256k1.new.g (-5) = none :=
  ⟨(claim_C10_pointmul_reduces_mod_p Secp256k1.new.curve Secp256k1.new.g (-5)).1,
   (claim_C10_pointmul_reduces_mod_p Secp256k1.new.curve Secp256k1.new.g (-5)).2 (-5) (by decide)⟩

/-! ## Claim theorems: SEC decoding does not validate the curve equation (C5) -/

/-- C5 (code bug). Decoding the well-formed 65-byte uncompressed SEC encoding
of the off-curve pair `(x, y) = (1, 1)` on secp256k1 returns `Ok` with a
`Point` value even though the pair violates `y^2 = x^3 + a*x + b`
(`is_valid_point` rejects it); the spec requires decode to fail with an
`InvalidPoint` error, and the source's `FiniteCurve::point` carries a
`TODO: Verify point on curve` where the check should happen. -/
theorem claim_C5_from_sec_accepts_invalid_point :
    Point.from_sec
        ((4 : Nat) :: ((List.replicate 31 0 ++ [1]) ++ (List.replicate 31 0 ++ [1])))
        Secp256k1.new.curve
      = some (.ok (Secp256k1.new.curve.point 1 1))
    ∧ Secp256k1.new.curve.is_valid_point (Secp256k1.new.curve.point 1 1) = false := by
  constructor
  · decide
  · decide

/-! ## Claim theorems: public-key proof verification structure (C9) -/

/-- C9. `verify_pk_proof` accepts exactly when all three verification
equations hold, and otherwise returns the distinct named error of the first
failing equation: "Unable to verify proof part 1/2/3" for the equations
`b^r_s * h^r_v = p^c * a_1`, `y^r_s * h^r_t = l^c * a_2` and
`g^r_x_hat * h^r_t = l^c * a_3` respectively (as computed by
`pk_proof_checks`). -/
theorem claim_C9_verify_pk_proof_errors (poa : ProofOfAssets)
    (pp : ProverPublicKeyProof) (vp : VerifierPublicKeyProof) (u_1 u_2 u_3 u_4 c : Int) :
    (poa.verify_pk_proof pp vp u_1 u_2 u_3 u_4 c = some (.ok ()) ↔
      poa.pk_proof_checks pp vp u_1 u_2 u_3 u_4 c = some (true, true, true))
    ∧ (poa.verify_pk_proof pp vp u_1 u_2 u_3 u_4 c = some (.error "Unable to verify proof part 1") ↔
      ∃ b2 b3, poa.pk_proof_checks pp vp u_1 u_2 u_3 u_4 c = some (false, b2, b3))
    ∧ (poa.verify_pk_proof pp vp u_1 u_2 u_3 u_4 c = some (.error "Unable to verify proof part 2") ↔
      ∃ b3, poa.pk_proof_checks pp vp u_1 u_2 u_3 u_4 c = some (true, false, b3))
    ∧ (poa.verify_pk_proof pp vp u_1 u_2 u_3 u_4 c = some (.error "Unable to verify proof part 3") ↔
      poa.pk_proof_checks pp vp u_1 u_2 u_3 u_4 c = some (true, true, false)) := by
  unfold ProofOfAssets.verify_pk_proof
  cases hc : poa.pk_proof_checks pp vp u_1 u_2 u_3 u_4 c with
  | none => simp
  | some t =>
    obtain ⟨b1, b2, b3⟩ := t
    cases b1 <;> cases b2 <;> cases b3 <;> simp

/-! ## Claim C4: Pedersen commitment homomorphism -/

/-- C4 (amended). Pedersen commitments are homomorphic for nonnegative
scalars whose sums stay below the coordinate-field prime `p` (the original
claim over arbitrary scalars is false, because `Point::mul` reduces scalars
modulo `p` rather than the group order `n` — see the counterexample): on a
prime-field curve with well-formed nonsingular generators, the point-wise
sum of `create_commitment(g, h, x1, r1)` and `create_commitment(g, h, x2, r2)`
equals the commitment of `(x1 + x2, r1 + r2)`. -/
theorem claim_C4_pedersen_homomorphism (c : Secp256k1) (hp : Nat.Prime c.curve.pN)
    (hcp : c.curve.p = (c.curve.pN : Int)) (hap : c.curve.a.p = c.curve.p)
    (hbp2 : c.curve.b.p = c.curve.p)
    (g h : Point) (hgw : g.wf c.curve.p) (hhw : h.wf c.curve.p)
    (hgo : g.onW c.curve) (hho : h.onW c.curve)
    (x1 r1 x2 r2 : Int) (hx1 : 0 ≤ x1) (hr1 : 0 ≤ r1) (hx2 : 0 ≤ x2) (hr2 : 0 ≤ r2)
    (hxs : x1 + x2 < c.curve.p) (hrs : r1 + r2 < c.curve.p) :
    ∃ c1 c2 c12 s,
      PedersenCommitment.create_commitment g h c x1 r1 = some c1 ∧
      PedersenCommitment.create_commitment g h c x2 r2 = some c2 ∧
      PedersenCommitment.create_commitment g h c (x1 + x2) (r1 + r2) = some c12 ∧
      Point.add c1.l c2.l c.curve = some s ∧ s = c12.l := by
  haveI := Fact.mk hp
  have hppos : (0 : Int) < c.curve.p := by
    rw [hcp]
    exact_mod_cast hp.pos
  obtain ⟨g1, hg1, hg1w, hg1o, hg1m⟩ := pmul_bridge c.curve hcp hap hbp2 g x1 hgw hgo
  obtain ⟨h1, hh1, hh1w, hh1o, hh1m⟩ := pmul_bridge c.curve hcp hap hbp2 h r1 hhw hho
  obtain ⟨g2, hg2, hg2w, hg2o, hg2m⟩ := pmul_bridge c.curve hcp hap hbp2 g x2 hgw hgo
  obtain ⟨h2, hh2, hh2w, hh2o, hh2m⟩ := pmul_bridge c.curve hcp hap hbp2 h r2 hhw hho
  obtain ⟨g12, hg12, hg12w, hg12o, hg12m⟩ :=
    pmul_bridge c.curve hcp hap hbp2 g (x1 + x2) hgw hgo
  obtain ⟨h12, hh12, hh12w, hh12o, hh12m⟩ :=
    pmul_bridge c.curve hcp hap hbp2 h (r1 + r2) hhw hho
  obtain ⟨l1, hl1, hl1w, hl1o, hl1m⟩ := add_bridge c.curve hcp hap hbp2 g1 h1 hg1w hh1w hg1o hh1o
  obtain ⟨l2, hl2, hl2w, hl2o, hl2m⟩ := add_bridge c.curve hcp hap hbp2 g2 h2 hg2w hh2w hg2o hh2o
  obtain ⟨l12, hl12, hl12w, hl12o, hl12m⟩ :=
    add_bridge c.curve hcp hap hbp2 g12 h12 hg12w hh12w hg12o hh12o
  obtain ⟨s, hs, hsw, hso, hsm⟩ := add_bridge c.curve hcp hap hbp2 l1 l2 hl1w hl2w hl1o hl2o
  refine ⟨⟨g, h, l1⟩, ⟨g, h, l2⟩, ⟨g, h, l12⟩, s, ?_, ?_, ?_, hs, ?_⟩
  · unfold PedersenCommitment.create_commitment
    rw [hg1, hh1]
    dsimp only
    rw [hl1]
  · unfold PedersenCommitment.create_commitment
    rw [hg2, hh2]
    dsimp only
    rw [hl2]
  · unfold PedersenCommitment.create_commitment
    rw [hg12, hh12]
    dsimp only
    rw [hl12]
  · show s = l12
    refine toM_inj c.curve hp.pos s l12 hsw hl12w hso hl12o hcp ?_
    rw [hsm, hl1m, hl2m, hl12m, hg1m, hh1m, hg2m, hh2m, hg12m, hh12m]
    rw [Int.emod_eq_of_lt hx1 (by omega), Int.emod_eq_of_lt hr1 (by omega),
      Int.emod_eq_of_lt hx2 (by omega), Int.emod_eq_of_lt hr2 (by omega),
      Int.emod_eq_of_lt (by omega) hxs, Int.emod_eq_of_lt (by omega) hrs,
      Int.toNat_add hx1 hx2, Int.toNat_add hr1 hr2, add_nsmul, add_nsmul]
    abel

/-- Witness for C4 on the curve `y^2 = x^3 + 2x + 3` over `F_97` with
`g = h = (3, 6)` and `x1 = r1 = x2 = r2 = 1`. -/
theorem claim_C4_witness :
    ∃ c1 c2 c12 s,
      PedersenCommitment.create_commitment ((FiniteCurve.new 2 3 97).point 3 6)
        ((FiniteCurve.new 2 3 97).point 3 6)
        ⟨FiniteCurve.new 2 3 97, (FiniteCurve.new 2 3 97).point 3 6, 5⟩ 1 1 = some c1 ∧
      PedersenCommitment.create_commitment ((FiniteCurve.new 2 3 97).point 3 6)
        ((FiniteCurve.new 2 3 97).point 3 6)
        ⟨FiniteCurve.new 2 3 97, (FiniteCurve.new 2 3 97).point 3 6, 5⟩ 1 1 = some c2 ∧
      PedersenCommitment.create_commitment ((FiniteCurve.new 2 3 97).point 3 6)
        ((FiniteCurve.new 2 3 97).point 3 6)
        ⟨FiniteCurve.new 2 3 97, (FiniteCurve.new 2 3 97).point 3 6, 5⟩ (1 + 1) (1 + 1)
        = some c12 ∧
      Point.add c1.l c2.l (FiniteCurve.new 2 3 97) = some s ∧ s = c12.l :=
  claim_C4_pedersen_homomorphism
    ⟨FiniteCurve.new 2 3 97, (FiniteCurve.new 2 3 97).point 3 6, 5⟩
    (by rw [show (FiniteCurve.new 2 3 97).pN = 97 from rfl]; norm_num)
    (by decide) (by decide) (by decide)
    ((FiniteCurve.new 2 3 97).point 3 6) ((FiniteCurve.new 2 3 97).point 3 6)
    (by decide) (by decide)
    (by
      show (WeierstrassCurve.Affine.Nonsingular _ _ _)
      refine (WeierstrassCurve.Affine.nonsingular_iff _ _ _).mpr
        ⟨(WeierstrassCurve.Affine.equation_iff _ _ _).mpr (by decide), Or.inr (by decide)⟩)
    (by
      show (WeierstrassCurve.Affine.Nonsingular _ _ _)
      refine (WeierstrassCurve.Affine.nonsingular_iff _ _ _).mpr
        ⟨(WeierstrassCurve.Affine.equation_iff _ _ _).mpr (by decide), Or.inr (by decide)⟩)
    1 1 1 1 (by decide) (by decide) (by decide) (by decide) (by decide) (by decide)

/-- The shape of a successful `PedersenCommitment::create_commitment`: when
both scalar multiplications and the point addition succeed, the commitment
is `⟨g, h, l⟩`. Keeping the points abstract here lets concrete instances be
assembled from already-established multiplication facts. -/
theorem create_commitment_some (g h : Point) (c : Secp256k1) (v r : Int)
    (gb hb l : Point)
    (h1 : Point.mul g v c.curve = some gb)
    (h2 : Point.mul h r c.curve = some hb)
    (h3 : Point.add gb hb c.curve = some l) :
    PedersenCommitment.create_commitment g h c v r = some ⟨g, h, l⟩ := by
  simp only [PedersenCommitment.create_commitment, h1, h2, h3]

/-- Counterexample for C4 as originally stated (arbitrary scalars): with
`g = h = G` on secp256k1, `x1 = -n`, `r1 = 0`, `x2 = n`, `r2 = 0`
(`n` the group order), the point-wise sum of the two commitments is
`(p - n) * G`, a finite point, while the commitment to
`(x1 + x2, r1 + r2) = (0, 0)` is `Infinity`. The root cause is that
`Point::mul` reduces scalars modulo the field prime `p`, not the group
order `n`. -/
theorem claim_C4_counterexample :
    ∃ c1 c2 c12 s,
      PedersenCommitment.create_commitment Secp256k1.new.g Secp256k1.new.g Secp256k1.new
        (-secp_nI) 0 = some c1 ∧
      PedersenCommitment.create_commitment Secp256k1.new.g Secp256k1.new.g Secp256k1.new
        secp_nI 0 = some c2 ∧
      PedersenCommitment.create_commitment Secp256k1.new.g Secp256k1.new.g Secp256k1.new
        (-secp_nI + secp_nI) (0 + 0) = some c12 ∧
      Point.add c1.l c2.l Secp256k1.new.curve = some s ∧
      s ≠ c12.l := by
  refine ⟨⟨Secp256k1.new.g, Secp256k1.new.g, .coordinate
      ⟨0xb42b34a9748238715c0b8b853b6939aabc3b5224bcdd4b4b65e902417e7af914, secp_pI⟩
      ⟨0xc1064ce5dfb9e0247fa170896d939c3b87404dca2f648560936138086ac129e9, secp_pI⟩⟩,
    ⟨Secp256k1.new.g, Secp256k1.new.g, .infinity⟩,
    ⟨Secp256k1.new.g, Secp256k1.new.g, .infinity⟩,
    .coordinate
      ⟨0xb42b34a9748238715c0b8b853b6939aabc3b5224bcdd4b4b65e902417e7af914, secp_pI⟩
      ⟨0xc1064ce5dfb9e0247fa170896d939c3b87404dca2f648560936138086ac129e9, secp_pI⟩,
    ?_, ?_, ?_, ?_, ?_⟩
  · exact create_commitment_some _ _ _ _ _
      (.coordinate
        ⟨0xb42b34a9748238715c0b8b853b6939aabc3b5224bcdd4b4b65e902417e7af914, secp_pI⟩
        ⟨0xc1064ce5dfb9e0247fa170896d939c3b87404dca2f648560936138086ac129e9, secp_pI⟩)
      .infinity _ secp_mul_negnG (by decide) (by decide)
  · exact create_commitment_some _ _ _ _ _ .infinity .infinity _ secp_mul_nG
      (by decide) (by decide)
  · exact create_commitment_some _ _ _ _ _ .infinity .infinity _
      (by decide) (by decide) (by decide)
  · show Point.add _ Point.infinity Secp256k1.new.curve = _
    decide
  · decide

/-! ## Claim C8: the Provisions second generator -/

/-- C8 (amended). The second generator `h` built by `ProvisionsCurve::new`
is not produced by `hash_onto_curve`: it is the scalar multiple
`provisions_sha256 * G` of the base point (with the concrete coordinates
below), so its discrete logarithm with respect to `G` is the hard-coded
constant. -/
theorem claim_C8_h_is_g_multiple :
    ∃ pc : ProvisionsCurve, ProvisionsCurve.new = some pc ∧
      pc.curve = Secp256k1.new ∧
      Secp256k1.new.mul_g provisions_sha256 = some pc.h ∧
      pc.h = .coordinate
        ⟨0x8a0d7d6bb024b7e1456e217c41b2fd6ee8d8fdcc44dc90b6ac00f96c7e30562f, secp_pI⟩
        ⟨0x6138aeb39666c8ff177ffeb7f51843364e47919e7e1b9efc5b63f8f972c9d3d2, secp_pI⟩ := by
  refine ⟨⟨Secp256k1.new, .coordinate
      ⟨0x8a0d7d6bb024b7e1456e217c41b2fd6ee8d8fdcc44dc90b6ac00f96c7e30562f, secp_pI⟩
      ⟨0x6138aeb39666c8ff177ffeb7f51843364e47919e7e1b9efc5b63f8f972c9d3d2, secp_pI⟩⟩,
    provisions_curve_new_eq, rfl, ?_, rfl⟩
  exact secp_mul_g_provisions

/-- Counterexample for C8 as stated: the `h` constructed by
`ProvisionsCurve::new` differs from the point that `hash_onto_curve` would
produce on the same hash value (whose x-coordinate is the hash reduced into
the field). -/
theorem claim_C8_counterexample :
    ∃ pc hp, ProvisionsCurve.new = some pc ∧
      Secp256k1.new.hash_onto_curve_hashed provisions_sha256 = some hp ∧
      pc.h ≠ hp := by
  refine ⟨⟨Secp256k1.new, .coordinate
      ⟨0x8a0d7d6bb024b7e1456e217c41b2fd6ee8d8fdcc44dc90b6ac00f96c7e30562f, secp_pI⟩
      ⟨0x6138aeb39666c8ff177ffeb7f51843364e47919e7e1b9efc5b63f8f972c9d3d2, secp_pI⟩⟩,
    .coordinate
      ⟨0x7982ad72bd36e6f2a1b65cc0f14a1610c7822a6d1efff818ab95a3ba1793847f, secp_pI⟩
      ⟨0x13605a0dbe37ffdcc27f03f4c9f0e2d3db30f2dd96965f838c07e39e5768a466, secp_pI⟩,
    provisions_curve_new_eq, by decide, by decide⟩

/-! ## Claim C7: binary-commitment verification, positive cases -/

/-- C7. Contrary to the claim, `verify_binary_commitment` does not accept
both honest cases: on the real Provisions curve, with the code's own
commitment `l = y^s * h^t` (public key `y = 1 * G`, blinding `t = 1`,
prover randomness `u_0 = u_1 = c_f = 1`, challenge `c = 2`), the honest
`x = 0` proof is accepted, but the honest `x = 1` proof is rejected with
the part-1 error: in the `has_privkey` branch the simulated commitment
`a_0 = h^u_0 - g^c_f` and response `r_0 = u_0 - c_f*t` do not satisfy
`h^r_0 = a_0 + l*(c - c_1)`. -/
theorem claim_C7_binary_commitment_x1_rejected :
    ∃ pc y1 l0 l1,
      ProvisionsCurve.new = some pc ∧
      pc.pubkey 1 = some y1 ∧
      (PublicKey.mk none y1 0).l pc 1 = some (l0, 1) ∧
      (PublicKey.mk (some 1) y1 0).l pc 1 = some (l1, 1) ∧
      ProofOfAssets.verify_binary_commitment ⟨pc⟩ ⟨y1, y1, y1, 0, l0, 1, 0, 0⟩
        ⟨y1, y1, y1, l0⟩ 1 1 1 2 = some (.ok ()) ∧
      ProofOfAssets.verify_binary_commitment ⟨pc⟩ ⟨y1, y1, y1, 0, l1, 1, 1, 1⟩
        ⟨y1, y1, y1, l1⟩ 1 1 1 2 = some (.error "Unable to verify proof part 1") := by
  refine ⟨⟨Secp256k1.new, .coordinate
      ⟨0x8a0d7d6bb024b7e1456e217c41b2fd6ee8d8fdcc44dc90b6ac00f96c7e30562f, secp_pI⟩
      ⟨0x6138aeb39666c8ff177ffeb7f51843364e47919e7e1b9efc5b63f8f972c9d3d2, secp_pI⟩⟩,
    Secp256k1.new.g,
    .coordinate
      ⟨0x8a0d7d6bb024b7e1456e217c41b2fd6ee8d8fdcc44dc90b6ac00f96c7e30562f, secp_pI⟩
      ⟨0x6138aeb39666c8ff177ffeb7f51843364e47919e7e1b9efc5b63f8f972c9d3d2, secp_pI⟩,
    .coordinate
      ⟨0x1d17f61ede9e260fb46f528b4b0f8d5116ca096ed0f0a7d42576f0168f19624e, secp_pI⟩
      ⟨0x171f020e845e822fd7d41bf4e0acf96f5261536b58c9ae3e22e33b1ecc0f9016, secp_pI⟩,
    provisions_curve_new_eq, by decide, by decide, by decide, by decide, by decide⟩

/-! ## Claim C1: ECDSA completeness -/

/-- C1. ECDSA completeness on the embedded secp256k1 signer: for every
message-hash scalar `z`, nonce `k` with `1 <= k < n` coprime to `n`, and
private key `priv` with `1 <= priv < n`, if `sign(z, k, priv)` succeeds
then the public key `priv * G` exists and `verify` accepts the signature. -/
theorem claim_C1_ecdsa_completeness (z k priv : Int) (sig : Sig)
    (hk1 : 1 ≤ k) (hkn : k < secp_nI) (hkg : Nat.gcd k.toNat secp_nI.toNat = 1)
    (hpv1 : 1 ≤ priv) (hpvn : priv < secp_nI)
    (hsig : Signer.new.sign z k priv = some sig) :
    ∃ pub, Secp256k1.new.pubkey priv = some pub ∧
      Signer.new.verify sig pub = some true := by
  haveI : Fact (Nat.Prime (Secp256k1.new.curve).pN) := ⟨secp_curve_prime⟩
  have hcp := secp_curve_wf.1
  have hap := secp_curve_wf.2.1
  have hbp2 := secp_curve_wf.2.2
  have hnpos : (0 : Int) < secp_nI := by decide
  have hnp : secp_nI < Secp256k1.new.curve.p := by decide
  have hnc : secp_nI = ((secp_nI.toNat : Nat) : Int) := by decide
  have hnN : Nat.Prime secp_nI.toNat := by
    rw [show secp_nI.toNat =
      115792089237316195423570985008687907852837564279074904382605163141518161494337
      from rfl]
    exact secp_n_prime
  have hkp : k < Secp256k1.new.curve.p := lt_trans hkn hnp
  have hpvp : priv < Secp256k1.new.curve.p := lt_trans hpvn hnp
  -- destructure the successful signing run
  unfold Signer.sign at hsig
  cases hmg : Signer.new.curve.mul_g k with
  | none =>
    rw [hmg] at hsig
    cases hsig
  | some R =>
  rw [hmg] at hsig
  dsimp only at hsig
  cases R with
  | infinity =>
    unfold Signer.compute_r at hsig
    dsimp only at hsig
    cases hsig
  | coordinate Rx Ry =>
  unfold Signer.compute_r at hsig
  dsimp only at hsig
  split_ifs at hsig with hr0
  dsimp only at hsig
  cases hki : (Signer.new.elem k).inverse with
  | none =>
    rw [hki] at hsig
    cases hsig
  | some ki =>
  rw [hki] at hsig
  dsimp only at hsig
  split_ifs at hsig with hsvz
  have hsig' := Option.some.inj hsig
  subst hsig'
  -- basic facts about subgroup field elements
  have helem0 : ∀ v : Int, 0 ≤ (Signer.new.elem v).value := by
    intro v
    show 0 ≤ v % secp_nI
    exact Int.emod_nonneg _ (by omega)
  have helemN : ∀ v : Int, (Signer.new.elem v).value < secp_nI := by
    intro v
    show v % secp_nI < secp_nI
    exact Int.emod_lt_of_pos _ hnpos
  have hcast_elem : ∀ v : Int,
      (((Signer.new.elem v).value : Int) : ZMod secp_nI.toNat) = (v : ZMod secp_nI.toNat) := by
    intro v
    show (((v % secp_nI : Int)) : ZMod secp_nI.toNat) = _
    have h1 : v % secp_nI = v % ((secp_nI.toNat : Nat) : Int) := by rw [← hnc]
    rw [h1, ZMod.intCast_mod]
  -- pieces of the signature
  have hki_props := inverse_some_props hki (helem0 k) (by show 1 < secp_nI; omega)
  obtain ⟨hki_mul, hki_p, hki_0, hki_N, -⟩ := hki_props
  have hsv0 : 0 ≤ (ki.mul ((Signer.new.elem z).add
      ((Signer.new.elem Rx.value).mul (Signer.new.elem priv)))).value := by
    show 0 ≤ (ki.value * ((Signer.new.elem z).add
      ((Signer.new.elem Rx.value).mul (Signer.new.elem priv))).value) % secp_nI
    exact Int.emod_nonneg _ (by omega)
  have hsvN : (ki.mul ((Signer.new.elem z).add
      ((Signer.new.elem Rx.value).mul (Signer.new.elem priv)))).value < secp_nI := by
    show (ki.value * ((Signer.new.elem z).add
      ((Signer.new.elem Rx.value).mul (Signer.new.elem priv))).value) % secp_nI < secp_nI
    exact Int.emod_lt_of_pos _ hnpos
  have hsv_gcd : Nat.gcd (ki.mul ((Signer.new.elem z).add
      ((Signer.new.elem Rx.value).mul (Signer.new.elem priv)))).value.toNat
      secp_nI.toNat = 1 := by
    refine gcd_one_of_nonzero_lt hnN hsv0 hsvz ?_
    rw [← hnc]
    exact hsvN
  obtain ⟨si, hsi_eq, hsi_mul, hsi_p, hsi_0, hsi_N⟩ :=
    inverse_some_of_coprime (ki.mul ((Signer.new.elem z).add
      ((Signer.new.elem Rx.value).mul (Signer.new.elem priv))))
      (by show 1 < secp_nI; omega) hsv0
      (by
        show Nat.gcd _ secp_nI.toNat = 1
        exact hsv_gcd)
  -- bridge the sign-side point R = k * G
  obtain ⟨R0, hR0eq, hR0w, hR0o, hR0m⟩ := pmul_bridge Secp256k1.new.curve hcp hap hbp2
    Secp256k1.new.g k secp_g_wf secp_g_onW
  have hR0co : R0 = Point.coordinate Rx Ry := Option.some.inj ((hR0eq.symm.trans hmg))
  subst hR0co
  -- public key
  obtain ⟨pub, hpub, hpubw, hpubo, hpubm⟩ := fcmul_bridge Secp256k1.new.curve hcp hap hbp2
    Secp256k1.new.g priv (by omega) secp_g_wf secp_g_onW
  refine ⟨pub, hpub, ?_⟩
  -- bridge the verify-side points
  obtain ⟨p1, hp1eq, hp1w, hp1o, hp1m⟩ := pmul_bridge Secp256k1.new.curve hcp hap hbp2
    Secp256k1.new.g (si.mul (Signer.new.elem z)).value secp_g_wf secp_g_onW
  obtain ⟨p2, hp2eq, hp2w, hp2o, hp2m⟩ := pmul_bridge Secp256k1.new.curve hcp hap hbp2
    pub (si.mul (Signer.new.elem Rx.value)).value hpubw hpubo
  obtain ⟨pf, hpfeq, hpfw, hpfo, hpfm⟩ := add_bridge Secp256k1.new.curve hcp hap hbp2
    p1 p2 hp1w hp2w hp1o hp2o
  -- the group-order annihilation fact
  obtain ⟨Rn, hRneq, hRnw, hRno, hRnm⟩ := pmul_bridge Secp256k1.new.curve hcp hap hbp2
    Secp256k1.new.g secp_nI secp_g_wf secp_g_onW
  have hRninf : Rn = Point.infinity := Option.some.inj (hRneq.symm.trans secp_mul_nG)
  subst hRninf
  have horder : secp_nI.toNat •
      Point.toM Secp256k1.new.curve Secp256k1.new.g secp_g_onW = 0 := by
    have h0 : Point.toM Secp256k1.new.curve Point.infinity hRno = 0 := rfl
    rw [h0] at hRnm
    rw [show secp_nI % Secp256k1.new.curve.p = secp_nI from by decide] at hRnm
    exact hRnm.symm
  have hzero_mul : ∀ q : Nat, (secp_nI.toNat * q) •
      Point.toM Secp256k1.new.curve Secp256k1.new.g secp_g_onW = 0 := by
    intro q
    induction q with
    | zero => rw [Nat.mul_zero, zero_nsmul]
    | succ q ih => rw [Nat.mul_succ, add_nsmul, ih, horder, add_zero]
  have hsmul_mod : ∀ m : Nat, m •
      Point.toM Secp256k1.new.curve Secp256k1.new.g secp_g_onW =
      (m % secp_nI.toNat) •
      Point.toM Secp256k1.new.curve Secp256k1.new.g secp_g_onW := by
    intro m
    conv_lhs => rw [← Nat.div_add_mod m secp_nI.toNat]
    rw [add_nsmul, hzero_mul, zero_add]
  -- the scalar congruence in ZMod n
  have hbz : (Signer.new.elem z).p = ((secp_nI.toNat : Nat) : Int) := by
    rw [← hnc]
    rfl
  have hbr : (Signer.new.elem Rx.value).p = ((secp_nI.toNat : Nat) : Int) := by
    rw [← hnc]
    rfl
  have hbpe : (Signer.new.elem priv).p = ((secp_nI.toNat : Nat) : Int) := by
    rw [← hnc]
    rfl
  have hbA : ((Signer.new.elem z).add
      ((Signer.new.elem Rx.value).mul (Signer.new.elem priv))).p =
      ((secp_nI.toNat : Nat) : Int) := by
    rw [← hnc]
    rfl
  have hKI : ((k : Int) : ZMod secp_nI.toNat) * ((ki.value : Int) : ZMod secp_nI.toNat) = 1 := by
    have h1 : ((Signer.new.elem k).value * ki.value) % secp_nI = 1 % secp_nI := hki_mul
    rw [hnc] at h1
    have h2 := congrArg (fun t : Int => ((t : Int) : ZMod secp_nI.toNat)) h1
    dsimp only at h2
    rw [ZMod.intCast_mod, ZMod.intCast_mod] at h2
    push_cast at h2
    rw [hcast_elem k] at h2
    linear_combination h2
  have hSI : (((ki.mul ((Signer.new.elem z).add
      ((Signer.new.elem Rx.value).mul (Signer.new.elem priv)))).value : Int) :
        ZMod secp_nI.toNat) * ((si.value : Int) : ZMod secp_nI.toNat) = 1 := by
    have h1 : ((ki.mul ((Signer.new.elem z).add
        ((Signer.new.elem Rx.value).mul (Signer.new.elem priv)))).value * si.value) % secp_nI
        = 1 % secp_nI := hsi_mul
    rw [hnc] at h1
    have h2 := congrArg (fun t : Int => ((t : Int) : ZMod secp_nI.toNat)) h1
    dsimp only at h2
    rw [ZMod.intCast_mod, ZMod.intCast_mod] at h2
    push_cast at h2
    linear_combination h2
  have hSV : (((ki.mul ((Signer.new.elem z).add
      ((Signer.new.elem Rx.value).mul (Signer.new.elem priv)))).value : Int) :
        ZMod secp_nI.toNat) =
      ((ki.value : Int) : ZMod secp_nI.toNat) *
        ((z : ZMod secp_nI.toNat) +
          (((Signer.new.elem Rx.value).value : Int) : ZMod secp_nI.toNat) *
            (priv : ZMod secp_nI.toNat)) := by
    rw [cast_mul_fe ki ((Signer.new.elem z).add
      ((Signer.new.elem Rx.value).mul (Signer.new.elem priv))) hbA]
    rw [cast_add_fe (Signer.new.elem z)
      ((Signer.new.elem Rx.value).mul (Signer.new.elem priv))
      (by
        rw [← hnc]
        rfl : ((Signer.new.elem Rx.value).mul (Signer.new.elem priv)).p =
        ((secp_nI.toNat : Nat) : Int))]
    rw [cast_mul_fe (Signer.new.elem Rx.value) (Signer.new.elem priv) hbpe]
    rw [hcast_elem z, hcast_elem priv]
  have hU1 : (((si.mul (Signer.new.elem z)).value : Int) : ZMod secp_nI.toNat) =
      ((si.value : Int) : ZMod secp_nI.toNat) * (z : ZMod secp_nI.toNat) := by
    rw [cast_mul_fe si (Signer.new.elem z) hbz, hcast_elem z]
  have hU2 : (((si.mul (Signer.new.elem Rx.value)).value : Int) : ZMod secp_nI.toNat) =
      ((si.value : Int) : ZMod secp_nI.toNat) *
        (((Signer.new.elem Rx.value).value : Int) : ZMod secp_nI.toNat) :=
    cast_mul_fe si (Signer.new.elem Rx.value) hbr
  have hnn : ∀ v : Int, 0 ≤ v →
      ((v.toNat : Nat) : ZMod secp_nI.toNat) = ((v : Int) : ZMod secp_nI.toNat) := by
    intro v hv
    rw [← Int.cast_natCast, Int.toNat_of_nonneg hv]
  have hu1_0 : 0 ≤ (si.mul (Signer.new.elem z)).value := by
    show 0 ≤ (si.value * (Signer.new.elem z).value) % secp_nI
    exact Int.emod_nonneg _ (by omega)
  have hu1_N : (si.mul (Signer.new.elem z)).value < secp_nI := by
    show (si.value * (Signer.new.elem z).value) % secp_nI < secp_nI
    exact Int.emod_lt_of_pos _ hnpos
  have hu2_0 : 0 ≤ (si.mul (Signer.new.elem Rx.value)).value := by
    show 0 ≤ (si.value * (Signer.new.elem Rx.value).value) % secp_nI
    exact Int.emod_nonneg _ (by omega)
  have hu2_N : (si.mul (Signer.new.elem Rx.value)).value < secp_nI := by
    show (si.value * (Signer.new.elem Rx.value).value) % secp_nI < secp_nI
    exact Int.emod_lt_of_pos _ hnpos
  have hcongr : ((si.mul (Signer.new.elem z)).value.toNat +
      priv.toNat * (si.mul (Signer.new.elem Rx.value)).value.toNat) ≡ k.toNat
      [MOD secp_nI.toNat] := by
    apply (ZMod.natCast_eq_natCast_iff _ _ _).mp
    rw [Nat.cast_add, Nat.cast_mul]
    rw [hnn _ hu1_0, hnn _ hu2_0,
      hnn _ (by omega : (0:Int) ≤ priv),
      hnn _ (by omega : (0:Int) ≤ k)]
    rw [hU1, hU2]
    have hA1 : ((ki.value : Int) : ZMod secp_nI.toNat) *
        ((z : ZMod secp_nI.toNat) +
          (((Signer.new.elem Rx.value).value : Int) : ZMod secp_nI.toNat) *
            (priv : ZMod secp_nI.toNat)) *
        ((si.value : Int) : ZMod secp_nI.toNat) = 1 := by
      linear_combination (-(((si.value : Int) : ZMod secp_nI.toNat))) * hSV + hSI
    linear_combination ((k : Int) : ZMod secp_nI.toNat) * hA1 -
      ((si.value : Int) : ZMod secp_nI.toNat) *
        ((z : ZMod secp_nI.toNat) +
          (((Signer.new.elem Rx.value).value : Int) : ZMod secp_nI.toNat) *
            (priv : ZMod secp_nI.toNat)) * hKI
  -- identify the verify-side point with the sign-side point
  have hMsmul : Point.toM Secp256k1.new.curve pf hpfo =
      ((si.mul (Signer.new.elem z)).value.toNat +
        priv.toNat * (si.mul (Signer.new.elem Rx.value)).value.toNat) •
      Point.toM Secp256k1.new.curve Secp256k1.new.g secp_g_onW := by
    rw [hpfm, hp1m, hp2m, hpubm]
    rw [Int.emod_eq_of_lt hu1_0 (lt_trans hu1_N hnp),
      Int.emod_eq_of_lt hu2_0 (lt_trans hu2_N hnp)]
    rw [← mul_nsmul (Point.toM Secp256k1.new.curve Secp256k1.new.g secp_g_onW)
      priv.toNat (si.mul (Signer.new.elem Rx.value)).value.toNat]
    rw [← add_nsmul]
  have hRside : Point.toM Secp256k1.new.curve (Point.coordinate Rx Ry) hR0o =
      k.toNat • Point.toM Secp256k1.new.curve Secp256k1.new.g secp_g_onW := by
    rw [hR0m, Int.emod_eq_of_lt (by omega) hkp]
  have hfinal : Point.toM Secp256k1.new.curve pf hpfo =
      Point.toM Secp256k1.new.curve (Point.coordinate Rx Ry) hR0o := by
    rw [hMsmul, hRside, hsmul_mod ((si.mul (Signer.new.elem z)).value.toNat +
      priv.toNat * (si.mul (Signer.new.elem Rx.value)).value.toNat),
      hsmul_mod k.toNat, hcongr]
  have hpfRC : pf = Point.coordinate Rx Ry :=
    toM_inj Secp256k1.new.curve secp_curve_prime.pos pf (Point.coordinate Rx Ry)
      hpfw hR0w hpfo hR0o hcp hfinal
  -- run the verifier
  unfold Signer.verify
  dsimp only
  rw [hsi_eq]
  dsimp only
  rw [show Signer.new.curve.mul_g ((si.mul (Signer.new.elem z)).value) = some p1 from hp1eq]
  dsimp only
  rw [show Point.mul pub ((si.mul (Signer.new.elem Rx.value)).value)
    Signer.new.curve.curve = some p2 from hp2eq]
  dsimp only
  rw [show Point.add p1 p2 Signer.new.curve.curve = some pf from hpfeq]
  dsimp only
  rw [hpfRC]
  unfold Signer.compute_r
  dsimp only
  rw [if_neg hr0]
  simp


/-- Witness for C1 at `z = 2`, `k = 20`, `priv = 1` with the concrete
signature produced by the embedded signer. -/
theorem claim_C1_witness :
    ∃ pub, Secp256k1.new.pubkey 1 = some pub ∧
      Signer.new.verify ⟨⟨2, secp_nI⟩,
        ⟨0x4ce119c96e2fa357200b559b2f7dd5a5f02d5290aff74b03f3e471b273211c97, secp_nI⟩,
        ⟨0x2a3e747d458261c45b33c447c25fe4481b361876a317422f8f5e2d77a4fcfe6b, secp_nI⟩⟩ pub
        = some true :=
  claim_C1_ecdsa_completeness 2 20 1
    ⟨⟨2, secp_nI⟩,
      ⟨0x4ce119c96e2fa357200b559b2f7dd5a5f02d5290aff74b03f3e471b273211c97, secp_nI⟩,
      ⟨0x2a3e747d458261c45b33c447c25fe4481b361876a317422f8f5e2d77a4fcfe6b, secp_nI⟩⟩
    (by decide) (by decide) (by decide) (by decide) (by decide) (by decide)


/-! ## Claim C6: SEC encoding round trip -/

/-- `bytes32BE` always produces 32 bytes. -/
theorem bytes32BE_length (v : Int) : (bytes32BE v).length = 32 := by
  simp [bytes32BE]

/-- Big-endian digit fold recovers the encoded natural number. -/
theorem beFoldNat (k : Nat) : ∀ (n acc : Nat), n < 256 ^ k →
    List.foldl (fun a d => a * 256 + d) acc
      ((List.range k).map fun i => n / 256 ^ (k - 1 - i) % 256) = acc * 256 ^ k + n := by
  induction k with
  | zero =>
    intro n acc h
    simp only [List.range_zero, List.map_nil, List.foldl_nil, pow_zero]
    omega
  | succ k ih =>
    intro n acc h
    rw [List.range_succ, List.map_append, List.foldl_append]
    have hmap : (List.range k).map (fun i => n / 256 ^ (k + 1 - 1 - i) % 256) =
        (List.range k).map (fun i => (n / 256) / 256 ^ (k - 1 - i) % 256) := by
      refine List.map_congr_left ?_
      intro i hi
      rw [List.mem_range] at hi
      have hix : k + 1 - 1 - i = (k - 1 - i) + 1 := by omega
      rw [hix, Nat.div_div_eq_div_mul, pow_succ']
    rw [hmap, ih (n / 256) acc (by
      have h2 : n < 256 ^ k * 256 := by
        rw [← pow_succ]
        exact h
      exact (Nat.div_lt_iff_lt_mul (by norm_num)).mpr h2)]
    simp only [List.map_cons, List.map_nil, List.foldl_cons, List.foldl_nil]
    rw [show k + 1 - 1 - k = 0 from by omega, pow_zero, Nat.div_one]
    have hgen : ∀ C : Nat, (C + n / 256) * 256 + n % 256 = C * 256 + n := by
      intro C
      omega
    rw [pow_succ, ← mul_assoc]
    exact hgen (acc * 256 ^ k)

/-- The integer byte fold of `bytesToInt` agrees with the natural-number
fold on natural digits. -/
theorem bytesToInt_natFold (l : List Nat) : ∀ (acc : Nat),
    List.foldl (fun (a : Int) (d : Nat) => a * 256 + (d : Int)) ((acc : Nat) : Int) l =
      ((List.foldl (fun a d => a * 256 + d) acc l : Nat) : Int) := by
  induction l with
  | nil => intro acc; rfl
  | cons d t ih =>
    intro acc
    simp only [List.foldl_cons]
    have hstep : ((acc : Nat) : Int) * 256 + (d : Int) = (((acc * 256 + d : Nat)) : Int) := by
      push_cast
      ring
    rw [hstep, ih (acc * 256 + d)]

/-- Decoding the 32-byte big-endian encoding recovers the value. -/
theorem bytesToInt_bytes32BE (v : Int) (h0 : 0 ≤ v) (hv : v < 2 ^ 256) :
    bytesToInt (bytes32BE v) = v := by
  unfold bytesToInt bytes32BE
  have hshape : (List.range 32).map (fun i => v.toNat / 256 ^ (31 - i) % 256) =
      (List.range 32).map (fun i => v.toNat / 256 ^ (32 - 1 - i) % 256) := by
    refine List.map_congr_left ?_
    intro i _
    have h31 : 31 - i = 32 - 1 - i := by omega
    rw [h31]
  rw [hshape]
  rw [show (0 : Int) = ((0 : Nat) : Int) from rfl, bytesToInt_natFold]
  rw [beFoldNat 32 v.toNat 0 (by
    have h2 : v < ((2 ^ 256 : Nat) : Int) := by
      push_cast
      exact hv
    have h256 : (2 : Nat) ^ 256 = 256 ^ 32 := by norm_num
    omega)]
  rw [Nat.zero_mul, Nat.zero_add]
  exact_mod_cast Int.toNat_of_nonneg h0

/-- Cast of `FieldElement.new` with the modulus given by an equation. -/
theorem cast_new_of_eq {N : Nat} (v P : Int) (hP : P = (N : Int)) :
    (((FieldElement.new v P).value : Int) : ZMod N) = (v : ZMod N) := by
  show (((v % P : Int)) : ZMod N) = _
  rw [hP, ZMod.intCast_mod]

/-- Well-formedness of `FieldElement.pow` results. -/
theorem pow_wf (a : FieldElement) (n : Int) (hpos : 0 < a.p) :
    (a.pow n).p = a.p ∧ 0 ≤ (a.pow n).value ∧ (a.pow n).value < a.p := by
  refine ⟨rfl, ?_, ?_⟩
  · show 0 ≤ Int.ofNat (powModNat a.value.toNat n.toNat a.p.toNat) % a.p
    exact Int.emod_nonneg _ (by omega)
  · show Int.ofNat (powModNat a.value.toNat n.toNat a.p.toNat) % a.p < a.p
    exact Int.emod_lt_of_pos _ hpos

/-- Square-root correctness of `FieldElement.sqrt` over a prime `p ≡ 3 mod 4`:
on a quadratic residue `r = y^2` the result is `y` or `p - y` (the two cases
coinciding when `y = 0`). -/
theorem sqrt_of_square {N : Nat} (hp : Nat.Prime N) (r y : FieldElement)
    (hrp : r.p = (N : Int)) (hr0 : 0 ≤ r.value)
    (hyp2 : y.p = (N : Int)) (hy0 : 0 ≤ y.value) (hyN : y.value < (N : Int))
    (hmod4 : (N : Int) % 4 = 3)
    (hsq : ((r.value : Int) : ZMod N) = ((y.value : Int) : ZMod N) ^ 2) :
    r.sqrt.value = y.value ∨ (y.value ≠ 0 ∧ r.sqrt.value = (N : Int) - y.value) := by
  haveI := Fact.mk hp
  have hN2 := hp.two_le
  have hNmod : N % 4 = 3 := by omega
  have hrpos : 0 < r.p := by rw [hrp]; exact_mod_cast hp.pos
  obtain ⟨hsp, hs0, hsN⟩ := pow_wf r ((r.p + 1) / 4) hrpos
  have hs0' : 0 ≤ r.sqrt.value := hs0
  have hsN' : r.sqrt.value < (N : Int) := by
    rw [← hrp]
    exact hsN
  have hcast : ((r.sqrt.value : Int) : ZMod N) =
      ((r.value : Int) : ZMod N) ^ ((r.p + 1) / 4).toNat := by
    show (((r.pow ((r.p + 1) / 4)).value : Int) : ZMod N) = _
    exact cast_pow_fe r ((r.p + 1) / 4) hp.pos hrp hr0
  have hexp : ((r.p + 1) / 4).toNat = (N + 1) / 4 := by
    rw [hrp]
    rw [show ((N : Int) + 1) = ((N + 1 : Nat) : Int) from by push_cast; ring,
      show (4 : Int) = ((4 : Nat) : Int) from rfl, ← Int.natCast_div]
    exact Int.toNat_natCast _
  have hsq2 : ((r.sqrt.value : Int) : ZMod N) ^ 2 = ((y.value : Int) : ZMod N) ^ 2 := by
    rw [hcast, hexp, ← pow_mul]
    by_cases hy : ((y.value : Int) : ZMod N) = 0
    · rw [hsq, hy]
      rw [zero_pow (by norm_num : (2:Nat) ≠ 0), zero_pow (by omega : (N+1)/4 * 2 ≠ 0)]
    · have hord := ZMod.pow_card_sub_one_eq_one hy
      rw [hsq, ← pow_mul]
      rw [show 2 * ((N + 1) / 4 * 2) = (N - 1) + 2 from by omega]
      rw [pow_add, hord, one_mul]
  have hfac : (((r.sqrt.value : Int) : ZMod N) - ((y.value : Int) : ZMod N)) *
      (((r.sqrt.value : Int) : ZMod N) + ((y.value : Int) : ZMod N)) = 0 := by
    linear_combination hsq2
  rcases mul_eq_zero.mp hfac with hcase | hcase
  · left
    have hceq := sub_eq_zero.mp hcase
    exact intCast_inj_of_lt hp.pos hs0' hsN' hy0 hyN hceq
  · by_cases hy : y.value = 0
    · left
      have hyz : ((y.value : Int) : ZMod N) = 0 := by
        rw [hy]
        exact Int.cast_zero
      rw [hyz, add_zero] at hcase
      have hceq : ((r.sqrt.value : Int) : ZMod N) = ((y.value : Int) : ZMod N) := by
        rw [hyz, hcase]
      exact intCast_inj_of_lt hp.pos hs0' hsN' hy0 hyN hceq
    · right
      refine ⟨hy, ?_⟩
      have hneg : ((r.sqrt.value : Int) : ZMod N) = (((N : Int) - y.value : Int) : ZMod N) := by
        push_cast
        rw [ZMod.natCast_self]
        linear_combination hcase
      exact intCast_inj_of_lt hp.pos hs0' hsN' (by omega) (by omega) hneg

/-- Correctness of `FiniteCurve::solve_y`: on a valid point `(x, y)` of a
prime-field curve with `p ≡ 3 mod 4`, solving for `y` from `x` with `y`'s
own parity flag recovers exactly `y`. -/
theorem solve_y_correct (c : FiniteCurve) (hp : Nat.Prime c.pN)
    (hcp : c.p = (c.pN : Int)) (hap : c.a.p = c.p) (hbp2 : c.b.p = c.p)
    (hp4 : c.p % 4 = 3) (x y : FieldElement) (hxw : x.wf c.p) (hyw : y.wf c.p)
    (hvalid : c.is_valid_point (.coordinate x y) = true) :
    (c.solve_y x.value y.is_even).value = y.value := by
  haveI := Fact.mk hp
  have hNi : (0 : Int) < ((c.pN : Nat) : Int) := by exact_mod_cast hp.pos
  have hppos : (0 : Int) < c.p := by rw [hcp]; exact hNi
  have hpodd : c.p % 2 = 1 := by omega
  have hxp : x.p = ((c.pN : Nat) : Int) := by rw [hxw.1, hcp]
  have hyp2 : y.p = ((c.pN : Nat) : Int) := by rw [hyw.1, hcp]
  -- the curve equation, in `ZMod p`
  have heq : y.pow 2 = ((x.pow 3).add (c.a.mul x)).add c.b := by
    have h := hvalid
    unfold FiniteCurve.is_valid_point at h
    exact of_decide_eq_true h
  have hyy : ((y.value : Int) : ZMod c.pN) ^ 2 =
      ((x.value : Int) : ZMod c.pN) ^ 3 +
        (c.a.value : ZMod c.pN) * (x.value : ZMod c.pN) + (c.b.value : ZMod c.pN) := by
    have h1 := congrArg (fun t : FieldElement => ((t.value : Int) : ZMod c.pN)) heq
    dsimp only at h1
    rw [cast_pow_fe y 2 hp.pos hyp2 hyw.2.1] at h1
    rw [cast_add_fe _ c.b (by rw [hbp2, hcp])] at h1
    rw [cast_add_fe (x.pow 3) (c.a.mul x) (by
      show x.p = _
      exact hxp)] at h1
    rw [cast_mul_fe c.a x hxp, cast_pow_fe x 3 hp.pos hxp hxw.2.1] at h1
    exact h1
  -- the `rhs` computed by `solve_y` is `y^2` in `ZMod p`
  have hRp : (((c.field_elem (x.value ^ 3)).add (c.a.mulInt x.value)).add c.b).p =
      ((c.pN : Nat) : Int) := by
    show c.b.p = _
    rw [hbp2, hcp]
  have hR0 : 0 ≤ (((c.field_elem (x.value ^ 3)).add (c.a.mulInt x.value)).add c.b).value := by
    show 0 ≤ _ % c.b.p
    rw [hbp2]
    exact Int.emod_nonneg _ (by omega)
  have hRcast : ((((((c.field_elem (x.value ^ 3)).add (c.a.mulInt x.value)).add c.b)).value :
      Int) : ZMod c.pN) = ((y.value : Int) : ZMod c.pN) ^ 2 := by
    rw [cast_add_fe _ c.b (by rw [hbp2, hcp])]
    rw [cast_add_fe (c.field_elem (x.value ^ 3)) (c.a.mulInt x.value) (by
      show c.a.p = _
      rw [hap, hcp])]
    rw [cast_mulInt_fe c.a x.value (by rw [hap, hcp])]
    rw [show c.field_elem (x.value ^ 3) = FieldElement.new (x.value ^ 3) c.p from rfl]
    rw [cast_new_of_eq (x.value ^ 3) c.p (by rw [hcp])]
    push_cast
    linear_combination hyy.symm
  obtain hroot | ⟨hyne, hroot⟩ := sqrt_of_square hp
    (((c.field_elem (x.value ^ 3)).add (c.a.mulInt x.value)).add c.b) y hRp hR0
    hyp2 hyw.2.1 (by rw [← hcp]; exact hyw.2.2) (by rw [← hcp]; exact hp4) hRcast
  · -- the root equals y itself: the parity selection returns it unchanged
    unfold FiniteCurve.solve_y
    dsimp only
    have hparity : (((c.field_elem (x.value ^ 3)).add (c.a.mulInt x.value)).add
        c.b).sqrt.is_even = y.is_even := by
      unfold FieldElement.is_even
      rw [hroot]
    rw [hparity]
    cases hye : y.is_even <;> simp [hye, hroot]
  · -- the root is p - y: the parity selection flips it back to y
    unfold FiniteCurve.solve_y
    dsimp only
    have hsqb := pow_wf (((c.field_elem (x.value ^ 3)).add (c.a.mulInt x.value)).add c.b)
      (((((c.field_elem (x.value ^ 3)).add (c.a.mulInt x.value)).add c.b).p + 1) / 4)
      (by rw [hRp]; exact hNi)
    have hyv0 : 0 < y.value := by
      rcases hyw.2.1.lt_or_eq with h | h
      · exact h
      · exact absurd h.symm hyne
    have hyvN : y.value < c.p := hyw.2.2
    have hparity : (((c.field_elem (x.value ^ 3)).add (c.a.mulInt x.value)).add
        c.b).sqrt.value % 2 = 1 - y.value % 2 := by
      rw [hroot]
      rw [hcp] at hpodd hyvN
      omega
    cases hye : y.is_even with
    | false =>
      have hyodd : y.value % 2 = 1 := by
        have h := hye
        unfold FieldElement.is_even at h
        simp only [decide_eq_false_iff_not] at h
        omega
      have hs_even : (((c.field_elem (x.value ^ 3)).add (c.a.mulInt x.value)).add
          c.b).sqrt.is_even = true := by
        unfold FieldElement.is_even
        simp only [decide_eq_true_eq]
        omega
      rw [hs_even]
      simp only [if_true, if_false, Bool.false_eq_true]
      show (c.field_elem (c.p - _)).value = y.value
      show (c.p - (((c.field_elem (x.value ^ 3)).add (c.a.mulInt x.value)).add
        c.b).sqrt.value) % c.p = y.value
      rw [hroot, hcp]
      rw [show ((c.pN : Nat) : Int) - (((c.pN : Nat) : Int) - y.value) = y.value from by ring]
      rw [← hcp]
      exact Int.emod_eq_of_lt hyw.2.1 hyvN
    | true =>
      have hyeven : y.value % 2 = 0 := by
        have h := hye
        unfold FieldElement.is_even at h
        simp only [decide_eq_true_eq] at h
        exact h
      have hs_odd : (((c.field_elem (x.value ^ 3)).add (c.a.mulInt x.value)).add
          c.b).sqrt.is_even = false := by
        unfold FieldElement.is_even
        simp only [decide_eq_false_iff_not]
        omega
      rw [hs_odd]
      simp only [if_true, if_false, Bool.false_eq_true]
      show (c.field_elem (c.p - _)).value = y.value
      show (c.p - (((c.field_elem (x.value ^ 3)).add (c.a.mulInt x.value)).add
        c.b).sqrt.value) % c.p = y.value
      rw [hroot, hcp]
      rw [show ((c.pN : Nat) : Int) - (((c.pN : Nat) : Int) - y.value) = y.value from by ring]
      rw [← hcp]
      exact Int.emod_eq_of_lt hyw.2.1 hyvN


/-- C6. SEC round trip: for a well-formed point `(x, y)` satisfying the
curve equation over a prime field with `p ≡ 3 mod 4` and `p < 2^256`,
the uncompressed encoding is exactly `0x04 ‖ x ‖ y` (65 bytes, 32-byte
big-endian coordinates) and decodes back to the same point, and the
compressed encoding is exactly `0x02/0x03 ‖ x` (33 bytes, prefix by the
parity of `y`) and also decodes back to the same point. -/
theorem claim_C6_sec_round_trip (c : FiniteCurve) (x y : FieldElement)
    (hp : Nat.Prime c.pN) (hcp : c.p = (c.pN : Int))
    (hap : c.a.p = c.p) (hbp2 : c.b.p = c.p)
    (hw : (Point.coordinate x y).wf c.p)
    (hvalid : c.is_valid_point (Point.coordinate x y) = true)
    (hp4 : c.p % 4 = 3) (hsize : c.p < 2 ^ 256) :
    Point.as_sec (Point.coordinate x y) =
      some (4 :: (bytes32BE x.value ++ bytes32BE y.value)) ∧
    (4 :: (bytes32BE x.value ++ bytes32BE y.value)).length = 65 ∧
    Point.from_sec (4 :: (bytes32BE x.value ++ bytes32BE y.value)) c =
      some (.ok (Point.coordinate x y)) ∧
    Point.as_sec_compressed (Point.coordinate x y) =
      some ((if y.is_even then 2 else 3) :: bytes32BE x.value) ∧
    ((if y.is_even then 2 else 3) :: bytes32BE x.value).length = 33 ∧
    Point.from_sec ((if y.is_even then 2 else 3) :: bytes32BE x.value) c =
      some (.ok (Point.coordinate x y)) := by
  obtain ⟨hxw, hyw⟩ := hw
  have hppos : (0 : Int) < c.p := by
    rw [hcp]
    exact_mod_cast hp.pos
  have hxdec : bytesToInt (bytes32BE x.value) = x.value :=
    bytesToInt_bytes32BE x.value hxw.2.1 (lt_trans hxw.2.2 hsize)
  have hydec : bytesToInt (bytes32BE y.value) = y.value :=
    bytesToInt_bytes32BE y.value hyw.2.1 (lt_trans hyw.2.2 hsize)
  have hxfe : FieldElement.new x.value c.p = x :=
    fe_ext (Int.emod_eq_of_lt hxw.2.1 hxw.2.2) hxw.1.symm
  have hyfe : FieldElement.new y.value c.p = y :=
    fe_ext (Int.emod_eq_of_lt hyw.2.1 hyw.2.2) hyw.1.symm
  refine ⟨rfl, by simp [bytes32BE], ?_, rfl, by simp [bytes32BE], ?_⟩
  · -- uncompressed round trip
    unfold Point.from_sec
    dsimp only
    rw [if_neg (by simp [bytes32BE])]
    have htake : (bytes32BE x.value ++ bytes32BE y.value).take 32 = bytes32BE x.value := by
      rw [show (32 : Nat) = (bytes32BE x.value).length from (bytes32BE_length _).symm]
      exact List.take_left _ _
    have hdrop : ((bytes32BE x.value ++ bytes32BE y.value).drop 32).take 32 =
        bytes32BE y.value := by
      rw [show (32 : Nat) = (bytes32BE x.value).length from (bytes32BE_length _).symm,
        List.drop_left]
      rw [show (bytes32BE x.value).length = (bytes32BE y.value).length from by
        rw [bytes32BE_length, bytes32BE_length]]
      exact List.take_length _
    rw [htake, hdrop, hxdec, hydec]
    unfold FiniteCurve.point FiniteCurve.field_elem
    rw [hxfe, hyfe]
  · -- compressed round trip
    have hsy := solve_y_correct c hp hcp hap hbp2 hp4 x y hxw hyw hvalid
    cases hye : y.is_even with
    | false =>
      rw [hye] at hsy
      simp only [Bool.false_eq_true, if_false]
      unfold Point.from_sec
      dsimp only
      rw [hxdec]
      unfold FiniteCurve.point FiniteCurve.field_elem
      rw [hsy, hxfe, hyfe]
    | true =>
      rw [hye] at hsy
      simp only [if_true]
      unfold Point.from_sec
      dsimp only
      rw [hxdec]
      unfold FiniteCurve.point FiniteCurve.field_elem
      rw [hsy, hxfe, hyfe]

/-- Witness for C6 on the curve `y^2 = x^3 + 2x + 3` over `F_103`
(`103 ≡ 3 mod 4`) at the point `(3, 6)`. -/
theorem claim_C6_witness :
    Point.as_sec (Point.coordinate ⟨3, 103⟩ ⟨6, 103⟩) =
      some (4 :: (bytes32BE 3 ++ bytes32BE 6)) ∧
    (4 :: (bytes32BE 3 ++ bytes32BE 6)).length = 65 ∧
    Point.from_sec (4 :: (bytes32BE 3 ++ bytes32BE 6)) (FiniteCurve.new 2 3 103) =
      some (.ok (Point.coordinate ⟨3, 103⟩ ⟨6, 103⟩)) ∧
    Point.as_sec_compressed (Point.coordinate ⟨3, 103⟩ ⟨6, 103⟩) =
      some ((if (⟨6, 103⟩ : FieldElement).is_even then 2 else 3) :: bytes32BE 3) ∧
    ((if (⟨6, 103⟩ : FieldElement).is_even then 2 else 3) :: bytes32BE 3).length = 33 ∧
    Point.from_sec ((if (⟨6, 103⟩ : FieldElement).is_even then 2 else 3) :: bytes32BE 3)
      (FiniteCurve.new 2 3 103) =
      some (.ok (Point.coordinate ⟨3, 103⟩ ⟨6, 103⟩)) :=
  claim_C6_sec_round_trip (FiniteCurve.new 2 3 103) ⟨3, 103⟩ ⟨6, 103⟩
    (by rw [show (FiniteCurve.new 2 3 103).pN = 103 from rfl]; norm_num)
    (by decide) (by decide) (by decide) (by decide) (by decide) (by decide) (by decide)


end Pals
